import Mathlib

/-!
# LTC831 battery-monitor chain driver (ltc831.c): shallow embedding

The C driver keeps all of its state in module-scope variables.  The embedding
threads one `State` record through Lean functions that follow the C functions
statement by statement.

Conventions of the embedding:

* machine integers are `Nat`; every narrowing cast of the source
  (`(UVAR8)(...)`, `(UVAR16)(...)`, `x++` on a sized variable) is written as an
  explicit `% 256` / `% 65536`;
* `CL_DIR_E` has the two values `CL_DIR_A` and `CL_DIR_B`; it is embedded as
  `Bool` with `CL_DIR_A = false` (the source stores a direction in a `bool`
  and indexes `ltcBreakData[]` with it);
* arrays are total maps `Nat → _`; an access outside the C array bounds is
  outside the embedding;
* byte buffers map a byte offset to the byte stored there; the host is
  little-endian (`BITS_LITTLE_ENDIAN`), as the header files of the driver
  state;
* the SPI transport, the timers and the direction-select line are external:
  what they return is supplied by an `Env` record, what the driver asks of
  them is appended to `State.trace`;
* the CRC routines of `util.h` are not part of the driver sources; they are
  supplied by a `Util` record;
* the orchestrator (`ltc831Init`, `ltc831ClCmdStart`, `ltc831Task`) and the
  accessors work on a `Driver` record, which holds the `State` of the
  protocol engine next to the variables of the state machine; constants and
  layouts of headers outside the driver sources are the fields of a `Config`
  record;
* the `while` loop of `ltc831Task` takes a bound on the number of passes and
  returns `none` when the loop is still running after that many;
* successive invocations of `ltc831Task` are `taskRun`; what a run puts on the
  chain is read off the trace by `pollLog`, which keeps the command frames
  handed to `spiTxRxData` and the `packUpdate()` calls and leaves out the
  wake-up pulses that `ltc831WakeupIdle` sends with `spiTxData`; those
  pulses are read off by `pulseLog`, and the frames and port selections of
  the WAKEUP state by `wakeLog`;
* a transfer is handed its receive buffer when it is started: the embedding
  stores the response `Env.rx` at that point, and `Env.spiComplete` is what
  `spiCheckComplete` answers at the final check of the call.  A call that
  returns with the DMA pending is followed by a re-entry; `readAttempt` and
  `writeAttempt` put such a pair of calls together.
-/

namespace LTC831

set_option autoImplicit false

/-! ## Constants of ltc831.h / ltc831_regs.h -/

def LTC831_CMD_PKT_SIZE_B : Nat := 2
def LTC831_CMD_PKT_TAGGED_SIZE_B : Nat := 3
def LTC831_CMD_PEC_SIZE_B : Nat := 1
def LTC831_PEC_SIZE_B : Nat := 2
def LTC831_NUM_CC_BITS : Nat := 2
def LTC831_PEC_SEED_VALUE : Nat := 0x0010
def LTC831_TAGGED_CMD_MASK : Nat := 0x40
def LTC831_MUTE_CMD : Nat := 0x20
def LTC831_UNMUTE_CMD : Nat := 0x21
def LTC831_PRIMEZ_CMD : Nat := 0x22
def LTC831_PRIMEN_CMD : Nat := 0x23
def LTC831_CLRDIAG_CMD : Nat := 0x24
def LTC831_TEST5_CMD : Nat := 0x25
def LTC831_TESTA_CMD : Nat := 0x26
def LTC831_TESTOFF_CMD : Nat := 0x27
def LTC831_ARMSOLO_CMD : Nat := 0x28
def LTC831_DISSOLO_CMD : Nat := 0x29
def LTC831_CLRCNT_CMD : Nat := 0x2a
def LTC831_SNAP_CMD : Nat := 0x2b
def LTC831_RDFS_NO_TAG_CMD : Nat := 0x30
def LTC831_FS_ROW_END : Nat := 0x5
def LTC_WRITE_OFF : Nat := 32
def LTC831_T_IDLE_MS : Nat := 3
def LTC831_T_DIR_US : Nat := 50
def LTC831_T_READY_US : Nat := 10
def LTC831_SLEEP_TIMEOUT_MS : Nat := 1700

/-- Cast of a C `int` expression to `UVAR8`. -/
def toU8 (x : Int) : Nat := (x % 256).toNat

/-! ## Types of ltc831.c -/

inductive LTC831_REG_TYPE_E where
  | LTC831_REG_U
  | LTC831_REG_R
  | LTC831_REG_W
  | LTC831_REG_B
  deriving DecidableEq, Repr

inductive LTC_SPI_CMD_ID_E where
  | LTC_REG_READ_CMD
  | LTC_REG_READ_TAG_CMD
  | LTC_REG_WRITE_CMD
  | LTC_CMD_NULL
  deriving DecidableEq, Repr

inductive LTC_STATUS_E where
  | LTC_SUCCESS
  | LTC_BAD_PARAMETER
  | LTC_TIMEOUT
  | LTC_UNSUPPORTED_FEATURE
  | LTC_DEFERRED
  | LTC_BUSY
  | LTC_DRIVER_ERROR
  | LTC_INVALID_COMMAND
  | LTC_PACK_FAILURE
  | LTC_ACK_FAILED
  | LTC_UNEXPECTED_COMMAND
  deriving DecidableEq, Repr

inductive LTC_FRAME_STATE_E where
  | LTC_FRAME_EMPTY_STATE
  | LTC_FRAME_READY_STATE
  | LTC_FRAME_COMPLETE_STATE
  | LTC_FRAME_NULL_STATE
  deriving DecidableEq, Repr

open LTC831_REG_TYPE_E LTC_SPI_CMD_ID_E LTC_STATUS_E LTC_FRAME_STATE_E

/-- Descriptor of one register address (`LTC831_REG_FLAGS_T`). -/
structure LTC831_REG_FLAGS_T where
  type : LTC831_REG_TYPE_E
  cc_inc : Bool
  ack : Bool
  byte_swap : Bool
  lenB : Nat
  regFlagIdx : Nat
  regOffset : Nat
  deriving DecidableEq, Repr

/-- The table `ltc831RegMapConfig[LTC831_NUM_REG_ADDR]`.  The `regOffset`
column is `offsetof(LTC831_REGS_T, X)/sizeof(UVAR16)` evaluated on the packed
struct `LTC831_REGS_T` (CVA..CVE and SNA..SNE, AUXA, AUXB are three words,
CVF, SNF, STATUS, CFG and PWM are two words, each fuse row is one word). -/
def ltc831RegMapConfig : List LTC831_REG_FLAGS_T :=
  [ ⟨LTC831_REG_U, false, false, false, 0, 0, 0⟩,
    ⟨LTC831_REG_R, false, false, true, 6, 1, 0⟩,
    ⟨LTC831_REG_R, false, false, true, 6, 2, 3⟩,
    ⟨LTC831_REG_R, false, false, true, 6, 3, 6⟩,
    ⟨LTC831_REG_R, false, false, true, 6, 4, 9⟩,
    ⟨LTC831_REG_R, false, false, true, 6, 5, 12⟩,
    ⟨LTC831_REG_R, false, false, true, 4, 6, 15⟩,
    ⟨LTC831_REG_R, false, false, true, 6, 7, 17⟩,
    ⟨LTC831_REG_R, false, false, true, 6, 8, 20⟩,
    ⟨LTC831_REG_R, false, false, true, 6, 9, 23⟩,
    ⟨LTC831_REG_R, false, false, true, 6, 10, 26⟩,
    ⟨LTC831_REG_R, false, false, true, 6, 11, 29⟩,
    ⟨LTC831_REG_R, false, false, true, 4, 12, 32⟩,
    ⟨LTC831_REG_R, false, false, true, 6, 13, 34⟩,
    ⟨LTC831_REG_R, false, false, true, 6, 14, 37⟩,
    ⟨LTC831_REG_R, false, false, false, 4, 15, 40⟩,
    ⟨LTC831_REG_R, false, false, false, 4, 16, 42⟩,
    ⟨LTC831_REG_W, true, false, false, 4, 17, 44⟩,
    ⟨LTC831_REG_R, false, false, true, 4, 18, 46⟩,
    ⟨LTC831_REG_W, true, false, true, 4, 19, 48⟩,
    ⟨LTC831_REG_R, false, false, true, 4, 20, 50⟩,
    ⟨LTC831_REG_W, true, false, true, 4, 21, 52⟩,
    ⟨LTC831_REG_U, false, false, false, 0, LTC_WRITE_OFF, 0⟩,
    ⟨LTC831_REG_U, false, false, false, 0, LTC_WRITE_OFF, 0⟩,
    ⟨LTC831_REG_U, false, false, false, 0, LTC_WRITE_OFF, 0⟩,
    ⟨LTC831_REG_U, false, false, false, 0, LTC_WRITE_OFF, 0⟩,
    ⟨LTC831_REG_U, false, false, false, 0, LTC_WRITE_OFF, 0⟩,
    ⟨LTC831_REG_U, false, false, false, 0, LTC_WRITE_OFF, 0⟩,
    ⟨LTC831_REG_U, false, false, false, 0, LTC_WRITE_OFF, 0⟩,
    ⟨LTC831_REG_U, false, false, false, 0, LTC_WRITE_OFF, 0⟩,
    ⟨LTC831_REG_U, false, false, false, 0, LTC_WRITE_OFF, 0⟩,
    ⟨LTC831_REG_U, false, false, false, 0, LTC_WRITE_OFF, 0⟩,
    ⟨LTC831_REG_B, true, true, false, 0, LTC_WRITE_OFF, LTC831_MUTE_CMD⟩,
    ⟨LTC831_REG_B, true, true, false, 0, LTC_WRITE_OFF, LTC831_UNMUTE_CMD⟩,
    ⟨LTC831_REG_B, true, true, false, 0, LTC_WRITE_OFF, LTC831_PRIMEZ_CMD⟩,
    ⟨LTC831_REG_B, true, true, false, 0, LTC_WRITE_OFF, LTC831_PRIMEN_CMD⟩,
    ⟨LTC831_REG_B, true, false, false, 0, LTC_WRITE_OFF, LTC831_CLRDIAG_CMD⟩,
    ⟨LTC831_REG_B, true, true, false, 0, LTC_WRITE_OFF, LTC831_TEST5_CMD⟩,
    ⟨LTC831_REG_B, true, true, false, 0, LTC_WRITE_OFF, LTC831_TESTA_CMD⟩,
    ⟨LTC831_REG_B, true, true, false, 0, LTC_WRITE_OFF, LTC831_TESTOFF_CMD⟩,
    ⟨LTC831_REG_B, true, true, false, 0, LTC_WRITE_OFF, LTC831_ARMSOLO_CMD⟩,
    ⟨LTC831_REG_B, true, true, false, 0, LTC_WRITE_OFF, LTC831_DISSOLO_CMD⟩,
    ⟨LTC831_REG_B, false, true, false, 0, LTC_WRITE_OFF, LTC831_CLRCNT_CMD⟩,
    ⟨LTC831_REG_B, true, true, false, 0, LTC_WRITE_OFF, LTC831_SNAP_CMD⟩,
    ⟨LTC831_REG_U, false, false, false, 0, LTC_WRITE_OFF, 0⟩,
    ⟨LTC831_REG_U, false, false, false, 0, LTC_WRITE_OFF, 0⟩,
    ⟨LTC831_REG_U, false, false, false, 0, LTC_WRITE_OFF, 0⟩,
    ⟨LTC831_REG_U, false, false, false, 0, LTC_WRITE_OFF, 0⟩,
    ⟨LTC831_REG_R, false, false, true, 2, 22, 54⟩,
    ⟨LTC831_REG_R, false, false, true, 2, 23, 55⟩,
    ⟨LTC831_REG_R, false, false, true, 2, 24, 56⟩,
    ⟨LTC831_REG_R, false, false, true, 2, 25, 57⟩,
    ⟨LTC831_REG_R, false, false, true, 2, 26, 58⟩,
    ⟨LTC831_REG_R, false, false, true, 2, 27, 59⟩,
    ⟨LTC831_REG_W, false, false, false, 2, 28, 60⟩,
    ⟨LTC831_REG_W, false, false, false, 2, 29, 61⟩,
    ⟨LTC831_REG_W, false, false, false, 2, 30, 62⟩,
    ⟨LTC831_REG_W, false, false, false, 2, 31, 63⟩ ]

/-- The access `ltc831RegMapConfig[addr]`.  Outside the 58 entries of the
table the C access is undefined; the embedding returns the all-zero entry. -/
def regMap (addr : Nat) : LTC831_REG_FLAGS_T :=
  ltc831RegMapConfig.getD addr ⟨LTC831_REG_U, false, false, false, 0, 0, 0⟩

/-- The driver flags `LTC831_FLAGS_T`. -/
structure LTC831_FLAGS_T where
  running : Bool
  newState : Bool
  stateReEnter : Bool
  por : Bool
  wrCfgTime : Bool
  waitDMA : Bool
  dir : Bool
  prevDir : Bool
  dirChange : Bool
  autoPoll : Bool
  newEntry : Bool
  newConvert : Bool
  didReturn : Bool
  didFirst : Bool
  doStore : Bool
  activeBalance : Bool
  chainHead : Bool
  deriving DecidableEq, Repr

/-- The per-command flags `LTC_PARAM_FLAGS_T`. -/
structure LTC_PARAM_FLAGS_T where
  otpPort : Bool
  synchronous : Bool
  useTag : Bool
  useAck : Bool
  doBreakDetect : Bool
  deriving DecidableEq, Repr

/-- The command parameters `LTC_PARAM_T`.  `data_p` is `none` for a NULL
pointer; otherwise it gives the 16-bit words the pointer addresses, by word
index. -/
structure LTC_PARAM_T where
  flags : LTC_PARAM_FLAGS_T
  spiCmd : LTC_SPI_CMD_ID_E
  addr : Nat
  tag : Nat
  numDevs : Nat
  data_p : Option (Nat → Nat)

structure LTC_FRAME_FLAGS_T where
  crcError : Bool
  tagError : Bool
  deriving DecidableEq, Repr

/-- The frame buffers and lengths `LTC_FRAME_T`. -/
structure LTC_FRAME_T where
  cmdDataRx : Nat → Nat
  cmdDataTx : Nat → Nat
  frameFlags : LTC_FRAME_FLAGS_T
  state : LTC_FRAME_STATE_E
  lengthB : Nat
  txCmdLengthB : Nat
  txDataLengthW : Nat
  rxDataLengthB : Nat
  regLengthW : Nat
  respParamLengthB : Nat
  rxNumDevs : Nat

structure LTC831_BREAK_FLAGS_T where
  firstBreak : Bool
  crcError : Bool
  breakString : Bool
  ackError : Bool
  deriving DecidableEq, Repr

structure LTC831_BREAK_DATA_T where
  flags : LTC831_BREAK_FLAGS_T
  breakIdx : Nat
  breakIdxPrev : Nat
  deriving DecidableEq, Repr

/-- The per-register flags `PACK_DEV_REG_FLAGS_T` of pack.h, with the fields
the driver reads or writes. -/
structure PACK_DEV_REG_FLAGS_T where
  dir : Bool
  crcError : Bool
  newData : Bool
  cmdCount : Nat
  sna : Bool
  discharge : Bool
  ackFail : Bool
  tagFail : Bool
  tag : Nat
  deriving DecidableEq, Repr

/-- The record `LTC831_DEV_DATA_T` of one device: `devRegs` is the register
image `LTC831_REGS_T` seen as an array of 16-bit words (the way the driver
accesses it through `LTC831_GET_REG_BASE`). -/
structure LTC831_DEV_DATA_T where
  devRegs : Nat → Nat
  devRegFlags : Nat → PACK_DEV_REG_FLAGS_T
  hostPecErrorCount : Nat
  devPecErrorCount : Nat

/-- The break flags of `packApi.flags` (`PACK_STATUS_FLAGS_T`) the driver
writes. -/
structure PACK_STATUS_FLAGS_T where
  breakDetected : Bool
  breakDetectDouble : Bool
  breakDetectError : Bool
  deriving DecidableEq, Repr

/-- The fields of the pack-layer record `packApi` the driver uses. -/
structure PACK_API_T where
  numDevs : Nat
  flags : PACK_STATUS_FLAGS_T
  breakIdx : Nat
  deriving DecidableEq, Repr

/-- The descriptor `CL_REG_DESC_T` written in front of each register in the
response buffer. -/
structure CL_REG_DESC_T where
  dir : Bool
  crcError : Bool
  sna : Bool
  newData : Bool
  cmdCount : Nat
  ackFail : Bool
  tagFail : Bool
  numWords : Nat
  deriving DecidableEq, Repr

/-- The timers `TIM_OS_ID_T` of bmb_timer.h that the driver uses. -/
inductive TIM_OS_ID_T where
  | LTC_OS_TIMER_1
  | LTC_IDLE_TIMER_A
  | LTC_IDLE_TIMER_B
  | LTC_SLEEP_TIMER_A
  | LTC_SLEEP_TIMER_B
  deriving DecidableEq, Repr

/-- Calls of the driver into its external collaborators, in program order.
`startIdleTimer` and `startSleepTimer` are the calls of
`timOsSetAndStartTimer` on the idle and the sleep timer of a direction made by
the transport functions; `spiTxBuffer` is `spiTxData` from `cmdDataTx`;
`gpioMeasure` is `GPIO_set( BMB_PRI_MEASURE, level )`. -/
inductive Event where
  | dirSelect (level : Bool)
  | timDelaySync (t : Nat)
  | spiTxData (byte0 byte1 : Nat) (len : Nat)
  | spiWaitComplete
  | spiTxRxData (tx : Nat → Nat) (lenW : Nat)
  | startIdleTimer (dir : Bool) (ms : Nat)
  | startSleepTimer (dir : Bool) (ms : Nat)
  | spiTxBuffer (tx : Nat → Nat) (len : Nat)
  | timOsSetAndStartTimer (id : TIM_OS_ID_T) (ms : Nat)
  | timOsStopTimer (id : TIM_OS_ID_T)
  | timOsSetExpired (id : TIM_OS_ID_T)
  | timOsClearExpired (id : TIM_OS_ID_T)
  | gpioMeasure (level : Bool)
  | packUpdate

/-- What the external collaborators answer during one call of the driver:
`rx` is the content of the receive buffer after the SPI transfer,
`spiComplete` the answer of `spiCheckComplete` after an asynchronous start,
`idleExpired` the answer of `timOsCheckExpired` for the idle timer. -/
structure Env where
  rx : Nat → Nat
  spiComplete : Bool
  idleExpired : Bool

/-- The routines of util.h used by the driver: `crc14 bits data pec`,
`crc14_bytes len data pec`, `crc14_bits nbits value pec` return the updated
PEC; `calcCRC poly data seed` returns the CRC-8 of `data`. -/
structure Util where
  crc14 : Nat → List Nat → Nat → Nat
  crc14_bytes : Nat → List Nat → Nat → Nat
  crc14_bits : Nat → Nat → Nat → Nat
  calcCRC : Nat → List Nat → Nat → Nat
  UTIL_CRC8_2F_POLY : Nat

/-- The module-scope variables of ltc831.c that the protocol engine uses. -/
structure State where
  ltc831Flags : LTC831_FLAGS_T
  ltcParams : LTC_PARAM_T
  ltcFrames : LTC_FRAME_T
  ltcDevData : Nat → LTC831_DEV_DATA_T
  ltcBreakData : Bool → LTC831_BREAK_DATA_T
  packApi : PACK_API_T
  reqNumDevs : Nat
  respParamLength : Nat
  outData : List (CL_REG_DESC_T × List Nat)
  trace : List Event

/-! ## Helpers of the embedding -/

/-- Array store `f[i] = v`. -/
def setAt {α : Type} (f : Nat → α) (i : Nat) (v : α) : Nat → α :=
  fun j => if j = i then v else f j

/-- A C loop `for (i = 0; i < n; i++) body`, on the state the body changes. -/
def forLoop {σ : Type} : Nat → (Nat → σ → σ) → σ → σ
  | 0, _, s => s
  | n + 1, body, s => body n (forLoop n body s)

/-- The `n` bytes at `buf + off`. -/
def bytesAt (buf : Nat → Nat) (off n : Nat) : List Nat :=
  (List.range n).map (fun k => buf (off + k))

/-- Store of the 16-bit word `w` at byte offset `off` of a byte buffer, on the
little-endian host. -/
def storeWord (buf : Nat → Nat) (off w : Nat) : Nat → Nat :=
  setAt (setAt buf off (w % 256)) (off + 1) (w / 256 % 256)

/-- The bytes of `n` 16-bit words at `words + w0` in host memory, on the
little-endian host. -/
def wordBytes (words : Nat → Nat) (w0 : Nat) : Nat → List Nat
  | 0 => []
  | n + 1 => wordBytes words w0 n ++ [words (w0 + n) % 256, words (w0 + n) / 256 % 256]

/-- Modelled from the spec: `byteSwap16` of util.h is not among the driver
sources; the spec has the payload-PEC stored big-endian by it, so it
exchanges the two bytes of a 16-bit word. -/
def byteSwap16 (w : Nat) : Nat := (w % 256) * 256 + w / 256 % 256

/-- Update of `ltcDevData[d]`. -/
def State.modDev (s : State) (d : Nat) (f : LTC831_DEV_DATA_T → LTC831_DEV_DATA_T) : State :=
  { s with ltcDevData := setAt s.ltcDevData d (f (s.ltcDevData d)) }

/-- Update of `ltcDevData[d].devRegFlags[r]`. -/
def State.modRegFlags (s : State) (d r : Nat)
    (f : PACK_DEV_REG_FLAGS_T → PACK_DEV_REG_FLAGS_T) : State :=
  s.modDev d (fun dv => { dv with devRegFlags := setAt dv.devRegFlags r (f (dv.devRegFlags r)) })

/-- Update of `ltcBreakData[dir]`. -/
def State.modBreak (s : State) (dir : Bool)
    (f : LTC831_BREAK_DATA_T → LTC831_BREAK_DATA_T) : State :=
  { s with ltcBreakData := fun d => if d = dir then f (s.ltcBreakData d) else s.ltcBreakData d }

/-- Append an external call to the trace. -/
def State.emit (s : State) (e : Event) : State :=
  { s with trace := s.trace ++ [e] }

/-! ## ltcPrepPoll, ltcResetStateMachine, LTC831_clearDevReg -/

/-- `ltcPrepPoll( dir )`. -/
def ltcPrepPoll (dir : Bool) (s : State) : State :=
  s.modBreak dir (fun _ => ⟨⟨false, false, false, false⟩, 0x00, 0xff⟩)

/-- The value `memset( &ltcParams, 0U, sizeof(LTC_PARAM_T))` leaves. -/
def zeroParams : LTC_PARAM_T :=
  ⟨⟨false, false, false, false, false⟩, LTC_REG_READ_CMD, 0, 0, 0, none⟩

/-- The value `memset( &ltcFrames, 0U, sizeof(LTC_FRAME_T))` leaves. -/
def zeroFrames : LTC_FRAME_T :=
  ⟨fun _ => 0, fun _ => 0, ⟨false, false⟩, LTC_FRAME_EMPTY_STATE, 0, 0, 0, 0, 0, 0, 0⟩

/-- `ltcResetStateMachine( smFlags )`. -/
def ltcResetStateMachine (ltcResetMain ltcResetMainParams : Bool) (s : State) : State :=
  let s := if ltcResetMainParams then { s with ltcParams := zeroParams } else s
  let s := if ltcResetMain then { s with ltcFrames := zeroFrames } else s
  s

/-- `LTC831_clearDevReg( addr, numDevs )`.  The flag `tagFail` is not among
the fields the source clears. -/
def LTC831_clearDevReg (addr numDevs : Nat) (s : State) : State :=
  forLoop numDevs (fun devIdx s =>
    s.modRegFlags devIdx (regMap addr).regFlagIdx (fun f =>
      { f with dir := false, crcError := false, newData := false, cmdCount := 0,
               sna := false, discharge := false, ackFail := false, tag := 0 })) s

/-! ## ltc831WakeupIdle, ltc831SendClCmd, ltcSendCommandFrame -/

/-- One pass of the pulse loop of `ltc831WakeupIdle`. -/
def ltc831WakeupIdle_pulse (dir : Bool) (_cnt : Nat) (s : State) : State :=
  let s := s.emit (Event.dirSelect dir)
  let s :=
    if s.ltc831Flags.activeBalance then s.emit (Event.spiTxData LTC831_MUTE_CMD 0xdd 1)
    else s.emit (Event.spiTxData LTC831_UNMUTE_CMD 0xf2 1)
  let s := s.emit Event.spiWaitComplete
  let s :=
    if s.ltc831Flags.dirChange then
      let s := s.emit (Event.timDelaySync LTC831_T_DIR_US)
      { s with ltc831Flags := { s.ltc831Flags with dirChange := false } }
    else s
  s.emit (Event.timDelaySync LTC831_T_READY_US)

/-- `ltc831WakeupIdle( port, dir, numDevs )`. -/
def ltc831WakeupIdle (env : Env) (dir : Bool) (numDevs : Nat) (s : State) : State :=
  let s :=
    if s.ltc831Flags.dir ≠ s.ltc831Flags.prevDir then
      { s with ltc831Flags := { s.ltc831Flags with dirChange := true, prevDir := s.ltc831Flags.dir } }
    else s
  if s.ltc831Flags.dirChange ∨ env.idleExpired then
    let s := s.emit (Event.timDelaySync 3)
    let s := forLoop numDevs (ltc831WakeupIdle_pulse dir) s
    s.emit (Event.startIdleTimer dir LTC831_T_IDLE_MS)
  else s

/-- `ltc831SendClCmd( synchronous, port, dir, txBuff_p, rxBuff_p, lenB, numDevs )`.
`storeRx` is the write of the received bytes through `rxBuff_p`.  The
busy-wait of the synchronous branch ends when `spiCheckComplete` answers
true, so the check after it answers true. -/
def ltc831SendClCmd (env : Env) (synchronous : Bool) (dir : Bool) (txBuff : Nat → Nat)
    (storeRx : (Nat → Nat) → State → State) (lenB numDevs : Nat)
    (s : State) : LTC_STATUS_E × State :=
  let status := LTC_SUCCESS
  let r : LTC_STATUS_E × State × Bool :=
    if ¬ s.ltc831Flags.waitDMA then
      let s := ltc831WakeupIdle env dir numDevs s
      let s := s.emit (Event.dirSelect dir)
      let lenW := lenB / 2
      let lenW := if lenB &&& 1 ≠ 0 then (lenW + 1) % 65536 else lenW
      let s := storeRx env.rx (s.emit (Event.spiTxRxData txBuff lenW))
      if synchronous then
        let s := if s.ltc831Flags.dirChange then s.emit (Event.timDelaySync LTC831_T_DIR_US) else s
        (status, s, true)
      else
        let s := if s.ltc831Flags.dirChange then s.emit (Event.timDelaySync LTC831_T_DIR_US) else s
        let s := { s with ltc831Flags := { s.ltc831Flags with waitDMA := true } }
        (LTC_DEFERRED, s, env.spiComplete)
    else (status, s, env.spiComplete)
  let status := r.1
  let s := r.2.1
  if r.2.2 then
    let s := { s with ltc831Flags := { s.ltc831Flags with waitDMA := false } }
    let s := s.emit (Event.startSleepTimer dir LTC831_SLEEP_TIMEOUT_MS)
    let s := s.emit (Event.startIdleTimer dir LTC831_T_IDLE_MS)
    (LTC_SUCCESS, s)
  else (status, s)

/-- The SPI transfer leaves the received bytes `rx` in `ltcFrames.cmdDataRx`. -/
def injectRx (rx : Nat → Nat) (s : State) : State :=
  { s with ltcFrames := { s.ltcFrames with cmdDataRx := rx } }

/-- `ltcSendCommandFrame()`. -/
def ltcSendCommandFrame (env : Env) (s : State) : LTC_STATUS_E × State :=
  let r := ltc831SendClCmd env s.ltcParams.flags.synchronous s.ltc831Flags.dir
    s.ltcFrames.cmdDataTx injectRx s.ltcFrames.lengthB s.ltcParams.numDevs s
  if r.1 = LTC_SUCCESS then
    (r.1, { r.2 with ltcFrames := { r.2.ltcFrames with state := LTC_FRAME_COMPLETE_STATE } })
  else r

/-! ## ltc831BuildCommand -/

/-- The destination index `devIdxDest` that the write branch of
`ltc831BuildCommand` computes for payload slot `devIdx`. -/
def buildDevIdxDest (dir chainHead : Bool) (numDevs devIdx : Nat) : Nat :=
  if dir = chainHead ∧ numDevs ≠ 0 then toU8 ((numDevs : Int) - devIdx - 1) else devIdx

/-- The destination index `devIdxDest` that `LTC831_RxParse` and
`LTC831_checkAck` compute for the received slot `devIdx`. -/
def rxDevIdxDest (dir chainHead : Bool) (numDevs devIdx : Nat) : Nat :=
  if dir ≠ chainHead ∧ numDevs ≠ 0 then toU8 ((numDevs : Int) - devIdx - 1) else devIdx

/-- The device count the frame routines work with: `packApi.numDevs` when it
is non-zero and smaller than `ltcParams.numDevs`, else `ltcParams.numDevs`. -/
def effNumDevs (s : State) : Nat :=
  if s.packApi.numDevs ≠ 0 ∧ s.packApi.numDevs < s.ltcParams.numDevs then s.packApi.numDevs
  else s.ltcParams.numDevs

/-- The words `data_p` addresses; reading through a NULL `data_p` is outside
the embedding and yields zero words. -/
def paramData (s : State) : Nat → Nat :=
  match s.ltcParams.data_p with
  | some d => d
  | none => fun _ => 0

/-- Locals of the item loop of the write branch of `ltc831BuildCommand`. -/
structure BuildItemLocals where
  regs : Nat → Nat
  tx : Nat → Nat
  cmdData_p : Nat

/-- One pass of `for (itemIdx = 0; itemIdx < regLengthW; itemIdx++)` in
`ltc831BuildCommand`: `devReg_p` and `inData_p` are word indexes,
`cmdData_p` is a byte offset into `cmdDataTx`. -/
def ltc831BuildCommand_item (inData : Nat → Nat) (devReg_p inData_p : Nat) (itemIdx : Nat)
    (l : BuildItemLocals) : BuildItemLocals :=
  { regs := setAt l.regs (devReg_p + itemIdx) (inData (inData_p + itemIdx)),
    tx := storeWord l.tx l.cmdData_p (inData (inData_p + itemIdx)),
    cmdData_p := l.cmdData_p + 2 }

/-- One pass of `for (devIdx = 0; devIdx < numDevs; devIdx++)` in the write
branch of `ltc831BuildCommand`; the second component is `cmdData_p`. -/
def ltc831BuildCommand_dev (u : Util) (addr regIdx regLengthW numDevs : Nat) (devIdx : Nat)
    (p : State × Nat) : State × Nat :=
  let s := p.1
  let cmdData_p := p.2
  let devIdxDest := buildDevIdxDest s.ltc831Flags.dir s.ltc831Flags.chainHead numDevs devIdx
  let devReg_p := (regMap addr).regOffset
  let inData_p := regLengthW * devIdxDest
  let l := forLoop regLengthW (ltc831BuildCommand_item (paramData s) devReg_p inData_p)
    ⟨(s.ltcDevData devIdxDest).devRegs, s.ltcFrames.cmdDataTx, cmdData_p⟩
  let s := s.modDev devIdxDest (fun dv => { dv with devRegs := l.regs })
  let payPec := LTC831_PEC_SEED_VALUE
  let payPec := u.crc14_bytes ((regLengthW * 2) % 256)
    (wordBytes (paramData s) inData_p regLengthW) payPec % 65536
  let payPec := u.crc14_bits LTC831_NUM_CC_BITS 0 payPec % 65536
  let tx := storeWord l.tx l.cmdData_p (byteSwap16 payPec)
  let cmdData_p := l.cmdData_p + 2
  let s := s.modRegFlags devIdxDest regIdx (fun f =>
    { f with cmdCount := 0, dir := s.ltc831Flags.dir, tag := s.ltcParams.tag })
  let s := { s with ltcFrames := { s.ltcFrames with
    cmdDataTx := tx,
    txDataLengthW := (s.ltcFrames.txDataLengthW + regLengthW + LTC831_PEC_SIZE_B / 2) % 256 } }
  (s, cmdData_p)

/-- `ltc831BuildCommand()`. -/
def ltc831BuildCommand (u : Util) (s : State) : LTC_STATUS_E × State :=
  let status := LTC_SUCCESS
  let s := ltcResetStateMachine true false s
  let spiCmd := s.ltcParams.spiCmd
  let addr := s.ltcParams.addr
  let s := { s with ltcFrames := { s.ltcFrames with
    cmdDataTx := setAt s.ltcFrames.cmdDataTx 0 addr,
    txCmdLengthB := LTC831_CMD_PKT_SIZE_B,
    regLengthW := (regMap addr).lenB / 2 } }
  let regLengthW := (regMap addr).lenB / 2
  let numDevs := effNumDevs s
  -- the switch on spiCmd: status, state and the byte offset of the command PEC
  let r : LTC_STATUS_E × State × Option Nat :=
    match spiCmd with
    | LTC_REG_WRITE_CMD =>
      if (regMap addr).type = LTC831_REG_W ∨ (regMap addr).type = LTC831_REG_B then
        let regIdx := (regMap addr).regFlagIdx
        let s :=
          if regLengthW ≠ 0 then
            (forLoop numDevs (ltc831BuildCommand_dev u addr regIdx regLengthW numDevs) (s, 2)).1
          else s
        (status, s, some 1)
      else (LTC_BAD_PARAMETER, s, none)
    | LTC_CMD_NULL => (LTC_UNEXPECTED_COMMAND, s, none)
    | _ =>
      if (regMap addr).type = LTC831_REG_R then
        let s := { s with ltcFrames := { s.ltcFrames with
          rxDataLengthB := (regLengthW * 2 + LTC831_PEC_SIZE_B) % 256 } }
        if spiCmd = LTC_REG_READ_TAG_CMD then
          let s := { s with ltcFrames := { s.ltcFrames with
            cmdDataTx := setAt (setAt s.ltcFrames.cmdDataTx 0
              (s.ltcFrames.cmdDataTx 0 ||| LTC831_TAGGED_CMD_MASK)) 1 s.ltcParams.tag,
            txCmdLengthB := LTC831_CMD_PKT_TAGGED_SIZE_B,
            rxDataLengthB := (s.ltcFrames.rxDataLengthB + 1) % 256 } }
          (status, s, some 2)
        else
          let s := { s with ltcFrames := { s.ltcFrames with
            txCmdLengthB := LTC831_CMD_PKT_SIZE_B } }
          (status, s, some 1)
      else (LTC_BAD_PARAMETER, s, none)
  let status := r.1
  let s := r.2.1
  let s :=
    match r.2.2 with
    | some cmdPec_p =>
      let tx := setAt s.ltcFrames.cmdDataTx cmdPec_p 0x10
      let tx := setAt tx cmdPec_p
        (u.calcCRC u.UTIL_CRC8_2F_POLY
          (bytesAt tx 0 (s.ltcFrames.txCmdLengthB - LTC831_CMD_PEC_SIZE_B)) 0x10 % 256)
      let lengthB := (s.ltcFrames.txCmdLengthB + s.ltcFrames.txDataLengthW * 2
        + (s.ltcParams.numDevs * s.ltcFrames.rxDataLengthB) % 256) % 256
      let lengthB :=
        if (regMap s.ltcParams.addr).ack ∧ numDevs ≠ 0 then
          (lengthB + (1 + (numDevs - 1) / 4) % 256) % 256
        else lengthB
      { s with ltcFrames := { s.ltcFrames with cmdDataTx := tx, lengthB := lengthB } }
    | none => s
  let s :=
    if status = LTC_SUCCESS then
      { s with ltcFrames := { s.ltcFrames with state := LTC_FRAME_READY_STATE } }
    else s
  (status, s)

/-! ## LTC831_checkAck -/

/-- Locals of the device loop of `LTC831_checkAck`; `inData_p` is a byte
offset into `cmdDataRx`. -/
structure AckLocals where
  status : LTC_STATUS_E
  inData_p : Nat
  bitMask : Nat

/-- One pass of the device loop of `LTC831_checkAck`. -/
def LTC831_checkAck_dev (numDevs : Nat) (devIdx : Nat) (p : State × AckLocals) :
    State × AckLocals :=
  let s := p.1
  let l := p.2
  let dir := s.ltc831Flags.dir
  let devIdxDest := rxDevIdxDest dir s.ltc831Flags.chainHead numDevs devIdx
  let regFlagIdx := (regMap s.ltcParams.addr).regFlagIdx
  let r : State × LTC_STATUS_E :=
    if s.ltcFrames.cmdDataRx l.inData_p &&& l.bitMask ≠ 0 then
      let s := s.modRegFlags devIdxDest regFlagIdx (fun f => { f with ackFail := true })
      let s := s.modBreak dir (fun b => { b with flags := { b.flags with ackError := true } })
      let s :=
        if (s.ltcBreakData dir).flags.firstBreak = false then
          s.modBreak dir (fun b =>
            { b with flags := { b.flags with firstBreak := true, breakString := true } })
        else s
      (s, LTC_ACK_FAILED)
    else
      let s := s.modBreak dir (fun b => { b with breakIdx := (devIdx + 0x01) % 256 })
      let s :=
        if (s.ltcBreakData dir).flags.firstBreak = true then
          s.modBreak dir (fun b => { b with flags := { b.flags with breakString := false } })
        else s
      let s := s.modRegFlags devIdxDest regFlagIdx (fun f => { f with ackFail := false })
      let s := { s with ltcFrames := { s.ltcFrames with
        rxNumDevs := (s.ltcFrames.rxNumDevs + 1) % 256 } }
      (s, l.status)
  if l.bitMask = 0x03 then (r.1, ⟨r.2, l.inData_p + 1, 0xc0⟩)
  else (r.1, ⟨r.2, l.inData_p, l.bitMask >>> 2⟩)

/-- `LTC831_checkAck()`. -/
def LTC831_checkAck (s : State) : LTC_STATUS_E × State :=
  let s := { s with ltcFrames := { s.ltcFrames with rxNumDevs := 0 } }
  let numDevs := effNumDevs s
  let r := forLoop s.ltcParams.numDevs (LTC831_checkAck_dev numDevs)
    (s, ⟨LTC_SUCCESS, LTC831_CMD_PKT_SIZE_B, 0xc0⟩)
  (r.2.status, r.1)

/-! ## LTC831_updateOutData -/

/-- One pass of the device loop of `LTC831_updateOutData`: the descriptor and
the register words of device `devIdxDest` are appended to the response. -/
def LTC831_updateOutData_dev (numDevs : Nat) (devIdx : Nat) (s : State) : State :=
  let devIdxDest :=
    if s.ltc831Flags.dir ≠ false ∧ numDevs ≠ 0 then toU8 ((numDevs : Int) - devIdx - 1)
    else devIdx
  let devReg_p := (regMap s.ltcParams.addr).regOffset
  let regFlagIdx := (regMap s.ltcParams.addr).regFlagIdx
  let f := (s.ltcDevData devIdxDest).devRegFlags regFlagIdx
  let regDesc : CL_REG_DESC_T :=
    ⟨f.dir, f.crcError, f.sna, f.newData, f.cmdCount, f.ackFail, f.tagFail,
      s.ltcFrames.regLengthW &&& 0x0F⟩
  let s :=
    if regDesc.tagFail then
      { s with ltcFrames := { s.ltcFrames with
        frameFlags := { s.ltcFrames.frameFlags with tagError := true } } }
    else s
  let words := (List.range s.ltcFrames.regLengthW).map
    (fun regAddr => (s.ltcDevData devIdxDest).devRegs (devReg_p + regAddr))
  let len := forLoop (s.ltcFrames.regLengthW) (fun _ n => (n + 2) % 256)
    ((s.ltcFrames.respParamLengthB + 2) % 256)
  { s with
    outData := s.outData ++ [(regDesc, words)],
    ltcFrames := { s.ltcFrames with respParamLengthB := len } }

/-- `LTC831_updateOutData()`. -/
def LTC831_updateOutData (s : State) : State :=
  match s.ltcParams.data_p with
  | some _ =>
    let numDevs := effNumDevs s
    let s := { s with ltcFrames := { s.ltcFrames with
      frameFlags := { s.ltcFrames.frameFlags with tagError := false } } }
    forLoop s.ltcParams.numDevs (LTC831_updateOutData_dev numDevs) s
  | none => s

/-! ## LTC831_RxParse -/

/-- Locals of the item loop of `LTC831_RxParse`: the register image written
through `devReg_p` (a word index), the read pointer `inData_p` (a byte offset
into `cmdDataRx`) and `parsed_item`. -/
structure RxItemLocals where
  regs : Nat → Nat
  devReg_p : Nat
  inData_p : Nat
  parsed_item : Nat

/-- One pass of `for (regAddr = 0; regAddr < regLengthW; regAddr++)` in
`LTC831_RxParse`. -/
def LTC831_RxParse_item (rx : Nat → Nat) (byte_swap doStore : Bool) (_regAddr : Nat)
    (l : RxItemLocals) : RxItemLocals :=
  let temp_byte := rx l.inData_p
  let parsed_item :=
    if byte_swap then ((rx (l.inData_p + 1) <<< 8) ||| temp_byte) % 65536
    else ((temp_byte <<< 8) ||| rx (l.inData_p + 1)) % 65536
  if doStore then
    { regs := setAt l.regs l.devReg_p parsed_item, devReg_p := l.devReg_p + 1,
      inData_p := l.inData_p + 2, parsed_item := parsed_item }
  else
    { l with inData_p := l.inData_p + 2, parsed_item := parsed_item }

/-- Locals of the device loop of `LTC831_RxParse` that live across passes. -/
structure RxLocals where
  inData_p : Nat
  parsed_item : Nat
  tempTag : Nat

/-- The payload PEC `LTC831_RxParse` computes for the block at `inData_p`. -/
def rxComputedPec (u : Util) (rx : Nat → Nat) (rxDataLengthB inData_p : Nat) : Nat :=
  if rxDataLengthB < LTC831_PEC_SIZE_B then LTC831_PEC_SEED_VALUE
  else
    let length_bits := ((rxDataLengthB - LTC831_PEC_SIZE_B) * 8 + LTC831_NUM_CC_BITS) % 65536
    u.crc14 length_bits (bytesAt rx inData_p ((length_bits + 7) / 8)) LTC831_PEC_SEED_VALUE
      % 65536

/-- The command counter `LTC831_RxParse` extracts from the block at
`inData_p`. -/
def rxCommandCounter (rx : Nat → Nat) (rxDataLengthB inData_p : Nat) : Nat :=
  if rxDataLengthB < LTC831_PEC_SIZE_B then 0
  else (rx (inData_p + rxDataLengthB - LTC831_PEC_SIZE_B) &&& 0xC0) >>> 6

/-- The received PEC `LTC831_RxParse` extracts from the block at `inData_p`. -/
def rxReceivedPec (rx : Nat → Nat) (rxDataLengthB inData_p : Nat) : Nat :=
  if rxDataLengthB < LTC831_PEC_SIZE_B then 0
  else
    (((rx (inData_p + rxDataLengthB - LTC831_PEC_SIZE_B) <<< 8)
      ||| rx (inData_p + rxDataLengthB - LTC831_PEC_SIZE_B + 1)) % 65536) &&& 0x3FFF

/-- The block `if ( ltc831Flags.doStore ) { ... }` of the device loop of
`LTC831_RxParse` that writes the register flags of device `devIdxDest`. -/
def LTC831_RxParse_storeFlags (devIdxDest regFlagIdx : Nat) (crcError : Bool)
    (payloadRx_commandCounter tempTag : Nat) (s : State) : State :=
  let s := s.modRegFlags devIdxDest regFlagIdx (fun f =>
    { f with cmdCount := payloadRx_commandCounter, dir := s.ltc831Flags.dir,
             crcError := crcError, newData := true })
  if s.ltcParams.spiCmd = LTC_REG_READ_TAG_CMD then
    let s : State :=
      if s.ltcParams.flags.useTag then
        s.modRegFlags devIdxDest regFlagIdx (fun f =>
          { f with tagFail := if tempTag ≠ s.ltcParams.tag then true else false })
      else s
    s.modRegFlags devIdxDest regFlagIdx (fun f => { f with tag := tempTag })
  else s

/-- The block `if ( crcError ) { ... } else { ... }` that ends the device
loop of `LTC831_RxParse`: error counters, `sna` and the break tracking of
the current direction. -/
def LTC831_RxParse_classify (devIdx devIdxDest regFlagIdx : Nat) (crcError doStore : Bool)
    (parsed_item : Nat) (s : State) : State :=
  let dir := s.ltc831Flags.dir
  if crcError then
    let s := s.modBreak dir (fun b => { b with flags := { b.flags with crcError := true } })
    if parsed_item = 0xFFFF then
      let s : State :=
        if doStore then
          let s := s.modRegFlags devIdxDest regFlagIdx (fun f => { f with sna := true })
          s.modDev devIdxDest (fun dv =>
            { dv with devPecErrorCount := (dv.devPecErrorCount + 1) % 65536 })
        else s
      if ¬ (s.ltcBreakData dir).flags.firstBreak then
        s.modBreak dir (fun b =>
          { b with flags := { b.flags with firstBreak := true, breakString := true } })
      else s
    else
      let s : State :=
        if (s.ltcBreakData dir).flags.firstBreak then
          if devIdx > (s.ltcBreakData dir).breakIdx then
            s.modBreak dir (fun b => { b with flags := { b.flags with breakString := false } })
          else s
        else s
      s.modDev devIdxDest (fun dv =>
        { dv with hostPecErrorCount := (dv.hostPecErrorCount + 1) % 65536 })
  else
    let s := s.modBreak dir (fun b => { b with breakIdx := (devIdx + 1) % 256 })
    let s : State :=
      if (s.ltcBreakData dir).flags.firstBreak then
        s.modBreak dir (fun b => { b with flags := { b.flags with breakString := false } })
      else s
    { s with ltcFrames := { s.ltcFrames with
      rxNumDevs := (s.ltcFrames.rxNumDevs + 1) % 256 } }

/-- One pass of the device loop of `LTC831_RxParse`. -/
def LTC831_RxParse_dev (u : Util) (numDevs regFlagIdx : Nat) (devIdx : Nat)
    (p : State × RxLocals) : State × RxLocals :=
  let s := p.1
  let l := p.2
  let rx := s.ltcFrames.cmdDataRx
  let dir := s.ltc831Flags.dir
  let devIdxDest := rxDevIdxDest dir s.ltc831Flags.chainHead numDevs devIdx
  let payload_pec := rxComputedPec u rx s.ltcFrames.rxDataLengthB l.inData_p
  let payloadRx_commandCounter := rxCommandCounter rx s.ltcFrames.rxDataLengthB l.inData_p
  let payloadRx_pec := rxReceivedPec rx s.ltcFrames.rxDataLengthB l.inData_p
  let crcError : Bool := if payload_pec = payloadRx_pec then false else true
  let devReg_p := (regMap s.ltcParams.addr).regOffset
  let l : RxLocals :=
    if s.ltcParams.spiCmd = LTC_REG_READ_TAG_CMD then
      { l with tempTag := rx l.inData_p, inData_p := l.inData_p + 1 }
    else l
  let doStore : Bool := if ¬ crcError ∨ ¬ s.ltc831Flags.didFirst then true else false
  let s := { s with ltc831Flags := { s.ltc831Flags with doStore := doStore } }
  let s : State :=
    if doStore then
      LTC831_RxParse_storeFlags devIdxDest regFlagIdx crcError payloadRx_commandCounter
        l.tempTag s
    else s
  let it := forLoop s.ltcFrames.regLengthW
    (LTC831_RxParse_item rx (regMap s.ltcParams.addr).byte_swap doStore)
    ⟨(s.ltcDevData devIdxDest).devRegs, devReg_p, l.inData_p, l.parsed_item⟩
  let s := s.modDev devIdxDest (fun dv => { dv with devRegs := it.regs })
  let l : RxLocals := { l with inData_p := it.inData_p, parsed_item := it.parsed_item }
  let s := LTC831_RxParse_classify devIdx devIdxDest regFlagIdx crcError doStore
    l.parsed_item s
  (s, { l with inData_p := l.inData_p + LTC831_PEC_SIZE_B })

/-- `LTC831_RxParse()`. -/
def LTC831_RxParse (u : Util) (s : State) : LTC_STATUS_E × State :=
  let status := LTC_SUCCESS
  let inData_p :=
    if s.ltcParams.spiCmd = LTC_REG_READ_CMD then LTC831_CMD_PKT_SIZE_B
    else LTC831_CMD_PKT_TAGGED_SIZE_B
  let numDevs := effNumDevs s
  let regFlagIdx := (regMap s.ltcParams.addr).regFlagIdx
  let s := { s with ltcFrames := { s.ltcFrames with frameFlags := ⟨false, false⟩ } }
  let r := forLoop s.ltcParams.numDevs (LTC831_RxParse_dev u numDevs regFlagIdx)
    (s, ⟨inData_p, 0, 0⟩)
  (status, r.1)

/-! ## ltc831ReadCmd, ltc831WriteCmd -/

/-- The block `if( !ltc831Flags.waitDMA ) { ... }` of `ltc831ReadCmd`:
parameter checks, break-detection reset, command parameters and
`ltc831BuildCommand`.  Entered with `status = LTC_SUCCESS`. -/
def ltc831ReadCmd_prepare (u : Util) (flags : LTC_PARAM_FLAGS_T) (tag numDevs addr : Nat)
    (data_p : Option (Nat → Nat)) (s : State) : LTC_STATUS_E × State :=
  if addr > LTC831_RDFS_NO_TAG_CMD + LTC831_FS_ROW_END then (LTC_UNSUPPORTED_FEATURE, s)
  else if (regMap addr).type ≠ LTC831_REG_R then (LTC_INVALID_COMMAND, s)
  else if numDevs = 0 then (LTC_BAD_PARAMETER, s)
  else
    let s : State :=
      if flags.doBreakDetect then
        let s : State :=
          if ¬ s.ltc831Flags.didFirst then
            let s := LTC831_clearDevReg addr numDevs s
            { s with packApi := { s.packApi with flags := ⟨false, false, false⟩,
                                                 breakIdx := 0x00 } }
          else s
        ltcPrepPoll s.ltc831Flags.dir s
      else s
    let s := ltcResetStateMachine false true s
    let s := { s with ltcParams := { s.ltcParams with
      flags := flags, tag := tag, numDevs := numDevs, data_p := data_p } }
    let s := { s with ltcParams := { s.ltcParams with
      spiCmd := if flags.useTag then LTC_REG_READ_TAG_CMD else LTC_REG_READ_CMD } }
    let s := { s with ltcParams := { s.ltcParams with addr := addr } }
    ltc831BuildCommand u s

/-- The block `if ( ltcParams.flags.doBreakDetect && (... breakString ...) )`
of `ltc831ReadCmd` that classifies the pair of directional attempts.
`reqNumDevs` is `ltc831ReqParamFlags.numDevs`. -/
def ltc831ReadCmd_resolve (s : State) : State :=
  if s.ltcParams.flags.doBreakDetect ∧
      ((s.ltcBreakData false).flags.breakString ∨ (s.ltcBreakData true).flags.breakString) then
    let s : State := { s with ltcFrames := { s.ltcFrames with
      rxNumDevs := ((s.ltcBreakData false).breakIdx + (s.ltcBreakData true).breakIdx) % 256 } }
    let s : State :=
      if s.ltcFrames.rxNumDevs < s.reqNumDevs then
        { s with packApi := { s.packApi with flags := { s.packApi.flags with
          breakDetected := true, breakDetectDouble := true } } }
      else if s.ltcFrames.rxNumDevs = s.reqNumDevs then
        { s with packApi := { s.packApi with flags := { s.packApi.flags with
          breakDetected := true } } }
      else
        { s with packApi := { s.packApi with flags := { s.packApi.flags with
          breakDetectError := true } } }
    { s with packApi := { s.packApi with breakIdx := (s.ltcBreakData false).breakIdx } }
  else s

/-- The block of `ltc831ReadCmd` that follows a successful
`ltcSendCommandFrame`: `LTC831_RxParse`, then either the switch to the other
direction or the classification and the output data. -/
def ltc831ReadCmd_complete (u : Util) (s : State) : LTC_STATUS_E × State :=
  let p := LTC831_RxParse u s
  let status := p.1
  let s := p.2
  if (s.ltcBreakData s.ltc831Flags.dir).flags.crcError ∧ ¬ s.ltc831Flags.didFirst ∧
      s.ltcParams.flags.doBreakDetect then
    (LTC_DEFERRED, { s with ltc831Flags := { s.ltc831Flags with
      didFirst := true, dir := !s.ltc831Flags.dir, newEntry := true } })
  else
    let s := ltc831ReadCmd_resolve s
    let s : State :=
      if s.ltc831Flags.didFirst then
        { s with ltc831Flags := { s.ltc831Flags with dir := !s.ltc831Flags.dir } }
      else s
    let s := LTC831_updateOutData s
    let s := { s with ltc831Flags := { s.ltc831Flags with didFirst := false } }
    (status, s)

/-- `ltc831ReadCmd( flags, tag, numDevs, addr, data_p )`. -/
def ltc831ReadCmd (u : Util) (env : Env) (flags : LTC_PARAM_FLAGS_T) (tag numDevs addr : Nat)
    (data_p : Option (Nat → Nat)) (s : State) : LTC_STATUS_E × State :=
  let status := LTC_SUCCESS
  let r : LTC_STATUS_E × State :=
    if ¬ s.ltc831Flags.waitDMA then ltc831ReadCmd_prepare u flags tag numDevs addr data_p s
    else (status, s)
  let r : LTC_STATUS_E × State :=
    if r.1 = LTC_SUCCESS then ltcSendCommandFrame env r.2 else r
  let r : LTC_STATUS_E × State :=
    if r.1 = LTC_SUCCESS then ltc831ReadCmd_complete u r.2 else r
  let s := r.2
  let s : State :=
    if (s.ltcBreakData s.ltc831Flags.dir).flags.breakString then
      s.modBreak s.ltc831Flags.dir (fun b => { b with breakIdxPrev := b.breakIdx })
    else s
  (r.1, s)

/-- The block `if( !ltc831Flags.waitDMA ) { ... }` of `ltc831WriteCmd`:
parameter checks, break-detection reset, command parameters and
`ltc831BuildCommand`.  Entered with `status = LTC_SUCCESS`. -/
def ltc831WriteCmd_prepare (u : Util) (flags : LTC_PARAM_FLAGS_T) (numDevs addr : Nat)
    (data_p : Option (Nat → Nat)) (s : State) : LTC_STATUS_E × State :=
  let status := LTC_SUCCESS
  let r : LTC_STATUS_E × State :=
    if addr ≥ LTC831_RDFS_NO_TAG_CMD then (LTC_UNSUPPORTED_FEATURE, s)
    else if (regMap addr).type ≠ LTC831_REG_W ∧ (regMap addr).type ≠ LTC831_REG_B then
      (LTC_BAD_PARAMETER, s)
    else
      let s : State :=
        if flags.doBreakDetect ∧ (regMap addr).ack then
          let s : State :=
            if ¬ s.ltc831Flags.didFirst then
              { s with packApi := { s.packApi with flags := ⟨false, false, false⟩,
                                                   breakIdx := 0x00 } }
            else s
          ltcPrepPoll s.ltc831Flags.dir s
        else s
      let s := ltcResetStateMachine false true s
      let s := { s with ltcParams := { s.ltcParams with
        flags := flags, numDevs := numDevs, spiCmd := LTC_REG_WRITE_CMD } }
      (status, s)
  if r.1 = LTC_SUCCESS then
    let s := { r.2 with ltcParams := { r.2.ltcParams with addr := addr, data_p := data_p } }
    ltc831BuildCommand u s
  else r

/-- The block `if ( ltcParams.flags.doBreakDetect && (... breakString ...) )`
of `ltc831WriteCmd` that classifies the pair of directional attempts; a sum
equal to the requested device count turns the status into `LTC_SUCCESS`. -/
def ltc831WriteCmd_resolve (status : LTC_STATUS_E) (s : State) : LTC_STATUS_E × State :=
  if s.ltcParams.flags.doBreakDetect ∧
      ((s.ltcBreakData false).flags.breakString ∨ (s.ltcBreakData true).flags.breakString) then
    let s : State := { s with ltcFrames := { s.ltcFrames with
      rxNumDevs := ((s.ltcBreakData false).breakIdx + (s.ltcBreakData true).breakIdx) % 256 } }
    let r : LTC_STATUS_E × State :=
      if s.ltcFrames.rxNumDevs < s.reqNumDevs then
        (status, { s with packApi := { s.packApi with flags := { s.packApi.flags with
          breakDetected := true, breakDetectDouble := true } } })
      else if s.ltcFrames.rxNumDevs = s.reqNumDevs then
        (LTC_SUCCESS, { s with packApi := { s.packApi with flags :=
          { s.packApi.flags with breakDetected := true } } })
      else
        (status, { s with packApi := { s.packApi with flags := { s.packApi.flags with
          breakDetectError := true } } })
    (r.1, { r.2 with packApi := { r.2.packApi with
      breakIdx := (r.2.ltcBreakData false).breakIdx } })
  else (status, s)

/-- The block of `ltc831WriteCmd` that follows a successful
`ltcSendCommandFrame`.  `respParamLength` is
`clTransaction.resp_p->paramLength`. -/
def ltc831WriteCmd_complete (numDevs : Nat) (data_p : Option (Nat → Nat)) (status : LTC_STATUS_E)
    (s : State) : LTC_STATUS_E × State :=
  let s := { s with ltcFrames := { s.ltcFrames with rxNumDevs := numDevs } }
  let r : LTC_STATUS_E × State :=
    if (regMap s.ltcParams.addr).ack ∧ s.ltcParams.flags.useAck then
      let p := LTC831_checkAck s
      let status := p.1
      let s := p.2
      if (s.ltcBreakData s.ltc831Flags.dir).flags.ackError ∧ ¬ s.ltc831Flags.didFirst ∧
          s.ltcParams.flags.doBreakDetect then
        (LTC_DEFERRED, { s with ltc831Flags := { s.ltc831Flags with
          didFirst := true, dir := !s.ltc831Flags.dir, newEntry := true } })
      else
        let s := { s with ltc831Flags := { s.ltc831Flags with didFirst := false } }
        let r := ltc831WriteCmd_resolve status s
        (r.1, { r.2 with ltc831Flags := { r.2.ltc831Flags with dir := !r.2.ltc831Flags.dir } })
    else (status, s)
  let s := r.2
  let s : State :=
    match data_p with
    | none => { s with respParamLength := 0 }
    | some _ => s
  (r.1, s)

/-- `ltc831WriteCmd( flags, numDevs, addr, data_p )`. -/
def ltc831WriteCmd (u : Util) (env : Env) (flags : LTC_PARAM_FLAGS_T) (numDevs addr : Nat)
    (data_p : Option (Nat → Nat)) (s : State) : LTC_STATUS_E × State :=
  let status := LTC_SUCCESS
  let r : LTC_STATUS_E × State :=
    if ¬ s.ltc831Flags.waitDMA then ltc831WriteCmd_prepare u flags numDevs addr data_p s
    else (status, s)
  let r : LTC_STATUS_E × State :=
    if r.1 = LTC_SUCCESS then ltcSendCommandFrame env r.2 else r
  if r.1 = LTC_SUCCESS then ltc831WriteCmd_complete numDevs data_p r.1 r.2
  else r

/-! ## A concrete instance of the util.h routines -/

/-- Modelled from the spec: the CRC routines of util.h are not among the
driver sources.  The spec describes the command PEC as a CRC-8 with
polynomial 0x2F and seed 0x10 and the payload PEC as a 14-bit CRC with seed
0x0010 over the payload bytes followed by two command-counter bits.  This is
one step of a most-significant-bit-first CRC of width `w` (no reflection, no
final XOR) with generator `poly`. -/
def crcBit (w poly : Nat) (crc : Nat) (bit : Bool) : Nat :=
  let crc1 := (crc <<< 1) % 2 ^ w
  if crc.testBit (w - 1) != bit then crc1 ^^^ poly else crc1

/-- Modelled from the spec: the CRC register after shifting in `bits`,
first bit first (see `crcBit`). -/
def crcBits (w poly : Nat) (crc : Nat) (bits : List Bool) : Nat :=
  bits.foldl (crcBit w poly) crc

/-- The eight bits of a byte, most significant first. -/
def byteBits (b : Nat) : List Bool :=
  [b.testBit 7, b.testBit 6, b.testBit 5, b.testBit 4,
   b.testBit 3, b.testBit 2, b.testBit 1, b.testBit 0]

/-- The bits of a byte string, in transmission order. -/
def bytesBits : List Nat → List Bool
  | [] => []
  | b :: bs => byteBits b ++ bytesBits bs

/-- Modelled from the spec: `crc14`, `crc14_bytes`, `crc14_bits` and `calcCRC`
of util.h are not among the driver sources; this instance computes them with
`crcBits`, the payload PEC with the 14-bit generator `poly14` (the spec does
not give it), the command PEC with the 8-bit generator passed by the driver.
`crc14 bits data` reads the first `bits` bits of `data`, `crc14_bits n v`
shifts in the `n` low bits of `v`. -/
def modelUtil (poly14 : Nat) : Util where
  crc14 := fun bits data pec => crcBits 14 poly14 pec ((bytesBits data).take bits)
  crc14_bytes := fun len data pec => crcBits 14 poly14 pec (bytesBits (data.take len))
  crc14_bits := fun nbits value pec =>
    crcBits 14 poly14 pec ((List.range nbits).map (fun k => value.testBit (nbits - 1 - k)))
  calcCRC := fun poly data seed => crcBits 8 poly seed (bytesBits data)
  UTIL_CRC8_2F_POLY := 0x2F

/-! ## Concrete inputs -/

/-- A device record with all fields zero, as `ltc831Init` leaves it. -/
def zeroDev : LTC831_DEV_DATA_T :=
  ⟨fun _ => 0, fun _ => ⟨false, false, false, 0, false, false, false, false, 0⟩, 0, 0⟩

/-- The driver variables with all fields zero, as `ltc831Init` leaves them
for chain head `CL_DIR_A`, with no pack-layer device limit. -/
def zeroState : State where
  ltc831Flags := ⟨false, false, false, false, false, false, false, false, false, false, false,
    false, false, false, false, false, false⟩
  ltcParams := zeroParams
  ltcFrames := zeroFrames
  ltcDevData := fun _ => zeroDev
  ltcBreakData := fun _ => ⟨⟨false, false, false, false⟩, 0, 0⟩
  packApi := ⟨0, ⟨false, false, false⟩, 0⟩
  reqNumDevs := 0
  respParamLength := 0
  outData := []
  trace := []

/-- A byte buffer holding `bytes` from offset 0 on, zero beyond. -/
def bufOf (bytes : List Nat) : Nat → Nat := fun i => bytes.getD i 0

/-- State after an acknowledged SNAP broadcast to five devices: the receive
buffer holds the two header bytes and the tail bytes `0b00110001`,
`0b10000000` (slots 1, 3 and 4 not acknowledged). -/
def ackSample : State :=
  { zeroState with
    ltcParams := { zeroParams with
      spiCmd := LTC_REG_WRITE_CMD, addr := LTC831_SNAP_CMD, numDevs := 5 },
    ltcFrames := { zeroFrames with cmdDataRx := bufOf [0, 0, 0x31, 0x80] } }

/-- Whether an external call is an SPI frame transfer (`spiTxRxData`). -/
def Event.isFrame : Event → Bool
  | Event.spiTxRxData _ _ => true
  | _ => false

/-- Number of frames handed to the SPI transport so far. -/
def State.framesSent (s : State) : Nat := (s.trace.filter Event.isFrame).length

/-- An environment whose SPI transfer returns the bytes `bytes` and completes,
with the idle timer not expired. -/
def envOf (bytes : List Nat) : Env := ⟨bufOf bytes, true, false⟩

/-- Command flags of a synchronous command without tag, ACK check or break
detection. -/
def syncFlags : LTC_PARAM_FLAGS_T := ⟨false, true, false, false, false⟩

/-! ## Reading aids for LTC831_RxParse

The definitions below name what one pass of the device loop of
`LTC831_RxParse` computes for the block that starts at byte offset `p` of the
receive buffer.  They are connected to the loop by the theorems
`rxParse_dev_eq` and `rxParse_loop`. -/

/-- Length of the tag byte in front of a block: `1` for a tagged read. -/
def rxTagLen (s : State) : Nat :=
  if s.ltcParams.spiCmd = LTC_REG_READ_TAG_CMD then 1 else 0

/-- Distance the read pointer of `LTC831_RxParse` moves over one block: the
tag byte of a tagged read, `regLengthW` words and the two PEC bytes. -/
def rxStride (s : State) : Nat :=
  rxTagLen s + 2 * s.ltcFrames.regLengthW + LTC831_PEC_SIZE_B

/-- Byte offset at which `LTC831_RxParse` starts reading: behind the command
header the driver sent. -/
def rxBase (s : State) : Nat :=
  if s.ltcParams.spiCmd = LTC_REG_READ_CMD then LTC831_CMD_PKT_SIZE_B
  else LTC831_CMD_PKT_TAGGED_SIZE_B

/-- Byte offset at which `LTC831_RxParse` starts the block of slot `i`. -/
def rxBlockOff (s : State) (i : Nat) : Nat :=
  rxBase s + i * rxStride s

/-- The `crcError` verdict of `LTC831_RxParse` for the block at `p`. -/
def rxCrcErrorAt (u : Util) (s : State) (p : Nat) : Bool :=
  if rxComputedPec u s.ltcFrames.cmdDataRx s.ltcFrames.rxDataLengthB p =
      rxReceivedPec s.ltcFrames.cmdDataRx s.ltcFrames.rxDataLengthB p then false else true

/-- The `doStore` decision of `LTC831_RxParse` for the block at `p`. -/
def rxDoStoreAt (u : Util) (s : State) (p : Nat) : Bool :=
  if ¬ rxCrcErrorAt u s p = true ∨ ¬ s.ltc831Flags.didFirst = true then true else false

/-- The item loop of `LTC831_RxParse` run for the block at `p` on the
register image `regs`, entered with `parsed_item = pi0`. -/
def rxItemsAt (u : Util) (s : State) (p pi0 : Nat) (regs : Nat → Nat) : RxItemLocals :=
  forLoop s.ltcFrames.regLengthW
    (LTC831_RxParse_item s.ltcFrames.cmdDataRx (regMap s.ltcParams.addr).byte_swap
      (rxDoStoreAt u s p))
    ⟨regs, (regMap s.ltcParams.addr).regOffset, p + rxTagLen s, pi0⟩

/-- Word `j` of the block at `p` as `LTC831_RxParse` decodes it. -/
def rxWordAt (s : State) (p j : Nat) : Nat :=
  if (regMap s.ltcParams.addr).byte_swap then
    ((s.ltcFrames.cmdDataRx (p + rxTagLen s + 2 * j + 1) <<< 8)
      ||| s.ltcFrames.cmdDataRx (p + rxTagLen s + 2 * j)) % 65536
  else
    ((s.ltcFrames.cmdDataRx (p + rxTagLen s + 2 * j) <<< 8)
      ||| s.ltcFrames.cmdDataRx (p + rxTagLen s + 2 * j + 1)) % 65536

/-- The value of `parsed_item` after the block at `p`: its last word (the
value before the block when the register has no words). -/
def rxLastItem (s : State) (p pi0 : Nat) : Nat :=
  if s.ltcFrames.regLengthW = 0 then pi0 else rxWordAt s p (s.ltcFrames.regLengthW - 1)

/-- The record of the destination device after the pass of the device loop
of `LTC831_RxParse` over the block at `p`. -/
def rxDevEffect (u : Util) (s : State) (regFlagIdx p pi0 : Nat) (dv : LTC831_DEV_DATA_T) :
    LTC831_DEV_DATA_T :=
  let crcError := rxCrcErrorAt u s p
  let doStore := rxDoStoreAt u s p
  let it := rxItemsAt u s p pi0 dv.devRegs
  let tagged : Bool := decide (s.ltcParams.spiCmd = LTC_REG_READ_TAG_CMD)
  let f0 := dv.devRegFlags regFlagIdx
  let f1 : PACK_DEV_REG_FLAGS_T :=
    if doStore then
      { f0 with
        cmdCount := rxCommandCounter s.ltcFrames.cmdDataRx s.ltcFrames.rxDataLengthB p,
        dir := s.ltc831Flags.dir,
        crcError := crcError,
        newData := true,
        tagFail :=
          if tagged ∧ s.ltcParams.flags.useTag then
            (if s.ltcFrames.cmdDataRx p ≠ s.ltcParams.tag then true else false)
          else f0.tagFail,
        tag := if tagged then s.ltcFrames.cmdDataRx p else f0.tag,
        sna := if crcError ∧ it.parsed_item = 0xFFFF then true else f0.sna }
    else f0
  { devRegs := it.regs,
    devRegFlags := if doStore then setAt dv.devRegFlags regFlagIdx f1 else dv.devRegFlags,
    hostPecErrorCount :=
      if crcError ∧ it.parsed_item ≠ 0xFFFF then (dv.hostPecErrorCount + 1) % 65536
      else dv.hostPecErrorCount,
    devPecErrorCount :=
      if crcError ∧ it.parsed_item = 0xFFFF ∧ doStore then (dv.devPecErrorCount + 1) % 65536
      else dv.devPecErrorCount }

/-- The break data of the current direction after the pass of the device loop
of `LTC831_RxParse` over slot `devIdx`, whose block has the verdict `crcError`
and left `parsed_item = item`. -/
def rxBreakEffect (crcError : Bool) (item devIdx : Nat) (b : LTC831_BREAK_DATA_T) :
    LTC831_BREAK_DATA_T :=
  if crcError then
    if item = 0xFFFF then
      if b.flags.firstBreak then { b with flags := { b.flags with crcError := true } }
      else { b with flags := { b.flags with crcError := true, firstBreak := true,
                                            breakString := true } }
    else
      if b.flags.firstBreak ∧ devIdx > b.breakIdx then
        { b with flags := { b.flags with crcError := true, breakString := false } }
      else { b with flags := { b.flags with crcError := true } }
  else
    if b.flags.firstBreak then
      { b with breakIdx := (devIdx + 1) % 256, flags := { b.flags with breakString := false } }
    else { b with breakIdx := (devIdx + 1) % 256 }

/-- The value of `parsed_item` when `LTC831_RxParse`, started at byte offset
`p0` with `parsed_item = 0`, enters the block of slot `n`. -/
def rxItemBefore (s : State) (p0 n : Nat) : Nat :=
  if n = 0 ∨ s.ltcFrames.regLengthW = 0 then 0
  else rxWordAt s (p0 + (n - 1) * rxStride s) (s.ltcFrames.regLengthW - 1)

/-- The break data of the current direction after `LTC831_RxParse`, started
at byte offset `p0`, has gone over the first `n` slots. -/
def rxBreakAfter (u : Util) (s : State) (p0 : Nat) (b : LTC831_BREAK_DATA_T) :
    Nat → LTC831_BREAK_DATA_T
  | 0 => b
  | n + 1 =>
    rxBreakEffect (rxCrcErrorAt u s (p0 + n * rxStride s)) (rxItemBefore s p0 (n + 1)) n
      (rxBreakAfter u s p0 b n)

/-- The parts of the state the device loop of `LTC831_RxParse` reads and does
not change. -/
def RxSame (s t : State) : Prop :=
  t.ltcParams = s.ltcParams ∧ t.packApi = s.packApi ∧ t.reqNumDevs = s.reqNumDevs ∧
  t.trace = s.trace ∧
  t.ltcFrames.cmdDataRx = s.ltcFrames.cmdDataRx ∧
  t.ltcFrames.rxDataLengthB = s.ltcFrames.rxDataLengthB ∧
  t.ltcFrames.regLengthW = s.ltcFrames.regLengthW ∧
  t.ltc831Flags.dir = s.ltc831Flags.dir ∧
  t.ltc831Flags.chainHead = s.ltc831Flags.chainHead ∧
  t.ltc831Flags.didFirst = s.ltc831Flags.didFirst ∧
  t.ltc831Flags.waitDMA = s.ltc831Flags.waitDMA

/-- State in front of `LTC831_RxParse` for an untagged read of fuse row 0
(address 0x30, one word, byte-swapped) from two devices on the second
directional attempt (`didFirst` set): the block of slot 0 carries the word
0x1234 with its PEC under `modelUtil 0x025B`, the block of slot 1 is all
ones. -/
def parseSample : State :=
  { zeroState with
    ltc831Flags := { zeroState.ltc831Flags with didFirst := true },
    ltcParams := { zeroParams with spiCmd := LTC_REG_READ_CMD, addr := 0x30, numDevs := 2 },
    ltcFrames := { zeroFrames with
      cmdDataRx := bufOf [0, 0, 0x34, 0x12, 0x28, 0xEF, 0xFF, 0xFF, 0xFF, 0xFF],
      rxDataLengthB := 4, regLengthW := 1 } }

/-- The state `parseSample` on the first directional attempt (`didFirst`
clear). -/
def parseSampleFirst : State :=
  { parseSample with ltc831Flags := zeroState.ltc831Flags }

/-- Driver state in front of `ltc831BuildCommand` for an untagged read of
fuse row 0 (address 0x30) from two devices. -/
def readSample : State :=
  { zeroState with
    ltcParams := { zeroParams with spiCmd := LTC_REG_READ_CMD, addr := 0x30, numDevs := 2 } }

/-- A response to `readSample` with valid PECs under `modelUtil 0x025B`:
slot 0 carries the bytes 0x34 0x12 (command counter 0), slot 1 the bytes
0x78 0x56 (command counter 2). -/
def goodResponse : List Nat := [0, 0, 0x34, 0x12, 0x28, 0xEF, 0x78, 0x56, 0x90, 0x82]

/-! ## Reading aids for ltc831BuildCommand -/

/-- The payload PEC `ltc831BuildCommand` computes for the `W` input words of
device `d`. -/
def buildPec (u : Util) (data : Nat → Nat) (W d : Nat) : Nat :=
  u.crc14_bits LTC831_NUM_CC_BITS 0
    (u.crc14_bytes ((W * 2) % 256) (wordBytes data (W * d) W) LTC831_PEC_SEED_VALUE % 65536)
    % 65536

/-- The item loop of the write branch of `ltc831BuildCommand` run for device
`d` with `cmdData_p = p`. -/
def buildItemsAt (s : State) (addr W d p : Nat) : BuildItemLocals :=
  forLoop W (ltc831BuildCommand_item (paramData s) (regMap addr).regOffset (W * d))
    ⟨(s.ltcDevData d).devRegs, s.ltcFrames.cmdDataTx, p⟩

/-- Driver state in front of `ltc831BuildCommand` for a write of address 0x13
(two words, `byte_swap` set) to two devices in the chain-head direction, with
the input words 0x0102, 0x0304 for device 0 and 0x0506, 0x0708 for device 1. -/
def writeSwapSample : State :=
  { zeroState with
    ltcParams := { zeroParams with
      spiCmd := LTC_REG_WRITE_CMD, addr := 0x13, numDevs := 2,
      data_p := some (bufOf [0x0102, 0x0304, 0x0506, 0x0708]) } }

/-- The parts of the state that the transport layer (`ltc831WakeupIdle`,
`ltc831SendClCmd` up to the SPI transfer) does not change. -/
def SendSame (s t : State) : Prop :=
  t.ltcParams = s.ltcParams ∧ t.packApi = s.packApi ∧ t.reqNumDevs = s.reqNumDevs ∧
  t.ltcDevData = s.ltcDevData ∧ t.ltcBreakData = s.ltcBreakData ∧ t.ltcFrames = s.ltcFrames ∧
  t.ltc831Flags.didFirst = s.ltc831Flags.didFirst ∧ t.ltc831Flags.dir = s.ltc831Flags.dir ∧
  t.ltc831Flags.chainHead = s.ltc831Flags.chainHead ∧
  t.ltc831Flags.waitDMA = s.ltc831Flags.waitDMA ∧
  t.ltc831Flags.activeBalance = s.ltc831Flags.activeBalance

/-! ## Reading aids for ltc831ReadCmd and ltc831WriteCmd -/

/-- The command parameters `ltc831ReadCmd` stores for its arguments. -/
def readParams (flags : LTC_PARAM_FLAGS_T) (tag numDevs addr : Nat)
    (data_p : Option (Nat → Nat)) : LTC_PARAM_T :=
  ⟨flags, if flags.useTag then LTC_REG_READ_TAG_CMD else LTC_REG_READ_CMD, addr, tag, numDevs,
    data_p⟩

/-- The break data `ltcPrepPoll` leaves for the direction it prepares. -/
def freshBreak : LTC831_BREAK_DATA_T := ⟨⟨false, false, false, false⟩, 0x00, 0xff⟩

/-- The pack-layer record after `ltc831ReadCmd` or `ltc831WriteCmd` has
cleared the break flags and `breakIdx` at the start of a break-detecting
command. -/
def clearedPack (p : PACK_API_T) : PACK_API_T :=
  { p with flags := ⟨false, false, false⟩, breakIdx := 0x00 }
/-- The frame as `LTC831_RxParse` sees it after a read of `addr` with the
command flags `flags` has received the bytes `rx`: the fields on which the
block offsets, the CRC verdicts and the decoded words depend, the rest
zero. -/
def readView (flags : LTC_PARAM_FLAGS_T) (addr : Nat) (rx : Nat → Nat) : State :=
  { zeroState with
    ltcParams := readParams flags 0 0 addr none,
    ltcFrames := { zeroFrames with
      cmdDataRx := rx,
      regLengthW := (regMap addr).lenB / 2,
      rxDataLengthB :=
        (regMap addr).lenB + LTC831_PEC_SIZE_B + (if flags.useTag = true then 1 else 0) } }

/-- The `crcError` verdict of `LTC831_RxParse` for the block of slot `i` of
the response `rx` to a read of `addr`. -/
def readCrcErrorAt (u : Util) (flags : LTC_PARAM_FLAGS_T) (addr : Nat) (rx : Nat → Nat)
    (i : Nat) : Bool :=
  rxCrcErrorAt u (readView flags addr rx) (rxBlockOff (readView flags addr rx) i)

/-- The break data of the current direction after `LTC831_RxParse` has gone
over the first `n` slots of the response `rx` to a read of `addr`, entered
with the break data `b`. -/
def readBreakAfter (u : Util) (flags : LTC_PARAM_FLAGS_T) (addr : Nat) (rx : Nat → Nat)
    (b : LTC831_BREAK_DATA_T) (n : Nat) : LTC831_BREAK_DATA_T :=
  rxBreakAfter u (readView flags addr rx) (rxBase (readView flags addr rx)) b n

/-- The pack-layer record after the block of `ltc831ReadCmd` and
`ltc831WriteCmd` that classifies the pair of directional attempts, for the
requested device count `req` and the break data `bd` of the two directions. -/
def resolvePack (req : Nat) (bd : Bool → LTC831_BREAK_DATA_T) (p : PACK_API_T) : PACK_API_T :=
  if (bd false).flags.breakString = true ∨ (bd true).flags.breakString = true then
    { p with
      breakIdx := (bd false).breakIdx,
      flags :=
        if ((bd false).breakIdx + (bd true).breakIdx) % 256 < req then
          { p.flags with breakDetected := true, breakDetectDouble := true }
        else if ((bd false).breakIdx + (bd true).breakIdx) % 256 = req then
          { p.flags with breakDetected := true }
        else { p.flags with breakDetectError := true } }
  else p

/-- Command flags of a synchronous break-detecting command without tag or ACK
check. -/
def breakDetectFlags : LTC_PARAM_FLAGS_T := ⟨false, true, false, false, true⟩

/-- A response to an untagged one-word read from two devices in which slot 0
carries the bytes 0x34 0x12 with a valid PEC under `modelUtil 0x025B` and
slot 1 is all ones. -/
def brokenResponse : List Nat := [0, 0, 0x34, 0x12, 0x28, 0xEF, 0xFF, 0xFF, 0xFF, 0xFF]
/-- The initial state with a request for `n` devices pending
(`ltc831ReqParamFlags.numDevs = n`). -/
def requestState (n : Nat) : State := { zeroState with reqNumDevs := n }

/-- Whether `LTC831_checkAck` finds the acknowledge bits of slot `i` in the
received bytes `rx` non-zero. -/
def ackFailAt (rx : Nat → Nat) (i : Nat) : Bool :=
  decide (rx (LTC831_CMD_PKT_SIZE_B + i / 4) &&& (0xc0 >>> (2 * (i % 4))) ≠ 0)

/-- The break data of the current direction after the pass of the device loop
of `LTC831_checkAck` over slot `devIdx`, whose acknowledge bits are non-zero
when `fail`. -/
def ackBreakEffect (fail : Bool) (devIdx : Nat) (b : LTC831_BREAK_DATA_T) :
    LTC831_BREAK_DATA_T :=
  if fail then
    if b.flags.firstBreak = false then
      { b with flags := { b.flags with ackError := true, firstBreak := true,
                                        breakString := true } }
    else { b with flags := { b.flags with ackError := true } }
  else
    if b.flags.firstBreak = true then
      { b with breakIdx := (devIdx + 1) % 256, flags := { b.flags with breakString := false } }
    else { b with breakIdx := (devIdx + 1) % 256 }

/-- The break data of the current direction after `LTC831_checkAck` has gone
over the first `n` slots of the received bytes `rx`, entered with the break
data `b`. -/
def ackBreakAfter (rx : Nat → Nat) (b : LTC831_BREAK_DATA_T) : Nat → LTC831_BREAK_DATA_T
  | 0 => b
  | n + 1 => ackBreakEffect (ackFailAt rx n) n (ackBreakAfter rx b n)

/-- Command flags of a synchronous break-detecting command with the ACK check
requested. -/
def ackDetectFlags : LTC_PARAM_FLAGS_T := ⟨false, true, false, true, true⟩

/-- An environment in which every slot acknowledges. -/
def allAck : Env := ⟨fun _ => 0, true, false⟩

def LTC831_RDCVA_NO_TAG_CMD : Nat := 0x01
def LTC831_RDCVB_NO_TAG_CMD : Nat := 0x02
def LTC831_RDCVC_NO_TAG_CMD : Nat := 0x03
def LTC831_RDCVD_NO_TAG_CMD : Nat := 0x04
def LTC831_RDCVE_NO_TAG_CMD : Nat := 0x05
def LTC831_RDCVF_NO_TAG_CMD : Nat := 0x06
def LTC831_RDSNA_NO_TAG_CMD : Nat := 0x07
def LTC831_RDSNB_NO_TAG_CMD : Nat := 0x08
def LTC831_RDSNC_NO_TAG_CMD : Nat := 0x09
def LTC831_RDSND_NO_TAG_CMD : Nat := 0x0a
def LTC831_RDSNE_NO_TAG_CMD : Nat := 0x0b
def LTC831_RDSNF_NO_TAG_CMD : Nat := 0x0c
def LTC831_RDAUXA_NO_TAG_CMD : Nat := 0x0d
def LTC831_RDAUXB_NO_TAG_CMD : Nat := 0x0e
def LTC831_RDSTAT_NO_TAG_CMD : Nat := 0x0f
def LTC831_RDCFG_NO_TAG_CMD : Nat := 0x10
def LTC831_WRCFG_CMD : Nat := 0x11
def LTC831_RDPWMA_NO_TAG_CMD : Nat := 0x12
def LTC831_WRPWMA_CMD : Nat := 0x14
def LTC831_RDPWMB_NO_TAG_CMD : Nat := 0x13
def LTC831_WRPWMB_CMD : Nat := 0x15
def LTC831_EOR : Nat := 0xff

/-- The untagged read opcodes that ltc831_regs.h defines below 0x36: the
register reads and the six fuse rows `LTC831_RDFS_NO_TAG_CMD + row`. -/
def readOpcodes : List Nat :=
  [LTC831_RDCVA_NO_TAG_CMD, LTC831_RDCVB_NO_TAG_CMD, LTC831_RDCVC_NO_TAG_CMD,
   LTC831_RDCVD_NO_TAG_CMD, LTC831_RDCVE_NO_TAG_CMD, LTC831_RDCVF_NO_TAG_CMD,
   LTC831_RDSNA_NO_TAG_CMD, LTC831_RDSNB_NO_TAG_CMD, LTC831_RDSNC_NO_TAG_CMD,
   LTC831_RDSND_NO_TAG_CMD, LTC831_RDSNE_NO_TAG_CMD, LTC831_RDSNF_NO_TAG_CMD,
   LTC831_RDAUXA_NO_TAG_CMD, LTC831_RDAUXB_NO_TAG_CMD, LTC831_RDSTAT_NO_TAG_CMD,
   LTC831_RDCFG_NO_TAG_CMD, LTC831_RDPWMA_NO_TAG_CMD, LTC831_RDPWMB_NO_TAG_CMD,
   LTC831_RDFS_NO_TAG_CMD + 0, LTC831_RDFS_NO_TAG_CMD + 1, LTC831_RDFS_NO_TAG_CMD + 2,
   LTC831_RDFS_NO_TAG_CMD + 3, LTC831_RDFS_NO_TAG_CMD + 4, LTC831_RDFS_NO_TAG_CMD + 5]

/-- The register write opcodes that ltc831_regs.h defines below 0x36. -/
def writeOpcodes : List Nat := [LTC831_WRCFG_CMD, LTC831_WRPWMA_CMD, LTC831_WRPWMB_CMD]

/-- The broadcast opcodes of ltc831_regs.h. -/
def broadcastOpcodes : List Nat :=
  [LTC831_MUTE_CMD, LTC831_UNMUTE_CMD, LTC831_PRIMEZ_CMD, LTC831_PRIMEN_CMD,
   LTC831_CLRDIAG_CMD, LTC831_TEST5_CMD, LTC831_TESTA_CMD, LTC831_TESTOFF_CMD,
   LTC831_ARMSOLO_CMD, LTC831_DISSOLO_CMD, LTC831_CLRCNT_CMD, LTC831_SNAP_CMD]

/-! ## Types of the orchestrator and of the chip layer

The request/response records, the response statuses and the diagnostic flags
are declared in headers outside the driver sources; the records below hold
the members the driver reads or writes, under the names the driver uses. -/

/-- The response statuses `CL_APP_respStatus_e` the driver uses.  The
enumeration is declared outside the driver sources; its enumerators are taken
to be pairwise different. -/
inductive CL_APP_respStatus_e where
  | CL_APP_SUCCESS
  | CL_APP_INVALID_COMMAND
  | CL_APP_BAD_PARAMETER
  | CL_APP_TIMEOUT
  | CL_APP_UNSUPPORTED_FEATURE
  | CL_APP_TOO_FEW_RESPONSES
  | CL_APP_DRIVER_ERROR
  | CL_APP_DEFERRED
  | CL_APP_PACK_FAILURE
  | CL_APP_UNKNOWN_ERROR
  | CL_APP_BUSY
  | CL_APP_PARAM_OUT_OF_RANGE
  deriving DecidableEq, Repr

/-- The states `LTC831_STATE_E` of the driver. -/
inductive LTC831_STATE_E where
  | LTC831_IDLE_STATE
  | LTC831_ERROR_STATE
  | LTC831_CL_PASSTHROUGH_STATE
  | LTC831_COMMAND_COMPLETE_STATE
  | LTC831_BER_STATE
  | LTC831_WAKEUP_STATE
  | LTC831_REG_READ_STATE
  | LTC831_REG_WRITE_STATE
  | LTC831_DEV_POLL_STATE
  | LTC831_NULL_STATE
  deriving DecidableEq, Repr

/-- The request kinds `REQ_RESP_ID_E` the driver distinguishes;
`APP_CL_OTHER` stands for every other value of the enumeration. -/
inductive REQ_RESP_ID_E where
  | APP_CL_REQ_INIT
  | APP_CL_PASSTHROUGH
  | APP_CL_REG_READ
  | APP_CL_REG_WRITE
  | APP_CL_PACK_CONVERT
  | APP_CL_DIAG
  | APP_CL_OTHER
  deriving DecidableEq, Repr

/-- The diagnostic commands the driver distinguishes; `CL_DIAG_OTHER` stands
for every other value. -/
inductive CL_DIAG_CMD_E where
  | CL_DIAG_BER
  | CL_DIAG_READ
  | CL_DIAG_CLEAR
  | CL_DIAG_OTHER
  deriving DecidableEq, Repr

/-- The values of `clTransaction.state` the driver distinguishes;
`CL_OTHER` stands for every other value. -/
inductive CL_STATE_E where
  | CL_RUNNING
  | CL_COMPLETE
  | CL_OTHER
  deriving DecidableEq, Repr

inductive LTC831_INIT_MODE_T where
  | LTC831_POR_RESET
  | LTC831_BMS_RESET
  deriving DecidableEq, Repr

open CL_APP_respStatus_e LTC831_STATE_E REQ_RESP_ID_E CL_DIAG_CMD_E CL_STATE_E
open LTC831_INIT_MODE_T TIM_OS_ID_T

/-- The request flags `CL_reqFlags_t`; `dir` is a `CL_DIR_E`. -/
structure CL_reqFlags_t where
  dir : Bool
  numDevs : Nat
  synchronous : Bool
  useTag : Bool
  useAck : Bool
  needLoopback : Bool
  needResponse : Bool
  otpPort : Bool
  deriving DecidableEq, Repr

/-- The bits of `APP_CL_DIAG_FLAGS_T` the driver uses. -/
structure APP_CL_DIAG_FLAGS_T where
  running : Bool
  berMode : Nat
  dir : Bool
  deriving DecidableEq, Repr

/-- The bits of `APP_CL_errorCountSelect_T` the driver uses. -/
structure APP_CL_errorCountSelect_T where
  cycleCount : Bool
  hostCrcErrorCount : Bool
  devErrorCount : Bool
  deriving DecidableEq, Repr

/-- The members of the request `*clTransaction.req_p` the driver reads. -/
structure CL_REQ_T where
  reqId : REQ_RESP_ID_E
  reqFlags : CL_reqFlags_t
  paramLength : Nat
  tag : Nat
  sPassthrough_data : Nat → Nat
  sRegRead_regAddr : Nat
  sRegWrite_regAddr : Nat
  sRegWrite_regData : Nat → Nat
  sDiag_diagCmd : CL_DIAG_CMD_E
  sDiag_diagParams : Nat → Nat

/-- The response flags `respFlags` of the response. -/
structure CL_respFlags_t where
  dir : Bool
  numDevs : Nat
  gotLoopback : Bool
  gotResponse : Bool
  synchronous : Bool
  tagFail : Bool
  deriving DecidableEq, Repr

/-- One entry `APP_CL_devErrorCount_s` of the diagnostic response. -/
structure APP_CL_devErrorCount_s where
  hostRespErrorCount : Nat
  hostCrcErrorCount : Nat
  devErrorCount : Nat
  deriving DecidableEq, Repr

/-- The members of the response `*clTransaction.resp_p` the driver writes.
Its `paramLength` is the field `respParamLength` of `State` and the register
data written through `data_p` is the field `outData` of `State`. -/
structure CL_RESP_T where
  status : CL_APP_respStatus_e
  respFlags : CL_respFlags_t
  sPassthrough_data : Nat → Nat
  sDiag_cycleCount : Nat
  sDiag_errorCounts : Nat → APP_CL_devErrorCount_s

/-- The members of `clTransaction` the driver uses. -/
structure CL_TRANSACTION_T where
  reqValid : Bool
  chip : Nat
  state : CL_STATE_E
  req : CL_REQ_T
  resp : CL_RESP_T

/-- Constants, layouts and helpers that the driver takes from headers outside
its sources: `diagOfByte` and `errSelOfByte` decode the `byte` member of the
unions `APP_CL_DIAG_FLAGS_T` and `APP_CL_errorCountSelect_T` into their bits,
`tempLookup v` is `utilXyLookup_U16( v, ltcToTemp, LTC_NUM_TEMP_ENTRIES )`,
`sizeof_devErrorCount` is `sizeof(APP_CL_devErrorCount_s)`,
`sizeof_cfgRegValueW` and `sizeof_statusRegValueW` are the sizes, in 16-bit
words, of the member `regValue` of `PACK_DEV_REG_CFG_T` and of
`PACK_DEV_REG_STATUS_T`. -/
structure Config where
  CL_MAX_NUM_DEVS : Nat
  LTC831_CHIP : Nat
  DIAG_BER_MAX_MS : Nat
  DIAG_BER_MIN_MS : Nat
  CL_BER_FIXED : Nat
  LTC831_MAX_CELLS_PER_DEV : Nat
  LTC831_MAX_TEMPS_PER_DEV : Nat
  PACK_BRICK_UV_b : Nat
  PACK_STACK_UV_b : Nat
  LTC831_THERM_OFF : Int
  LTC831_THERM_MUL : Int
  sizeof_devErrorCount : Nat
  sizeof_cfgRegValueW : Nat
  sizeof_statusRegValueW : Nat
  diagOfByte : Nat → APP_CL_DIAG_FLAGS_T
  errSelOfByte : Nat → APP_CL_errorCountSelect_T
  tempLookup : Nat → Nat

/-- The module-scope variables of ltc831.c: the variables of the protocol
engine (`eng`, which holds `ltc831Flags`) and those of the orchestrator.
`ltc831ConfigReg` is the array of `LTC831_CFG_REG_T` seen as 16-bit words, two
per device.  The member `numDevs` of `ltc831ReqParamFlags` is also kept in
`eng.reqNumDevs`, where the protocol engine reads it; `ltc831ClCmdStart`, the
only writer of the variable, writes both. -/
structure Driver where
  eng : State
  ltc831State : LTC831_STATE_E
  ltc831PrevState : LTC831_STATE_E
  ltc831ReturnState : LTC831_STATE_E
  ltc831SubState : Nat
  ltc831RegAddr : Nat
  ltc831ReqParamFlags : CL_reqFlags_t
  ltc831DiagFlags : APP_CL_DIAG_FLAGS_T
  ltc831BerTime : Nat
  ltc831BerDelta : Nat
  ltc831TxCycleCount : Nat
  ltc831ConfigReg : Nat → Nat
  clTransaction : CL_TRANSACTION_T

/-- Append an external call to the trace. -/
def Driver.emit (d : Driver) (e : Event) : Driver :=
  { d with eng := d.eng.emit e }

/-- Update of `ltc831Flags`. -/
def Driver.modFlags (d : Driver) (f : LTC831_FLAGS_T → LTC831_FLAGS_T) : Driver :=
  { d with eng := { d.eng with ltc831Flags := f d.eng.ltc831Flags } }

/-! ## ltc831ConvertStatus -/

/-- `ltc831ConvertStatus( status )`. -/
def ltc831ConvertStatus (status : LTC_STATUS_E) : CL_APP_respStatus_e :=
  match status with
  | LTC_SUCCESS => CL_APP_SUCCESS
  | LTC_INVALID_COMMAND => CL_APP_INVALID_COMMAND
  | LTC_TIMEOUT => CL_APP_TIMEOUT
  | LTC_UNSUPPORTED_FEATURE => CL_APP_UNSUPPORTED_FEATURE
  | LTC_ACK_FAILED => CL_APP_TOO_FEW_RESPONSES
  | LTC_DRIVER_ERROR => CL_APP_DRIVER_ERROR
  | LTC_DEFERRED => CL_APP_DEFERRED
  | LTC_PACK_FAILURE => CL_APP_PACK_FAILURE
  | _ => CL_APP_UNKNOWN_ERROR

/-! ## ltc831Init, ltc831ClCmdStart -/

def LTC831_NOMINAL_POLLING_RATE_MS : Nat := 100

/-- The value `memset( &ltc831Flags, 0U, sizeof(ltc831Flags) )` leaves. -/
def zeroFlags : LTC831_FLAGS_T :=
  ⟨false, false, false, false, false, false, false, false, false, false, false,
    false, false, false, false, false, false⟩

/-- `ltc831Init( mode, chainHead )`.  The two `memset` over `ltcDevData` and
`ltc831ConfigReg` clear the `CL_MAX_NUM_DEVS` entries of the arrays. -/
def ltc831Init (cfg : Config) (mode : LTC831_INIT_MODE_T) (chainHead : Bool) (d : Driver) :
    Driver :=
  let d := d.emit (Event.gpioMeasure false)
  let d := { d with
    ltc831State := LTC831_IDLE_STATE,
    ltc831PrevState := LTC831_NULL_STATE,
    ltc831TxCycleCount := 0,
    ltc831BerTime := 0,
    ltc831BerDelta := 0 }
  let d := d.modFlags (fun _ => zeroFlags)
  let d := { d with ltc831DiagFlags := ⟨false, 0, false⟩ }
  let d := d.modFlags (fun f =>
    { f with por := if mode = LTC831_POR_RESET then true else false })
  let d := d.modFlags (fun f => { f with chainHead := chainHead })
  let d := { d with eng := { d.eng with
    ltcDevData := fun i => if i < cfg.CL_MAX_NUM_DEVS then zeroDev else d.eng.ltcDevData i,
    ltcBreakData := fun _ => ⟨⟨false, false, false, false⟩, 0, 0⟩ } }
  let d := { d with
    ltc831ConfigReg := fun w => if w < 2 * cfg.CL_MAX_NUM_DEVS then 0 else d.ltc831ConfigReg w }
  let d := d.emit (Event.timOsSetAndStartTimer LTC_OS_TIMER_1 LTC831_NOMINAL_POLLING_RATE_MS)
  let d := d.emit (Event.timOsSetExpired LTC_OS_TIMER_1)
  let d := d.emit (Event.timOsSetExpired LTC_IDLE_TIMER_A)
  let d := d.emit (Event.timOsSetExpired LTC_IDLE_TIMER_B)
  let d := d.emit (Event.timOsSetExpired LTC_SLEEP_TIMER_A)
  let d := d.emit (Event.timOsSetExpired LTC_SLEEP_TIMER_B)
  d.emit (Event.gpioMeasure true)

/-- One pass of the loop of the `CL_DIAG_READ` case of `ltc831ClCmdStart`. -/
def ltc831ClCmdStart_diagRead (cfg : Config) (devIdx : Nat) (d : Driver) : Driver :=
  { d with
    clTransaction := { d.clTransaction with resp := { d.clTransaction.resp with
      sDiag_errorCounts := setAt d.clTransaction.resp.sDiag_errorCounts devIdx
        ⟨0, (d.eng.ltcDevData devIdx).hostPecErrorCount,
          (d.eng.ltcDevData devIdx).devPecErrorCount⟩ } },
    eng := { d.eng with
      respParamLength := (d.eng.respParamLength + cfg.sizeof_devErrorCount % 256) % 256 } }

/-- One pass of the loop of the `CL_DIAG_CLEAR` case of `ltc831ClCmdStart`. -/
def ltc831ClCmdStart_diagClear (errCountSelect : APP_CL_errorCountSelect_T) (devIdx : Nat)
    (d : Driver) : Driver :=
  let d : Driver :=
    if errCountSelect.hostCrcErrorCount then
      { d with eng := d.eng.modDev devIdx (fun dv => { dv with hostPecErrorCount := 0 }) }
    else d
  if errCountSelect.devErrorCount then
    { d with eng := d.eng.modDev devIdx (fun dv => { dv with devPecErrorCount := 0 }) }
  else d

/-- The `switch ( reqId )` of `ltc831ClCmdStart`, entered with
`status = CL_APP_SUCCESS`. -/
def ltc831ClCmdStart_switch (cfg : Config) (reqId : REQ_RESP_ID_E) (d : Driver) :
    CL_APP_respStatus_e × Driver :=
  let status := CL_APP_SUCCESS
  match reqId with
  | APP_CL_REQ_INIT => (status, d)
  | APP_CL_PASSTHROUGH =>
    if d.clTransaction.req.paramLength = 0 then (CL_APP_BAD_PARAMETER, d)
    else
      let d := { d with ltc831State := LTC831_CL_PASSTHROUGH_STATE }
      (CL_APP_DEFERRED, d.modFlags (fun f => { f with newEntry := true }))
  | APP_CL_REG_READ =>
    let d := { d with ltc831State := LTC831_REG_READ_STATE }
    (CL_APP_DEFERRED, d.modFlags (fun f => { f with newEntry := true }))
  | APP_CL_REG_WRITE =>
    let d := { d with ltc831State := LTC831_REG_WRITE_STATE }
    (CL_APP_DEFERRED, d.modFlags (fun f => { f with newEntry := true }))
  | APP_CL_PACK_CONVERT =>
    let d := { d with ltc831State := LTC831_DEV_POLL_STATE }
    (CL_APP_DEFERRED, d.modFlags (fun f => { f with newEntry := true }))
  | APP_CL_DIAG =>
    match d.clTransaction.req.sDiag_diagCmd with
    | CL_DIAG_BER =>
      let d : Driver :=
        if d.ltc831State = LTC831_IDLE_STATE then
          let d := { d with ltc831ReturnState := LTC831_BER_STATE,
                            ltc831State := LTC831_WAKEUP_STATE }
          d.modFlags (fun f => { f with newEntry := true })
        else d
      (status, { d with
        ltc831DiagFlags := cfg.diagOfByte (d.clTransaction.req.sDiag_diagParams 0),
        ltc831BerTime := d.clTransaction.req.sDiag_diagParams 1 % 65536,
        ltc831BerDelta := d.clTransaction.req.sDiag_diagParams 2 % 65536 })
    | CL_DIAG_READ =>
      let d := { d with
        clTransaction := { d.clTransaction with resp := { d.clTransaction.resp with
          sDiag_cycleCount := d.ltc831TxCycleCount } },
        eng := { d.eng with respParamLength := 4 } }
      (status, forLoop d.ltc831ReqParamFlags.numDevs (ltc831ClCmdStart_diagRead cfg) d)
    | CL_DIAG_CLEAR =>
      let errCountSelect := cfg.errSelOfByte (d.clTransaction.req.sDiag_diagParams 0)
      let d : Driver :=
        if errCountSelect.cycleCount then { d with ltc831TxCycleCount := 0 } else d
      (status, forLoop d.ltc831ReqParamFlags.numDevs (ltc831ClCmdStart_diagClear errCountSelect) d)
    | CL_DIAG_OTHER => (CL_APP_BAD_PARAMETER, d)
  | APP_CL_OTHER => (CL_APP_INVALID_COMMAND, d)

/-- `ltc831ClCmdStart()`.  `timOsCheckExpired` is what the timer module
answers during the call. -/
def ltc831ClCmdStart (cfg : Config) (timOsCheckExpired : TIM_OS_ID_T → Bool) (d : Driver) :
    CL_APP_respStatus_e × Driver :=
  let reqId := d.clTransaction.req.reqId
  if reqId ≠ APP_CL_DIAG ∧ d.ltc831State ≠ LTC831_IDLE_STATE then (CL_APP_BUSY, d)
  else
    let d := d.modFlags (fun f => { f with didReturn := false })
    let d := { d with
      ltc831ReqParamFlags := d.clTransaction.req.reqFlags,
      eng := { d.eng with reqNumDevs := d.clTransaction.req.reqFlags.numDevs } }
    let d := { d with clTransaction := { d.clTransaction with resp := { d.clTransaction.resp with
      respFlags := { d.clTransaction.resp.respFlags with
        dir := d.clTransaction.req.reqFlags.dir, numDevs := 0 } } } }
    let r := ltc831ClCmdStart_switch cfg reqId d
    let status := r.1
    let d := r.2
    if status = CL_APP_DEFERRED then
      let d := d.modFlags (fun f => { f with dir := d.ltc831ReqParamFlags.dir })
      let timerId :=
        if d.eng.ltc831Flags.dir = false then LTC_SLEEP_TIMER_A else LTC_SLEEP_TIMER_B
      if timOsCheckExpired timerId then
        (status, { d with ltc831ReturnState := d.ltc831State,
                          ltc831State := LTC831_WAKEUP_STATE })
      else (status, d)
    else (status, d)

/-- The state the `switch ( reqId )` of `ltc831ClCmdStart` selects for the
request kinds that start a command. -/
def startStateOf : REQ_RESP_ID_E → LTC831_STATE_E
  | APP_CL_PASSTHROUGH => LTC831_CL_PASSTHROUGH_STATE
  | APP_CL_REG_READ => LTC831_REG_READ_STATE
  | APP_CL_REG_WRITE => LTC831_REG_WRITE_STATE
  | APP_CL_PACK_CONVERT => LTC831_DEV_POLL_STATE
  | _ => LTC831_NULL_STATE

/-- The sleep timer of a direction, as `ltc831ClCmdStart` and
`ltc831SendClCmd` select it. -/
def sleepTimerOf (dir : Bool) : TIM_OS_ID_T :=
  if dir = false then LTC_SLEEP_TIMER_A else LTC_SLEEP_TIMER_B

/-- The timer an external call acts on, and whether the call leaves the
timer expired. -/
def Event.timerCall : Event → Option (TIM_OS_ID_T × Bool)
  | Event.startIdleTimer dir _ =>
    some (if dir = false then LTC_IDLE_TIMER_A else LTC_IDLE_TIMER_B, false)
  | Event.startSleepTimer dir _ => some (sleepTimerOf dir, false)
  | Event.timOsSetAndStartTimer id _ => some (id, false)
  | Event.timOsStopTimer id => some (id, false)
  | Event.timOsSetExpired id => some (id, true)
  | Event.timOsClearExpired id => some (id, false)
  | _ => none

/-- Modelled from the spec: the timer module of bmb_timer.h is not among the
driver sources.  The spec has `Init` "set initial timers expired so the first
request forces wake": a timer whose last call in the trace is
`timOsSetExpired` answers `timOsCheckExpired` with true.  The result is false
when the last call on the timer is another one or when there is none (what
the timer answers then depends on the time elapsed). -/
def expiredByLastCall (trace : List Event) (id : TIM_OS_ID_T) : Bool :=
  match (trace.reverse.filterMap Event.timerCall).find? (fun p => p.1 = id) with
  | some p => p.2
  | none => false

/-- A request with all members zero: an `APP_CL_REQ_INIT` request for
direction A. -/
def zeroReq : CL_REQ_T :=
  ⟨APP_CL_REQ_INIT, ⟨false, 0, false, false, false, false, false, false⟩, 0, 0, fun _ => 0, 0, 0,
    fun _ => 0, CL_DIAG_BER, fun _ => 0⟩

/-- A response with all members zero. -/
def zeroResp : CL_RESP_T :=
  ⟨CL_APP_SUCCESS, ⟨false, 0, false, false, false, false⟩, fun _ => 0, 0, fun _ => ⟨0, 0, 0⟩⟩

/-- The driver variables as the C start-up code leaves them (all zero), with
a valid transaction holding the request `req`. -/
def zeroDriver (req : CL_REQ_T) : Driver where
  eng := zeroState
  ltc831State := LTC831_IDLE_STATE
  ltc831PrevState := LTC831_IDLE_STATE
  ltc831ReturnState := LTC831_IDLE_STATE
  ltc831SubState := 0
  ltc831RegAddr := 0
  ltc831ReqParamFlags := ⟨false, 0, false, false, false, false, false, false⟩
  ltc831DiagFlags := ⟨false, 0, false⟩
  ltc831BerTime := 0
  ltc831BerDelta := 0
  ltc831TxCycleCount := 0
  ltc831ConfigReg := fun _ => 0
  clTransaction := ⟨true, 0, CL_RUNNING, req, zeroResp⟩

/-- A configuration for the concrete runs: four devices, sixteen cells and
two temperatures per device, bricks in 100 µV, `ltc831` as chip 0, BER
interval bounds 5 and 20 ms. -/
def sampleConfig : Config where
  CL_MAX_NUM_DEVS := 4
  LTC831_CHIP := 0
  DIAG_BER_MAX_MS := 20
  DIAG_BER_MIN_MS := 5
  CL_BER_FIXED := 0
  LTC831_MAX_CELLS_PER_DEV := 16
  LTC831_MAX_TEMPS_PER_DEV := 2
  PACK_BRICK_UV_b := 100
  PACK_STACK_UV_b := 1280
  LTC831_THERM_OFF := 0
  LTC831_THERM_MUL := 1
  sizeof_devErrorCount := 6
  sizeof_cfgRegValueW := 2
  sizeof_statusRegValueW := 2
  diagOfByte := fun b => ⟨b.testBit 0, (b >>> 1) % 4, b.testBit 3⟩
  errSelOfByte := fun b => ⟨b.testBit 0, b.testBit 1, b.testBit 2⟩
  tempLookup := fun v => v

/-- A register-read request of fuse row 3 from two devices in direction
`dir`, synchronous, without break detection. -/
def readReq (dir : Bool) : CL_REQ_T :=
  { zeroReq with
    reqId := APP_CL_REG_READ,
    reqFlags := ⟨dir, 2, true, false, false, false, false, false⟩,
    sRegRead_regAddr := 0x33 }

/-! ## The accessors of the shadow store -/

def LTC831_ITEMS_IN_REG_A_E : Nat := 3
def LTC831_CELL_UV_b : Nat := 80
def LTC831_STACK_UV_b : Nat := 1280
def LTC831_DIE_TEMP_GAIN_10K : Nat := 2178
def LTC831_DIE_TEMP_OFFSET_X10 : Nat := 2732
def LTC831_FUSE_MODULE_ID_REG : Nat := LTC831_RDFS_NO_TAG_CMD + 0x3

/-- The conversion of an integer to `VAR16`: the value modulo 2^16 in the
range -32768 .. 32767. -/
def toVAR16 (x : Int) : Int := (x + 32768) % 65536 - 32768

/-- The out-parameter records `PACK_DEV_REG_*_T` of pack.h: the flags of the
register and a value of type `α`. -/
structure PACK_DEV_REG_T (α : Type) where
  regFlags : PACK_DEV_REG_FLAGS_T
  regValue : α

/-- The word `*(devReg_p + item)` with
`devReg_p = (UVAR16 *)LTC831_GET_REG_BASE(devIdx) + ltc831RegMapConfig[regAddr].regOffset`. -/
def devRegWord (s : State) (devIdx regAddr item : Nat) : Nat :=
  (s.ltcDevData devIdx).devRegs ((regMap regAddr).regOffset + item)

/-- The flags `ltcDevData[devIdx].devRegFlags[regIdx]` with
`regIdx = ltc831RegMapConfig[regAddr].regFlagIdx`. -/
def devRegFlagsOf (s : State) (devIdx regAddr : Nat) : PACK_DEV_REG_FLAGS_T :=
  (s.ltcDevData devIdx).devRegFlags (regMap regAddr).regFlagIdx

/-- The scaling `(UVAR16)(((UVAR32)LTC831_CELL_UV_b * itemValue)/PACK_BRICK_UV_b)`
of the branch `LTC_DO_SCALE_CELLS` (which is 1). -/
def scaleCell (cfg : Config) (itemValue : Nat) : Nat :=
  (LTC831_CELL_UV_b * itemValue % 2 ^ 32) / cfg.PACK_BRICK_UV_b % 65536

/-- `ltc831SetWriteCfg`: `devReg` is `none` for a NULL pointer.  The copy of
`sizeof(LTC831_CFG_REG_T)` bytes fills the two words of
`ltc831ConfigReg[devIdx]`. -/
def ltc831SetWriteCfg (cfg : Config) (devIdx : Nat) (devReg : Option (PACK_DEV_REG_T (Nat → Nat)))
    (d : Driver) : CL_APP_respStatus_e × Driver :=
  match devReg with
  | none => (CL_APP_BAD_PARAMETER, d)
  | some r =>
    if cfg.CL_MAX_NUM_DEVS < devIdx then (CL_APP_BAD_PARAMETER, d)
    else
      (CL_APP_SUCCESS,
        { d with ltc831ConfigReg := fun w =>
            if w / 2 = devIdx then r.regValue (w % 2) else d.ltc831ConfigReg w })

/-- `ltc831GetCell`: a single cell voltage scaled to 100 µV per bit. -/
def ltc831GetCell (cfg : Config) (devIdx cellIdx : Nat) (devReg : PACK_DEV_REG_T Nat)
    (s : State) : CL_APP_respStatus_e × PACK_DEV_REG_T Nat :=
  let regAddr := (cellIdx / LTC831_ITEMS_IN_REG_A_E + LTC831_RDSNA_NO_TAG_CMD) % 256
  let itemIdx := cellIdx % LTC831_ITEMS_IN_REG_A_E
  if cfg.CL_MAX_NUM_DEVS < devIdx ∨ cfg.LTC831_MAX_CELLS_PER_DEV ≤ cellIdx then
    (CL_APP_BAD_PARAMETER, devReg)
  else
    (CL_APP_SUCCESS,
      ⟨devRegFlagsOf s devIdx regAddr, scaleCell cfg (devRegWord s devIdx regAddr itemIdx)⟩)

/-- `ltc831GetDieTemp`.  `LTC831_DIE_TEMP_GAIN_10K`, `1000U` and
`LTC831_DIE_TEMP_OFFSET_X10` are `unsigned int` constants, so the product,
the quotient and the difference are computed modulo 2^32 (the width of
`unsigned int` on the 32-bit target) before the cast to `VAR16`. -/
def ltc831GetDieTemp (cfg : Config) (devIdx : Nat) (devReg : PACK_DEV_REG_T Int)
    (s : State) : CL_APP_respStatus_e × PACK_DEV_REG_T Int :=
  let regAddr := LTC831_RDAUXB_NO_TAG_CMD
  if cfg.CL_MAX_NUM_DEVS < devIdx then
    (CL_APP_PARAM_OUT_OF_RANGE, devReg)
  else
    let itemValue := devRegWord s devIdx regAddr 1
    (CL_APP_SUCCESS,
      ⟨devRegFlagsOf s devIdx regAddr,
        toVAR16 (((LTC831_DIE_TEMP_GAIN_10K * itemValue % 2 ^ 32) / 1000 + 2 ^ 32
          - LTC831_DIE_TEMP_OFFSET_X10) % 2 ^ 32 : Nat)⟩)

/-- `ltc831GetTemp`: a single temperature scaled to 0.1 °C per bit. -/
def ltc831GetTemp (cfg : Config) (devIdx tempIdx : Nat) (devReg : PACK_DEV_REG_T Int)
    (s : State) : CL_APP_respStatus_e × PACK_DEV_REG_T Int :=
  let regAddr := LTC831_RDAUXA_NO_TAG_CMD
  if cfg.CL_MAX_NUM_DEVS < devIdx ∨ cfg.LTC831_MAX_TEMPS_PER_DEV ≤ tempIdx then
    (CL_APP_BAD_PARAMETER, devReg)
  else
    let itemIdx := if tempIdx = 0 then 0 else 2
    let itemValue := devRegWord s devIdx regAddr itemIdx
    (CL_APP_SUCCESS,
      ⟨devRegFlagsOf s devIdx regAddr,
        toVAR16 ((cfg.tempLookup itemValue : Int) - cfg.LTC831_THERM_OFF * cfg.LTC831_THERM_MUL)⟩)

/-- `ltc831GetStack`.  The value is the quotient before its conversion to the
type of the member `regValue` of `PACK_DEV_REG_PACK_V_T`. -/
def ltc831GetStack (cfg : Config) (devIdx : Nat) (devReg : PACK_DEV_REG_T Nat)
    (s : State) : CL_APP_respStatus_e × PACK_DEV_REG_T Nat :=
  let regAddr := LTC831_RDSNF_NO_TAG_CMD
  let itemIdx := 1
  if cfg.CL_MAX_NUM_DEVS < devIdx then
    (CL_APP_BAD_PARAMETER, devReg)
  else
    let itemValue := devRegWord s devIdx regAddr itemIdx
    (CL_APP_SUCCESS,
      ⟨devRegFlagsOf s devIdx regAddr,
        (LTC831_STACK_UV_b * itemValue % 2 ^ 32) / cfg.PACK_STACK_UV_b⟩)

/-- `ltc831GetV5`: the 5 V regulator voltage, the middle item of AUX group A. -/
def ltc831GetV5 (cfg : Config) (devIdx : Nat) (devReg : PACK_DEV_REG_T Nat)
    (s : State) : CL_APP_respStatus_e × PACK_DEV_REG_T Nat :=
  let regAddr := LTC831_RDAUXA_NO_TAG_CMD
  if cfg.CL_MAX_NUM_DEVS < devIdx then
    (CL_APP_BAD_PARAMETER, devReg)
  else
    (CL_APP_SUCCESS,
      ⟨devRegFlagsOf s devIdx regAddr, scaleCell cfg (devRegWord s devIdx regAddr 1)⟩)

/-- `ltc831GetV3`: the 3 V regulator voltage, the first item of AUX group B. -/
def ltc831GetV3 (cfg : Config) (devIdx : Nat) (devReg : PACK_DEV_REG_T Nat)
    (s : State) : CL_APP_respStatus_e × PACK_DEV_REG_T Nat :=
  let regAddr := LTC831_RDAUXB_NO_TAG_CMD
  if cfg.CL_MAX_NUM_DEVS < devIdx then
    (CL_APP_BAD_PARAMETER, devReg)
  else
    (CL_APP_SUCCESS,
      ⟨devRegFlagsOf s devIdx regAddr, scaleCell cfg (devRegWord s devIdx regAddr 0)⟩)

/-- `ltc831GetRef2`: the Ref2 voltage, the last item of AUX group B. -/
def ltc831GetRef2 (cfg : Config) (devIdx : Nat) (devReg : PACK_DEV_REG_T Nat)
    (s : State) : CL_APP_respStatus_e × PACK_DEV_REG_T Nat :=
  let regAddr := LTC831_RDAUXB_NO_TAG_CMD
  if cfg.CL_MAX_NUM_DEVS < devIdx then
    (CL_APP_BAD_PARAMETER, devReg)
  else
    (CL_APP_SUCCESS,
      ⟨devRegFlagsOf s devIdx regAddr, scaleCell cfg (devRegWord s devIdx regAddr 2)⟩)

/-- `ltc831GetReadCfg`: the copy fills the `sizeof(devReg->regValue)` bytes of
the value, word by word. -/
def ltc831GetReadCfg (cfg : Config) (devIdx : Nat) (devReg : PACK_DEV_REG_T (Nat → Nat))
    (s : State) : CL_APP_respStatus_e × PACK_DEV_REG_T (Nat → Nat) :=
  let regAddr := LTC831_RDCFG_NO_TAG_CMD
  if cfg.CL_MAX_NUM_DEVS < devIdx then
    (CL_APP_BAD_PARAMETER, devReg)
  else
    (CL_APP_SUCCESS,
      ⟨devRegFlagsOf s devIdx regAddr, fun k =>
        if k < cfg.sizeof_cfgRegValueW then devRegWord s devIdx regAddr k
        else devReg.regValue k⟩)

/-- `ltc831GetFuseModuleID`: the module ID, read from the third fuse row. -/
def ltc831GetFuseModuleID (cfg : Config) (devIdx : Nat) (devReg : PACK_DEV_REG_T Nat)
    (s : State) : CL_APP_respStatus_e × PACK_DEV_REG_T Nat :=
  let regAddr := LTC831_FUSE_MODULE_ID_REG
  if cfg.CL_MAX_NUM_DEVS < devIdx then
    (CL_APP_BAD_PARAMETER, devReg)
  else
    (CL_APP_SUCCESS, ⟨devRegFlagsOf s devIdx regAddr, devRegWord s devIdx regAddr 0⟩)

/-- `ltc831GetStatus`: the status register, copied word by word. -/
def ltc831GetStatus (cfg : Config) (devIdx : Nat) (devReg : PACK_DEV_REG_T (Nat → Nat))
    (s : State) : CL_APP_respStatus_e × PACK_DEV_REG_T (Nat → Nat) :=
  let regAddr := LTC831_RDSTAT_NO_TAG_CMD
  if cfg.CL_MAX_NUM_DEVS < devIdx then
    (CL_APP_BAD_PARAMETER, devReg)
  else
    (CL_APP_SUCCESS,
      ⟨devRegFlagsOf s devIdx regAddr, fun k =>
        if k < cfg.sizeof_statusRegValueW then devRegWord s devIdx regAddr k
        else devReg.regValue k⟩)

/-- `ltc831GetErrorStats`: the two outputs are the caller's variables and
their new values. -/
def ltc831GetErrorStats (cfg : Config) (i : Nat) (hostPecErrorCount devPecErrorCount : Nat)
    (s : State) : Nat × Nat :=
  if i < cfg.CL_MAX_NUM_DEVS then
    ((s.ltcDevData i).hostPecErrorCount, (s.ltcDevData i).devPecErrorCount)
  else (hostPecErrorCount, devPecErrorCount)

/-- The all-zero register flags. -/
def zeroRegFlags : PACK_DEV_REG_FLAGS_T := ⟨false, false, false, 0, false, false, false, false, 0⟩

/-- A shadow store in which the element of index `devIdx` has the word
`raw` as VDIODE (second word of AUX group B, word 38 of the register image)
with fresh data flagged on AUX group B, all other elements zero. -/
def dieTempStore (devIdx raw : Nat) : State :=
  { zeroState with
    ltcDevData := fun i =>
      if i = devIdx then
        { zeroDev with
          devRegs := fun w => if w = 38 then raw else 0,
          devRegFlags := fun r => if r = 14 then { zeroRegFlags with newData := true }
            else zeroRegFlags }
      else zeroDev }

/-! ## ltc831Task -/

def ltc831_pollAuxRegs : List Nat :=
  [LTC831_RDAUXA_NO_TAG_CMD, LTC831_RDAUXB_NO_TAG_CMD, LTC831_EOR]

def ltc831_pollConfigRegs : List Nat := [LTC831_RDCFG_NO_TAG_CMD, LTC831_EOR]

def ltc831_pollRegs : List Nat :=
  [LTC831_RDSTAT_NO_TAG_CMD, LTC831_RDSNA_NO_TAG_CMD, LTC831_RDSNB_NO_TAG_CMD,
   LTC831_RDSNC_NO_TAG_CMD, LTC831_RDSND_NO_TAG_CMD, LTC831_RDSNE_NO_TAG_CMD,
   LTC831_RDSNF_NO_TAG_CMD, LTC831_EOR]

/-- The access `list[ltc831RegAddr]` to one of the poll lists.  Past the end
of the list the C access is undefined; the embedding returns 0. -/
def pollReg (list : List Nat) (i : Nat) : Nat := list.getD i 0

/-- What the collaborators answer during one pass of the `while` loop of
`ltc831Task`: `first` serves the command of the pass (wake-up, passthrough,
read or write), `second` the PRIMEN or UNMUTE broadcast that sub-states 1 and
4 of the poll send after their last read, `packUpdate` is the status returned
by `packUpdate()`. -/
structure PassEnv where
  first : Env
  second : Env
  packUpdate : CL_APP_respStatus_e

/-- The collaborators of one invocation of `ltc831Task`: the answer of
`timOsCheckExpired( LTC_OS_TIMER_1 )` at entry and the answers during the
`k`-th pass of the loop. -/
structure TaskEnv where
  osTimerExpired : Bool
  pass : Nat → PassEnv

/-- Store the result of a protocol-engine call in the driver. -/
def Driver.withEng (d : Driver) (s : State) : Driver := { d with eng := s }

/-- The head of the `while` loop of `ltc831Task`, up to the `switch`. -/
def ltc831Task_enter (d : Driver) : Driver :=
  let d := d.modFlags (fun f => { f with newState := false })
  let d :=
    if d.ltc831State ≠ d.ltc831PrevState ∨ d.eng.ltc831Flags.stateReEnter then
      d.modFlags (fun f => { f with newState := true })
    else d
  let d := { d with ltc831PrevState := d.ltc831State }
  let d := d.modFlags (fun f => { f with stateReEnter := false })
  d.modFlags (fun f => { f with running := false })

/-- The case `LTC831_IDLE_STATE`. -/
def ltc831Task_idle (cfg : Config) (d : Driver) : Driver :=
  let d :=
    if d.eng.ltc831Flags.newState then d.emit (Event.timOsStopTimer LTC_OS_TIMER_1) else d
  if d.clTransaction.chip ≠ cfg.LTC831_CHIP then d
  else
    let d :=
      if d.clTransaction.state = CL_RUNNING then
        { d with clTransaction := { d.clTransaction with state := CL_COMPLETE } }
      else d
    if d.clTransaction.state = CL_COMPLETE then
      let d := d.modFlags (fun f => { f with stateReEnter := true })
      d.emit (Event.timOsSetAndStartTimer LTC_OS_TIMER_1 LTC831_NOMINAL_POLLING_RATE_MS)
    else d

/-- The case `LTC831_WAKEUP_STATE`. -/
def ltc831Task_wakeup (d : Driver) : Driver :=
  let d :=
    if d.eng.ltc831Flags.newState then
      { d.modFlags (fun f => { f with didFirst := false }) with ltc831SubState := 0 }
    else d
  if d.ltc831SubState < d.ltc831ReqParamFlags.numDevs + 1 then
    let d := d.withEng { d.eng with ltcFrames := { d.eng.ltcFrames with
      cmdDataTx := setAt (setAt d.eng.ltcFrames.cmdDataTx 0 LTC831_SNAP_CMD) 1 0xfb } }
    let d := d.emit (Event.spiTxBuffer d.eng.ltcFrames.cmdDataTx 3)
    let d := d.emit (Event.dirSelect d.eng.ltc831Flags.dir)
    let d := d.emit (Event.timDelaySync LTC831_T_DIR_US)
    let d := d.emit (Event.timOsSetAndStartTimer LTC_OS_TIMER_1 2)
    { d with ltc831SubState := (d.ltc831SubState + 1) % 256 }
  else
    let d := d.modFlags (fun f => { f with running := true })
    if d.ltc831ReqParamFlags.needLoopback ∧ ¬ d.eng.ltc831Flags.didFirst then
      let d := d.modFlags (fun f => { f with didFirst := true })
      let d := d.modFlags (fun f => { f with dir := !f.dir })
      { d with ltc831SubState := 0x00 }
    else
      let d := d.modFlags (fun f => { f with didFirst := false })
      let d := { d with ltc831State := d.ltc831ReturnState }
      { d with ltc831ReturnState := LTC831_NULL_STATE }

/-- The case `LTC831_CL_PASSTHROUGH_STATE`.  The received bytes go to the
passthrough data of the response when `ltc831SendClCmd` starts the transfer,
that is when it is entered with `waitDMA` clear. -/
def ltc831Task_passthrough (pe : PassEnv) (d : Driver) (status : LTC_STATUS_E) :
    Driver × LTC_STATUS_E :=
  let d :=
    if d.eng.ltc831Flags.newState then
      { d with ltc831SubState := 0 }.modFlags (fun f => { f with dir := d.ltc831ReqParamFlags.dir })
    else d
  if d.ltc831SubState = 0 then
    let d := d.withEng
      (ltc831WakeupIdle pe.first d.eng.ltc831Flags.dir (d.ltc831ReqParamFlags.numDevs % 256) d.eng)
    let d := { d with ltc831SubState := (d.ltc831SubState + 1) % 256 }
    (d.modFlags (fun f => { f with running := true }), status)
  else if d.ltc831SubState = 1 then
    let started := !d.eng.ltc831Flags.waitDMA
    let r := ltc831SendClCmd pe.first d.ltc831ReqParamFlags.synchronous d.eng.ltc831Flags.dir
      d.clTransaction.req.sPassthrough_data (fun _ s => s) d.clTransaction.req.paramLength
      (d.ltc831ReqParamFlags.numDevs % 256) d.eng
    let d := d.withEng r.2
    let d :=
      if started then
        { d with clTransaction := { d.clTransaction with
          resp := { d.clTransaction.resp with sPassthrough_data := pe.first.rx } } }
      else d
    let status := r.1
    if status ≠ LTC_DEFERRED then
      let d := d.withEng { d.eng with ltcFrames := { d.eng.ltcFrames with
        respParamLengthB := d.clTransaction.req.paramLength,
        rxNumDevs := (d.clTransaction.req.reqFlags.numDevs &&& 0xFF) % 256 } }
      let d := { d with ltc831State := LTC831_COMMAND_COMPLETE_STATE }
      (d.modFlags (fun f => { f with running := true }), status)
    else (d, status)
  else (d, status)

/-- The case `LTC831_REG_READ_STATE`. -/
def ltc831Task_regRead (u : Util) (pe : PassEnv) (d : Driver) : Driver × LTC_STATUS_E :=
  let d :=
    if d.eng.ltc831Flags.newState then
      d.modFlags (fun f => { f with dir := d.ltc831ReqParamFlags.dir })
    else d
  let r := ltc831ReadCmd u pe.first
    ⟨false, d.ltc831ReqParamFlags.synchronous, d.ltc831ReqParamFlags.useTag, false,
      d.ltc831ReqParamFlags.needLoopback⟩
    d.clTransaction.req.tag (d.ltc831ReqParamFlags.numDevs &&& 0xFF)
    d.clTransaction.req.sRegRead_regAddr (some (fun _ => 0)) d.eng
  let d := d.withEng r.2
  let status := r.1
  if status ≠ LTC_DEFERRED then
    let d := { d with ltc831State := LTC831_COMMAND_COMPLETE_STATE }
    (d.modFlags (fun f => { f with running := true }), status)
  else (d, status)

/-- The case `LTC831_REG_WRITE_STATE`.  The copy of `sizeof(ltc831ConfigReg)`
bytes fills the two words of each of the `CL_MAX_NUM_DEVS` elements. -/
def ltc831Task_regWrite (cfg : Config) (u : Util) (pe : PassEnv) (d : Driver) :
    Driver × LTC_STATUS_E :=
  let d :=
    if d.eng.ltc831Flags.newState then
      d.modFlags (fun f => { f with dir := d.ltc831ReqParamFlags.dir })
    else d
  let d :=
    if LTC831_WRCFG_CMD = d.clTransaction.req.sRegWrite_regAddr then
      { d with ltc831ConfigReg := fun w =>
          if w < 2 * cfg.CL_MAX_NUM_DEVS then d.clTransaction.req.sRegWrite_regData w
          else d.ltc831ConfigReg w }
    else d
  let r := ltc831WriteCmd u pe.first
    ⟨false, d.ltc831ReqParamFlags.synchronous, false, d.ltc831ReqParamFlags.needResponse,
      d.ltc831ReqParamFlags.needLoopback⟩
    (d.ltc831ReqParamFlags.numDevs &&& 0xFF)
    d.clTransaction.req.sRegWrite_regAddr (some d.clTransaction.req.sRegWrite_regData) d.eng
  let d := d.withEng r.2
  let status := r.1
  if status ≠ LTC_DEFERRED then
    let d := { d with ltc831State := LTC831_COMMAND_COMPLETE_STATE }
    (d.modFlags (fun f => { f with running := true }), status)
  else (d, status)

/-- The case `LTC831_BER_STATE`. -/
def ltc831Task_ber (cfg : Config) (d : Driver) : Driver :=
  if ¬ d.ltc831DiagFlags.running then
    let d := { d with ltc831State := LTC831_IDLE_STATE }
    d.modFlags (fun f => { f with running := true })
  else if ¬ d.eng.ltc831Flags.didReturn then
    let d := { d with ltc831ReturnState := d.ltc831State }
    let d := d.modFlags (fun f => { f with running := true })
    { d with ltc831State := LTC831_DEV_POLL_STATE }
  else
    let d :=
      if d.ltc831DiagFlags.berMode ≠ cfg.CL_BER_FIXED then
        let d :=
          if d.ltc831DiagFlags.dir then
            { d with ltc831BerTime := (d.ltc831BerTime + d.ltc831BerDelta) % 65536 }
          else
            { d with ltc831BerTime := (d.ltc831BerTime + 65536 - d.ltc831BerDelta % 65536) % 65536 }
        if d.ltc831BerTime ≥ cfg.DIAG_BER_MAX_MS then
          { d with ltc831BerTime := cfg.DIAG_BER_MAX_MS,
                   ltc831DiagFlags := { d.ltc831DiagFlags with dir := !d.ltc831DiagFlags.dir } }
        else if d.ltc831BerTime ≤ cfg.DIAG_BER_MIN_MS then
          { d with ltc831BerTime := cfg.DIAG_BER_MIN_MS,
                   ltc831DiagFlags := { d.ltc831DiagFlags with dir := !d.ltc831DiagFlags.dir } }
        else d
      else d
    let d := d.emit (Event.timOsSetAndStartTimer LTC_OS_TIMER_1 d.ltc831BerTime)
    d.modFlags (fun f => { f with didReturn := false })

/-- The flags `{ .otpPort, .synchronous }` of the MUTE and PRIMEN broadcasts
of the poll. -/
def pollBroadcastFlags (d : Driver) : LTC_PARAM_FLAGS_T :=
  ⟨d.ltc831ReqParamFlags.otpPort, d.ltc831ReqParamFlags.synchronous, false, false, false⟩

/-- The flags `{ .otpPort, .useTag, .synchronous, .doBreakDetect }` of the
register reads of the poll. -/
def pollReadFlags (d : Driver) : LTC_PARAM_FLAGS_T :=
  ⟨d.ltc831ReqParamFlags.otpPort, d.ltc831ReqParamFlags.synchronous,
    d.ltc831ReqParamFlags.useTag, false, d.ltc831ReqParamFlags.needLoopback⟩

/-- Sub-state 0 of the poll: MUTE in both directions when balancing. -/
def ltc831Task_poll0 (u : Util) (pe : PassEnv) (d : Driver) (status : LTC_STATUS_E) :
    Driver × LTC_STATUS_E :=
  let d :=
    if ¬ d.eng.ltc831Flags.didFirst then d.modFlags (fun f => { f with newConvert := true })
    else d.modFlags (fun f => { f with dir := !f.dir })
  let r : Driver × LTC_STATUS_E :=
    if d.eng.ltc831Flags.activeBalance then
      let r := ltc831WriteCmd u pe.first (pollBroadcastFlags d)
        (d.ltc831ReqParamFlags.numDevs &&& 0xFF) LTC831_MUTE_CMD none d.eng
      (d.withEng r.2, r.1)
    else (d, status)
  let d := r.1
  let status := r.2
  if status ≠ LTC_DEFERRED then
    let d :=
      if ¬ d.eng.ltc831Flags.didFirst then d.modFlags (fun f => { f with didFirst := true })
      else
        let d := { d with ltc831SubState := (d.ltc831SubState + 1) % 256 }
        let d := d.modFlags (fun f => { f with didFirst := false })
        d.modFlags (fun f => { f with dir := d.ltc831ReqParamFlags.dir })
    (d.modFlags (fun f => { f with newEntry := true }), status)
  else (d, status)

/-- The part of sub-states 1 and 4 of the poll that follows the last read of
the list: the broadcast `cmd` with `flags` when balancing, then the next
sub-state.  Sub-state 1 clears `ltc831RegAddr` in all cases
(`resetAlways`), sub-state 4 only when it advances. -/
def ltc831Task_pollAdvance (u : Util) (pe : PassEnv) (flags : LTC_PARAM_FLAGS_T) (cmd : Nat)
    (resetAlways : Bool) (d : Driver) (status : LTC_STATUS_E) : Driver × LTC_STATUS_E :=
  let r : Driver × LTC_STATUS_E :=
    if d.eng.ltc831Flags.activeBalance then
      let r := ltc831WriteCmd u pe.second flags (d.ltc831ReqParamFlags.numDevs &&& 0xFF) cmd none
        d.eng
      let d := d.withEng r.2
      if r.1 ≠ LTC_DEFERRED then
        let d := { d with ltc831SubState := (d.ltc831SubState + 1) % 256 }
        (if resetAlways then d else { d with ltc831RegAddr := 0 }, r.1)
      else (d, r.1)
    else
      let d := { d with ltc831SubState := (d.ltc831SubState + 1) % 256 }
      (if resetAlways then d else { d with ltc831RegAddr := 0 }, status)
  if resetAlways then ({ r.1 with ltc831RegAddr := 0 }, r.2) else r

/-- Sub-state 1 of the poll: the auxiliary register groups, then PRIMEN when
balancing. -/
def ltc831Task_poll1 (u : Util) (pe : PassEnv) (d : Driver) : Driver × LTC_STATUS_E :=
  let r := ltc831ReadCmd u pe.first (pollReadFlags d) d.clTransaction.req.tag
    (d.ltc831ReqParamFlags.numDevs &&& 0xFF) (pollReg ltc831_pollAuxRegs d.ltc831RegAddr) none d.eng
  let d := d.withEng r.2
  let status := r.1
  if status ≠ LTC_DEFERRED then
    let d := { d with ltc831RegAddr := (d.ltc831RegAddr + 1) % 256 }
    let d := d.modFlags (fun f => { f with newEntry := true })
    if status = LTC_SUCCESS ∧ pollReg ltc831_pollAuxRegs d.ltc831RegAddr = LTC831_EOR then
      ltc831Task_pollAdvance u pe (pollBroadcastFlags d) LTC831_PRIMEN_CMD true d status
    else (d, status)
  else (d, status)

/-- Sub-state 2 of the poll: the configuration register group. -/
def ltc831Task_poll2 (u : Util) (pe : PassEnv) (d : Driver) : Driver × LTC_STATUS_E :=
  let r := ltc831ReadCmd u pe.first (pollReadFlags d) d.clTransaction.req.tag
    (d.ltc831ReqParamFlags.numDevs &&& 0xFF) (pollReg ltc831_pollConfigRegs d.ltc831RegAddr) none
    d.eng
  let d := d.withEng r.2
  let status := r.1
  if status ≠ LTC_DEFERRED then
    let d := { d with ltc831RegAddr := (d.ltc831RegAddr + 1) % 256 }
    let d := d.modFlags (fun f => { f with newEntry := true })
    if status = LTC_SUCCESS ∧ pollReg ltc831_pollConfigRegs d.ltc831RegAddr = LTC831_EOR then
      let d := { d with ltc831SubState := (d.ltc831SubState + 1) % 256 }
      ({ d with ltc831RegAddr := 0 }, status)
    else (d, status)
  else (d, status)

/-- Sub-state 3 of the poll: the SNAP broadcast. -/
def ltc831Task_poll3 (u : Util) (pe : PassEnv) (d : Driver) : Driver × LTC_STATUS_E :=
  let r := ltc831WriteCmd u pe.first
    ⟨d.ltc831ReqParamFlags.otpPort, d.ltc831ReqParamFlags.synchronous, false,
      d.ltc831ReqParamFlags.needResponse, false⟩
    (d.ltc831ReqParamFlags.numDevs &&& 0xFF) LTC831_SNAP_CMD none d.eng
  let d := d.withEng r.2
  let status := r.1
  if status ≠ LTC_DEFERRED then
    let d := { d with ltc831SubState := (d.ltc831SubState + 1) % 256 }
    (d.modFlags (fun f => { f with newEntry := true }), status)
  else (d, status)

/-- Sub-state 4 of the poll: the status register and the snapshot voltages,
then UNMUTE when balancing. -/
def ltc831Task_poll4 (u : Util) (pe : PassEnv) (d : Driver) : Driver × LTC_STATUS_E :=
  let r := ltc831ReadCmd u pe.first (pollReadFlags d) d.clTransaction.req.tag
    (d.ltc831ReqParamFlags.numDevs &&& 0xFF) (pollReg ltc831_pollRegs d.ltc831RegAddr) none d.eng
  let d := d.withEng r.2
  let status := r.1
  if status ≠ LTC_DEFERRED then
    let d := { d with ltc831RegAddr := (d.ltc831RegAddr + 1) % 256 }
    let d := d.modFlags (fun f => { f with newEntry := true })
    if status = LTC_SUCCESS ∧ pollReg ltc831_pollRegs d.ltc831RegAddr = LTC831_EOR then
      ltc831Task_pollAdvance u pe
        ⟨d.ltc831ReqParamFlags.otpPort, d.ltc831ReqParamFlags.synchronous, false, false,
          d.ltc831ReqParamFlags.needLoopback⟩
        LTC831_UNMUTE_CMD false d status
    else (d, status)
  else (d, status)

/-- Sub-state 5 of the poll: the fuse row with the module ID. -/
def ltc831Task_poll5 (u : Util) (pe : PassEnv) (d : Driver) : Driver × LTC_STATUS_E :=
  let r := ltc831ReadCmd u pe.first
    ⟨d.ltc831ReqParamFlags.otpPort, d.ltc831ReqParamFlags.synchronous, false, false,
      d.ltc831ReqParamFlags.needLoopback⟩
    d.clTransaction.req.tag (d.ltc831ReqParamFlags.numDevs &&& 0xFF) LTC831_FUSE_MODULE_ID_REG none
    d.eng
  let d := d.withEng r.2
  let status := r.1
  if status ≠ LTC_DEFERRED then
    let d := { d with ltc831SubState := (d.ltc831SubState + 1) % 256 }
    (d.modFlags (fun f => { f with newEntry := true }), status)
  else (d, status)

/-- Sub-state 6 of the poll: `packUpdate()`. -/
def ltc831Task_poll6 (pe : PassEnv) (d : Driver) (status : LTC_STATUS_E) :
    Driver × LTC_STATUS_E :=
  let d := d.emit Event.packUpdate
  let clStatus := pe.packUpdate
  let status := if clStatus ≠ CL_APP_SUCCESS then LTC_PACK_FAILURE else status
  let d := { d with ltc831SubState := (d.ltc831SubState + 1) % 256 }
  (d.modFlags (fun f => { f with newEntry := true }), status)

/-- Sub-state 7 of the poll: the write of the configuration registers. -/
def ltc831Task_poll7 (u : Util) (pe : PassEnv) (d : Driver) : Driver × LTC_STATUS_E :=
  let r := ltc831WriteCmd u pe.first
    ⟨d.ltc831ReqParamFlags.otpPort, d.ltc831ReqParamFlags.synchronous,
      d.ltc831ReqParamFlags.useTag, d.ltc831ReqParamFlags.useAck,
      d.ltc831ReqParamFlags.needLoopback⟩
    (d.ltc831ReqParamFlags.numDevs &&& 0xFF) LTC831_WRCFG_CMD (some d.ltc831ConfigReg) d.eng
  let d := d.withEng r.2
  let status := r.1
  if status ≠ LTC_DEFERRED then
    let d := { d with ltc831State := LTC831_COMMAND_COMPLETE_STATE }
    (d.modFlags (fun f => { f with newEntry := true }), status)
  else (d, status)

/-- The case `LTC831_DEV_POLL_STATE`. -/
def ltc831Task_poll (u : Util) (pe : PassEnv) (d : Driver) (status : LTC_STATUS_E) :
    Driver × LTC_STATUS_E :=
  let d :=
    if d.eng.ltc831Flags.newState then
      let d := { d with ltc831TxCycleCount := (d.ltc831TxCycleCount + 1) % 2 ^ 32 }
      let d := { d with ltc831SubState := 0 }
      let d := { d with ltc831RegAddr := 0 }
      d.modFlags (fun f => { f with didFirst := false })
    else d
  match d.ltc831SubState with
  | 0 => ltc831Task_poll0 u pe d status
  | 1 => ltc831Task_poll1 u pe d
  | 2 => ltc831Task_poll2 u pe d
  | 3 => ltc831Task_poll3 u pe d
  | 4 => ltc831Task_poll4 u pe d
  | 5 => ltc831Task_poll5 u pe d
  | 6 => ltc831Task_poll6 pe d status
  | 7 => ltc831Task_poll7 u pe d
  | _ => (d, status)

/-- The case `LTC831_COMMAND_COMPLETE_STATE`. -/
def ltc831Task_complete (d : Driver) (status : LTC_STATUS_E) : Driver :=
  let d :=
    if d.ltc831ReturnState ≠ LTC831_NULL_STATE then
      let d := { d with ltc831State := d.ltc831ReturnState }
      let d := d.modFlags (fun f => { f with didReturn := true })
      { d with ltc831ReturnState := LTC831_NULL_STATE }
    else
      let d := d.modFlags (fun f => { f with didReturn := false })
      let d := { d with clTransaction := { d.clTransaction with state := CL_COMPLETE } }
      let d := { d with clTransaction := { d.clTransaction with resp := { d.clTransaction.resp with
        status := ltc831ConvertStatus status,
        respFlags := { d.clTransaction.resp.respFlags with
          dir := d.ltc831ReqParamFlags.dir,
          gotLoopback := d.ltc831ReqParamFlags.needLoopback,
          gotResponse := d.ltc831ReqParamFlags.needResponse,
          synchronous := d.ltc831ReqParamFlags.synchronous,
          numDevs := d.eng.ltcFrames.rxNumDevs,
          tagFail := d.eng.ltcFrames.frameFlags.tagError } } } }
      let d := d.withEng { d.eng with respParamLength := d.eng.ltcFrames.respParamLengthB }
      { d with ltc831State := LTC831_IDLE_STATE }
  d.modFlags (fun f => { f with running := true })

/-- The case `LTC831_ERROR_STATE`. -/
def ltc831Task_error (d : Driver) : Driver :=
  let d :=
    if d.eng.ltc831Flags.newState then
      (d.emit (Event.timOsStopTimer LTC_OS_TIMER_1)).emit (Event.timOsClearExpired LTC_OS_TIMER_1)
    else d.emit (Event.timOsSetAndStartTimer LTC_OS_TIMER_1 500)
  d.modFlags (fun f => { f with running := true })

/-- The `switch ( ltc831State )` of one pass of the loop; the second
component is the local `status` after the pass. -/
def ltc831Task_switch (cfg : Config) (u : Util) (pe : PassEnv) (d : Driver)
    (status : LTC_STATUS_E) : Driver × LTC_STATUS_E :=
  match d.ltc831State with
  | LTC831_IDLE_STATE => (ltc831Task_idle cfg d, status)
  | LTC831_WAKEUP_STATE => (ltc831Task_wakeup d, status)
  | LTC831_CL_PASSTHROUGH_STATE => ltc831Task_passthrough pe d status
  | LTC831_REG_READ_STATE => ltc831Task_regRead u pe d
  | LTC831_REG_WRITE_STATE => ltc831Task_regWrite cfg u pe d
  | LTC831_BER_STATE => (ltc831Task_ber cfg d, status)
  | LTC831_DEV_POLL_STATE => ltc831Task_poll u pe d status
  | LTC831_COMMAND_COMPLETE_STATE => (ltc831Task_complete d status, status)
  | LTC831_ERROR_STATE => (ltc831Task_error d, status)
  | LTC831_NULL_STATE => (d, status)

/-- One pass of the `while ( ltc831Flags.running )` loop. -/
def ltc831Task_pass (cfg : Config) (u : Util) (pe : PassEnv) (d : Driver)
    (status : LTC_STATUS_E) : Driver × LTC_STATUS_E :=
  ltc831Task_switch cfg u pe (ltc831Task_enter d) status

/-- The loop `while ( ltc831Flags.running )`, entered with `running` set: at
most `fuel` passes, `k` counts the passes done.  The result is `none` when
the loop is still running after `fuel` passes. -/
def ltc831Task_loop (cfg : Config) (u : Util) (te : TaskEnv) :
    Nat → Nat → Driver → LTC_STATUS_E → Option Driver
  | 0, _, _, _ => none
  | fuel + 1, k, d, status =>
    let r := ltc831Task_pass cfg u (te.pass k) d status
    if r.1.eng.ltc831Flags.running then ltc831Task_loop cfg u te fuel (k + 1) r.1 r.2
    else some r.1

/-- `ltc831Task()`, with at most `fuel` passes of its loop. -/
def ltc831Task (cfg : Config) (u : Util) (te : TaskEnv) (fuel : Nat) (d : Driver) :
    Option Driver :=
  if (¬ te.osTimerExpired ∧ ¬ d.eng.ltc831Flags.newEntry ∧ ¬ d.eng.ltc831Flags.waitDMA) ∨
      ¬ d.clTransaction.reqValid then some d
  else
    let d := d.modFlags (fun f => { f with newEntry := false })
    let d := d.modFlags (fun f => { f with running := true })
    ltc831Task_loop cfg u te fuel 0 d LTC_SUCCESS

/-- The pass environment with the answer of `packUpdate()` replaced. -/
def PassEnv.setPackUpdate (pe : PassEnv) (st : CL_APP_respStatus_e) : PassEnv :=
  { pe with packUpdate := st }

/-- The task environment with the answer of `packUpdate()` replaced in every
pass. -/
def TaskEnv.setPackUpdate (te : TaskEnv) (st : Nat → CL_APP_respStatus_e) : TaskEnv :=
  { te with pass := fun k => (te.pass k).setPackUpdate (st k) }

/-- Run `ltc831Task` once more on the result of an earlier invocation. -/
def thenTask (cfg : Config) (u : Util) (te : TaskEnv) (fuel : Nat) (r : Option Driver) :
    Option Driver :=
  r.bind (ltc831Task cfg u te fuel)

/-- An environment in which the SPI transfers complete, nothing is received,
no timer has expired and `packUpdate()` returns `st`. -/
def quietEnv (st : CL_APP_respStatus_e) : TaskEnv :=
  ⟨false, fun _ => ⟨⟨fun _ => 0, true, false⟩, ⟨fun _ => 0, true, false⟩, st⟩⟩

/-- A pack-convert request for two devices in direction A, synchronous. -/
def pollReq : CL_REQ_T :=
  { zeroReq with
    reqId := APP_CL_PACK_CONVERT,
    reqFlags := ⟨false, 2, true, false, false, false, false, false⟩ }

/-- The driver in the middle of the poll cycle of `pollReq`, as sub-state 5
leaves it: `LTC831_DEV_POLL_STATE`, sub-state 6, `newEntry` set, no return
state. -/
def pollAtPackUpdate : Driver :=
  { zeroDriver pollReq with
    eng := { requestState 2 with
      ltc831Flags := { zeroState.ltc831Flags with newEntry := true } },
    ltc831State := LTC831_DEV_POLL_STATE,
    ltc831PrevState := LTC831_DEV_POLL_STATE,
    ltc831ReturnState := LTC831_NULL_STATE,
    ltc831SubState := 6,
    ltc831ReqParamFlags := pollReq.reqFlags,
    ltc831TxCycleCount := 1 }

/-- A shadow store in which every word of the register image of the element
`devIdx` is `raw`, all other elements zero. -/
def uniformStore (devIdx raw : Nat) : State :=
  { zeroState with
    ltcDevData := fun i => if i = devIdx then { zeroDev with devRegs := fun _ => raw } else zeroDev }

/-- A driver in `LTC831_BER_STATE` with the BER diagnostic running in a
non-fixed mode (`berMode` 1), interval `time`, step `delta` and direction
sign `dir` (`true` steps upward); `didReturn` tells whether the state is
entered on the return from a poll. -/
def berDriver (time delta : Nat) (dir didReturn : Bool) : Driver :=
  { zeroDriver zeroReq with
    eng := { zeroState with
      ltc831Flags := { zeroState.ltc831Flags with didReturn := didReturn } },
    ltc831State := LTC831_BER_STATE,
    ltc831PrevState := LTC831_WAKEUP_STATE,
    ltc831ReturnState := LTC831_NULL_STATE,
    ltc831DiagFlags := ⟨true, 1, dir⟩,
    ltc831BerTime := time,
    ltc831BerDelta := delta }

/-- One round of the BER diagnostic as the state machine runs it, without the
poll in the middle: the BER state entered with `didReturn` clear hands over to
the poll with itself as return state, `LTC831_COMMAND_COMPLETE_STATE` returns
to it with `didReturn` set, and the BER state then steps the interval and
programs the timer. -/
def berRound (cfg : Config) (d : Driver) : Driver :=
  ltc831Task_ber cfg (ltc831Task_complete (ltc831Task_ber cfg d) LTC_SUCCESS)

/-- The sweep 5, 8, 11, 14, 17, 20, 17, 14, 11, 8 and again, by position. -/
def berSweep (n : Nat) : Nat := [5, 8, 11, 14, 17, 20, 17, 14, 11, 8].getD (n % 10) 0

/-- The timer events of the first `n` rounds of the sweep that starts at 5:
the intervals `berSweep 1`, ..., `berSweep n`. -/
def berSweepEvents (n : Nat) : List Event :=
  (List.range n).map (fun k => Event.timOsSetAndStartTimer LTC_OS_TIMER_1 (berSweep (k + 1)))

/-- A BER diagnostic request: flags byte 11 (running, mode 1, direction sign
upward under `sampleConfig`), interval 5, step 3. -/
def berReq : CL_REQ_T :=
  { zeroReq with
    reqId := APP_CL_DIAG,
    reqFlags := ⟨false, 2, true, false, false, false, false, false⟩,
    sDiag_diagCmd := CL_DIAG_BER,
    sDiag_diagParams := fun i => [11, 5, 3].getD i 0 }

/-- The state `readSample` for a read against the chain head (direction B,
chain head A) with the pack layer limiting the chain to one device. -/
def cappedReadSample : State :=
  { readSample with
    ltc831Flags := { zeroState.ltc831Flags with dir := true },
    packApi := { zeroState.packApi with numDevs := 1 } }

/-- Driver state in front of `ltc831BuildCommand` for a SNAP broadcast
(address 0x2b, acknowledged) to `n` devices. -/
def snapSample (n : Nat) : State :=
  { zeroState with
    ltcParams := { zeroParams with spiCmd := LTC_REG_WRITE_CMD, addr := LTC831_SNAP_CMD,
                                   numDevs := n } }

/-- Driver state in front of `ltc831BuildCommand` for a tagged read of fuse
row 0 (address 0x30) from one device with tag 0x5A. -/
def readTagSample : State :=
  { zeroState with
    ltcParams := { zeroParams with
      flags := ⟨false, true, true, false, false⟩,
      spiCmd := LTC_REG_READ_TAG_CMD, addr := 0x30, tag := 0x5A, numDevs := 1 } }

/-- A response to `readTagSample` whose PEC 0x28EF is, under
`modelUtil 0x025B`, the PEC of the two payload bytes 0x34 0x12 and two zero
command-counter bits, the tag byte left out. -/
def tagResponsePayloadPec : List Nat := [0, 0, 0, 0x5A, 0x34, 0x12, 0x28, 0xEF]

/-- A response to `readTagSample` whose PEC 0x0D08 is, under
`modelUtil 0x025B`, the PEC of the tag byte 0x5A, the two payload bytes
0x34 0x12 and two zero command-counter bits. -/
def tagResponseBlockPec : List Nat := [0, 0, 0, 0x5A, 0x34, 0x12, 0x0D, 0x08]

/-! ## Reading aids for the poll cycle -/

/-- What a poll cycle leaves in the trace, seen from the chain: a command
frame handed to `spiTxRxData` (with its first byte, the address byte of the
header) or a call of `packUpdate()`. -/
inductive PollItem where
  | frame (addrByte : Nat)
  | packUpdate
  deriving DecidableEq, Repr

/-- The poll item of an external call; the wake-up pulses, delays, timer and
direction-select calls have none. -/
def Event.pollItem : Event → Option PollItem
  | Event.spiTxRxData tx _ => some (PollItem.frame (tx 0))
  | Event.packUpdate => some PollItem.packUpdate
  | _ => none

/-- The command frames and `packUpdate()` calls of a trace, in order. -/
def pollLog (trace : List Event) : List PollItem := trace.filterMap Event.pollItem

/-- The flags of the state machine that the protocol engine reads or leaves
alone: `running`, `stateReEnter`, `activeBalance`, `waitDMA`. -/
def pollFlagsOf (s : State) : Bool × Bool × Bool × Bool :=
  (s.ltc831Flags.running, s.ltc831Flags.stateReEnter, s.ltc831Flags.activeBalance,
    s.ltc831Flags.waitDMA)

/-- The step `t` of the protocol engine from `s` makes no external call and
leaves the flags of the state machine alone. -/
def Quiet (s t : State) : Prop := t.trace = s.trace ∧ pollFlagsOf t = pollFlagsOf s

/-- The header byte `ltc831BuildCommand` gives a read of `addr`: the address,
with `LTC831_TAGGED_CMD_MASK` set for a tagged read. -/
def readOpcode (useTag : Bool) (addr : Nat) : Nat :=
  if useTag then addr ||| LTC831_TAGGED_CMD_MASK else addr

/-- The driver at the `switch` of the first pass of the loop of
`ltc831Task`, for an invocation that gets past the entry test. -/
def ltc831Task_entry (d : Driver) : Driver :=
  ltc831Task_enter ((d.modFlags (fun f => { f with newEntry := false })).modFlags
    (fun f => { f with running := true }))

/-- The first pass of the loop of `ltc831Task` for an invocation that gets
past the entry test: the driver and the local `status` after the pass. -/
def ltc831Task_first (cfg : Config) (u : Util) (te : TaskEnv) (d : Driver) :
    Driver × LTC_STATUS_E :=
  ltc831Task_switch cfg u (te.pass 0) (ltc831Task_entry d) LTC_SUCCESS

/-- The result of `n` successive invocations of `ltc831Task`, invocation `k`
with the collaborators `te k`. -/
def taskRun (cfg : Config) (u : Util) (te : Nat → TaskEnv) (fuel : Nat) :
    Nat → Driver → Option Driver
  | 0, d => some d
  | n + 1, d => (taskRun cfg u te fuel n d).bind (ltc831Task cfg u (te n) fuel)

/-- The local `status` that invocation `i` of a run of `ltc831Task` has after
the first pass of its loop: the status of the read or write the pass made. -/
def taskRunStatus (cfg : Config) (u : Util) (te : Nat → TaskEnv) (fuel : Nat) (i : Nat)
    (d : Driver) : Option LTC_STATUS_E :=
  (taskRun cfg u te fuel i d).map (fun di => (ltc831Task_first cfg u (te i) di).2)

/-- The driver `d` inside a poll cycle of `d0` without balancing: in
`LTC831_DEV_POLL_STATE`, not newly entered, at sub-state `k` and list
position `r`, no DMA pending, with `items` sent since `d0`. -/
def PollAt (d0 : Driver) (k r : Nat) (items : List PollItem) (d : Driver) : Prop :=
  d.ltc831State = LTC831_DEV_POLL_STATE ∧ d.ltc831PrevState = LTC831_DEV_POLL_STATE ∧
  d.ltc831SubState = k ∧ d.ltc831RegAddr = r ∧
  d.eng.ltc831Flags.running = false ∧ d.eng.ltc831Flags.stateReEnter = false ∧
  d.eng.ltc831Flags.waitDMA = false ∧ d.eng.ltc831Flags.activeBalance = false ∧
  d.clTransaction = d0.clTransaction ∧ d.ltc831ReqParamFlags = d0.ltc831ReqParamFlags ∧
  d.ltc831ConfigReg = d0.ltc831ConfigReg ∧
  pollLog d.eng.trace = pollLog d0.eng.trace ++ items

/-- The sub-states `k` and list positions `r` at which a poll cycle without
balancing makes a read or a write. -/
def PollPc (k r : Nat) : Prop :=
  (k = 1 ∧ r < 2) ∨ (k = 2 ∧ r = 0) ∨ k = 3 ∨ (k = 4 ∧ r < 7) ∨ k = 5 ∨ k = 7

/-- An environment in which the idle timer has expired at every transfer, so
that `ltc831WakeupIdle` sends its wake-up pulses before each command frame;
the transfers complete, nothing is received and `packUpdate()` succeeds. -/
def wakingEnv : TaskEnv :=
  ⟨false, fun _ => ⟨⟨fun _ => 0, true, true⟩, ⟨fun _ => 0, true, true⟩, CL_APP_SUCCESS⟩⟩

/-- The driver as `ltc831ClCmdStart` leaves it for the pack-convert request
`pollReq` when the sleep timer has not expired: in `LTC831_DEV_POLL_STATE`
with `newEntry` set. -/
def pollStart : Driver :=
  (ltc831ClCmdStart sampleConfig (fun _ => false) (zeroDriver pollReq)).2

/-! ## The register image LTC831_REGS_T -/

/-- `LTC831_NUM_MAPPED_REGS`. -/
def LTC831_NUM_MAPPED_REGS : Nat := LTC_WRITE_OFF + 1

/-- The members of the packed struct `LTC831_REGS_T` in declaration order,
each with the address byte whose table row points at it and its size in
16-bit words (from the member types in ltc831_regs.h). -/
def ltc831RegsMembers : List (Nat × Nat) :=
  [ (0x01, 3), (0x02, 3), (0x03, 3), (0x04, 3), (0x05, 3), (0x06, 2),
    (0x07, 3), (0x08, 3), (0x09, 3), (0x0a, 3), (0x0b, 3), (0x0c, 2),
    (0x0d, 3), (0x0e, 3), (0x0f, 2), (0x10, 2), (0x11, 2),
    (0x12, 2), (0x13, 2), (0x14, 2), (0x15, 2),
    (0x30, 1), (0x31, 1), (0x32, 1), (0x33, 1), (0x34, 1), (0x35, 1),
    (0x36, 1), (0x37, 1), (0x38, 1), (0x39, 1) ]

/-- The size `sizeof(LTC831_REGS_T)/sizeof(UVAR16)` of the register image of
one device, in words. -/
def ltc831RegsWords : Nat := (ltc831RegsMembers.map Prod.snd).sum

/-! ## Reading aids for the wake-up frames -/

/-- The wake-up pulse of an external call: the two bytes of `tempData` and
the length handed to `spiTxData` by `ltc831WakeupIdle`. -/
def Event.pulse : Event → Option (Nat × Nat × Nat)
  | Event.spiTxData byte0 byte1 len => some (byte0, byte1, len)
  | _ => none

/-- The wake-up pulses of `ltc831WakeupIdle` in a trace, in order. -/
def pulseLog (trace : List Event) : List (Nat × Nat × Nat) := trace.filterMap Event.pulse

/-- The pulse `ltc831WakeupIdle` sends: MUTE when balancing, UNMUTE when
not. -/
def wakePulse (activeBalance : Bool) : Nat × Nat × Nat :=
  if activeBalance then (LTC831_MUTE_CMD, 0xdd, 1) else (LTC831_UNMUTE_CMD, 0xf2, 1)

/-- The state with the parameters of a write of `addr` for `numDevs`
devices, as `ltc831WriteCmd` hands it to `ltc831BuildCommand`. -/
def writeParamsOf (s : State) (flags : LTC_PARAM_FLAGS_T) (numDevs addr : Nat)
    (data_p : Option (Nat → Nat)) : State :=
  { s with ltcParams := ⟨flags, LTC_REG_WRITE_CMD, addr, 0, numDevs, data_p⟩ }

/-! ## Samples for the capped device count -/

/-- State in front of `LTC831_checkAck` after an acknowledged SNAP broadcast
to two devices against the chain head (direction B, chain head A) with the
pack layer limiting the chain to one device: the receive buffer holds the two
header bytes and the tail byte `0b00110000` (slot 0 acknowledged, slot 1
not). -/
def cappedAckSample : State :=
  { zeroState with
    ltc831Flags := { zeroState.ltc831Flags with dir := true },
    ltcParams := { zeroParams with
      spiCmd := LTC_REG_WRITE_CMD, addr := LTC831_SNAP_CMD, numDevs := 2 },
    ltcFrames := { zeroFrames with cmdDataRx := bufOf [0, 0, 0x30] },
    packApi := { zeroState.packApi with numDevs := 1 } }

/-- State in front of `LTC831_updateOutData` for a read of fuse row 0
(address 0x30, one word) from two devices in direction B with the pack layer
limiting the chain to one device; every shadow word of device 255 holds
0xBEEF and all other shadow words are zero. -/
def cappedOutSample : State :=
  { uniformStore 255 0xBEEF with
    ltc831Flags := { zeroState.ltc831Flags with dir := true },
    ltcParams := { zeroParams with
      spiCmd := LTC_REG_READ_CMD, addr := 0x30, numDevs := 2, data_p := some (fun _ => 0) },
    ltcFrames := { zeroFrames with regLengthW := 1 },
    packApi := { zeroState.packApi with numDevs := 1 } }

/-- A pack-convert request for no device (`numDevs = 0`) in direction A,
synchronous. -/
def pollReqNoDevs : CL_REQ_T :=
  { zeroReq with
    reqId := APP_CL_PACK_CONVERT,
    reqFlags := ⟨false, 0, true, false, false, false, false, false⟩ }

/-- The driver as `ltc831ClCmdStart` leaves it for the pack-convert request
`pollReqNoDevs` when the sleep timer has not expired. -/
def pollStartNoDevs : Driver :=
  (ltc831ClCmdStart sampleConfig (fun _ => false) (zeroDriver pollReqNoDevs)).2

/-- The outer state, the poll sub-state and the poll register index of a
driver. -/
def pollPosition (d : Driver) : LTC831_STATE_E × Nat × Nat :=
  (d.ltc831State, d.ltc831SubState, d.ltc831RegAddr)

/-- `ltc831SetActiveBalance( activeBalance )`. -/
def ltc831SetActiveBalance (activeBalance : Bool) (d : Driver) : Driver :=
  d.modFlags (fun f => { f with activeBalance := activeBalance })

/-- A pack-convert request for two devices in direction A, asynchronous. -/
def asyncPollReq : CL_REQ_T :=
  { zeroReq with
    reqId := APP_CL_PACK_CONVERT,
    reqFlags := ⟨false, 2, false, false, false, false, false, false⟩ }

/-- The driver as `ltc831ClCmdStart` leaves it for the pack-convert request
`asyncPollReq` after `ltc831SetActiveBalance( true )`, when the sleep timer
has not expired. -/
def balancingStart : Driver :=
  (ltc831ClCmdStart sampleConfig (fun _ => false)
    (ltc831SetActiveBalance true (zeroDriver asyncPollReq))).2

/-- Collaborators of a run of `ltc831Task` in which every transfer has
completed by the check that follows its start, except the PRIMEN or UNMUTE
broadcast of invocation `k`; nothing is received, no timer has expired and
`packUpdate()` succeeds. -/
def broadcastDeferredAt (k : Nat) : Nat → TaskEnv :=
  fun i => ⟨false, fun _ =>
    ⟨⟨fun _ => 0, true, false⟩, ⟨fun _ => 0, decide (i ≠ k), false⟩, CL_APP_SUCCESS⟩⟩

/-! ## Reading aids for the WAKEUP state -/

/-- What the WAKEUP state hands to the bus: a frame given to `spiTxData`
with its first two bytes and its length, or a level written to
`PRI_PORT_SEL`. -/
inductive WakeItem where
  | frame (byte0 byte1 len : Nat)
  | select (level : Bool)
  deriving DecidableEq, Repr

/-- The wake item of an external call. -/
def Event.wakeItem : Event → Option WakeItem
  | Event.spiTxBuffer tx len => some (WakeItem.frame (tx 0) (tx 1) len)
  | Event.dirSelect level => some (WakeItem.select level)
  | _ => none

/-- The frames handed to `spiTxData` from `cmdDataTx` and the port
selections in a trace, in order. -/
def wakeLog (trace : List Event) : List WakeItem := trace.filterMap Event.wakeItem

/-- What one pulse of the WAKEUP state hands to the bus with `ltc831Flags.dir`
equal to `dir`: the SNAP frame, then the port selection of `dir`. -/
def wakePass (dir : Bool) : List WakeItem :=
  [WakeItem.frame LTC831_SNAP_CMD 0xfb 3, WakeItem.select dir]

/-- The items of `k` successive pulses of the WAKEUP state in direction
`dir`. -/
def wakeRound (dir : Bool) : Nat → List WakeItem
  | 0 => []
  | k + 1 => wakeRound dir k ++ wakePass dir

/-- The driver `d` inside the WAKEUP state entered with `d0`, not newly
entered: at pulse count `k`, with direction `dir` and `didFirst` as given and
`items` handed to the bus since `d0`. -/
def WakeAt (d0 : Driver) (dir didFirst : Bool) (k : Nat) (items : List WakeItem) (d : Driver) :
    Prop :=
  d.ltc831State = LTC831_WAKEUP_STATE ∧ d.ltc831PrevState = LTC831_WAKEUP_STATE ∧
  d.ltc831SubState = k ∧ d.eng.ltc831Flags.dir = dir ∧
  d.eng.ltc831Flags.didFirst = didFirst ∧ d.eng.ltc831Flags.stateReEnter = false ∧
  d.ltc831ReqParamFlags = d0.ltc831ReqParamFlags ∧
  d.ltc831ReturnState = d0.ltc831ReturnState ∧ d.clTransaction.reqValid = true ∧
  wakeLog d.eng.trace = wakeLog d0.eng.trace ++ items

/-- Collaborators of an invocation of `ltc831Task` that the expiry of
`LTC_OS_TIMER_1` has released: the transfers complete, nothing is received
and `packUpdate()` succeeds. -/
def timerEnv : TaskEnv :=
  ⟨true, fun _ => ⟨⟨fun _ => 0, true, false⟩, ⟨fun _ => 0, true, false⟩, CL_APP_SUCCESS⟩⟩

/-- A pack-convert request for two devices in direction B with loopback
(break detection) requested, synchronous. -/
def loopbackPollReq : CL_REQ_T :=
  { zeroReq with
    reqId := APP_CL_PACK_CONVERT,
    reqFlags := ⟨true, 2, true, false, false, true, false, false⟩ }

/-- The driver as `ltc831ClCmdStart` leaves it for `loopbackPollReq` when the
sleep timer of the direction has expired: in `LTC831_WAKEUP_STATE` with
`LTC831_DEV_POLL_STATE` saved as return state. -/
def wakeStart : Driver :=
  (ltc831ClCmdStart sampleConfig (fun _ => true) (zeroDriver loopbackPollReq)).2

/-- A pack-convert request for 255 devices in direction A, synchronous. -/
def fullChainPollReq : CL_REQ_T :=
  { zeroReq with
    reqId := APP_CL_PACK_CONVERT,
    reqFlags := ⟨false, 255, true, false, false, false, false, false⟩ }

/-- The driver as `ltc831ClCmdStart` leaves it for `fullChainPollReq` when
the sleep timer of the direction has expired. -/
def wakeStartFullChain : Driver :=
  (ltc831ClCmdStart sampleConfig (fun _ => true) (zeroDriver fullChainPollReq)).2

/-! ## Samples for a pending DMA and for capped writes -/

/-- Command flags of an asynchronous request: no OTP port, not synchronous,
no tag, no ACK check, no break detection. -/
def asyncFlags : LTC_PARAM_FLAGS_T := ⟨false, false, false, false, false⟩

/-- An environment whose SPI transfer returns the bytes `bytes` and is not
complete when `spiCheckComplete` is asked, with the idle timer not expired. -/
def pendingEnvOf (bytes : List Nat) : Env := ⟨bufOf bytes, false, false⟩

/-- The driver after an asynchronous read of fuse row 0 (address 0x30) from
two devices whose transfer is still running when `ltc831ReadCmd` returns:
the call returned `LTC_DEFERRED` and left `waitDMA` set. -/
def pendingReadState : State :=
  (ltc831ReadCmd (modelUtil 0x025B) (pendingEnvOf goodResponse) asyncFlags 0 2 0x30 none
    zeroState).2

/-- The state `writeSwapSample` (a write of address 0x13 for two devices in
the chain-head direction) with the pack layer limiting the chain to one
device. -/
def cappedWriteSample : State :=
  { writeSwapSample with packApi := { zeroState.packApi with numDevs := 1 } }

/-- The state `snapSample 5` (a SNAP broadcast for five devices) with the
pack layer limiting the chain to one device. -/
def cappedSnapSample : State :=
  { snapSample 5 with packApi := { zeroState.packApi with numDevs := 1 } }

/-! ## Reading aids for directional attempts -/

/-- The part of `ltc831ReadCmd` behind a `ltcSendCommandFrame` that returned
`LTC_SUCCESS`: the parse block `ltc831ReadCmd_complete` and the copy of
`breakIdx` into `breakIdxPrev` that ends every call. -/
def ltc831ReadCmd_tail (u : Util) (s : State) : LTC_STATUS_E × State :=
  let r := ltc831ReadCmd_complete u s
  let s := r.2
  let s : State :=
    if (s.ltcBreakData s.ltc831Flags.dir).flags.breakString then
      s.modBreak s.ltc831Flags.dir (fun b => { b with breakIdxPrev := b.breakIdx })
    else s
  (r.1, s)

/-- One directional attempt of a read: the calls of `ltc831ReadCmd` up to the
call that runs the parse.  That is the call itself when it is entered with
the DMA pending (it starts no transfer and parses what is in the receive
buffer) and when it returns with no DMA pending (its transfer completed
within the call, or the call was refused); else the call has returned
`LTC_DEFERRED` with the DMA pending and the attempt is that call followed by
the re-entry, made with the collaborators `env2`. -/
def readAttempt (u : Util) (env env2 : Env) (flags : LTC_PARAM_FLAGS_T) (tag numDevs addr : Nat)
    (data_p : Option (Nat → Nat)) (s : State) : LTC_STATUS_E × State :=
  if s.ltc831Flags.waitDMA then ltc831ReadCmd u env flags tag numDevs addr data_p s
  else
    let r := ltc831ReadCmd u env flags tag numDevs addr data_p s
    if r.2.ltc831Flags.waitDMA then ltc831ReadCmd u env2 flags tag numDevs addr data_p r.2
    else r

/-- One directional attempt of a write: the calls of `ltc831WriteCmd` up to
the call that runs the ACK check.  That is the call itself when it is entered
with the DMA pending and when it returns with no DMA pending; else the call
has returned `LTC_DEFERRED` with the DMA pending and the attempt is that call
followed by the re-entry, made with the collaborators `env2`. -/
def writeAttempt (u : Util) (env env2 : Env) (flags : LTC_PARAM_FLAGS_T) (numDevs addr : Nat)
    (data_p : Option (Nat → Nat)) (s : State) : LTC_STATUS_E × State :=
  if s.ltc831Flags.waitDMA then ltc831WriteCmd u env flags numDevs addr data_p s
  else
    let r := ltc831WriteCmd u env flags numDevs addr data_p s
    if r.2.ltc831Flags.waitDMA then ltc831WriteCmd u env2 flags numDevs addr data_p r.2
    else r
/-- Command flags of an asynchronous break-detecting command without tag or
ACK check. -/
def asyncDetectFlags : LTC_PARAM_FLAGS_T := ⟨false, false, false, false, true⟩

/-- Command flags of an asynchronous break-detecting command with the ACK
check requested. -/
def asyncAckDetectFlags : LTC_PARAM_FLAGS_T := ⟨false, false, false, true, true⟩

/-! # Properties -/

/-! ## Basic facts about the helpers -/

@[simp] theorem setAt_same {α : Type} (f : Nat → α) (i : Nat) (v : α) : setAt f i v i = v := by
  simp [setAt]

theorem setAt_ne {α : Type} (f : Nat → α) {i j : Nat} (v : α) (h : j ≠ i) :
    setAt f i v j = f j := by
  simp [setAt, h]

@[simp] theorem forLoop_zero {σ : Type} (body : Nat → σ → σ) (s : σ) : forLoop 0 body s = s := rfl

@[simp] theorem forLoop_succ {σ : Type} (n : Nat) (body : Nat → σ → σ) (s : σ) :
    forLoop (n + 1) body s = body n (forLoop n body s) := rfl

theorem toU8_lt (x : Int) : toU8 x < 256 := by
  unfold toU8; omega

theorem rxDevIdxDest_inj (dir chainHead : Bool) (numDevs : Nat) {i j : Nat}
    (hi : i < 256) (hj : j < 256)
    (h : rxDevIdxDest dir chainHead numDevs i = rxDevIdxDest dir chainHead numDevs j) :
    i = j := by
  unfold rxDevIdxDest toU8 at h
  split at h <;> omega

/-! ## State updates: projections -/

@[simp] theorem modDev_ltcDevData_same (s : State) (d : Nat)
    (f : LTC831_DEV_DATA_T → LTC831_DEV_DATA_T) :
    (s.modDev d f).ltcDevData d = f (s.ltcDevData d) := by
  simp [State.modDev]

theorem modDev_ltcDevData_ne (s : State) {d e : Nat}
    (f : LTC831_DEV_DATA_T → LTC831_DEV_DATA_T) (h : e ≠ d) :
    (s.modDev d f).ltcDevData e = s.ltcDevData e := by
  simp [State.modDev, setAt_ne _ _ h]

@[simp] theorem modDev_ltcFrames (s : State) (d : Nat) (f : LTC831_DEV_DATA_T → LTC831_DEV_DATA_T) :
    (s.modDev d f).ltcFrames = s.ltcFrames := rfl
@[simp] theorem modDev_ltc831Flags (s : State) (d : Nat) (f : LTC831_DEV_DATA_T → LTC831_DEV_DATA_T) :
    (s.modDev d f).ltc831Flags = s.ltc831Flags := rfl
@[simp] theorem modDev_ltcParams (s : State) (d : Nat) (f : LTC831_DEV_DATA_T → LTC831_DEV_DATA_T) :
    (s.modDev d f).ltcParams = s.ltcParams := rfl
@[simp] theorem modDev_ltcBreakData (s : State) (d : Nat) (f : LTC831_DEV_DATA_T → LTC831_DEV_DATA_T) :
    (s.modDev d f).ltcBreakData = s.ltcBreakData := rfl
@[simp] theorem modDev_packApi (s : State) (d : Nat) (f : LTC831_DEV_DATA_T → LTC831_DEV_DATA_T) :
    (s.modDev d f).packApi = s.packApi := rfl
@[simp] theorem modDev_reqNumDevs (s : State) (d : Nat) (f : LTC831_DEV_DATA_T → LTC831_DEV_DATA_T) :
    (s.modDev d f).reqNumDevs = s.reqNumDevs := rfl
@[simp] theorem modDev_trace (s : State) (d : Nat) (f : LTC831_DEV_DATA_T → LTC831_DEV_DATA_T) :
    (s.modDev d f).trace = s.trace := rfl

@[simp] theorem modRegFlags_ltcDevData_same (s : State) (d r : Nat)
    (f : PACK_DEV_REG_FLAGS_T → PACK_DEV_REG_FLAGS_T) :
    (s.modRegFlags d r f).ltcDevData d =
      { s.ltcDevData d with
        devRegFlags := setAt (s.ltcDevData d).devRegFlags r (f ((s.ltcDevData d).devRegFlags r)) } := by
  simp [State.modRegFlags]

theorem modRegFlags_ltcDevData_ne (s : State) {d e : Nat} (r : Nat)
    (f : PACK_DEV_REG_FLAGS_T → PACK_DEV_REG_FLAGS_T) (h : e ≠ d) :
    (s.modRegFlags d r f).ltcDevData e = s.ltcDevData e := by
  simp [State.modRegFlags, modDev_ltcDevData_ne _ _ h]

@[simp] theorem modRegFlags_ltcFrames (s : State) (d r : Nat) (f : PACK_DEV_REG_FLAGS_T → PACK_DEV_REG_FLAGS_T) :
    (s.modRegFlags d r f).ltcFrames = s.ltcFrames := rfl
@[simp] theorem modRegFlags_ltc831Flags (s : State) (d r : Nat) (f : PACK_DEV_REG_FLAGS_T → PACK_DEV_REG_FLAGS_T) :
    (s.modRegFlags d r f).ltc831Flags = s.ltc831Flags := rfl
@[simp] theorem modRegFlags_ltcParams (s : State) (d r : Nat) (f : PACK_DEV_REG_FLAGS_T → PACK_DEV_REG_FLAGS_T) :
    (s.modRegFlags d r f).ltcParams = s.ltcParams := rfl
@[simp] theorem modRegFlags_ltcBreakData (s : State) (d r : Nat) (f : PACK_DEV_REG_FLAGS_T → PACK_DEV_REG_FLAGS_T) :
    (s.modRegFlags d r f).ltcBreakData = s.ltcBreakData := rfl
@[simp] theorem modRegFlags_packApi (s : State) (d r : Nat) (f : PACK_DEV_REG_FLAGS_T → PACK_DEV_REG_FLAGS_T) :
    (s.modRegFlags d r f).packApi = s.packApi := rfl
@[simp] theorem modRegFlags_reqNumDevs (s : State) (d r : Nat) (f : PACK_DEV_REG_FLAGS_T → PACK_DEV_REG_FLAGS_T) :
    (s.modRegFlags d r f).reqNumDevs = s.reqNumDevs := rfl
@[simp] theorem modRegFlags_trace (s : State) (d r : Nat) (f : PACK_DEV_REG_FLAGS_T → PACK_DEV_REG_FLAGS_T) :
    (s.modRegFlags d r f).trace = s.trace := rfl

@[simp] theorem modBreak_ltcBreakData_same (s : State) (dir : Bool)
    (f : LTC831_BREAK_DATA_T → LTC831_BREAK_DATA_T) :
    (s.modBreak dir f).ltcBreakData dir = f (s.ltcBreakData dir) := by
  simp [State.modBreak]

theorem modBreak_ltcBreakData_ne (s : State) {dir e : Bool}
    (f : LTC831_BREAK_DATA_T → LTC831_BREAK_DATA_T) (h : e ≠ dir) :
    (s.modBreak dir f).ltcBreakData e = s.ltcBreakData e := by
  simp [State.modBreak, h]

@[simp] theorem modBreak_ltcDevData (s : State) (dir : Bool) (f : LTC831_BREAK_DATA_T → LTC831_BREAK_DATA_T) :
    (s.modBreak dir f).ltcDevData = s.ltcDevData := rfl
@[simp] theorem modBreak_ltcFrames (s : State) (dir : Bool) (f : LTC831_BREAK_DATA_T → LTC831_BREAK_DATA_T) :
    (s.modBreak dir f).ltcFrames = s.ltcFrames := rfl
@[simp] theorem modBreak_ltc831Flags (s : State) (dir : Bool) (f : LTC831_BREAK_DATA_T → LTC831_BREAK_DATA_T) :
    (s.modBreak dir f).ltc831Flags = s.ltc831Flags := rfl
@[simp] theorem modBreak_ltcParams (s : State) (dir : Bool) (f : LTC831_BREAK_DATA_T → LTC831_BREAK_DATA_T) :
    (s.modBreak dir f).ltcParams = s.ltcParams := rfl
@[simp] theorem modBreak_packApi (s : State) (dir : Bool) (f : LTC831_BREAK_DATA_T → LTC831_BREAK_DATA_T) :
    (s.modBreak dir f).packApi = s.packApi := rfl
@[simp] theorem modBreak_reqNumDevs (s : State) (dir : Bool) (f : LTC831_BREAK_DATA_T → LTC831_BREAK_DATA_T) :
    (s.modBreak dir f).reqNumDevs = s.reqNumDevs := rfl
@[simp] theorem modBreak_trace (s : State) (dir : Bool) (f : LTC831_BREAK_DATA_T → LTC831_BREAK_DATA_T) :
    (s.modBreak dir f).trace = s.trace := rfl

@[simp] theorem emit_ltcDevData (s : State) (e : Event) : (s.emit e).ltcDevData = s.ltcDevData := rfl
@[simp] theorem emit_ltcFrames (s : State) (e : Event) : (s.emit e).ltcFrames = s.ltcFrames := rfl
@[simp] theorem emit_ltc831Flags (s : State) (e : Event) : (s.emit e).ltc831Flags = s.ltc831Flags := rfl
@[simp] theorem emit_ltcParams (s : State) (e : Event) : (s.emit e).ltcParams = s.ltcParams := rfl
@[simp] theorem emit_ltcBreakData (s : State) (e : Event) : (s.emit e).ltcBreakData = s.ltcBreakData := rfl
@[simp] theorem emit_packApi (s : State) (e : Event) : (s.emit e).packApi = s.packApi := rfl
@[simp] theorem emit_reqNumDevs (s : State) (e : Event) : (s.emit e).reqNumDevs = s.reqNumDevs := rfl

/-! ## LTC831_checkAck -/

/-- One pass of the loop of `LTC831_checkAck` writes `ackFail` of the slot's
destination device and nothing else of the device records. -/
theorem checkAck_dev_fst_ltcDevData (N i : Nat) (s : State) (l : AckLocals) :
    (LTC831_checkAck_dev N i (s, l)).1.ltcDevData =
      setAt s.ltcDevData (rxDevIdxDest s.ltc831Flags.dir s.ltc831Flags.chainHead N i)
        { s.ltcDevData (rxDevIdxDest s.ltc831Flags.dir s.ltc831Flags.chainHead N i) with
          devRegFlags := setAt
            (s.ltcDevData (rxDevIdxDest s.ltc831Flags.dir s.ltc831Flags.chainHead N i)).devRegFlags
            (regMap s.ltcParams.addr).regFlagIdx
            { (s.ltcDevData (rxDevIdxDest s.ltc831Flags.dir s.ltc831Flags.chainHead N i)).devRegFlags
                (regMap s.ltcParams.addr).regFlagIdx with
              ackFail := decide (s.ltcFrames.cmdDataRx l.inData_p &&& l.bitMask ≠ 0) } } := by
  unfold LTC831_checkAck_dev
  simp only
  split <;> split <;> split <;> simp_all [State.modRegFlags, State.modDev, State.modBreak]

theorem checkAck_dev_frame (N i : Nat) (s : State) (l : AckLocals) :
    (LTC831_checkAck_dev N i (s, l)).1.ltcFrames.cmdDataRx = s.ltcFrames.cmdDataRx ∧
    (LTC831_checkAck_dev N i (s, l)).1.ltc831Flags = s.ltc831Flags ∧
    (LTC831_checkAck_dev N i (s, l)).1.ltcParams = s.ltcParams := by
  unfold LTC831_checkAck_dev
  simp only
  split <;> split <;> split <;> simp_all

theorem checkAck_dev_locals (N i : Nat) (s : State) (l : AckLocals) :
    (LTC831_checkAck_dev N i (s, l)).2 =
      ⟨if s.ltcFrames.cmdDataRx l.inData_p &&& l.bitMask ≠ 0 then LTC_ACK_FAILED else l.status,
       if l.bitMask = 0x03 then l.inData_p + 1 else l.inData_p,
       if l.bitMask = 0x03 then 0xc0 else l.bitMask >>> 2⟩ := by
  unfold LTC831_checkAck_dev
  simp only
  split <;> split <;> simp_all

/-- The mask `LTC831_checkAck` applies to the tail byte for slot `i`. -/
theorem ackMask_cases (k : Nat) (hk : k < 4) :
    (0xc0 >>> (2 * k) = 0x03 ↔ k = 3) ∧ (0xc0 >>> (2 * k)) >>> 2 = 0xc0 >>> (2 * (k + 1)) := by
  interval_cases k <;> simp

/-- Loop invariant of `LTC831_checkAck`: position of the read pointer and of
the bit mask, and the parts of the state the loop leaves alone. -/
theorem checkAck_loop_inv (N : Nat) (s : State) (st : LTC_STATUS_E) (n : Nat) :
    let r := forLoop n (LTC831_checkAck_dev N) (s, ⟨st, 2, 0xc0⟩)
    r.2.inData_p = 2 + n / 4 ∧ r.2.bitMask = 0xc0 >>> (2 * (n % 4)) ∧
    r.1.ltcFrames.cmdDataRx = s.ltcFrames.cmdDataRx ∧
    r.1.ltc831Flags = s.ltc831Flags ∧ r.1.ltcParams = s.ltcParams := by
  induction n with
  | zero => simp
  | succ n ih =>
    simp only [forLoop_succ] at ih ⊢
    obtain ⟨h1, h2, h3, h4, h5⟩ := ih
    generalize forLoop n (LTC831_checkAck_dev N) (s, ⟨st, 2, 0xc0⟩) = r at *
    obtain ⟨s1, l1⟩ := r
    have hf := checkAck_dev_frame N n s1 l1
    have hl := checkAck_dev_locals N n s1 l1
    simp only at h1 h2 h3 h4 h5
    refine ⟨?_, ?_, by rw [hf.1, h3], by rw [hf.2.1, h4], by rw [hf.2.2, h5]⟩
    · rw [hl]; simp only [h1, h2]
      have hk : n % 4 < 4 := Nat.mod_lt _ (by decide)
      have := (ackMask_cases (n % 4) hk).1
      by_cases h3 : n % 4 = 3
      · rw [if_pos (this.2 h3)]; omega
      · rw [if_neg (fun h => h3 (this.1 h))]; omega
    · rw [hl]; simp only [h1, h2]
      have hk : n % 4 < 4 := Nat.mod_lt _ (by decide)
      have hm := ackMask_cases (n % 4) hk
      by_cases h3 : n % 4 = 3
      · rw [if_pos (hm.1.2 h3)]
        have : (n + 1) % 4 = 0 := by omega
        rw [this]; rfl
      · rw [if_neg (fun h => h3 (hm.1.1 h)), hm.2]
        have : (n + 1) % 4 = n % 4 + 1 := by omega
        rw [this]

/-! ## Bit-level facts -/

theorem testBit_three (m : Nat) : Nat.testBit 3 m = decide (m < 2) := by
  have h : (3 : Nat) = 2 ^ 2 - 1 := by norm_num
  rw [h, Nat.testBit_two_pow_sub_one]

/-- A two-bit mask selects exactly the two bits it covers. -/
theorem and_two_bit_mask_ne_zero (x j : Nat) :
    x &&& (3 <<< j) ≠ 0 ↔ (x.testBit (j + 1) = true ∨ x.testBit j = true) := by
  constructor
  · intro h
    by_contra hc
    push_neg at hc
    apply h
    apply Nat.eq_of_testBit_eq
    intro i
    rw [Nat.testBit_and, Nat.testBit_shiftLeft, testBit_three, Nat.zero_testBit]
    by_cases h1 : i = j
    · subst h1; simp [hc.2]
    · by_cases h2 : i = j + 1
      · subst h2; simp [hc.1]
      · have h3 : (decide (i ≥ j) && decide (i - j < 2)) = false := by
          simp only [Bool.and_eq_false_imp, decide_eq_true_eq, decide_eq_false_iff_not]
          omega
        rw [h3]; simp
  · intro h hz
    have h1 : ∀ i, (x &&& (3 <<< j)).testBit i = false := by
      intro i; rw [hz]; exact Nat.zero_testBit i
    rcases h with h | h
    · have := h1 (j + 1)
      rw [Nat.testBit_and, Nat.testBit_shiftLeft, testBit_three, h] at this
      simp at this
    · have := h1 j
      rw [Nat.testBit_and, Nat.testBit_shiftLeft, testBit_three, h] at this
      simp at this

/-- The acknowledge mask of slot `i` covers bits `7 - 2*(i mod 4)` and
`6 - 2*(i mod 4)`. -/
theorem ackMask_testBit (x k : Nat) (hk : k < 4) :
    x &&& (0xc0 >>> (2 * k)) ≠ 0 ↔
      (x.testBit (7 - 2 * k) = true ∨ x.testBit (6 - 2 * k) = true) := by
  have h : (0xc0 : Nat) >>> (2 * k) = 3 <<< (6 - 2 * k) := by
    interval_cases k <;> rfl
  rw [h, and_two_bit_mask_ne_zero]
  have : 6 - 2 * k + 1 = 7 - 2 * k := by omega
  rw [this]

/-- Loop invariant of `LTC831_checkAck`: the returned status and the
`ackFail` flags after `n` slots. -/
theorem checkAck_loop_result (N : Nat) (s : State) (n : Nat) (hn : n ≤ 256) :
    let r := forLoop n (LTC831_checkAck_dev N) (s, ⟨LTC_SUCCESS, 2, 0xc0⟩)
    (r.2.status = LTC_ACK_FAILED ↔
      ∃ i, i < n ∧ s.ltcFrames.cmdDataRx (2 + i / 4) &&& (0xc0 >>> (2 * (i % 4))) ≠ 0) ∧
    (∀ i, i < n →
      ((r.1.ltcDevData (rxDevIdxDest s.ltc831Flags.dir s.ltc831Flags.chainHead N i)).devRegFlags
        (regMap s.ltcParams.addr).regFlagIdx).ackFail =
      decide (s.ltcFrames.cmdDataRx (2 + i / 4) &&& (0xc0 >>> (2 * (i % 4))) ≠ 0)) := by
  induction n with
  | zero => simp
  | succ n ih =>
    have ih := ih (by omega)
    have hinv := checkAck_loop_inv N s LTC_SUCCESS n
    simp only [forLoop_succ] at ih hinv ⊢
    generalize forLoop n (LTC831_checkAck_dev N) (s, ⟨LTC_SUCCESS, 2, 0xc0⟩) = r at *
    obtain ⟨s1, l1⟩ := r
    obtain ⟨h1, h2, h3, h4, h5⟩ := hinv
    obtain ⟨ihs, iha⟩ := ih
    simp only at h1 h2 h3 h4 h5 ihs iha
    have hl := checkAck_dev_locals N n s1 l1
    have hd := checkAck_dev_fst_ltcDevData N n s1 l1
    rw [h1, h2, h3, h4, h5] at hd
    rw [h1, h2, h3] at hl
    constructor
    · rw [hl]
      simp only
      constructor
      · intro h
        by_cases hc : s.ltcFrames.cmdDataRx (2 + n / 4) &&& (0xc0 >>> (2 * (n % 4))) ≠ 0
        · exact ⟨n, by omega, hc⟩
        · rw [if_neg hc] at h
          obtain ⟨i, hi, hb⟩ := ihs.1 h
          exact ⟨i, by omega, hb⟩
      · rintro ⟨i, hi, hb⟩
        by_cases hc : s.ltcFrames.cmdDataRx (2 + n / 4) &&& (0xc0 >>> (2 * (n % 4))) ≠ 0
        · rw [if_pos hc]
        · rw [if_neg hc]
          have : i ≠ n := by rintro rfl; exact hc hb
          exact ihs.2 ⟨i, by omega, hb⟩
    · intro i hi
      rw [hd]
      by_cases hin : i = n
      · subst hin
        simp
      · have hne : rxDevIdxDest s.ltc831Flags.dir s.ltc831Flags.chainHead N i ≠
            rxDevIdxDest s.ltc831Flags.dir s.ltc831Flags.chainHead N n := by
          intro h
          exact hin (rxDevIdxDest_inj _ _ _ (by omega) (by omega) h)
        rw [setAt_ne _ _ hne]
        exact iha i (by omega)

/-- C8: for every device count of at least one (an 8-bit count) and every
receive buffer, `LTC831_checkAck` takes the acknowledgement of slot `i` from
bits `7 - 2*(i mod 4)` and `6 - 2*(i mod 4)` of tail byte `i / 4` (the bytes
after the two-byte command header), sets `ackFail` of the slot's device to
true exactly when one of the two bits is set and to false otherwise, and
returns `LTC_ACK_FAILED` exactly when some slot has a bit set. -/
theorem checkAck_two_bits_per_device (s : State)
    (hn : 1 ≤ s.ltcParams.numDevs) (hn8 : s.ltcParams.numDevs < 256) :
    (∀ i, i < s.ltcParams.numDevs →
      ((((LTC831_checkAck s).2.ltcDevData
          (rxDevIdxDest s.ltc831Flags.dir s.ltc831Flags.chainHead (effNumDevs s) i)).devRegFlags
            (regMap s.ltcParams.addr).regFlagIdx).ackFail = true ↔
        ((s.ltcFrames.cmdDataRx (LTC831_CMD_PKT_SIZE_B + i / 4)).testBit (7 - 2 * (i % 4)) = true ∨
         (s.ltcFrames.cmdDataRx (LTC831_CMD_PKT_SIZE_B + i / 4)).testBit (6 - 2 * (i % 4)) = true))) ∧
    ((LTC831_checkAck s).1 = LTC_ACK_FAILED ↔
      ∃ i, i < s.ltcParams.numDevs ∧
        ((s.ltcFrames.cmdDataRx (LTC831_CMD_PKT_SIZE_B + i / 4)).testBit (7 - 2 * (i % 4)) = true ∨
         (s.ltcFrames.cmdDataRx (LTC831_CMD_PKT_SIZE_B + i / 4)).testBit (6 - 2 * (i % 4)) = true)) := by
  have h := checkAck_loop_result (effNumDevs s)
    { s with ltcFrames := { s.ltcFrames with rxNumDevs := 0 } } s.ltcParams.numDevs (by omega)
  simp only at h
  obtain ⟨hs, ha⟩ := h
  have hk : ∀ i, i % 4 < 4 := fun i => Nat.mod_lt _ (by decide)
  constructor
  · intro i hi
    have := ha i hi
    simp only [LTC831_checkAck, LTC831_CMD_PKT_SIZE_B, effNumDevs] at this ⊢
    rw [this, decide_eq_true_eq, ackMask_testBit _ _ (hk i)]
  · simp only [LTC831_checkAck, LTC831_CMD_PKT_SIZE_B, effNumDevs] at hs ⊢
    rw [hs]
    constructor
    · rintro ⟨i, hi, hb⟩
      exact ⟨i, hi, (ackMask_testBit _ _ (hk i)).1 hb⟩
    · rintro ⟨i, hi, hb⟩
      exact ⟨i, hi, (ackMask_testBit _ _ (hk i)).2 hb⟩

/-- Witness for C8: five devices, tail bytes `0b00110001 0b10000000`; slot 1
carries the pattern `0b11`, so the call returns `LTC_ACK_FAILED`, slot 1 has
`ackFail` set and slot 0 has it clear. -/
theorem checkAck_two_bits_per_device_witness :
    (LTC831_checkAck ackSample).1 = LTC_ACK_FAILED ∧
    (((LTC831_checkAck ackSample).2.ltcDevData 1).devRegFlags LTC_WRITE_OFF).ackFail = true ∧
    ¬ (((LTC831_checkAck ackSample).2.ltcDevData 0).devRegFlags LTC_WRITE_OFF).ackFail = true :=
  have h := checkAck_two_bits_per_device ackSample (by decide) (by decide)
  ⟨h.2.2 ⟨1, by decide, Or.inl (by decide)⟩,
   (h.1 1 (by decide)).2 (Or.inl (by decide)),
   fun hc => absurd ((h.1 0 (by decide)).1 hc) (by decide)⟩

/-! ## ltc831ReadCmd / ltc831WriteCmd: parameter checks -/

theorem regMap_of_ge (addr : Nat) (h : 58 ≤ addr) :
    regMap addr = ⟨LTC831_REG_U, false, false, false, 0, 0, 0⟩ := by
  unfold regMap
  apply List.getD_eq_default
  simpa [ltc831RegMapConfig] using h

/-- Every address the table marks readable is at most the last fuse row. -/
theorem regMap_R_le (addr : Nat) (h : (regMap addr).type = LTC831_REG_R) :
    addr ≤ LTC831_RDFS_NO_TAG_CMD + LTC831_FS_ROW_END := by
  by_contra hc
  simp only [LTC831_RDFS_NO_TAG_CMD, LTC831_FS_ROW_END] at hc
  by_cases h58 : 58 ≤ addr
  · rw [regMap_of_ge addr h58] at h; exact absurd h (by decide)
  · have h1 : 54 ≤ addr := by omega
    have h2 : addr < 58 := by omega
    interval_cases addr <;> exact absurd h (by decide)

/-- C9: for every address whose descriptor is of kind R and every flag
setting, `ltc831ReadCmd` called with `numDevs = 0` while no DMA is pending
returns `LTC_BAD_PARAMETER`; the frame buffers and lengths, the command
parameters, the trace of transport calls (no frame is sent) and the shadow
store are as before the call. -/
theorem readCmd_zero_devs_bad_parameter (u : Util) (env : Env) (flags : LTC_PARAM_FLAGS_T)
    (tag addr : Nat) (data_p : Option (Nat → Nat)) (s : State)
    (hdma : s.ltc831Flags.waitDMA = false) (hR : (regMap addr).type = LTC831_REG_R) :
    (ltc831ReadCmd u env flags tag 0 addr data_p s).1 = LTC_BAD_PARAMETER ∧
    (ltc831ReadCmd u env flags tag 0 addr data_p s).2.ltcFrames = s.ltcFrames ∧
    (ltc831ReadCmd u env flags tag 0 addr data_p s).2.ltcParams = s.ltcParams ∧
    (ltc831ReadCmd u env flags tag 0 addr data_p s).2.trace = s.trace ∧
    (ltc831ReadCmd u env flags tag 0 addr data_p s).2.ltcDevData = s.ltcDevData := by
  have hle := regMap_R_le addr hR
  have hgt : ¬ addr > LTC831_RDFS_NO_TAG_CMD + LTC831_FS_ROW_END := by omega
  have hprep : ltc831ReadCmd_prepare u flags tag 0 addr data_p s = (LTC_BAD_PARAMETER, s) := by
    unfold ltc831ReadCmd_prepare
    simp [hR, hgt]
  unfold ltc831ReadCmd
  simp only [hdma, hprep]
  simp
  split <;> simp

/-- Witness for C9: a synchronous RDCVA (address 0x01) with zero devices from
the initial state. -/
theorem readCmd_zero_devs_bad_parameter_witness :
    (ltc831ReadCmd (modelUtil 0x025B) (envOf []) syncFlags 0 0 0x01 none zeroState).1
      = LTC_BAD_PARAMETER ∧
    (ltc831ReadCmd (modelUtil 0x025B) (envOf []) syncFlags 0 0 0x01 none zeroState).2.framesSent
      = 0 :=
  have h := readCmd_zero_devs_bad_parameter (modelUtil 0x025B) (envOf []) syncFlags 0 0x01 none
    zeroState (by decide) (by decide)
  ⟨h.1, by simp only [State.framesSent, h.2.2.2.1]; decide⟩

/-- C10 (what the code does): `ltc831WriteCmd` has no check of `numDevs`.  A
synchronous WRCFG (address 0x11) with zero devices from the initial state
returns `LTC_SUCCESS` after handing one frame to the SPI transport. -/
theorem writeCmd_zero_devs_sends_frame :
    (ltc831WriteCmd (modelUtil 0x025B) (envOf []) syncFlags 0 0x11 (some (fun _ => 0))
      zeroState).1 = LTC_SUCCESS ∧
    (ltc831WriteCmd (modelUtil 0x025B) (envOf []) syncFlags 0 0x11 (some (fun _ => 0))
      zeroState).2.framesSent = 1 := by
  constructor <;> decide

/-! ## LTC831_RxParse: the item loop -/

/-- The item loop of `LTC831_RxParse` when the block is not stored: the
register image is untouched, the read pointer moves over the words. -/
theorem rxParse_item_loop_skip (rx : Nat → Nat) (swap : Bool) (regs : Nat → Nat)
    (dp ip pi : Nat) (k : Nat) :
    let W := fun j =>
      if swap then ((rx (ip + 2 * j + 1) <<< 8) ||| rx (ip + 2 * j)) % 65536
      else ((rx (ip + 2 * j) <<< 8) ||| rx (ip + 2 * j + 1)) % 65536
    let r := forLoop k (LTC831_RxParse_item rx swap false) ⟨regs, dp, ip, pi⟩
    r.inData_p = ip + 2 * k ∧
    r.parsed_item = (if k = 0 then pi else W (k - 1)) ∧
    r.regs = regs := by
  induction k with
  | zero => simp
  | succ k ih =>
    simp only [forLoop_succ] at ih ⊢
    generalize forLoop k (LTC831_RxParse_item rx swap false) ⟨regs, dp, ip, pi⟩ = r at *
    obtain ⟨h1, _, h4⟩ := ih
    unfold LTC831_RxParse_item
    simp only [h1, h4, Bool.false_eq_true, if_false]
    refine ⟨by omega, by simp, trivial⟩

/-- The item loop of `LTC831_RxParse` when the block is stored: word `j` of
the block goes to word `devReg_p + j` of the register image. -/
theorem rxParse_item_loop_store (rx : Nat → Nat) (swap : Bool) (regs : Nat → Nat)
    (dp ip pi : Nat) (k : Nat) :
    let W := fun j =>
      if swap then ((rx (ip + 2 * j + 1) <<< 8) ||| rx (ip + 2 * j)) % 65536
      else ((rx (ip + 2 * j) <<< 8) ||| rx (ip + 2 * j + 1)) % 65536
    let r := forLoop k (LTC831_RxParse_item rx swap true) ⟨regs, dp, ip, pi⟩
    r.inData_p = ip + 2 * k ∧
    r.devReg_p = dp + k ∧
    r.parsed_item = (if k = 0 then pi else W (k - 1)) ∧
    (∀ w, r.regs w = if dp ≤ w ∧ w < dp + k then W (w - dp) else regs w) := by
  induction k with
  | zero =>
    simp only [forLoop_zero, Nat.mul_zero, Nat.add_zero, if_true, true_and]
    intro w
    have hc : ¬ (dp ≤ w ∧ w < dp) := by omega
    rw [if_neg hc]
  | succ k ih =>
    simp only [forLoop_succ] at ih ⊢
    generalize forLoop k (LTC831_RxParse_item rx swap true) ⟨regs, dp, ip, pi⟩ = r at *
    obtain ⟨h1, h2, _, h4⟩ := ih
    unfold LTC831_RxParse_item
    simp only [h1, h2, if_true]
    refine ⟨by omega, by omega, by simp, ?_⟩
    intro w
    by_cases hw : w = dp + k
    · subst hw
      have hc : dp ≤ dp + k ∧ dp + k < dp + (k + 1) := by omega
      rw [setAt_same, if_pos hc]
      simp
    · rw [setAt_ne _ _ hw, h4 w]
      by_cases hlt : dp ≤ w ∧ w < dp + k
      · have hc : dp ≤ w ∧ w < dp + (k + 1) := by omega
        rw [if_pos hlt, if_pos hc]
      · have hc : ¬ (dp ≤ w ∧ w < dp + (k + 1)) := by omega
        rw [if_neg hlt, if_neg hc]

theorem setAt_setAt {α : Type} (f : Nat → α) (i : Nat) (a b : α) :
    setAt (setAt f i a) i b = setAt f i b := by
  funext j; unfold setAt; split <;> rfl

theorem setAt_self {α : Type} (f : Nat → α) (i : Nat) : setAt f i (f i) = f := by
  funext j; unfold setAt; split
  · next h => rw [h]
  · rfl

/-- The flag-writing block of `LTC831_RxParse` changes the register flags of
the destination device and nothing else. -/
theorem rxParse_storeFlags_eq (d r : Nat) (crc : Bool) (cc tt : Nat) (s : State) :
    LTC831_RxParse_storeFlags d r crc cc tt s =
      { s with
        ltcDevData := setAt s.ltcDevData d ({ s.ltcDevData d with
          devRegFlags := setAt (s.ltcDevData d).devRegFlags r ({ (s.ltcDevData d).devRegFlags r with
            cmdCount := cc, dir := s.ltc831Flags.dir, crcError := crc, newData := true,
            tagFail :=
              if s.ltcParams.spiCmd = LTC_REG_READ_TAG_CMD ∧ s.ltcParams.flags.useTag = true then
                (if tt ≠ s.ltcParams.tag then true else false)
              else ((s.ltcDevData d).devRegFlags r).tagFail,
            tag := if s.ltcParams.spiCmd = LTC_REG_READ_TAG_CMD then tt
                   else ((s.ltcDevData d).devRegFlags r).tag }) }) } := by
  unfold LTC831_RxParse_storeFlags
  by_cases ht : s.ltcParams.spiCmd = LTC_REG_READ_TAG_CMD <;>
  cases hut : s.ltcParams.flags.useTag <;>
  simp [ht, hut, State.modRegFlags, State.modDev, setAt_setAt]

/-- The classification block of `LTC831_RxParse` changes the error counters
and `sna` of the destination device, the break data of the current direction
and `rxNumDevs`, and nothing else. -/
theorem rxParse_classify_eq (i d r : Nat) (crc ds : Bool) (item : Nat) (s : State) :
    LTC831_RxParse_classify i d r crc ds item s =
      { s with
        ltcDevData := setAt s.ltcDevData d ({ s.ltcDevData d with
          devRegFlags :=
            if crc = true ∧ item = 0xFFFF ∧ ds = true then
              setAt (s.ltcDevData d).devRegFlags r
                ({ (s.ltcDevData d).devRegFlags r with sna := true })
            else (s.ltcDevData d).devRegFlags,
          hostPecErrorCount :=
            if crc = true ∧ item ≠ 0xFFFF then ((s.ltcDevData d).hostPecErrorCount + 1) % 65536
            else (s.ltcDevData d).hostPecErrorCount,
          devPecErrorCount :=
            if crc = true ∧ item = 0xFFFF ∧ ds = true then
              ((s.ltcDevData d).devPecErrorCount + 1) % 65536
            else (s.ltcDevData d).devPecErrorCount }),
        ltcBreakData := fun x =>
          if x = s.ltc831Flags.dir then rxBreakEffect crc item i (s.ltcBreakData x)
          else s.ltcBreakData x,
        ltcFrames := { s.ltcFrames with
          rxNumDevs := if crc = true then s.ltcFrames.rxNumDevs
                       else (s.ltcFrames.rxNumDevs + 1) % 256 } } := by
  unfold LTC831_RxParse_classify rxBreakEffect
  cases crc <;> cases ds <;> by_cases hi : item = 0xFFFF <;>
    cases hfb : (s.ltcBreakData s.ltc831Flags.dir).flags.firstBreak <;>
    by_cases hgt : i > (s.ltcBreakData s.ltc831Flags.dir).breakIdx <;>
    simp [hi, hfb, hgt, State.modRegFlags, State.modDev, State.modBreak, setAt_setAt, setAt_self] <;>
    (funext x; by_cases hx : x = s.ltc831Flags.dir <;> simp [hx, hfb, hgt])

/-- One pass of the device loop of `LTC831_RxParse` in closed form: the
destination device gets `rxDevEffect`, the break data of the current
direction gets `rxBreakEffect`, `rxNumDevs` counts the block when its CRC is
good, `doStore` is written, and the read pointer moves over the block. -/
theorem rxParse_dev_eq (u : Util) (N rfi i : Nat) (s : State) (l : RxLocals) :
    LTC831_RxParse_dev u N rfi i (s, l) =
      ({ s with
          ltc831Flags := { s.ltc831Flags with doStore := rxDoStoreAt u s l.inData_p },
          ltcDevData := setAt s.ltcDevData
            (rxDevIdxDest s.ltc831Flags.dir s.ltc831Flags.chainHead N i)
            (rxDevEffect u s rfi l.inData_p l.parsed_item
              (s.ltcDevData (rxDevIdxDest s.ltc831Flags.dir s.ltc831Flags.chainHead N i))),
          ltcBreakData := fun x =>
            if x = s.ltc831Flags.dir then
              rxBreakEffect (rxCrcErrorAt u s l.inData_p)
                (rxItemsAt u s l.inData_p l.parsed_item
                  (s.ltcDevData (rxDevIdxDest s.ltc831Flags.dir s.ltc831Flags.chainHead N i)).devRegs).parsed_item
                i (s.ltcBreakData x)
            else s.ltcBreakData x,
          ltcFrames := { s.ltcFrames with
            rxNumDevs := if rxCrcErrorAt u s l.inData_p = true then s.ltcFrames.rxNumDevs
                         else (s.ltcFrames.rxNumDevs + 1) % 256 } },
       ⟨(rxItemsAt u s l.inData_p l.parsed_item
          (s.ltcDevData (rxDevIdxDest s.ltc831Flags.dir s.ltc831Flags.chainHead N i)).devRegs).inData_p
          + LTC831_PEC_SIZE_B,
        (rxItemsAt u s l.inData_p l.parsed_item
          (s.ltcDevData (rxDevIdxDest s.ltc831Flags.dir s.ltc831Flags.chainHead N i)).devRegs).parsed_item,
        if s.ltcParams.spiCmd = LTC_REG_READ_TAG_CMD then s.ltcFrames.cmdDataRx l.inData_p
        else l.tempTag⟩) := by
  unfold LTC831_RxParse_dev
  simp only [rxParse_storeFlags_eq, rxParse_classify_eq]
  unfold rxDevEffect rxItemsAt rxDoStoreAt rxCrcErrorAt rxTagLen
  by_cases hpec : rxComputedPec u s.ltcFrames.cmdDataRx s.ltcFrames.rxDataLengthB l.inData_p =
      rxReceivedPec s.ltcFrames.cmdDataRx s.ltcFrames.rxDataLengthB l.inData_p <;>
  cases hdf : s.ltc831Flags.didFirst <;>
  by_cases ht : s.ltcParams.spiCmd = LTC_REG_READ_TAG_CMD <;>
  simp [hpec, hdf, ht, State.modDev, setAt_setAt]
  all_goals (split <;> simp [*])

/-! ## LTC831_RxParse: the device loop -/

theorem rxSame_refl (s : State) : RxSame s s := by
  unfold RxSame; simp

theorem rxSame_tagLen {s t : State} (h : RxSame s t) : rxTagLen t = rxTagLen s := by
  unfold rxTagLen; rw [h.1]

theorem rxSame_stride {s t : State} (h : RxSame s t) : rxStride t = rxStride s := by
  unfold rxStride; rw [rxSame_tagLen h, h.2.2.2.2.2.2.1]

theorem rxSame_crcErrorAt (u : Util) {s t : State} (h : RxSame s t) (p : Nat) :
    rxCrcErrorAt u t p = rxCrcErrorAt u s p := by
  unfold rxCrcErrorAt; rw [h.2.2.2.2.1, h.2.2.2.2.2.1]

theorem rxSame_doStoreAt (u : Util) {s t : State} (h : RxSame s t) (p : Nat) :
    rxDoStoreAt u t p = rxDoStoreAt u s p := by
  unfold rxDoStoreAt; rw [rxSame_crcErrorAt u h, h.2.2.2.2.2.2.2.2.2.1]

theorem rxSame_itemsAt (u : Util) {s t : State} (h : RxSame s t) (p pi0 : Nat)
    (regs : Nat → Nat) : rxItemsAt u t p pi0 regs = rxItemsAt u s p pi0 regs := by
  unfold rxItemsAt
  rw [rxSame_doStoreAt u h, rxSame_tagLen h, h.1, h.2.2.2.2.1, h.2.2.2.2.2.2.1]

theorem rxSame_devEffect (u : Util) {s t : State} (h : RxSame s t) (rfi p pi0 : Nat)
    (dv : LTC831_DEV_DATA_T) : rxDevEffect u t rfi p pi0 dv = rxDevEffect u s rfi p pi0 dv := by
  unfold rxDevEffect
  rw [rxSame_doStoreAt u h, rxSame_crcErrorAt u h, rxSame_itemsAt u h, h.1, h.2.2.2.2.1,
    h.2.2.2.2.2.1, h.2.2.2.2.2.2.2.1]

/-- The item loop of `LTC831_RxParse` over the block at `p`: where the read
pointer ends, what `parsed_item` holds, and which words of the register image
are written. -/
theorem rxItemsAt_spec (u : Util) (s : State) (p pi0 : Nat) (regs : Nat → Nat) :
    (rxItemsAt u s p pi0 regs).inData_p = p + rxTagLen s + 2 * s.ltcFrames.regLengthW ∧
    (rxItemsAt u s p pi0 regs).parsed_item =
      (if s.ltcFrames.regLengthW = 0 then pi0
       else rxWordAt s p (s.ltcFrames.regLengthW - 1)) ∧
    (∀ w, (rxItemsAt u s p pi0 regs).regs w =
      if rxDoStoreAt u s p = true ∧ (regMap s.ltcParams.addr).regOffset ≤ w ∧
          w < (regMap s.ltcParams.addr).regOffset + s.ltcFrames.regLengthW then
        rxWordAt s p (w - (regMap s.ltcParams.addr).regOffset)
      else regs w) := by
  unfold rxItemsAt rxWordAt
  cases hds : rxDoStoreAt u s p
  · have h := rxParse_item_loop_skip s.ltcFrames.cmdDataRx (regMap s.ltcParams.addr).byte_swap
      regs (regMap s.ltcParams.addr).regOffset (p + rxTagLen s) pi0 s.ltcFrames.regLengthW
    simp only at h
    refine ⟨h.1, h.2.1, ?_⟩
    intro w
    rw [h.2.2]
    simp
  · have h := rxParse_item_loop_store s.ltcFrames.cmdDataRx (regMap s.ltcParams.addr).byte_swap
      regs (regMap s.ltcParams.addr).regOffset (p + rxTagLen s) pi0 s.ltcFrames.regLengthW
    simp only at h
    refine ⟨h.1, h.2.2.1, ?_⟩
    intro w
    rw [h.2.2.2 w]
    simp

theorem rxSame_wordAt {s t : State} (h : RxSame s t) (p j : Nat) :
    rxWordAt t p j = rxWordAt s p j := by
  unfold rxWordAt
  rw [rxSame_tagLen h, h.1, h.2.2.2.2.1]

theorem rxItemBefore_succ (s : State) (p0 n : Nat) :
    rxItemBefore s p0 (n + 1) =
      if s.ltcFrames.regLengthW = 0 then 0
      else rxWordAt s (p0 + n * rxStride s) (s.ltcFrames.regLengthW - 1) := by
  unfold rxItemBefore
  by_cases h : s.ltcFrames.regLengthW = 0
  · simp [h]
  · simp [h]

theorem rxItemBefore_of_zero (s : State) (p0 n : Nat) (h : s.ltcFrames.regLengthW = 0) :
    rxItemBefore s p0 n = 0 := by
  unfold rxItemBefore; simp [h]

/-- Loop invariant of `LTC831_RxParse`: after `n` slots the read pointer is
`n` blocks further, the devices of the first `n` slots carry `rxDevEffect` of
their block, every other device is untouched, and the break data of the
current direction is `rxBreakAfter`. -/
theorem rxParse_loop (u : Util) (N rfi : Nat) (s : State) (p0 tt0 : Nat) (n : Nat)
    (hn : n ≤ 256) :
    let r := forLoop n (LTC831_RxParse_dev u N rfi) (s, ⟨p0, 0, tt0⟩)
    RxSame s r.1 ∧
    r.2.inData_p = p0 + n * rxStride s ∧
    r.2.parsed_item = rxItemBefore s p0 n ∧
    (∀ e, (∀ i, i < n → e ≠ rxDevIdxDest s.ltc831Flags.dir s.ltc831Flags.chainHead N i) →
      r.1.ltcDevData e = s.ltcDevData e) ∧
    (∀ i, i < n →
      r.1.ltcDevData (rxDevIdxDest s.ltc831Flags.dir s.ltc831Flags.chainHead N i) =
        rxDevEffect u s rfi (p0 + i * rxStride s) (rxItemBefore s p0 i)
          (s.ltcDevData (rxDevIdxDest s.ltc831Flags.dir s.ltc831Flags.chainHead N i))) ∧
    (∀ x, r.1.ltcBreakData x =
      if x = s.ltc831Flags.dir then rxBreakAfter u s p0 (s.ltcBreakData x) n
      else s.ltcBreakData x) := by
  induction n with
  | zero =>
    refine ⟨rxSame_refl s, ?_, ?_, ?_, ?_, ?_⟩ <;> simp [rxItemBefore, rxBreakAfter]
  | succ n ih =>
    have ih := ih (by omega)
    simp only [forLoop_succ] at ih ⊢
    generalize forLoop n (LTC831_RxParse_dev u N rfi) (s, ⟨p0, 0, tt0⟩) = r at *
    obtain ⟨s1, l1⟩ := r
    obtain ⟨hsame, hp, hpi, hother, hdev, hbrk⟩ := ih
    simp only at hsame hp hpi hother hdev hbrk
    have hdir : s1.ltc831Flags.dir = s.ltc831Flags.dir := hsame.2.2.2.2.2.2.2.1
    have hch : s1.ltc831Flags.chainHead = s.ltc831Flags.chainHead := hsame.2.2.2.2.2.2.2.2.1
    have hit := rxItemsAt_spec u s (p0 + n * rxStride s) (rxItemBefore s p0 n)
      (s.ltcDevData (rxDevIdxDest s.ltc831Flags.dir s.ltc831Flags.chainHead N n)).devRegs
    have hfresh : s1.ltcDevData (rxDevIdxDest s.ltc831Flags.dir s.ltc831Flags.chainHead N n) =
        s.ltcDevData (rxDevIdxDest s.ltc831Flags.dir s.ltc831Flags.chainHead N n) := by
      apply hother
      intro i hi h
      have := rxDevIdxDest_inj _ _ _ (by omega) (by omega) h
      omega
    rw [rxParse_dev_eq]
    refine ⟨?_, ?_, ?_, ?_, ?_, ?_⟩
    · unfold RxSame at hsame ⊢
      simp only
      obtain ⟨h1, h2, h3, h4, h5, h6, h7, h8, h9, h10, h11⟩ := hsame
      exact ⟨h1, h2, h3, h4, h5, h6, h7, h8, h9, h10, h11⟩
    all_goals simp only [hdir, hch, hp, hpi, hfresh, rxSame_itemsAt u hsame,
      rxSame_crcErrorAt u hsame, rxSame_doStoreAt u hsame, rxSame_devEffect u hsame]
    · rw [hit.1]
      unfold rxStride
      simp only [LTC831_PEC_SIZE_B]
      ring
    · rw [hit.2.1, rxItemBefore_succ]
      by_cases hz : s.ltcFrames.regLengthW = 0
      · simp [hz, rxItemBefore_of_zero s p0 n hz]
      · simp [hz]
    · intro e he
      rw [setAt_ne _ _ (he n (by omega))]
      exact hother e (fun i hi => he i (by omega))
    · intro i hi
      by_cases hin : i = n
      · subst hin
        rw [setAt_same]
      · have hne : rxDevIdxDest s.ltc831Flags.dir s.ltc831Flags.chainHead N i ≠
            rxDevIdxDest s.ltc831Flags.dir s.ltc831Flags.chainHead N n := by
          intro h
          exact hin (rxDevIdxDest_inj _ _ _ (by omega) (by omega) h)
        rw [setAt_ne _ _ hne]
        exact hdev i (by omega)
    · intro x
      by_cases hx : x = s.ltc831Flags.dir
      · simp only [hx, if_true]
        rw [hbrk]
        simp only [if_true]
        rw [hit.2.1]
        simp only [rxBreakAfter, rxItemBefore_succ]
        by_cases hz : s.ltcFrames.regLengthW = 0
        · simp [hz, rxItemBefore_of_zero s p0 n hz]
        · simp [hz]
      · simp only [hx, if_false]
        rw [hbrk]
        simp only [hx, if_false]

/-- `LTC831_RxParse` as a whole: it returns `LTC_SUCCESS`; the device of slot
`i` carries `rxDevEffect` of block `i`, every device that is no slot's
destination is untouched, and the break data of the current direction is
`rxBreakAfter`. -/
theorem rxParse_spec (u : Util) (s : State) (hn : s.ltcParams.numDevs ≤ 256) :
    (LTC831_RxParse u s).1 = LTC_SUCCESS ∧
    RxSame s (LTC831_RxParse u s).2 ∧
    (∀ e, (∀ i, i < s.ltcParams.numDevs →
        e ≠ rxDevIdxDest s.ltc831Flags.dir s.ltc831Flags.chainHead (effNumDevs s) i) →
      (LTC831_RxParse u s).2.ltcDevData e = s.ltcDevData e) ∧
    (∀ i, i < s.ltcParams.numDevs →
      (LTC831_RxParse u s).2.ltcDevData
          (rxDevIdxDest s.ltc831Flags.dir s.ltc831Flags.chainHead (effNumDevs s) i) =
        rxDevEffect u s (regMap s.ltcParams.addr).regFlagIdx (rxBlockOff s i)
          (rxItemBefore s (rxBase s) i)
          (s.ltcDevData
            (rxDevIdxDest s.ltc831Flags.dir s.ltc831Flags.chainHead (effNumDevs s) i))) ∧
    (∀ x, (LTC831_RxParse u s).2.ltcBreakData x =
      if x = s.ltc831Flags.dir then
        rxBreakAfter u s (rxBase s) (s.ltcBreakData x) s.ltcParams.numDevs
      else s.ltcBreakData x) := by
  have hs0 : RxSame s { s with ltcFrames := { s.ltcFrames with frameFlags := ⟨false, false⟩ } } := by
    unfold RxSame; simp
  have h := rxParse_loop u (effNumDevs s) (regMap s.ltcParams.addr).regFlagIdx
    { s with ltcFrames := { s.ltcFrames with frameFlags := ⟨false, false⟩ } }
    (rxBase s) 0 s.ltcParams.numDevs hn
  simp only at h
  obtain ⟨h1, _, _, h4, h5, h6⟩ := h
  have hst : rxStride { s with ltcFrames := { s.ltcFrames with frameFlags := ⟨false, false⟩ } }
      = rxStride s := rxSame_stride hs0
  have hib : ∀ i, rxItemBefore
      { s with ltcFrames := { s.ltcFrames with frameFlags := ⟨false, false⟩ } } (rxBase s) i
      = rxItemBefore s (rxBase s) i := by
    intro i; unfold rxItemBefore; rw [hst, rxSame_wordAt hs0]
  have hba : ∀ b n, rxBreakAfter u
      { s with ltcFrames := { s.ltcFrames with frameFlags := ⟨false, false⟩ } } (rxBase s) b n
      = rxBreakAfter u s (rxBase s) b n := by
    intro b n
    induction n with
    | zero => rfl
    | succ n ih => simp only [rxBreakAfter, ih, hst, hib, rxSame_crcErrorAt u hs0]
  refine ⟨rfl, ?_, h4, ?_, ?_⟩
  · unfold RxSame at h1 ⊢
    exact h1
  · intro i hi
    have := h5 i hi
    rw [hst, hib, rxSame_devEffect u hs0] at this
    exact this
  · intro x
    have := h6 x
    rw [hba] at this
    exact this

/-! ## C2: commit rule of LTC831_RxParse -/

theorem rxDevEffect_store (u : Util) (s : State) (rfi p pi0 : Nat) (dv : LTC831_DEV_DATA_T)
    (h : rxDoStoreAt u s p = true) :
    ((rxDevEffect u s rfi p pi0 dv).devRegFlags rfi).cmdCount =
      rxCommandCounter s.ltcFrames.cmdDataRx s.ltcFrames.rxDataLengthB p ∧
    ((rxDevEffect u s rfi p pi0 dv).devRegFlags rfi).dir = s.ltc831Flags.dir ∧
    ((rxDevEffect u s rfi p pi0 dv).devRegFlags rfi).crcError = rxCrcErrorAt u s p ∧
    ((rxDevEffect u s rfi p pi0 dv).devRegFlags rfi).newData = true ∧
    (∀ j, j < s.ltcFrames.regLengthW →
      (rxDevEffect u s rfi p pi0 dv).devRegs ((regMap s.ltcParams.addr).regOffset + j) =
        rxWordAt s p j) := by
  unfold rxDevEffect
  simp only [h, if_true, setAt_same, true_and]
  intro j hj
  rw [(rxItemsAt_spec u s p pi0 dv.devRegs).2.2, h]
  have hc : true = true ∧ (regMap s.ltcParams.addr).regOffset ≤
      (regMap s.ltcParams.addr).regOffset + j ∧
      (regMap s.ltcParams.addr).regOffset + j <
        (regMap s.ltcParams.addr).regOffset + s.ltcFrames.regLengthW := by
    refine ⟨rfl, ?_, ?_⟩ <;> omega
  rw [if_pos hc]
  congr 1
  omega

theorem rxDevEffect_skip (u : Util) (s : State) (rfi p pi0 : Nat) (dv : LTC831_DEV_DATA_T)
    (h : rxDoStoreAt u s p = false) :
    (rxDevEffect u s rfi p pi0 dv).devRegs = dv.devRegs ∧
    (rxDevEffect u s rfi p pi0 dv).devRegFlags = dv.devRegFlags := by
  unfold rxDevEffect
  simp only [h, Bool.false_eq_true, if_false, and_true]
  funext w
  rw [(rxItemsAt_spec u s p pi0 dv.devRegs).2.2, h]
  simp

theorem rxDoStoreAt_eq (u : Util) (s : State) (p : Nat) :
    rxDoStoreAt u s p = (!rxCrcErrorAt u s p || !s.ltc831Flags.didFirst) := by
  unfold rxDoStoreAt
  cases rxCrcErrorAt u s p <;> cases s.ltc831Flags.didFirst <;> simp

/-- C2: in `LTC831_RxParse` (device count below 256) the block of slot `i` is
committed exactly when its CRC is good or `didFirst` is false.  (a) In that
case the flags `cmdCount`, `dir`, `crcError`, `newData` of the slot's device
and the shadow words of the register are written from the block.  (b) For a
block with a CRC error parsed while `didFirst` is true the device's shadow
words and all its per-register flags are as before the parse.  (c) A
`newData` flag that is true after the parse and was not before belongs to a
committed slot, whose shadow words the same parse has written. -/
theorem rxParse_commit_rule (u : Util) (s : State) (hn : s.ltcParams.numDevs < 256) :
    (∀ i, i < s.ltcParams.numDevs →
      (rxCrcErrorAt u s (rxBlockOff s i) = false ∨ s.ltc831Flags.didFirst = false) →
      ((((LTC831_RxParse u s).2.ltcDevData
          (rxDevIdxDest s.ltc831Flags.dir s.ltc831Flags.chainHead (effNumDevs s) i)).devRegFlags
            (regMap s.ltcParams.addr).regFlagIdx).cmdCount =
          rxCommandCounter s.ltcFrames.cmdDataRx s.ltcFrames.rxDataLengthB (rxBlockOff s i) ∧
       (((LTC831_RxParse u s).2.ltcDevData
          (rxDevIdxDest s.ltc831Flags.dir s.ltc831Flags.chainHead (effNumDevs s) i)).devRegFlags
            (regMap s.ltcParams.addr).regFlagIdx).dir = s.ltc831Flags.dir ∧
       (((LTC831_RxParse u s).2.ltcDevData
          (rxDevIdxDest s.ltc831Flags.dir s.ltc831Flags.chainHead (effNumDevs s) i)).devRegFlags
            (regMap s.ltcParams.addr).regFlagIdx).crcError = rxCrcErrorAt u s (rxBlockOff s i) ∧
       (((LTC831_RxParse u s).2.ltcDevData
          (rxDevIdxDest s.ltc831Flags.dir s.ltc831Flags.chainHead (effNumDevs s) i)).devRegFlags
            (regMap s.ltcParams.addr).regFlagIdx).newData = true ∧
       (∀ j, j < s.ltcFrames.regLengthW →
          ((LTC831_RxParse u s).2.ltcDevData
            (rxDevIdxDest s.ltc831Flags.dir s.ltc831Flags.chainHead (effNumDevs s) i)).devRegs
              ((regMap s.ltcParams.addr).regOffset + j) = rxWordAt s (rxBlockOff s i) j))) ∧
    (∀ i, i < s.ltcParams.numDevs →
      rxCrcErrorAt u s (rxBlockOff s i) = true → s.ltc831Flags.didFirst = true →
      (((LTC831_RxParse u s).2.ltcDevData
          (rxDevIdxDest s.ltc831Flags.dir s.ltc831Flags.chainHead (effNumDevs s) i)).devRegs =
        (s.ltcDevData
          (rxDevIdxDest s.ltc831Flags.dir s.ltc831Flags.chainHead (effNumDevs s) i)).devRegs ∧
       ((LTC831_RxParse u s).2.ltcDevData
          (rxDevIdxDest s.ltc831Flags.dir s.ltc831Flags.chainHead (effNumDevs s) i)).devRegFlags =
        (s.ltcDevData
          (rxDevIdxDest s.ltc831Flags.dir s.ltc831Flags.chainHead (effNumDevs s) i)).devRegFlags)) ∧
    (∀ e r, (((LTC831_RxParse u s).2.ltcDevData e).devRegFlags r).newData = true →
      ((s.ltcDevData e).devRegFlags r).newData = false →
      ∃ i, i < s.ltcParams.numDevs ∧
        e = rxDevIdxDest s.ltc831Flags.dir s.ltc831Flags.chainHead (effNumDevs s) i ∧
        r = (regMap s.ltcParams.addr).regFlagIdx ∧
        (rxCrcErrorAt u s (rxBlockOff s i) = false ∨ s.ltc831Flags.didFirst = false) ∧
        ∀ j, j < s.ltcFrames.regLengthW →
          ((LTC831_RxParse u s).2.ltcDevData e).devRegs
            ((regMap s.ltcParams.addr).regOffset + j) = rxWordAt s (rxBlockOff s i) j) := by
  obtain ⟨_, _, hother, hdev, _⟩ := rxParse_spec u s (by omega)
  have hds : ∀ i, (rxCrcErrorAt u s (rxBlockOff s i) = false ∨ s.ltc831Flags.didFirst = false) →
      rxDoStoreAt u s (rxBlockOff s i) = true := by
    intro i h
    rw [rxDoStoreAt_eq]
    rcases h with h | h <;> simp [h]
  refine ⟨?_, ?_, ?_⟩
  · intro i hi hc
    rw [hdev i hi]
    exact rxDevEffect_store u s _ _ _ _ (hds i hc)
  · intro i hi hc hd
    rw [hdev i hi]
    apply rxDevEffect_skip
    rw [rxDoStoreAt_eq, hc, hd]
    rfl
  · intro e r hnew hold
    by_cases hex : ∃ i, i < s.ltcParams.numDevs ∧
        e = rxDevIdxDest s.ltc831Flags.dir s.ltc831Flags.chainHead (effNumDevs s) i
    · obtain ⟨i, hi, rfl⟩ := hex
      rw [hdev i hi] at hnew ⊢
      cases hst : rxDoStoreAt u s (rxBlockOff s i)
      · rw [(rxDevEffect_skip u s _ _ _ _ hst).2, hold] at hnew
        exact absurd hnew (by decide)
      · have hr : r = (regMap s.ltcParams.addr).regFlagIdx := by
          by_contra hne
          unfold rxDevEffect at hnew
          simp only [hst, if_true] at hnew
          rw [setAt_ne _ _ hne, hold] at hnew
          exact absurd hnew (by decide)
        refine ⟨i, hi, rfl, hr, ?_, (rxDevEffect_store u s _ _ _ _ hst).2.2.2.2⟩
        rw [rxDoStoreAt_eq] at hst
        cases hc : rxCrcErrorAt u s (rxBlockOff s i)
        · exact Or.inl rfl
        · right
          rw [hc] at hst
          simpa using hst
    · have := hother e (fun i hi h => hex ⟨i, hi, h⟩)
      rw [this, hold] at hnew
      exact absurd hnew (by decide)

set_option maxRecDepth 100000 in
/-- Witness for C2: in `parseSample` (second attempt) slot 0 has a good CRC
and is committed, slot 1 has a CRC error and its device keeps its shadow
words. -/
theorem rxParse_commit_rule_witness :
    (((LTC831_RxParse (modelUtil 0x025B) parseSample).2.ltcDevData 0).devRegFlags 22).newData
      = true ∧
    ((LTC831_RxParse (modelUtil 0x025B) parseSample).2.ltcDevData 1).devRegs =
      (parseSample.ltcDevData 1).devRegs :=
  have h := rxParse_commit_rule (modelUtil 0x025B) parseSample (by decide)
  ⟨(h.1 0 (by decide) (Or.inl (by decide))).2.2.2.1,
   (h.2.1 1 (by decide) (by decide) (by decide)).1⟩

/-! ## C3: classification of CRC errors -/

set_option maxRecDepth 100000 in
/-- C3 as stated fails: in `parseSample` the block of slot 1 has a CRC error
and its only word is 0xFFFF, yet after `LTC831_RxParse` the `sna` flag of its
device is not set and the device-reported PEC counter is not incremented
(the block is not stored because `didFirst` is set). -/
theorem rxParse_sna_not_set_on_second_attempt :
    rxCrcErrorAt (modelUtil 0x025B) parseSample (rxBlockOff parseSample 1) = true ∧
    rxWordAt parseSample (rxBlockOff parseSample 1) 0 = 0xFFFF ∧
    (((LTC831_RxParse (modelUtil 0x025B) parseSample).2.ltcDevData 1).devRegFlags 22).sna
      = false ∧
    ((LTC831_RxParse (modelUtil 0x025B) parseSample).2.ltcDevData 1).devPecErrorCount =
      (parseSample.ltcDevData 1).devPecErrorCount := by
  refine ⟨by decide, by decide, by decide, by decide⟩

theorem rxDevEffect_crc_error (u : Util) (s : State) (rfi p pi0 : Nat)
    (dv : LTC831_DEV_DATA_T) (hw : 0 < s.ltcFrames.regLengthW)
    (hc : rxCrcErrorAt u s p = true) :
    (s.ltc831Flags.didFirst = false →
      rxWordAt s p (s.ltcFrames.regLengthW - 1) = 0xFFFF →
      ((rxDevEffect u s rfi p pi0 dv).devRegFlags rfi).sna = true ∧
      (rxDevEffect u s rfi p pi0 dv).devPecErrorCount = (dv.devPecErrorCount + 1) % 65536 ∧
      (rxDevEffect u s rfi p pi0 dv).hostPecErrorCount = dv.hostPecErrorCount) ∧
    (s.ltc831Flags.didFirst = false →
      rxWordAt s p (s.ltcFrames.regLengthW - 1) ≠ 0xFFFF →
      ((rxDevEffect u s rfi p pi0 dv).devRegFlags rfi).sna = (dv.devRegFlags rfi).sna ∧
      (rxDevEffect u s rfi p pi0 dv).devPecErrorCount = dv.devPecErrorCount ∧
      (rxDevEffect u s rfi p pi0 dv).hostPecErrorCount = (dv.hostPecErrorCount + 1) % 65536) ∧
    (s.ltc831Flags.didFirst = true →
      ((rxDevEffect u s rfi p pi0 dv).devRegFlags rfi).sna = (dv.devRegFlags rfi).sna ∧
      (rxDevEffect u s rfi p pi0 dv).devPecErrorCount = dv.devPecErrorCount ∧
      (rxWordAt s p (s.ltcFrames.regLengthW - 1) = 0xFFFF →
        (rxDevEffect u s rfi p pi0 dv).hostPecErrorCount = dv.hostPecErrorCount) ∧
      (rxWordAt s p (s.ltcFrames.regLengthW - 1) ≠ 0xFFFF →
        (rxDevEffect u s rfi p pi0 dv).hostPecErrorCount =
          (dv.hostPecErrorCount + 1) % 65536)) := by
  have hit := (rxItemsAt_spec u s p pi0 dv.devRegs).2.1
  rw [if_neg (by omega)] at hit
  have hds := rxDoStoreAt_eq u s p
  rw [hc] at hds
  unfold rxDevEffect
  simp only [hit, hc, hds]
  refine ⟨?_, ?_, ?_⟩
  · intro hd hl
    simp [hd, hl]
  · intro hd hl
    simp [hd, hl]
  · intro hd
    simp [hd]
    exact ⟨fun h1 h2 => absurd h1 h2, fun h1 h2 => absurd h2 h1⟩

/-- C3 (amended): for every block that `LTC831_RxParse` finds with a CRC
error, of a register of at least one word (device count below 256).
(a) First attempt (`didFirst` clear, the block is stored): if every parsed
word is 0xFFFF, `sna` is set, the device-reported PEC counter is incremented
(16-bit) and the host counter is unchanged.  (b) First attempt, last parsed
word not 0xFFFF: the host PEC counter is incremented, `sna` and the
device-reported counter are unchanged.  (c) Second attempt (`didFirst` set,
the block is not stored): `sna` and the device-reported counter are
unchanged; the host counter is unchanged when every parsed word is 0xFFFF and
incremented when the last parsed word is not 0xFFFF. -/
theorem rxParse_crc_error_classes (u : Util) (s : State) (hn : s.ltcParams.numDevs < 256)
    (hw : 0 < s.ltcFrames.regLengthW) (i : Nat) (hi : i < s.ltcParams.numDevs)
    (hc : rxCrcErrorAt u s (rxBlockOff s i) = true) :
    (s.ltc831Flags.didFirst = false →
      (∀ j, j < s.ltcFrames.regLengthW → rxWordAt s (rxBlockOff s i) j = 0xFFFF) →
      (((LTC831_RxParse u s).2.ltcDevData
          (rxDevIdxDest s.ltc831Flags.dir s.ltc831Flags.chainHead (effNumDevs s) i)).devRegFlags
            (regMap s.ltcParams.addr).regFlagIdx).sna = true ∧
      ((LTC831_RxParse u s).2.ltcDevData
          (rxDevIdxDest s.ltc831Flags.dir s.ltc831Flags.chainHead (effNumDevs s) i)).devPecErrorCount
        = ((s.ltcDevData
          (rxDevIdxDest s.ltc831Flags.dir s.ltc831Flags.chainHead (effNumDevs s) i)).devPecErrorCount
            + 1) % 65536 ∧
      ((LTC831_RxParse u s).2.ltcDevData
          (rxDevIdxDest s.ltc831Flags.dir s.ltc831Flags.chainHead (effNumDevs s) i)).hostPecErrorCount
        = (s.ltcDevData
          (rxDevIdxDest s.ltc831Flags.dir s.ltc831Flags.chainHead (effNumDevs s) i)).hostPecErrorCount) ∧
    (s.ltc831Flags.didFirst = false →
      rxWordAt s (rxBlockOff s i) (s.ltcFrames.regLengthW - 1) ≠ 0xFFFF →
      (((LTC831_RxParse u s).2.ltcDevData
          (rxDevIdxDest s.ltc831Flags.dir s.ltc831Flags.chainHead (effNumDevs s) i)).devRegFlags
            (regMap s.ltcParams.addr).regFlagIdx).sna =
        ((s.ltcDevData
          (rxDevIdxDest s.ltc831Flags.dir s.ltc831Flags.chainHead (effNumDevs s) i)).devRegFlags
            (regMap s.ltcParams.addr).regFlagIdx).sna ∧
      ((LTC831_RxParse u s).2.ltcDevData
          (rxDevIdxDest s.ltc831Flags.dir s.ltc831Flags.chainHead (effNumDevs s) i)).devPecErrorCount
        = (s.ltcDevData
          (rxDevIdxDest s.ltc831Flags.dir s.ltc831Flags.chainHead (effNumDevs s) i)).devPecErrorCount ∧
      ((LTC831_RxParse u s).2.ltcDevData
          (rxDevIdxDest s.ltc831Flags.dir s.ltc831Flags.chainHead (effNumDevs s) i)).hostPecErrorCount
        = ((s.ltcDevData
          (rxDevIdxDest s.ltc831Flags.dir s.ltc831Flags.chainHead (effNumDevs s) i)).hostPecErrorCount
            + 1) % 65536) ∧
    (s.ltc831Flags.didFirst = true →
      (((LTC831_RxParse u s).2.ltcDevData
          (rxDevIdxDest s.ltc831Flags.dir s.ltc831Flags.chainHead (effNumDevs s) i)).devRegFlags
            (regMap s.ltcParams.addr).regFlagIdx).sna =
        ((s.ltcDevData
          (rxDevIdxDest s.ltc831Flags.dir s.ltc831Flags.chainHead (effNumDevs s) i)).devRegFlags
            (regMap s.ltcParams.addr).regFlagIdx).sna ∧
      ((LTC831_RxParse u s).2.ltcDevData
          (rxDevIdxDest s.ltc831Flags.dir s.ltc831Flags.chainHead (effNumDevs s) i)).devPecErrorCount
        = (s.ltcDevData
          (rxDevIdxDest s.ltc831Flags.dir s.ltc831Flags.chainHead (effNumDevs s) i)).devPecErrorCount ∧
      ((∀ j, j < s.ltcFrames.regLengthW → rxWordAt s (rxBlockOff s i) j = 0xFFFF) →
        ((LTC831_RxParse u s).2.ltcDevData
            (rxDevIdxDest s.ltc831Flags.dir s.ltc831Flags.chainHead (effNumDevs s) i)).hostPecErrorCount
          = (s.ltcDevData
            (rxDevIdxDest s.ltc831Flags.dir s.ltc831Flags.chainHead (effNumDevs s) i)).hostPecErrorCount) ∧
      (rxWordAt s (rxBlockOff s i) (s.ltcFrames.regLengthW - 1) ≠ 0xFFFF →
        ((LTC831_RxParse u s).2.ltcDevData
            (rxDevIdxDest s.ltc831Flags.dir s.ltc831Flags.chainHead (effNumDevs s) i)).hostPecErrorCount
          = ((s.ltcDevData
            (rxDevIdxDest s.ltc831Flags.dir s.ltc831Flags.chainHead (effNumDevs s) i)).hostPecErrorCount
              + 1) % 65536)) := by
  obtain ⟨_, _, _, hdev, _⟩ := rxParse_spec u s (by omega)
  rw [hdev i hi]
  have h := rxDevEffect_crc_error u s (regMap s.ltcParams.addr).regFlagIdx (rxBlockOff s i)
    (rxItemBefore s (rxBase s) i)
    (s.ltcDevData (rxDevIdxDest s.ltc831Flags.dir s.ltc831Flags.chainHead (effNumDevs s) i))
    hw hc
  refine ⟨fun hd hall => h.1 hd (hall _ (by omega)), h.2.1, fun hd => ?_⟩
  obtain ⟨h1, h2, h3, h4⟩ := h.2.2 hd
  exact ⟨h1, h2, fun hall => h3 (hall _ (by omega)), h4⟩

set_option maxRecDepth 100000 in
/-- Witness for C3 (amended): in `parseSampleFirst` (first attempt) the block
of slot 1 is all ones with a CRC error; `sna` is set and the device-reported
PEC counter goes from 0 to 1. -/
theorem rxParse_crc_error_classes_witness :
    (((LTC831_RxParse (modelUtil 0x025B) parseSampleFirst).2.ltcDevData 1).devRegFlags 22).sna
      = true ∧
    ((LTC831_RxParse (modelUtil 0x025B) parseSampleFirst).2.ltcDevData 1).devPecErrorCount = 1 :=
  have h := (rxParse_crc_error_classes (modelUtil 0x025B) parseSampleFirst (by decide)
    (by decide) 1 (by decide) (by decide)).1 (by decide) (by decide)
  ⟨h.1, h.2.1⟩

/-! ## C1: a good-CRC response is stored -/

theorem word_of_bytes (hi lo : Nat) (hhi : hi < 256) (hlo : lo < 256) :
    ((hi <<< 8) ||| lo) % 65536 = 256 * hi + lo := by
  have h := Nat.mul_add_lt_is_or (i := 8) (b := lo) (by simpa using hlo) hi
  rw [Nat.shiftLeft_eq, Nat.mul_comm hi (2 ^ 8), ← h]
  norm_num
  omega

/-- Every register the table marks readable is 2, 4 or 6 bytes long. -/
theorem regMap_R_lenB (addr : Nat) (h : (regMap addr).type = LTC831_REG_R) :
    (regMap addr).lenB = 2 ∨ (regMap addr).lenB = 4 ∨ (regMap addr).lenB = 6 := by
  have hle := regMap_R_le addr h
  simp only [LTC831_RDFS_NO_TAG_CMD, LTC831_FS_ROW_END] at hle
  have hlt : addr < 54 := by omega
  clear hle
  interval_cases addr <;> first | (exact absurd h (by decide)) | decide

/-- `ltc831BuildCommand` for a read: it succeeds, sets the frame lengths from
the descriptor and leaves parameters, flags, shadow store and break data
alone. -/
theorem buildCommand_read (u : Util) (s : State)
    (hcmd : s.ltcParams.spiCmd = LTC_REG_READ_CMD ∨ s.ltcParams.spiCmd = LTC_REG_READ_TAG_CMD)
    (hR : (regMap s.ltcParams.addr).type = LTC831_REG_R) :
    (ltc831BuildCommand u s).1 = LTC_SUCCESS ∧
    (ltc831BuildCommand u s).2.ltcParams = s.ltcParams ∧
    (ltc831BuildCommand u s).2.ltc831Flags = s.ltc831Flags ∧
    (ltc831BuildCommand u s).2.ltcDevData = s.ltcDevData ∧
    (ltc831BuildCommand u s).2.ltcBreakData = s.ltcBreakData ∧
    (ltc831BuildCommand u s).2.packApi = s.packApi ∧
    (ltc831BuildCommand u s).2.reqNumDevs = s.reqNumDevs ∧
    (ltc831BuildCommand u s).2.trace = s.trace ∧
    (ltc831BuildCommand u s).2.ltcFrames.regLengthW = (regMap s.ltcParams.addr).lenB / 2 ∧
    (ltc831BuildCommand u s).2.ltcFrames.rxDataLengthB =
      (regMap s.ltcParams.addr).lenB + LTC831_PEC_SIZE_B + rxTagLen s ∧
    (ltc831BuildCommand u s).2.ltcFrames.txCmdLengthB = LTC831_CMD_PKT_SIZE_B + rxTagLen s := by
  have hl := regMap_R_lenB _ hR
  unfold ltc831BuildCommand ltcResetStateMachine rxTagLen
  rcases hcmd with hc | hc <;> rcases hl with hl | hl | hl <;>
    simp [hc, hR, hl, LTC831_PEC_SIZE_B, LTC831_CMD_PKT_SIZE_B, LTC831_CMD_PKT_TAGGED_SIZE_B]

/-- C1: build a read (tagged or untagged) of a kind-R address for
`numDevs < 256` devices with `ltc831BuildCommand`, let the SPI transfer
deposit any byte buffer `rx` in which the PEC received in each block equals
the PEC `LTC831_RxParse` computes for it, and parse.  Then for every slot `i`
the shadow image of the slot's device holds, for each word `j` of the
register, the two payload bytes of block `i` combined low byte first when the
descriptor has `byte_swap` and high byte first otherwise, and the register
flags of that device have `newData = true` and `crcError = false`.  Block `i`
starts at byte `H + i * L` with header length `H = 2 + tag` and block length
`L = lenB + 2 + tag` (`tag` is 1 for a tagged read, else 0); its payload
starts behind the tag byte. -/
theorem rxParse_good_crc_stores_payload (u : Util) (s0 : State) (rx : Nat → Nat)
    (hcmd : s0.ltcParams.spiCmd = LTC_REG_READ_CMD ∨
      s0.ltcParams.spiCmd = LTC_REG_READ_TAG_CMD)
    (hR : (regMap s0.ltcParams.addr).type = LTC831_REG_R)
    (hn : s0.ltcParams.numDevs < 256)
    (hrx : ∀ k, rx k < 256)
    (hpec : ∀ i, i < s0.ltcParams.numDevs →
      rxReceivedPec rx ((regMap s0.ltcParams.addr).lenB + 2 + rxTagLen s0)
          (2 + rxTagLen s0 + i * ((regMap s0.ltcParams.addr).lenB + 2 + rxTagLen s0)) =
        rxComputedPec u rx ((regMap s0.ltcParams.addr).lenB + 2 + rxTagLen s0)
          (2 + rxTagLen s0 + i * ((regMap s0.ltcParams.addr).lenB + 2 + rxTagLen s0)))
    (i : Nat) (hi : i < s0.ltcParams.numDevs) :
    (((LTC831_RxParse u (injectRx rx (ltc831BuildCommand u s0).2)).2.ltcDevData
        (rxDevIdxDest s0.ltc831Flags.dir s0.ltc831Flags.chainHead (effNumDevs s0) i)).devRegFlags
          (regMap s0.ltcParams.addr).regFlagIdx).newData = true ∧
    (((LTC831_RxParse u (injectRx rx (ltc831BuildCommand u s0).2)).2.ltcDevData
        (rxDevIdxDest s0.ltc831Flags.dir s0.ltc831Flags.chainHead (effNumDevs s0) i)).devRegFlags
          (regMap s0.ltcParams.addr).regFlagIdx).crcError = false ∧
    (∀ j, j < (regMap s0.ltcParams.addr).lenB / 2 →
      ((LTC831_RxParse u (injectRx rx (ltc831BuildCommand u s0).2)).2.ltcDevData
        (rxDevIdxDest s0.ltc831Flags.dir s0.ltc831Flags.chainHead (effNumDevs s0) i)).devRegs
          ((regMap s0.ltcParams.addr).regOffset + j) =
        if (regMap s0.ltcParams.addr).byte_swap then
          rx (2 + rxTagLen s0 + i * ((regMap s0.ltcParams.addr).lenB + 2 + rxTagLen s0)
                + rxTagLen s0 + 2 * j)
            + 256 * rx (2 + rxTagLen s0 + i * ((regMap s0.ltcParams.addr).lenB + 2 + rxTagLen s0)
                + rxTagLen s0 + 2 * j + 1)
        else
          256 * rx (2 + rxTagLen s0 + i * ((regMap s0.ltcParams.addr).lenB + 2 + rxTagLen s0)
                + rxTagLen s0 + 2 * j)
            + rx (2 + rxTagLen s0 + i * ((regMap s0.ltcParams.addr).lenB + 2 + rxTagLen s0)
                + rxTagLen s0 + 2 * j + 1)) := by
  obtain ⟨_, hp, hf, hd, _, hpk, _, _, hlw, hrl, _⟩ := buildCommand_read u s0 hcmd hR
  have hl := regMap_R_lenB _ hR
  generalize hs : injectRx rx (ltc831BuildCommand u s0).2 = s
  have hsp : s.ltcParams = s0.ltcParams := by rw [← hs]; exact hp
  have hsf : s.ltc831Flags = s0.ltc831Flags := by rw [← hs]; exact hf
  have hspk : s.packApi = s0.packApi := by rw [← hs]; exact hpk
  have hsrx : s.ltcFrames.cmdDataRx = rx := by rw [← hs]; rfl
  have hslw : s.ltcFrames.regLengthW = (regMap s0.ltcParams.addr).lenB / 2 := by
    rw [← hs]; exact hlw
  have hsrl : s.ltcFrames.rxDataLengthB = (regMap s0.ltcParams.addr).lenB + 2 + rxTagLen s0 := by
    rw [← hs]; exact hrl
  have htl : rxTagLen s = rxTagLen s0 := by unfold rxTagLen; rw [hsp]
  have heff : effNumDevs s = effNumDevs s0 := by unfold effNumDevs; rw [hsp, hspk]
  have hbase : rxBase s = 2 + rxTagLen s0 := by
    unfold rxBase rxTagLen LTC831_CMD_PKT_SIZE_B LTC831_CMD_PKT_TAGGED_SIZE_B
    rw [hsp]
    rcases hcmd with hc | hc <;> simp [hc]
  have hstr : rxStride s = (regMap s0.ltcParams.addr).lenB + 2 + rxTagLen s0 := by
    unfold rxStride LTC831_PEC_SIZE_B
    rw [htl, hslw]
    omega
  have hoff : rxBlockOff s i =
      2 + rxTagLen s0 + i * ((regMap s0.ltcParams.addr).lenB + 2 + rxTagLen s0) := by
    unfold rxBlockOff; rw [hbase, hstr]
  have hcrc : rxCrcErrorAt u s (rxBlockOff s i) = false := by
    unfold rxCrcErrorAt
    rw [hsrx, hsrl, hoff, hpec i hi]
    simp
  have hmain := (rxParse_commit_rule u s (by rw [hsp]; exact hn)).1 i (by rw [hsp]; exact hi)
    (Or.inl hcrc)
  rw [hsf, heff, hsp, hcrc, hslw] at hmain
  refine ⟨hmain.2.2.2.1, hmain.2.2.1, ?_⟩
  intro j hj
  rw [hmain.2.2.2.2 j hj]
  unfold rxWordAt
  rw [hsp, hsrx, htl, hoff]
  cases (regMap s0.ltcParams.addr).byte_swap
  · simp only [Bool.false_eq_true, if_false]
    exact word_of_bytes _ _ (hrx _) (hrx _)
  · simp only [if_true]
    rw [word_of_bytes _ _ (hrx _) (hrx _)]
    omega

theorem bufOf_lt (bytes : List Nat) (h : ∀ b ∈ bytes, b < 256) (k : Nat) :
    bufOf bytes k < 256 := by
  unfold bufOf
  by_cases hk : k < bytes.length
  · rw [List.getD_eq_getElem _ _ hk]
    exact h _ (List.getElem_mem hk)
  · rw [List.getD_eq_default _ _ (by omega)]
    decide

set_option maxRecDepth 100000 in
/-- Witness for C1: the response `goodResponse` to `readSample`; the shadow
word of fuse row 0 (word 54) is 0x1234 for device 0 and 0x5678 for device 1,
with `newData` set. -/
theorem rxParse_good_crc_stores_payload_witness :
    ((LTC831_RxParse (modelUtil 0x025B)
        (injectRx (bufOf goodResponse)
          (ltc831BuildCommand (modelUtil 0x025B) readSample).2)).2.ltcDevData 0).devRegs 54
      = 0x1234 ∧
    ((LTC831_RxParse (modelUtil 0x025B)
        (injectRx (bufOf goodResponse)
          (ltc831BuildCommand (modelUtil 0x025B) readSample).2)).2.ltcDevData 1).devRegs 54
      = 0x5678 ∧
    (((LTC831_RxParse (modelUtil 0x025B)
        (injectRx (bufOf goodResponse)
          (ltc831BuildCommand (modelUtil 0x025B) readSample).2)).2.ltcDevData 1).devRegFlags 22).newData
      = true :=
  have h0 := rxParse_good_crc_stores_payload (modelUtil 0x025B) readSample (bufOf goodResponse)
    (Or.inl rfl) (by decide) (by decide) (bufOf_lt _ (by decide)) (by decide) 0 (by decide)
  have h1 := rxParse_good_crc_stores_payload (modelUtil 0x025B) readSample (bufOf goodResponse)
    (Or.inl rfl) (by decide) (by decide) (bufOf_lt _ (by decide)) (by decide) 1 (by decide)
  ⟨h0.2.2 0 (by decide), h1.2.2 0 (by decide), h1.1⟩

/-! ## ltc831BuildCommand: the write branch -/

theorem storeWord_at (buf : Nat → Nat) (off w : Nat) :
    storeWord buf off w off = w % 256 ∧ storeWord buf off w (off + 1) = w / 256 % 256 ∧
    (∀ k, k ≠ off → k ≠ off + 1 → storeWord buf off w k = buf k) := by
  unfold storeWord
  refine ⟨?_, ?_, ?_⟩
  · rw [setAt_ne _ _ (by omega), setAt_same]
  · rw [setAt_same]
  · intro k h1 h2
    rw [setAt_ne _ _ h2, setAt_ne _ _ h1]

/-- The item loop of `ltc831BuildCommand`: word `j` of the input goes to the
two bytes at `p + 2j` (low byte first) and nothing else of the transmit
buffer changes. -/
theorem buildItems_loop (inData : Nat → Nat) (dp ip : Nat) (regs tx : Nat → Nat) (p W : Nat) :
    let r := forLoop W (ltc831BuildCommand_item inData dp ip) ⟨regs, tx, p⟩
    r.cmdData_p = p + 2 * W ∧
    (∀ j, j < W → r.tx (p + 2 * j) = inData (ip + j) % 256 ∧
      r.tx (p + 2 * j + 1) = inData (ip + j) / 256 % 256) ∧
    (∀ k, (k < p ∨ p + 2 * W ≤ k) → r.tx k = tx k) := by
  induction W with
  | zero => simp
  | succ W ih =>
    simp only [forLoop_succ] at ih ⊢
    generalize forLoop W (ltc831BuildCommand_item inData dp ip) ⟨regs, tx, p⟩ = r at *
    obtain ⟨h1, h2, h3⟩ := ih
    unfold ltc831BuildCommand_item
    simp only [h1]
    have hsw := storeWord_at r.tx (p + 2 * W) (inData (ip + W))
    refine ⟨by omega, ?_, ?_⟩
    · intro j hj
      by_cases hjw : j = W
      · subst hjw
        exact ⟨hsw.1, hsw.2.1⟩
      · rw [hsw.2.2 _ (by omega) (by omega), hsw.2.2 _ (by omega) (by omega)]
        exact h2 j (by omega)
    · intro k hk
      rw [hsw.2.2 _ (by omega) (by omega)]
      exact h3 k (by omega)

/-- One pass of the device loop of the write branch of `ltc831BuildCommand`:
what it leaves in the transmit buffer and where `cmdData_p` ends. -/
theorem buildCommand_dev_proj (u : Util) (addr regIdx W N i : Nat) (s : State) (p : Nat) :
    (ltc831BuildCommand_dev u addr regIdx W N i (s, p)).2 =
      (buildItemsAt s addr W (buildDevIdxDest s.ltc831Flags.dir s.ltc831Flags.chainHead N i)
        p).cmdData_p + 2 ∧
    (ltc831BuildCommand_dev u addr regIdx W N i (s, p)).1.ltcFrames.cmdDataTx =
      storeWord
        (buildItemsAt s addr W (buildDevIdxDest s.ltc831Flags.dir s.ltc831Flags.chainHead N i)
          p).tx
        (buildItemsAt s addr W (buildDevIdxDest s.ltc831Flags.dir s.ltc831Flags.chainHead N i)
          p).cmdData_p
        (byteSwap16 (buildPec u (paramData s) W
          (buildDevIdxDest s.ltc831Flags.dir s.ltc831Flags.chainHead N i))) ∧
    (ltc831BuildCommand_dev u addr regIdx W N i (s, p)).1.ltcParams = s.ltcParams ∧
    (ltc831BuildCommand_dev u addr regIdx W N i (s, p)).1.ltc831Flags = s.ltc831Flags ∧
    (ltc831BuildCommand_dev u addr regIdx W N i (s, p)).1.packApi = s.packApi := by
  unfold ltc831BuildCommand_dev buildItemsAt buildPec paramData
  simp

/-- Loop invariant of the write branch of `ltc831BuildCommand`: after `n`
devices the payload slot `i < n` of the transmit buffer (at byte
`2 + i * (2 * W + 2)`) holds the `W` input words of the slot's device, low
byte first, followed by the byte-swapped payload PEC; the header bytes are
untouched. -/
theorem buildCommand_loop (u : Util) (addr regIdx W N : Nat) (s : State) (n : Nat) :
    let r := forLoop n (ltc831BuildCommand_dev u addr regIdx W N) (s, 2)
    r.2 = 2 + n * (2 * W + 2) ∧ r.1.ltcParams = s.ltcParams ∧
    r.1.ltc831Flags = s.ltc831Flags ∧ r.1.packApi = s.packApi ∧
    (∀ k, k < 2 → r.1.ltcFrames.cmdDataTx k = s.ltcFrames.cmdDataTx k) ∧
    (∀ i, i < n →
      (∀ j, j < W →
        r.1.ltcFrames.cmdDataTx (2 + i * (2 * W + 2) + 2 * j) =
          paramData s
            (W * buildDevIdxDest s.ltc831Flags.dir s.ltc831Flags.chainHead N i + j) % 256 ∧
        r.1.ltcFrames.cmdDataTx (2 + i * (2 * W + 2) + 2 * j + 1) =
          paramData s
            (W * buildDevIdxDest s.ltc831Flags.dir s.ltc831Flags.chainHead N i + j) / 256 % 256) ∧
      r.1.ltcFrames.cmdDataTx (2 + i * (2 * W + 2) + 2 * W) =
        byteSwap16 (buildPec u (paramData s) W
          (buildDevIdxDest s.ltc831Flags.dir s.ltc831Flags.chainHead N i)) % 256 ∧
      r.1.ltcFrames.cmdDataTx (2 + i * (2 * W + 2) + 2 * W + 1) =
        byteSwap16 (buildPec u (paramData s) W
          (buildDevIdxDest s.ltc831Flags.dir s.ltc831Flags.chainHead N i)) / 256 % 256) := by
  induction n with
  | zero => simp
  | succ n ih =>
    simp only [forLoop_succ] at ih ⊢
    generalize forLoop n (ltc831BuildCommand_dev u addr regIdx W N) (s, 2) = r at *
    obtain ⟨s1, p1⟩ := r
    obtain ⟨hp, hpar, hfl, hpk, hhdr, hslot⟩ := ih
    simp only at hp hpar hfl hpk hhdr hslot
    obtain ⟨e1, e2, e3, e4, e5⟩ := buildCommand_dev_proj u addr regIdx W N n s1 p1
    have hpd : paramData s1 = paramData s := by unfold paramData; rw [hpar]
    rw [hfl, hpd] at e2
    rw [hfl] at e1
    have hit := buildItems_loop (paramData s1) (regMap addr).regOffset
      (W * buildDevIdxDest s.ltc831Flags.dir s.ltc831Flags.chainHead N n)
      (s1.ltcDevData (buildDevIdxDest s.ltc831Flags.dir s.ltc831Flags.chainHead N n)).devRegs
      s1.ltcFrames.cmdDataTx p1 W
    simp only at hit
    rw [hpd] at hit
    obtain ⟨hc, hw, hframe⟩ := hit
    have hitem : buildItemsAt s1 addr W
        (buildDevIdxDest s.ltc831Flags.dir s.ltc831Flags.chainHead N n) p1 =
        forLoop W (ltc831BuildCommand_item (paramData s) (regMap addr).regOffset
          (W * buildDevIdxDest s.ltc831Flags.dir s.ltc831Flags.chainHead N n))
          ⟨(s1.ltcDevData (buildDevIdxDest s.ltc831Flags.dir s.ltc831Flags.chainHead N n)).devRegs,
            s1.ltcFrames.cmdDataTx, p1⟩ := by
      unfold buildItemsAt; rw [hpd]
    rw [hitem] at e1 e2
    rw [hc] at e1 e2
    have hsw := storeWord_at
      (forLoop W (ltc831BuildCommand_item (paramData s) (regMap addr).regOffset
          (W * buildDevIdxDest s.ltc831Flags.dir s.ltc831Flags.chainHead N n))
          ⟨(s1.ltcDevData (buildDevIdxDest s.ltc831Flags.dir s.ltc831Flags.chainHead N n)).devRegs,
            s1.ltcFrames.cmdDataTx, p1⟩).tx
      (p1 + 2 * W)
      (byteSwap16 (buildPec u (paramData s) W
        (buildDevIdxDest s.ltc831Flags.dir s.ltc831Flags.chainHead N n)))
    have hS : (n + 1) * (2 * W + 2) = n * (2 * W + 2) + (2 * W + 2) := by ring
    refine ⟨by rw [e1, hp, hS]; omega, by rw [e3, hpar], by rw [e4, hfl], by rw [e5, hpk], ?_, ?_⟩
    · intro k hk
      rw [e2, hsw.2.2 k (by omega) (by omega), hframe k (by omega)]
      exact hhdr k hk
    · intro i hi
      by_cases hin : i = n
      · subst hin
        rw [e2]
        refine ⟨?_, ?_, ?_⟩
        · intro j hj
          rw [hsw.2.2 _ (by omega) (by omega), hsw.2.2 _ (by omega) (by omega), ← hp]
          exact hw j hj
        · rw [← hp]; exact hsw.1
        · rw [← hp]; exact hsw.2.1
      · have hlt : i < n := by omega
        have hmul : i * (2 * W + 2) + (2 * W + 2) ≤ n * (2 * W + 2) := by
          have := Nat.mul_le_mul_right (2 * W + 2) (show i + 1 ≤ n by omega)
          rw [Nat.succ_mul] at this
          exact this
        obtain ⟨g1, g2, g3⟩ := hslot i hlt
        rw [e2]
        refine ⟨?_, ?_, ?_⟩
        · intro j hj
          rw [hsw.2.2 _ (by omega) (by omega), hsw.2.2 _ (by omega) (by omega),
            hframe _ (by omega), hframe _ (by omega)]
          exact g1 j hj
        · rw [hsw.2.2 _ (by omega) (by omega), hframe _ (by omega)]
          exact g2
        · rw [hsw.2.2 _ (by omega) (by omega), hframe _ (by omega)]
          exact g3

/-- `ltc831BuildCommand` for a write of a W or B register with at least one
word: it succeeds and the payload slot `i` of the transmit buffer holds the
input words of device `buildDevIdxDest i`, low byte first, followed by the
byte-swapped payload PEC. -/
theorem buildCommand_write_tx (u : Util) (s : State)
    (hcmd : s.ltcParams.spiCmd = LTC_REG_WRITE_CMD)
    (hW : (regMap s.ltcParams.addr).type = LTC831_REG_W ∨
      (regMap s.ltcParams.addr).type = LTC831_REG_B)
    (hlen : (regMap s.ltcParams.addr).lenB / 2 ≠ 0) (i : Nat) (hi : i < effNumDevs s) :
    (ltc831BuildCommand u s).1 = LTC_SUCCESS ∧
    (∀ j, j < (regMap s.ltcParams.addr).lenB / 2 →
      (ltc831BuildCommand u s).2.ltcFrames.cmdDataTx
          (2 + i * (2 * ((regMap s.ltcParams.addr).lenB / 2) + 2) + 2 * j) =
        paramData s ((regMap s.ltcParams.addr).lenB / 2 *
          buildDevIdxDest s.ltc831Flags.dir s.ltc831Flags.chainHead (effNumDevs s) i + j) % 256 ∧
      (ltc831BuildCommand u s).2.ltcFrames.cmdDataTx
          (2 + i * (2 * ((regMap s.ltcParams.addr).lenB / 2) + 2) + 2 * j + 1) =
        paramData s ((regMap s.ltcParams.addr).lenB / 2 *
          buildDevIdxDest s.ltc831Flags.dir s.ltc831Flags.chainHead (effNumDevs s) i + j)
            / 256 % 256) ∧
    (ltc831BuildCommand u s).2.ltcFrames.cmdDataTx
        (2 + i * (2 * ((regMap s.ltcParams.addr).lenB / 2) + 2)
          + 2 * ((regMap s.ltcParams.addr).lenB / 2)) =
      byteSwap16 (buildPec u (paramData s) ((regMap s.ltcParams.addr).lenB / 2)
        (buildDevIdxDest s.ltc831Flags.dir s.ltc831Flags.chainHead (effNumDevs s) i)) % 256 ∧
    (ltc831BuildCommand u s).2.ltcFrames.cmdDataTx
        (2 + i * (2 * ((regMap s.ltcParams.addr).lenB / 2) + 2)
          + 2 * ((regMap s.ltcParams.addr).lenB / 2) + 1) =
      byteSwap16 (buildPec u (paramData s) ((regMap s.ltcParams.addr).lenB / 2)
        (buildDevIdxDest s.ltc831Flags.dir s.ltc831Flags.chainHead (effNumDevs s) i)) / 256 % 256 := by
  have hloop := buildCommand_loop u s.ltcParams.addr (regMap s.ltcParams.addr).regFlagIdx
    ((regMap s.ltcParams.addr).lenB / 2) (effNumDevs s)
    { s with ltcFrames := { zeroFrames with
        cmdDataTx := setAt zeroFrames.cmdDataTx 0 s.ltcParams.addr,
        txCmdLengthB := LTC831_CMD_PKT_SIZE_B,
        regLengthW := (regMap s.ltcParams.addr).lenB / 2 } } (effNumDevs s)
  simp only at hloop
  obtain ⟨_, hpar, _, _, _, hslot⟩ := hloop
  obtain ⟨g1, g2, g3⟩ := hslot i hi
  have hpd : paramData { s with ltcFrames := { zeroFrames with
        cmdDataTx := setAt zeroFrames.cmdDataTx 0 s.ltcParams.addr,
        txCmdLengthB := LTC831_CMD_PKT_SIZE_B,
        regLengthW := (regMap s.ltcParams.addr).lenB / 2 } } = paramData s := rfl
  rw [hpd] at g1 g2 g3
  have htx : ∀ k, 2 ≤ k → (ltc831BuildCommand u s).2.ltcFrames.cmdDataTx k =
      (forLoop (effNumDevs s) (ltc831BuildCommand_dev u s.ltcParams.addr
        (regMap s.ltcParams.addr).regFlagIdx ((regMap s.ltcParams.addr).lenB / 2) (effNumDevs s))
        ({ s with ltcFrames := { zeroFrames with
            cmdDataTx := setAt zeroFrames.cmdDataTx 0 s.ltcParams.addr,
            txCmdLengthB := LTC831_CMD_PKT_SIZE_B,
            regLengthW := (regMap s.ltcParams.addr).lenB / 2 } }, 2)).1.ltcFrames.cmdDataTx k := by
    intro k hk
    unfold ltc831BuildCommand ltcResetStateMachine
    rcases hW with hW | hW <;>
      simp [hcmd, hW, hlen, effNumDevs, setAt_ne _ _ (show k ≠ 1 by omega)]
  have hst : (ltc831BuildCommand u s).1 = LTC_SUCCESS := by
    unfold ltc831BuildCommand ltcResetStateMachine
    rcases hW with hW | hW <;> simp [hcmd, hW, hlen]
  refine ⟨hst, ?_, ?_, ?_⟩
  · intro j hj
    rw [htx _ (by omega), htx _ (by omega)]
    exact g1 j hj
  · rw [htx _ (by omega)]; exact g2
  · rw [htx _ (by omega)]; exact g3

/-! ## C4: a built write frame read back through the parser -/

/-- Every register the table marks writable (kind W) is 2 or 4 bytes long. -/
theorem regMap_W_lenB (addr : Nat) (h : (regMap addr).type = LTC831_REG_W) :
    (regMap addr).lenB = 2 ∨ (regMap addr).lenB = 4 := by
  by_cases h58 : 58 ≤ addr
  · rw [regMap_of_ge addr h58] at h; exact absurd h (by decide)
  · have hlt : addr < 58 := by omega
    interval_cases addr <;> first | (exact absurd h (by decide)) | decide

theorem buildDevIdxDest_eq (dir chainHead : Bool) (N i : Nat) (hN : N < 256) (hi : i < N) :
    buildDevIdxDest dir chainHead N i = if dir = chainHead then N - 1 - i else i := by
  unfold buildDevIdxDest toU8
  by_cases h : dir = chainHead
  · rw [if_pos ⟨h, by omega⟩, if_pos h]; omega
  · rw [if_neg (fun hc => h hc.1), if_neg h]

theorem effNumDevs_le (s : State) : effNumDevs s ≤ s.ltcParams.numDevs := by
  unfold effNumDevs; split <;> omega

theorem sendSame_refl (s : State) : SendSame s s := by
  unfold SendSame; simp

theorem sendSame_trans {a b c : State} (h1 : SendSame a b) (h2 : SendSame b c) :
    SendSame a c := by
  unfold SendSame at *
  obtain ⟨a1, a2, a3, a4, a5, a6, a7, a8, a9, a10, a11⟩ := h1
  obtain ⟨b1, b2, b3, b4, b5, b6, b7, b8, b9, b10, b11⟩ := h2
  exact ⟨b1.trans a1, b2.trans a2, b3.trans a3, b4.trans a4, b5.trans a5, b6.trans a6,
    b7.trans a7, b8.trans a8, b9.trans a9, b10.trans a10, b11.trans a11⟩

theorem wakeupIdle_pulse_same (dir : Bool) (cnt : Nat) (s : State) :
    SendSame s (ltc831WakeupIdle_pulse dir cnt s) := by
  unfold ltc831WakeupIdle_pulse SendSame
  simp only
  split <;> split <;> simp [State.emit]

theorem wakeupIdle_same (env : Env) (dir : Bool) (numDevs : Nat) (s : State) :
    SendSame s (ltc831WakeupIdle env dir numDevs s) := by
  have hloop : ∀ (n : Nat) (t : State), SendSame t (forLoop n (ltc831WakeupIdle_pulse dir) t) := by
    intro n
    induction n with
    | zero => intro t; exact sendSame_refl t
    | succ n ih =>
      intro t
      exact sendSame_trans (ih t) (wakeupIdle_pulse_same dir n _)
  unfold ltc831WakeupIdle
  simp only
  have h1 : SendSame s (if s.ltc831Flags.dir ≠ s.ltc831Flags.prevDir then
      { s with ltc831Flags := { s.ltc831Flags with
          dirChange := true, prevDir := s.ltc831Flags.dir } } else s) := by
    split
    · unfold SendSame; simp
    · exact sendSame_refl s
  generalize (if s.ltc831Flags.dir ≠ s.ltc831Flags.prevDir then
      { s with ltc831Flags := { s.ltc831Flags with
          dirChange := true, prevDir := s.ltc831Flags.dir } } else s) = s1 at *
  split
  · refine sendSame_trans h1 ?_
    have h2 : SendSame s1 (s1.emit (Event.timDelaySync 3)) := by unfold SendSame; simp [State.emit]
    refine sendSame_trans h2 (sendSame_trans (hloop numDevs _) ?_)
    unfold SendSame; simp [State.emit]
  · exact h1

/-- `ltcSendCommandFrame` entered with no DMA pending, for a synchronous
command or a transfer that has completed by the final check: it returns
`LTC_SUCCESS`, the receive buffer holds the response, `waitDMA` is clear, and
parameters, shadow store, break data, pack data and the direction flags are
unchanged. -/
theorem sendCommandFrame_done (env : Env) (s : State) (hdma : s.ltc831Flags.waitDMA = false)
    (hc : s.ltcParams.flags.synchronous = true ∨ env.spiComplete = true) :
    (ltcSendCommandFrame env s).1 = LTC_SUCCESS ∧
    (ltcSendCommandFrame env s).2.ltcParams = s.ltcParams ∧
    (ltcSendCommandFrame env s).2.packApi = s.packApi ∧
    (ltcSendCommandFrame env s).2.reqNumDevs = s.reqNumDevs ∧
    (ltcSendCommandFrame env s).2.ltcDevData = s.ltcDevData ∧
    (ltcSendCommandFrame env s).2.ltcBreakData = s.ltcBreakData ∧
    (ltcSendCommandFrame env s).2.ltcFrames =
      { s.ltcFrames with cmdDataRx := env.rx, state := LTC_FRAME_COMPLETE_STATE } ∧
    (ltcSendCommandFrame env s).2.ltc831Flags.didFirst = s.ltc831Flags.didFirst ∧
    (ltcSendCommandFrame env s).2.ltc831Flags.dir = s.ltc831Flags.dir ∧
    (ltcSendCommandFrame env s).2.ltc831Flags.chainHead = s.ltc831Flags.chainHead ∧
    (ltcSendCommandFrame env s).2.ltc831Flags.waitDMA = false := by
  have hw := wakeupIdle_same env s.ltc831Flags.dir s.ltcParams.numDevs s
  generalize hr : ltcSendCommandFrame env s = r
  unfold ltcSendCommandFrame ltc831SendClCmd at hr
  generalize ltc831WakeupIdle env s.ltc831Flags.dir s.ltcParams.numDevs s = w at hr hw
  obtain ⟨a1, a2, a3, a4, a5, a6, a7, a8, a9, a10, a11⟩ := hw
  subst hr
  cases hsync : s.ltcParams.flags.synchronous <;> cases hsc : env.spiComplete <;>
    cases hdc : w.ltc831Flags.dirChange <;>
    first
    | (exfalso; simp [hsync, hsc] at hc; done)
    | simp [injectRx, State.emit, hdma, hsc, hdc, hsync, a1, a2, a3, a4, a5, a6, a7, a8, a9]

/-! ## ltc831ReadCmd: the three blocks -/

theorem clearDevReg_frame (addr n : Nat) (s : State) :
    (LTC831_clearDevReg addr n s).ltc831Flags = s.ltc831Flags ∧
    (LTC831_clearDevReg addr n s).ltcParams = s.ltcParams ∧
    (LTC831_clearDevReg addr n s).ltcFrames = s.ltcFrames ∧
    (LTC831_clearDevReg addr n s).ltcBreakData = s.ltcBreakData ∧
    (LTC831_clearDevReg addr n s).packApi = s.packApi ∧
    (LTC831_clearDevReg addr n s).reqNumDevs = s.reqNumDevs ∧
    (LTC831_clearDevReg addr n s).trace = s.trace := by
  unfold LTC831_clearDevReg
  induction n with
  | zero => simp
  | succ k ih => simpa using ih

/-- The block of `ltc831ReadCmd` in front of the transfer, for a readable
address and at least one device: it succeeds, stores the command parameters,
sets the frame lengths, resets the break data of the current direction when
break detection is requested, and clears the pack-layer break flags on the
first directional attempt of a break-detecting read. -/
theorem readPrepare_spec (u : Util) (flags : LTC_PARAM_FLAGS_T) (tag n addr : Nat)
    (d : Option (Nat → Nat)) (s : State)
    (hR : (regMap addr).type = LTC831_REG_R) (hn : n ≠ 0) :
    (ltc831ReadCmd_prepare u flags tag n addr d s).1 = LTC_SUCCESS ∧
    (ltc831ReadCmd_prepare u flags tag n addr d s).2.ltcParams = readParams flags tag n addr d ∧
    (ltc831ReadCmd_prepare u flags tag n addr d s).2.ltc831Flags = s.ltc831Flags ∧
    (ltc831ReadCmd_prepare u flags tag n addr d s).2.reqNumDevs = s.reqNumDevs ∧
    (ltc831ReadCmd_prepare u flags tag n addr d s).2.packApi =
      (if flags.doBreakDetect = true ∧ s.ltc831Flags.didFirst = false then clearedPack s.packApi
       else s.packApi) ∧
    (ltc831ReadCmd_prepare u flags tag n addr d s).2.ltcBreakData =
      (if flags.doBreakDetect = true then
        fun x => if x = s.ltc831Flags.dir then freshBreak else s.ltcBreakData x
       else s.ltcBreakData) ∧
    (ltc831ReadCmd_prepare u flags tag n addr d s).2.ltcFrames.regLengthW = (regMap addr).lenB / 2 ∧
    (ltc831ReadCmd_prepare u flags tag n addr d s).2.ltcFrames.rxDataLengthB =
      (regMap addr).lenB + LTC831_PEC_SIZE_B + (if flags.useTag = true then 1 else 0) := by
  have hle := regMap_R_le addr hR
  have hgt : ¬ addr > LTC831_RDFS_NO_TAG_CMD + LTC831_FS_ROW_END := by omega
  obtain ⟨X, hX, h1, h2, h3, h4, h5⟩ : ∃ X : State,
      ltc831ReadCmd_prepare u flags tag n addr d s = ltc831BuildCommand u X ∧
      X.ltcParams = readParams flags tag n addr d ∧ X.ltc831Flags = s.ltc831Flags ∧
      X.reqNumDevs = s.reqNumDevs ∧
      X.packApi = (if flags.doBreakDetect = true ∧ s.ltc831Flags.didFirst = false then
        clearedPack s.packApi else s.packApi) ∧
      X.ltcBreakData = (if flags.doBreakDetect = true then
        fun x => if x = s.ltc831Flags.dir then freshBreak else s.ltcBreakData x
       else s.ltcBreakData) := by
    have hc := clearDevReg_frame addr n s
    unfold ltc831ReadCmd_prepare
    cases hb : flags.doBreakDetect <;> cases hd : s.ltc831Flags.didFirst <;>
      simp only [if_neg hgt, hR, hn, ne_eq, not_true_eq_false, if_false, if_true,
        Bool.false_eq_true, not_false_eq_true, true_and, false_and, and_true] <;>
      refine ⟨_, rfl, ?_, ?_, ?_, ?_, ?_⟩ <;>
      simp [ltcResetStateMachine, ltcPrepPoll, State.modBreak, readParams, clearedPack,
        freshBreak, hc, hd]
  have hcmd : X.ltcParams.spiCmd = LTC_REG_READ_CMD ∨ X.ltcParams.spiCmd = LTC_REG_READ_TAG_CMD := by
    rw [h1]; unfold readParams; cases flags.useTag <;> simp
  have hRX : (regMap X.ltcParams.addr).type = LTC831_REG_R := by rw [h1]; exact hR
  obtain ⟨b1, b2, b3, b4, b5, b6, b7, b8, b9, b10, b11⟩ := buildCommand_read u X hcmd hRX
  rw [hX]
  refine ⟨b1, b2.trans h1, b3.trans h2, b7.trans h3, b6.trans h4, b5.trans h5, ?_, ?_⟩
  · rw [b9, h1]; rfl
  · rw [b10, h1]; unfold rxTagLen; rw [h1]; unfold readParams
    cases flags.useTag <;> simp

theorem rxBreakAfter_congr (u : Util) (s t : State) (p0 : Nat) (b : LTC831_BREAK_DATA_T)
    (h1 : t.ltcParams.spiCmd = s.ltcParams.spiCmd) (h2 : t.ltcParams.addr = s.ltcParams.addr)
    (h3 : t.ltcFrames.cmdDataRx = s.ltcFrames.cmdDataRx)
    (h4 : t.ltcFrames.rxDataLengthB = s.ltcFrames.rxDataLengthB)
    (h5 : t.ltcFrames.regLengthW = s.ltcFrames.regLengthW) (n : Nat) :
    rxBreakAfter u t p0 b n = rxBreakAfter u s p0 b n := by
  have hs : rxStride t = rxStride s := by simp [rxStride, rxTagLen, h1, h5]
  have hc : ∀ p, rxCrcErrorAt u t p = rxCrcErrorAt u s p := by
    intro p; simp [rxCrcErrorAt, h3, h4]
  have hi : ∀ m, rxItemBefore t p0 m = rxItemBefore s p0 m := by
    intro m; simp [rxItemBefore, rxWordAt, rxTagLen, h1, h2, h3, h5, hs]
  induction n with
  | zero => rfl
  | succ k ih => simp only [rxBreakAfter, hs, hc, hi, ih]

theorem rxBase_congr (s t : State) (h1 : t.ltcParams.spiCmd = s.ltcParams.spiCmd) :
    rxBase t = rxBase s := by
  simp [rxBase, h1]

theorem resolve_packApi (s : State) :
    (ltc831ReadCmd_resolve s).packApi =
      (if s.ltcParams.flags.doBreakDetect = true then
        resolvePack s.reqNumDevs s.ltcBreakData s.packApi else s.packApi) ∧
    (ltc831ReadCmd_resolve s).ltc831Flags = s.ltc831Flags ∧
    (ltc831ReadCmd_resolve s).ltcBreakData = s.ltcBreakData ∧
    (ltc831ReadCmd_resolve s).ltcParams = s.ltcParams ∧
    (ltc831ReadCmd_resolve s).reqNumDevs = s.reqNumDevs := by
  unfold ltc831ReadCmd_resolve resolvePack
  by_cases hd : s.ltcParams.flags.doBreakDetect = true <;>
    by_cases hb : ((s.ltcBreakData false).flags.breakString = true ∨
      (s.ltcBreakData true).flags.breakString = true) <;>
    simp only [hd, hb, and_self, and_true, and_false, true_and, if_true, if_false]
  · refine ⟨?_, ?_, ?_, ?_, ?_⟩ <;>
      (split_ifs <;> simp)
  all_goals simp

theorem updateOutData_dev_frame (numDevs devIdx : Nat) (s : State) :
    (LTC831_updateOutData_dev numDevs devIdx s).ltc831Flags = s.ltc831Flags ∧
    (LTC831_updateOutData_dev numDevs devIdx s).ltcParams = s.ltcParams ∧
    (LTC831_updateOutData_dev numDevs devIdx s).ltcBreakData = s.ltcBreakData ∧
    (LTC831_updateOutData_dev numDevs devIdx s).packApi = s.packApi ∧
    (LTC831_updateOutData_dev numDevs devIdx s).reqNumDevs = s.reqNumDevs ∧
    (LTC831_updateOutData_dev numDevs devIdx s).ltcDevData = s.ltcDevData := by
  unfold LTC831_updateOutData_dev
  refine ⟨?_, ?_, ?_, ?_, ?_, ?_⟩ <;> (simp only []; split_ifs <;> rfl)

theorem updateOutData_frame (s : State) :
    (LTC831_updateOutData s).ltc831Flags = s.ltc831Flags ∧
    (LTC831_updateOutData s).ltcParams = s.ltcParams ∧
    (LTC831_updateOutData s).ltcBreakData = s.ltcBreakData ∧
    (LTC831_updateOutData s).packApi = s.packApi ∧
    (LTC831_updateOutData s).reqNumDevs = s.reqNumDevs ∧
    (LTC831_updateOutData s).ltcDevData = s.ltcDevData := by
  have key : ∀ (m n : Nat) (t : State),
      (forLoop n (LTC831_updateOutData_dev m) t).ltc831Flags = t.ltc831Flags ∧
      (forLoop n (LTC831_updateOutData_dev m) t).ltcParams = t.ltcParams ∧
      (forLoop n (LTC831_updateOutData_dev m) t).ltcBreakData = t.ltcBreakData ∧
      (forLoop n (LTC831_updateOutData_dev m) t).packApi = t.packApi ∧
      (forLoop n (LTC831_updateOutData_dev m) t).reqNumDevs = t.reqNumDevs ∧
      (forLoop n (LTC831_updateOutData_dev m) t).ltcDevData = t.ltcDevData := by
    intro m n t
    induction n with
    | zero => simp
    | succ k ih =>
      obtain ⟨a1, a2, a3, a4, a5, a6⟩ := ih
      obtain ⟨c1, c2, c3, c4, c5, c6⟩ :=
        updateOutData_dev_frame m k (forLoop k (LTC831_updateOutData_dev m) t)
      rw [forLoop_succ]
      exact ⟨c1.trans a1, c2.trans a2, c3.trans a3, c4.trans a4, c5.trans a5, c6.trans a6⟩
  unfold LTC831_updateOutData
  cases hd : s.ltcParams.data_p with
  | none => simp
  | some v =>
    simp only []
    exact key _ _ _

/-- The block of `ltc831ReadCmd` behind a completed transfer.  With `B` the
break data the parse leaves for the current direction: when `B` records a CRC
error on the first directional attempt of a break-detecting read, the block
returns `LTC_DEFERRED` with `didFirst` set and the direction flipped;
otherwise it returns `LTC_SUCCESS` with `didFirst` clear, the direction
flipped back when this was the second attempt, and the pack-layer record
classified by `resolvePack`. -/
theorem readComplete_spec (u : Util) (s : State) (hn : s.ltcParams.numDevs ≤ 256) :
    (((rxBreakAfter u s (rxBase s) (s.ltcBreakData s.ltc831Flags.dir)
          s.ltcParams.numDevs).flags.crcError = true ∧
        s.ltc831Flags.didFirst = false ∧ s.ltcParams.flags.doBreakDetect = true) →
      (ltc831ReadCmd_complete u s).1 = LTC_DEFERRED ∧
      (ltc831ReadCmd_complete u s).2.ltc831Flags.didFirst = true ∧
      (ltc831ReadCmd_complete u s).2.ltc831Flags.dir = !s.ltc831Flags.dir ∧
      (ltc831ReadCmd_complete u s).2.packApi = s.packApi) ∧
    (¬ ((rxBreakAfter u s (rxBase s) (s.ltcBreakData s.ltc831Flags.dir)
          s.ltcParams.numDevs).flags.crcError = true ∧
        s.ltc831Flags.didFirst = false ∧ s.ltcParams.flags.doBreakDetect = true) →
      (ltc831ReadCmd_complete u s).1 = LTC_SUCCESS ∧
      (ltc831ReadCmd_complete u s).2.ltc831Flags.didFirst = false ∧
      (ltc831ReadCmd_complete u s).2.ltc831Flags.dir =
        (if s.ltc831Flags.didFirst = true then !s.ltc831Flags.dir else s.ltc831Flags.dir) ∧
      (ltc831ReadCmd_complete u s).2.packApi =
        (if s.ltcParams.flags.doBreakDetect = true then
          resolvePack s.reqNumDevs
            (fun x => if x = s.ltc831Flags.dir then
              rxBreakAfter u s (rxBase s) (s.ltcBreakData s.ltc831Flags.dir) s.ltcParams.numDevs
              else s.ltcBreakData x) s.packApi
         else s.packApi)) ∧
    (ltc831ReadCmd_complete u s).2.ltc831Flags.waitDMA = s.ltc831Flags.waitDMA ∧
    (ltc831ReadCmd_complete u s).2.ltc831Flags.chainHead = s.ltc831Flags.chainHead ∧
    (ltc831ReadCmd_complete u s).2.ltcBreakData =
      (fun x => if x = s.ltc831Flags.dir then
        rxBreakAfter u s (rxBase s) (s.ltcBreakData s.ltc831Flags.dir) s.ltcParams.numDevs
        else s.ltcBreakData x) ∧
    (ltc831ReadCmd_complete u s).2.reqNumDevs = s.reqNumDevs ∧
    (ltc831ReadCmd_complete u s).2.ltcParams = s.ltcParams := by
  obtain ⟨hst, ⟨e1, e2, e3, e4, e5, e6, e7, e8, e9, e10, e11⟩, -, -, hbd⟩ := rxParse_spec u s hn
  have hbd2 : (LTC831_RxParse u s).2.ltcBreakData =
      (fun x => if x = s.ltc831Flags.dir then
        rxBreakAfter u s (rxBase s) (s.ltcBreakData s.ltc831Flags.dir) s.ltcParams.numDevs
        else s.ltcBreakData x) := by
    funext x
    rw [hbd x]
    by_cases hx : x = s.ltc831Flags.dir
    · subst hx; simp
    · simp [hx]
  generalize rxBreakAfter u s (rxBase s) (s.ltcBreakData s.ltc831Flags.dir)
    s.ltcParams.numDevs = B at hbd2 ⊢
  generalize hr : ltc831ReadCmd_complete u s = r
  unfold ltc831ReadCmd_complete at hr
  generalize LTC831_RxParse u s = p at hst e1 e2 e3 e4 e5 e6 e7 e8 e9 e10 e11 hbd2 hr
  obtain ⟨st, t⟩ := p
  simp only at hst e1 e2 e3 e8 e9 e10 e11 hbd2 hr
  subst hst
  have hcond : ((t.ltcBreakData t.ltc831Flags.dir).flags.crcError = true ∧
      ¬ t.ltc831Flags.didFirst = true ∧ t.ltcParams.flags.doBreakDetect = true) ↔
      (B.flags.crcError = true ∧ s.ltc831Flags.didFirst = false ∧
        s.ltcParams.flags.doBreakDetect = true) := by
    rw [hbd2, e8, e10, e1]; simp
  by_cases hc : (B.flags.crcError = true ∧ s.ltc831Flags.didFirst = false ∧
        s.ltcParams.flags.doBreakDetect = true)
  · rw [if_pos (hcond.mpr hc)] at hr
    subst hr
    simp [hc, e1, e2, e3, e8, e9, e10, e11, hbd2]
  · rw [if_neg (fun h => hc (hcond.mp h))] at hr
    obtain ⟨q1, q2, q3, q4, q5⟩ := resolve_packApi t
    generalize ltc831ReadCmd_resolve t = w at hr q1 q2 q3 q4 q5
    have hu : ∀ x : State, (LTC831_updateOutData x).ltc831Flags = x.ltc831Flags ∧
        (LTC831_updateOutData x).ltcParams = x.ltcParams ∧
        (LTC831_updateOutData x).ltcBreakData = x.ltcBreakData ∧
        (LTC831_updateOutData x).packApi = x.packApi ∧
        (LTC831_updateOutData x).reqNumDevs = x.reqNumDevs := fun x =>
      ⟨(updateOutData_frame x).1, (updateOutData_frame x).2.1, (updateOutData_frame x).2.2.1,
        (updateOutData_frame x).2.2.2.1, (updateOutData_frame x).2.2.2.2.1⟩
    subst hr
    cases hd : s.ltc831Flags.didFirst
    · have hc2 : B.flags.crcError = true → s.ltcParams.flags.doBreakDetect = false := by
        intro hb
        cases hdb : s.ltcParams.flags.doBreakDetect
        · rfl
        · exact absurd ⟨hb, hd, hdb⟩ hc
      simp [hu, hd, q1, q2, q3, q4, q5, e1, e2, e3, e8, e9, e10, e11, hbd2]
      exact hc2
    · simp [hu, hd, q1, q2, q3, q4, q5, e1, e2, e3, e8, e9, e10, e11, hbd2]

theorem readView_base (flags : LTC_PARAM_FLAGS_T) (addr : Nat) (rx : Nat → Nat) (s : State)
    (h1 : s.ltcParams.spiCmd = (readParams flags 0 0 addr none).spiCmd) :
    rxBase s = rxBase (readView flags addr rx) :=
  rxBase_congr _ _ h1

/-- One call of `ltc831ReadCmd` for a readable address, `0 < n ≤ 256` devices
and a transfer that completes within the call, entered with no DMA pending.
`B` is the break data the parse leaves for the direction `D` of the call. -/
theorem readCmd_attempt (u : Util) (env : Env) (flags : LTC_PARAM_FLAGS_T) (tag n addr : Nat)
    (d : Option (Nat → Nat)) (s : State) (B : LTC831_BREAK_DATA_T)
    (hdma : s.ltc831Flags.waitDMA = false) (hR : (regMap addr).type = LTC831_REG_R)
    (hn : n ≠ 0) (hn2 : n ≤ 256)
    (hc : flags.synchronous = true ∨ env.spiComplete = true)
    (hB : B = readBreakAfter u flags addr env.rx
      (if flags.doBreakDetect = true then freshBreak else s.ltcBreakData s.ltc831Flags.dir) n) :
    ((B.flags.crcError = true ∧ s.ltc831Flags.didFirst = false ∧ flags.doBreakDetect = true) →
      (ltc831ReadCmd u env flags tag n addr d s).1 = LTC_DEFERRED ∧
      (ltc831ReadCmd u env flags tag n addr d s).2.ltc831Flags.didFirst = true ∧
      (ltc831ReadCmd u env flags tag n addr d s).2.ltc831Flags.dir = !s.ltc831Flags.dir ∧
      (ltc831ReadCmd u env flags tag n addr d s).2.packApi = clearedPack s.packApi) ∧
    (¬ (B.flags.crcError = true ∧ s.ltc831Flags.didFirst = false ∧ flags.doBreakDetect = true) →
      (ltc831ReadCmd u env flags tag n addr d s).1 = LTC_SUCCESS ∧
      (ltc831ReadCmd u env flags tag n addr d s).2.ltc831Flags.didFirst = false ∧
      (ltc831ReadCmd u env flags tag n addr d s).2.ltc831Flags.dir =
        (if s.ltc831Flags.didFirst = true then !s.ltc831Flags.dir else s.ltc831Flags.dir) ∧
      (ltc831ReadCmd u env flags tag n addr d s).2.packApi =
        (if flags.doBreakDetect = true then
          resolvePack s.reqNumDevs
            (fun x => if x = s.ltc831Flags.dir then B else s.ltcBreakData x)
            (if s.ltc831Flags.didFirst = false then clearedPack s.packApi else s.packApi)
         else s.packApi)) ∧
    (ltc831ReadCmd u env flags tag n addr d s).2.ltc831Flags.waitDMA = false ∧
    (ltc831ReadCmd u env flags tag n addr d s).2.ltc831Flags.chainHead = s.ltc831Flags.chainHead ∧
    (ltc831ReadCmd u env flags tag n addr d s).2.reqNumDevs = s.reqNumDevs ∧
    (∀ x, ((ltc831ReadCmd u env flags tag n addr d s).2.ltcBreakData x).breakIdx =
        (if x = s.ltc831Flags.dir then B else s.ltcBreakData x).breakIdx ∧
      ((ltc831ReadCmd u env flags tag n addr d s).2.ltcBreakData x).flags =
        (if x = s.ltc831Flags.dir then B else s.ltcBreakData x).flags) := by
  obtain ⟨p1, p2, p3, p4, p5, p6, p7, p8⟩ := readPrepare_spec u flags tag n addr d s hR hn
  generalize hr : ltc831ReadCmd u env flags tag n addr d s = r
  unfold ltc831ReadCmd at hr
  dsimp only at hr
  have hw : ¬ s.ltc831Flags.waitDMA = true := by simp [hdma]
  rw [if_pos hw] at hr
  generalize ltc831ReadCmd_prepare u flags tag n addr d s = P at p1 p2 p3 p4 p5 p6 p7 p8 hr
  obtain ⟨pst, P⟩ := P
  simp only at p1 p2 p3 p4 p5 p6 p7 p8 hr
  subst p1
  rw [if_pos rfl] at hr
  have hsync : P.ltcParams.flags.synchronous = true ∨ env.spiComplete = true := by
    rw [p2]; exact hc
  obtain ⟨s1, s2, s3, s4, s5, s6, s7, s8, s9, s10, s11⟩ :=
    sendCommandFrame_done env P (by rw [p3]; exact hdma) hsync
  generalize ltcSendCommandFrame env P = S at s1 s2 s3 s4 s5 s6 s7 s8 s9 s10 s11 hr
  obtain ⟨sst, S⟩ := S
  simp only at s1 s2 s3 s4 s5 s6 s7 s8 s9 s10 s11 hr
  subst s1
  rw [if_pos rfl] at hr
  have hSn : S.ltcParams.numDevs = n := by rw [s2, p2]; rfl
  have hSdir : S.ltc831Flags.dir = s.ltc831Flags.dir := by rw [s9, p3]
  have hSdid : S.ltc831Flags.didFirst = s.ltc831Flags.didFirst := by rw [s8, p3]
  have hSdet : S.ltcParams.flags.doBreakDetect = flags.doBreakDetect := by rw [s2, p2]; rfl
  have hSb : S.ltcBreakData S.ltc831Flags.dir =
      (if flags.doBreakDetect = true then freshBreak else s.ltcBreakData s.ltc831Flags.dir) := by
    rw [s6, p6, hSdir]
    by_cases hdet : flags.doBreakDetect = true <;> simp [hdet]
  have hSbx : ∀ x, x ≠ s.ltc831Flags.dir → S.ltcBreakData x = s.ltcBreakData x := by
    intro x hx
    rw [s6, p6]
    by_cases hdet : flags.doBreakDetect = true <;> simp [hdet, hx]
  have hview : rxBreakAfter u S (rxBase S) (S.ltcBreakData S.ltc831Flags.dir)
      S.ltcParams.numDevs = B := by
    have hcmd : S.ltcParams.spiCmd = (readView flags addr env.rx).ltcParams.spiCmd := by
      rw [s2, p2]; rfl
    rw [hB, hSb, hSn, rxBase_congr _ _ hcmd]
    unfold readBreakAfter
    refine rxBreakAfter_congr u _ _ _ _ hcmd ?_ ?_ ?_ ?_ n
    · rw [s2, p2]; rfl
    · rw [s7]; rfl
    · rw [s7]; exact p8
    · rw [s7]; exact p7
  have hfun : (fun x => if x = s.ltc831Flags.dir then B else S.ltcBreakData x) =
      (fun x => if x = s.ltc831Flags.dir then B else s.ltcBreakData x) := by
    funext x
    by_cases hx : x = s.ltc831Flags.dir
    · simp [hx]
    · simp [hx, hSbx x hx]
  obtain ⟨c1, c2, c3, c4, c5, c6, c7⟩ := readComplete_spec u S (by rw [hSn]; exact hn2)
  rw [hview, hSdid, hSdet] at c1 c2
  rw [hview] at c5
  rw [s11] at c3
  rw [s10, p3] at c4
  rw [s4, p4] at c6
  rw [hSdir] at c1 c2 c5
  rw [s4, p4, s3, p5] at c2
  rw [hfun] at c2 c5
  rw [s3, p5] at c1
  generalize ltc831ReadCmd_complete u S = C at c1 c2 c3 c4 c5 c6 c7 hr
  obtain ⟨cst, C⟩ := C
  simp only at c1 c2 c3 c4 c5 c6 c7 hr
  have hfin : ∀ (cnd : Prop) [Decidable cnd] (dd : Bool),
      ((if cnd then C.modBreak dd (fun b => { b with breakIdxPrev := b.breakIdx }) else C).ltc831Flags
        = C.ltc831Flags) ∧
      ((if cnd then C.modBreak dd (fun b => { b with breakIdxPrev := b.breakIdx }) else C).packApi
        = C.packApi) ∧
      ((if cnd then C.modBreak dd (fun b => { b with breakIdxPrev := b.breakIdx }) else C).reqNumDevs
        = C.reqNumDevs) ∧
      (∀ x, ((if cnd then C.modBreak dd (fun b => { b with breakIdxPrev := b.breakIdx })
          else C).ltcBreakData x).breakIdx = (C.ltcBreakData x).breakIdx ∧
        ((if cnd then C.modBreak dd (fun b => { b with breakIdxPrev := b.breakIdx })
          else C).ltcBreakData x).flags = (C.ltcBreakData x).flags) := by
    intro cnd _ dd
    by_cases hcnd : cnd
    · simp only [if_pos hcnd, State.modBreak, true_and]
      intro x
      by_cases hx : x = dd <;> simp [hx]
    · simp [if_neg hcnd]
  obtain ⟨f1, f2, f3, f4⟩ := hfin ((C.ltcBreakData C.ltc831Flags.dir).flags.breakString = true)
    C.ltc831Flags.dir
  obtain ⟨rst, R⟩ := r
  simp only [Prod.mk.injEq] at hr
  obtain ⟨h1, h2⟩ := hr
  rw [h2] at f1 f2 f3 f4
  subst h1
  simp only [f1, f2, f3, f4]
  refine ⟨?_, ?_, c3, c4, c6, ?_⟩
  · intro h
    have h2 := c1 h
    refine ⟨h2.1, h2.2.1, h2.2.2.1, ?_⟩
    rw [h2.2.2.2, if_pos ⟨h.2.2, h.2.1⟩]
  · intro h
    have h2 := c2 h
    refine ⟨h2.1, h2.2.1, h2.2.2.1, ?_⟩
    rw [h2.2.2.2]
    by_cases hdet : flags.doBreakDetect = true
    · cases hd : s.ltc831Flags.didFirst <;> simp [hdet]
    · simp [hdet]
  · intro x
    rw [c5]
    exact ⟨rfl, rfl⟩

/-! ## Break tracking of LTC831_RxParse over a whole response -/

theorem rxBreakEffect_crcError (c : Bool) (item i : Nat) (b : LTC831_BREAK_DATA_T) :
    (rxBreakEffect c item i b).flags.crcError = (c || b.flags.crcError) := by
  unfold rxBreakEffect
  cases c <;> simp <;> split_ifs <;> simp

theorem rxBreakAfter_crcError (u : Util) (s : State) (p0 : Nat) (b : LTC831_BREAK_DATA_T)
    (n : Nat) :
    (rxBreakAfter u s p0 b n).flags.crcError = true ↔
      (b.flags.crcError = true ∨ ∃ i, i < n ∧ rxCrcErrorAt u s (p0 + i * rxStride s) = true) := by
  induction n with
  | zero => simp [rxBreakAfter]
  | succ k ih =>
    rw [rxBreakAfter, rxBreakEffect_crcError, Bool.or_eq_true, ih]
    constructor
    · rintro (h | h | ⟨i, hi, h⟩)
      · exact Or.inr ⟨k, by omega, h⟩
      · exact Or.inl h
      · exact Or.inr ⟨i, by omega, h⟩
    · rintro (h | ⟨i, hi, h⟩)
      · exact Or.inr (Or.inl h)
      · by_cases hik : i = k
        · subst hik; exact Or.inl h
        · exact Or.inr (Or.inr ⟨i, by omega, h⟩)

theorem readBreakAfter_crcError (u : Util) (flags : LTC_PARAM_FLAGS_T) (addr : Nat)
    (rx : Nat → Nat) (b : LTC831_BREAK_DATA_T) (n i : Nat) (hi : i < n)
    (herr : readCrcErrorAt u flags addr rx i = true) :
    (readBreakAfter u flags addr rx b n).flags.crcError = true := by
  unfold readBreakAfter
  rw [rxBreakAfter_crcError]
  exact Or.inr ⟨i, hi, herr⟩

/-! ## C6: a single clean break -/

/-- The flow in which both transfers complete within their calls: take a
break-detecting read of a readable address for `0 < n < 256` devices,
entered with no DMA pending on the first directional attempt (`didFirst`
clear) in direction `D`, and let the parse of the first attempt find a CRC
error in some slot `i < n`.  Then the first call of `ltc831ReadCmd` returns `LTC_DEFERRED` with
`ltcBreakData[D].flags.crcError` set, `didFirst` set and the direction
flipped; and the re-entered call, whatever bytes it receives, returns
`LTC_SUCCESS` (so not `LTC_DEFERRED` again), leaves `didFirst` clear and the
direction back at `D`. -/
theorem readCmd_crc_error_single_reentry (u : Util) (env1 env2 : Env)
    (flags : LTC_PARAM_FLAGS_T) (tag n addr : Nat) (d : Option (Nat → Nat)) (s0 : State) (i : Nat)
    (hdma : s0.ltc831Flags.waitDMA = false) (hfirst : s0.ltc831Flags.didFirst = false)
    (hdet : flags.doBreakDetect = true) (hR : (regMap addr).type = LTC831_REG_R)
    (hn : 0 < n) (hn2 : n < 256)
    (hc1 : flags.synchronous = true ∨ env1.spiComplete = true)
    (hc2 : flags.synchronous = true ∨ env2.spiComplete = true)
    (hi : i < n) (herr : readCrcErrorAt u flags addr env1.rx i = true) :
    (ltc831ReadCmd u env1 flags tag n addr d s0).1 = LTC_DEFERRED ∧
    ((ltc831ReadCmd u env1 flags tag n addr d s0).2.ltcBreakData
      s0.ltc831Flags.dir).flags.crcError = true ∧
    (ltc831ReadCmd u env1 flags tag n addr d s0).2.ltc831Flags.didFirst = true ∧
    (ltc831ReadCmd u env1 flags tag n addr d s0).2.ltc831Flags.dir = (!s0.ltc831Flags.dir) ∧
    (ltc831ReadCmd u env2 flags tag n addr d
      (ltc831ReadCmd u env1 flags tag n addr d s0).2).1 = LTC_SUCCESS ∧
    (ltc831ReadCmd u env2 flags tag n addr d
      (ltc831ReadCmd u env1 flags tag n addr d s0).2).1 ≠ LTC_DEFERRED ∧
    (ltc831ReadCmd u env2 flags tag n addr d
      (ltc831ReadCmd u env1 flags tag n addr d s0).2).2.ltc831Flags.didFirst = false ∧
    (ltc831ReadCmd u env2 flags tag n addr d
      (ltc831ReadCmd u env1 flags tag n addr d s0).2).2.ltc831Flags.dir = s0.ltc831Flags.dir := by
  have hB1 := readBreakAfter_crcError u flags addr env1.rx
    (if flags.doBreakDetect = true then freshBreak else s0.ltcBreakData s0.ltc831Flags.dir)
    n i hi herr
  obtain ⟨a1, -, a3, a4, a5, a6⟩ := readCmd_attempt u env1 flags tag n addr d s0 _ hdma hR
    (by omega) (by omega) hc1 rfl
  obtain ⟨x1, x2, x3, x4⟩ := a1 ⟨hB1, hfirst, hdet⟩
  have hbd := (a6 s0.ltc831Flags.dir).2
  rw [if_pos rfl] at hbd
  generalize ltc831ReadCmd u env1 flags tag n addr d s0 = r1 at x1 x2 x3 x4 a3 a4 a5 a6 hbd
  obtain ⟨-, b2, -, -, -, -⟩ := readCmd_attempt u env2 flags tag n addr d r1.2 _ a3 hR
    (by omega) (by omega) hc2 rfl
  obtain ⟨y1, y2, y3, -⟩ := b2 (by rw [x2]; simp)
  refine ⟨x1, ?_, x2, x3, y1, ?_, y2, ?_⟩
  · rw [hbd]; exact hB1
  · rw [y1]; decide
  · rw [y3, x2, x3]; simp

set_option maxRecDepth 100000 in
/-- Sample of the flow in which both transfers complete within their calls:
a synchronous break-detecting read of fuse row 0 (address 0x30) from two
devices in direction A from the initial state; the first response has slot 1
all ones, the second is `goodResponse`. -/
theorem readCmd_crc_error_single_reentry_witness :
    (ltc831ReadCmd (modelUtil 0x025B) (envOf brokenResponse) breakDetectFlags 0 2 0x30 none
      zeroState).1 = LTC_DEFERRED ∧
    (ltc831ReadCmd (modelUtil 0x025B) (envOf goodResponse) breakDetectFlags 0 2 0x30 none
      (ltc831ReadCmd (modelUtil 0x025B) (envOf brokenResponse) breakDetectFlags 0 2 0x30 none
        zeroState).2).1 = LTC_SUCCESS ∧
    (ltc831ReadCmd (modelUtil 0x025B) (envOf goodResponse) breakDetectFlags 0 2 0x30 none
      (ltc831ReadCmd (modelUtil 0x025B) (envOf brokenResponse) breakDetectFlags 0 2 0x30 none
        zeroState).2).2.ltc831Flags.dir = false :=
  have h := readCmd_crc_error_single_reentry (modelUtil 0x025B) (envOf brokenResponse)
    (envOf goodResponse) breakDetectFlags 0 2 0x30 none zeroState 1 (by decide) (by decide)
    (by decide) (by decide) (by decide) (by decide) (Or.inl (by decide)) (Or.inl (by decide))
    (by decide) (by decide)
  ⟨h.1, h.2.2.2.2.1, h.2.2.2.2.2.2.2⟩

/-! ## Break tracking of LTC831_checkAck -/

theorem checkAck_dev_break (N i : Nat) (s : State) (l : AckLocals) :
    (LTC831_checkAck_dev N i (s, l)).1.ltcBreakData =
      (fun x => if x = s.ltc831Flags.dir then
        ackBreakEffect (decide (s.ltcFrames.cmdDataRx l.inData_p &&& l.bitMask ≠ 0)) i
          (s.ltcBreakData s.ltc831Flags.dir)
        else s.ltcBreakData x) ∧
    (LTC831_checkAck_dev N i (s, l)).1.packApi = s.packApi ∧
    (LTC831_checkAck_dev N i (s, l)).1.reqNumDevs = s.reqNumDevs := by
  unfold LTC831_checkAck_dev ackBreakEffect
  simp only
  split <;>
    by_cases hf : s.ltcFrames.cmdDataRx l.inData_p &&& l.bitMask ≠ 0 <;>
    cases hfb : (s.ltcBreakData s.ltc831Flags.dir).flags.firstBreak <;>
    refine ⟨?_, ?_, ?_⟩ <;>
    first
    | (simp [hf, hfb, State.modBreak, State.modRegFlags, State.modDev]; done)
    | (funext x
       by_cases hx : x = s.ltc831Flags.dir <;>
         simp [hf, hfb, hx, State.modBreak, State.modRegFlags, State.modDev])

theorem checkAck_loop_break (N : Nat) (s : State) (st : LTC_STATUS_E) (n : Nat) :
    (forLoop n (LTC831_checkAck_dev N) (s, ⟨st, 2, 0xc0⟩)).1.ltcBreakData =
      (fun x => if x = s.ltc831Flags.dir then
        ackBreakAfter s.ltcFrames.cmdDataRx (s.ltcBreakData s.ltc831Flags.dir) n
        else s.ltcBreakData x) ∧
    (forLoop n (LTC831_checkAck_dev N) (s, ⟨st, 2, 0xc0⟩)).1.packApi = s.packApi ∧
    (forLoop n (LTC831_checkAck_dev N) (s, ⟨st, 2, 0xc0⟩)).1.reqNumDevs = s.reqNumDevs ∧
    ((forLoop n (LTC831_checkAck_dev N) (s, ⟨st, 2, 0xc0⟩)).2.status = st ∨
      (forLoop n (LTC831_checkAck_dev N) (s, ⟨st, 2, 0xc0⟩)).2.status = LTC_ACK_FAILED) := by
  induction n with
  | zero =>
    refine ⟨?_, rfl, rfl, Or.inl rfl⟩
    funext x
    by_cases hx : x = s.ltc831Flags.dir
    · subst hx; simp [ackBreakAfter]
    · simp [hx]
  | succ k ih =>
    obtain ⟨i1, i2, i3, i4, i5⟩ := checkAck_loop_inv N s st k
    obtain ⟨h1, h2, h3, h4⟩ := ih
    rw [forLoop_succ]
    generalize forLoop k (LTC831_checkAck_dev N) (s, ⟨st, 2, 0xc0⟩) = r at i1 i2 i3 i4 i5 h1 h2 h3 h4
    obtain ⟨t, l⟩ := r
    simp only at i1 i2 i3 i4 i5 h1 h2 h3 h4
    obtain ⟨d1, d2, d3⟩ := checkAck_dev_break N k t l
    have hl := checkAck_dev_locals N k t l
    refine ⟨?_, d2.trans h2, d3.trans h3, ?_⟩
    · rw [d1, i4, h1, i3, i1, i2]
      funext x
      by_cases hx : x = s.ltc831Flags.dir
      · simp [hx, ackBreakAfter, ackFailAt, LTC831_CMD_PKT_SIZE_B]
      · simp [hx]
    · rw [hl]
      simp only
      split_ifs
      · exact Or.inr rfl
      · exact h4

/-- `LTC831_checkAck`: the status is `LTC_SUCCESS` or `LTC_ACK_FAILED`, the
break data of the current direction is tracked slot by slot
(`ackBreakAfter`), and flags, parameters, pack-layer record and request are
left alone. -/
theorem checkAck_spec (s : State) :
    ((LTC831_checkAck s).1 = LTC_SUCCESS ∨ (LTC831_checkAck s).1 = LTC_ACK_FAILED) ∧
    (LTC831_checkAck s).2.ltcBreakData =
      (fun x => if x = s.ltc831Flags.dir then
        ackBreakAfter s.ltcFrames.cmdDataRx (s.ltcBreakData s.ltc831Flags.dir)
          s.ltcParams.numDevs
        else s.ltcBreakData x) ∧
    (LTC831_checkAck s).2.packApi = s.packApi ∧
    (LTC831_checkAck s).2.reqNumDevs = s.reqNumDevs ∧
    (LTC831_checkAck s).2.ltc831Flags = s.ltc831Flags ∧
    (LTC831_checkAck s).2.ltcParams = s.ltcParams := by
  unfold LTC831_checkAck
  simp only [LTC831_CMD_PKT_SIZE_B]
  obtain ⟨h1, h2, h3, h4⟩ := checkAck_loop_break
    (effNumDevs { s with ltcFrames := { s.ltcFrames with rxNumDevs := 0 } })
    { s with ltcFrames := { s.ltcFrames with rxNumDevs := 0 } } LTC_SUCCESS s.ltcParams.numDevs
  obtain ⟨-, -, -, i4, i5⟩ := checkAck_loop_inv
    (effNumDevs { s with ltcFrames := { s.ltcFrames with rxNumDevs := 0 } })
    { s with ltcFrames := { s.ltcFrames with rxNumDevs := 0 } } LTC_SUCCESS s.ltcParams.numDevs
  exact ⟨h4, h1, h2, h3, i4, i5⟩

/-! ## ltc831WriteCmd: the blocks for an acknowledged command -/

/-- Every address whose descriptor has `ack` is a data-less command of kind B
below the fuse rows. -/
theorem regMap_ack (addr : Nat) (h : (regMap addr).ack = true) :
    (regMap addr).type = LTC831_REG_B ∧ (regMap addr).lenB = 0 ∧
    addr < LTC831_RDFS_NO_TAG_CMD := by
  by_cases h58 : 58 ≤ addr
  · rw [regMap_of_ge addr h58] at h; exact absurd h (by decide)
  · have h2 : addr < 58 := by omega
    clear h58
    interval_cases addr <;> first | (exact absurd h (by decide)) | decide

theorem buildCommand_write_empty (u : Util) (s : State)
    (hcmd : s.ltcParams.spiCmd = LTC_REG_WRITE_CMD)
    (hB : (regMap s.ltcParams.addr).type = LTC831_REG_B)
    (hlen : (regMap s.ltcParams.addr).lenB = 0) :
    (ltc831BuildCommand u s).1 = LTC_SUCCESS ∧
    (ltc831BuildCommand u s).2.ltcParams = s.ltcParams ∧
    (ltc831BuildCommand u s).2.ltc831Flags = s.ltc831Flags ∧
    (ltc831BuildCommand u s).2.ltcBreakData = s.ltcBreakData ∧
    (ltc831BuildCommand u s).2.packApi = s.packApi ∧
    (ltc831BuildCommand u s).2.reqNumDevs = s.reqNumDevs := by
  unfold ltc831BuildCommand ltcResetStateMachine
  simp [hcmd, hB, hlen]

/-- The command parameters `ltc831WriteCmd` stores for its arguments. -/
theorem writePrepare_spec (u : Util) (flags : LTC_PARAM_FLAGS_T) (n addr : Nat)
    (d : Option (Nat → Nat)) (s : State) (hack : (regMap addr).ack = true) :
    (ltc831WriteCmd_prepare u flags n addr d s).1 = LTC_SUCCESS ∧
    (ltc831WriteCmd_prepare u flags n addr d s).2.ltcParams =
      ⟨flags, LTC_REG_WRITE_CMD, addr, 0, n, d⟩ ∧
    (ltc831WriteCmd_prepare u flags n addr d s).2.ltc831Flags = s.ltc831Flags ∧
    (ltc831WriteCmd_prepare u flags n addr d s).2.reqNumDevs = s.reqNumDevs ∧
    (ltc831WriteCmd_prepare u flags n addr d s).2.packApi =
      (if flags.doBreakDetect = true ∧ s.ltc831Flags.didFirst = false then clearedPack s.packApi
       else s.packApi) ∧
    (ltc831WriteCmd_prepare u flags n addr d s).2.ltcBreakData =
      (if flags.doBreakDetect = true then
        fun x => if x = s.ltc831Flags.dir then freshBreak else s.ltcBreakData x
       else s.ltcBreakData) := by
  obtain ⟨hB, hlen, hlt⟩ := regMap_ack addr hack
  have hge : ¬ addr ≥ LTC831_RDFS_NO_TAG_CMD := by omega
  obtain ⟨X, hX, h1, h2, h3, h4, h5⟩ : ∃ X : State,
      ltc831WriteCmd_prepare u flags n addr d s = ltc831BuildCommand u X ∧
      X.ltcParams = ⟨flags, LTC_REG_WRITE_CMD, addr, 0, n, d⟩ ∧ X.ltc831Flags = s.ltc831Flags ∧
      X.reqNumDevs = s.reqNumDevs ∧
      X.packApi = (if flags.doBreakDetect = true ∧ s.ltc831Flags.didFirst = false then
        clearedPack s.packApi else s.packApi) ∧
      X.ltcBreakData = (if flags.doBreakDetect = true then
        fun x => if x = s.ltc831Flags.dir then freshBreak else s.ltcBreakData x
       else s.ltcBreakData) := by
    unfold ltc831WriteCmd_prepare
    cases hb : flags.doBreakDetect <;> cases hd : s.ltc831Flags.didFirst <;>
      simp only [if_neg hge, hB, hack, ne_eq, not_true_eq_false, if_false, if_true,
        Bool.false_eq_true, not_false_eq_true, true_and, false_and, and_true, and_false,
        reduceCtorEq, and_self] <;>
      refine ⟨_, rfl, ?_, ?_, ?_, ?_, ?_⟩ <;>
      simp [ltcResetStateMachine, ltcPrepPoll, State.modBreak, clearedPack, zeroParams,
        freshBreak, hd]
  have hcmd : X.ltcParams.spiCmd = LTC_REG_WRITE_CMD := by rw [h1]
  have hBX : (regMap X.ltcParams.addr).type = LTC831_REG_B := by rw [h1]; exact hB
  have hlX : (regMap X.ltcParams.addr).lenB = 0 := by rw [h1]; exact hlen
  obtain ⟨b1, b2, b3, b4, b5, b6⟩ := buildCommand_write_empty u X hcmd hBX hlX
  rw [hX]
  exact ⟨b1, b2.trans h1, b3.trans h2, b6.trans h3, b5.trans h4, b4.trans h5⟩

theorem writeResolve_spec (st : LTC_STATUS_E) (s : State) :
    (ltc831WriteCmd_resolve st s).2.packApi =
      (if s.ltcParams.flags.doBreakDetect = true then
        resolvePack s.reqNumDevs s.ltcBreakData s.packApi else s.packApi) ∧
    (ltc831WriteCmd_resolve st s).2.ltc831Flags = s.ltc831Flags ∧
    (ltc831WriteCmd_resolve st s).2.ltcBreakData = s.ltcBreakData ∧
    (ltc831WriteCmd_resolve st s).2.reqNumDevs = s.reqNumDevs ∧
    ((ltc831WriteCmd_resolve st s).1 = st ∨ (ltc831WriteCmd_resolve st s).1 = LTC_SUCCESS) := by
  unfold ltc831WriteCmd_resolve resolvePack
  by_cases hd : s.ltcParams.flags.doBreakDetect = true <;>
    by_cases hb : ((s.ltcBreakData false).flags.breakString = true ∨
      (s.ltcBreakData true).flags.breakString = true) <;>
    simp only [hd, hb, and_self, and_true, and_false, true_and, if_true, if_false]
  · refine ⟨?_, ?_, ?_, ?_, ?_⟩ <;>
      (split_ifs <;> simp)
  all_goals simp

/-- The block of `ltc831WriteCmd` behind a completed transfer, for an
acknowledged command with the ACK check requested.  With `B` the break data
`LTC831_checkAck` leaves for the current direction: when `B` records an ACK
error on the first directional attempt of a break-detecting write, the block
returns `LTC_DEFERRED` with `didFirst` set and the direction flipped;
otherwise it does not return `LTC_DEFERRED`, clears `didFirst`, classifies
the pack-layer record by `resolvePack` and flips the direction. -/
theorem writeComplete_spec (n : Nat) (d : Option (Nat → Nat)) (st : LTC_STATUS_E) (s : State)
    (hack : (regMap s.ltcParams.addr).ack = true) (huse : s.ltcParams.flags.useAck = true) :
    (((ackBreakAfter s.ltcFrames.cmdDataRx (s.ltcBreakData s.ltc831Flags.dir)
          s.ltcParams.numDevs).flags.ackError = true ∧
        s.ltc831Flags.didFirst = false ∧ s.ltcParams.flags.doBreakDetect = true) →
      (ltc831WriteCmd_complete n d st s).1 = LTC_DEFERRED ∧
      (ltc831WriteCmd_complete n d st s).2.ltc831Flags.didFirst = true ∧
      (ltc831WriteCmd_complete n d st s).2.packApi = s.packApi) ∧
    (¬ ((ackBreakAfter s.ltcFrames.cmdDataRx (s.ltcBreakData s.ltc831Flags.dir)
          s.ltcParams.numDevs).flags.ackError = true ∧
        s.ltc831Flags.didFirst = false ∧ s.ltcParams.flags.doBreakDetect = true) →
      (ltc831WriteCmd_complete n d st s).1 ≠ LTC_DEFERRED ∧
      (ltc831WriteCmd_complete n d st s).2.ltc831Flags.didFirst = false ∧
      (ltc831WriteCmd_complete n d st s).2.packApi =
        (if s.ltcParams.flags.doBreakDetect = true then
          resolvePack s.reqNumDevs
            (fun x => if x = s.ltc831Flags.dir then
              ackBreakAfter s.ltcFrames.cmdDataRx (s.ltcBreakData s.ltc831Flags.dir)
                s.ltcParams.numDevs
              else s.ltcBreakData x) s.packApi
         else s.packApi)) ∧
    (ltc831WriteCmd_complete n d st s).2.ltc831Flags.dir = (!s.ltc831Flags.dir) ∧
    (ltc831WriteCmd_complete n d st s).2.ltc831Flags.waitDMA = s.ltc831Flags.waitDMA ∧
    (ltc831WriteCmd_complete n d st s).2.ltc831Flags.chainHead = s.ltc831Flags.chainHead ∧
    (ltc831WriteCmd_complete n d st s).2.ltcBreakData =
      (fun x => if x = s.ltc831Flags.dir then
        ackBreakAfter s.ltcFrames.cmdDataRx (s.ltcBreakData s.ltc831Flags.dir) s.ltcParams.numDevs
        else s.ltcBreakData x) ∧
    (ltc831WriteCmd_complete n d st s).2.reqNumDevs = s.reqNumDevs := by
  obtain ⟨k1, k2, k3, k4, k5, k6⟩ :=
    checkAck_spec { s with ltcFrames := { s.ltcFrames with rxNumDevs := n } }
  simp only at k2 k3 k4 k5 k6
  generalize ackBreakAfter s.ltcFrames.cmdDataRx (s.ltcBreakData s.ltc831Flags.dir)
    s.ltcParams.numDevs = B at k2 ⊢
  generalize hr : ltc831WriteCmd_complete n d st s = r
  unfold ltc831WriteCmd_complete at hr
  simp only [hack, huse, and_self, if_true] at hr
  generalize LTC831_checkAck { s with ltcFrames := { s.ltcFrames with rxNumDevs := n } } = p
    at k1 k2 k3 k4 k5 k6 hr
  obtain ⟨ast, t⟩ := p
  simp only at k1 k2 k3 k4 k5 k6 hr
  have hcond : ((t.ltcBreakData t.ltc831Flags.dir).flags.ackError = true ∧
      ¬ t.ltc831Flags.didFirst = true ∧ t.ltcParams.flags.doBreakDetect = true) ↔
      (B.flags.ackError = true ∧ s.ltc831Flags.didFirst = false ∧
        s.ltcParams.flags.doBreakDetect = true) := by
    rw [k2, k5, k6]; simp
  have hast : ast ≠ LTC_DEFERRED := by
    rcases k1 with h | h <;> rw [h] <;> decide
  by_cases hc : (B.flags.ackError = true ∧ s.ltc831Flags.didFirst = false ∧
        s.ltcParams.flags.doBreakDetect = true)
  · rw [if_pos (hcond.mpr hc)] at hr
    subst hr
    cases d <;> simp [hc, k2, k3, k4, k5, k6]
  · rw [if_neg (fun h => hc (hcond.mp h))] at hr
    obtain ⟨q1, q2, q3, q4, q5⟩ := writeResolve_spec ast
      { t with ltc831Flags := { t.ltc831Flags with didFirst := false } }
    simp only at q1 q2 q3 q4
    generalize ltc831WriteCmd_resolve ast
      { t with ltc831Flags := { t.ltc831Flags with didFirst := false } } = w at hr q1 q2 q3 q4 q5
    have hw1 : w.1 ≠ LTC_DEFERRED := by
      rcases q5 with h | h
      · rw [h]; exact hast
      · rw [h]; decide
    subst hr
    cases d <;> simp [hc, hw1, q1, q2, q3, q4, k2, k3, k4, k5, k6]

/-- One call of `ltc831WriteCmd` for an acknowledged command with the ACK
check requested and a transfer that completes within the call, entered with
no DMA pending.  `B` is the break data `LTC831_checkAck` leaves for the
direction of the call. -/
theorem writeCmd_attempt (u : Util) (env : Env) (flags : LTC_PARAM_FLAGS_T) (n addr : Nat)
    (d : Option (Nat → Nat)) (s : State) (B : LTC831_BREAK_DATA_T)
    (hdma : s.ltc831Flags.waitDMA = false) (hack : (regMap addr).ack = true)
    (huse : flags.useAck = true)
    (hc : flags.synchronous = true ∨ env.spiComplete = true)
    (hB : B = ackBreakAfter env.rx
      (if flags.doBreakDetect = true then freshBreak else s.ltcBreakData s.ltc831Flags.dir) n) :
    ((B.flags.ackError = true ∧ s.ltc831Flags.didFirst = false ∧ flags.doBreakDetect = true) →
      (ltc831WriteCmd u env flags n addr d s).1 = LTC_DEFERRED ∧
      (ltc831WriteCmd u env flags n addr d s).2.ltc831Flags.didFirst = true ∧
      (ltc831WriteCmd u env flags n addr d s).2.packApi = clearedPack s.packApi) ∧
    (¬ (B.flags.ackError = true ∧ s.ltc831Flags.didFirst = false ∧ flags.doBreakDetect = true) →
      (ltc831WriteCmd u env flags n addr d s).1 ≠ LTC_DEFERRED ∧
      (ltc831WriteCmd u env flags n addr d s).2.ltc831Flags.didFirst = false ∧
      (ltc831WriteCmd u env flags n addr d s).2.packApi =
        (if flags.doBreakDetect = true then
          resolvePack s.reqNumDevs
            (fun x => if x = s.ltc831Flags.dir then B else s.ltcBreakData x)
            (if s.ltc831Flags.didFirst = false then clearedPack s.packApi else s.packApi)
         else s.packApi)) ∧
    (ltc831WriteCmd u env flags n addr d s).2.ltc831Flags.dir = (!s.ltc831Flags.dir) ∧
    (ltc831WriteCmd u env flags n addr d s).2.ltc831Flags.waitDMA = false ∧
    (ltc831WriteCmd u env flags n addr d s).2.ltc831Flags.chainHead = s.ltc831Flags.chainHead ∧
    (ltc831WriteCmd u env flags n addr d s).2.reqNumDevs = s.reqNumDevs ∧
    (ltc831WriteCmd u env flags n addr d s).2.ltcBreakData =
      (fun x => if x = s.ltc831Flags.dir then B else s.ltcBreakData x) := by
  obtain ⟨p1, p2, p3, p4, p5, p6⟩ := writePrepare_spec u flags n addr d s hack
  generalize hr : ltc831WriteCmd u env flags n addr d s = r
  unfold ltc831WriteCmd at hr
  dsimp only at hr
  have hw : ¬ s.ltc831Flags.waitDMA = true := by simp [hdma]
  rw [if_pos hw] at hr
  generalize ltc831WriteCmd_prepare u flags n addr d s = P at p1 p2 p3 p4 p5 p6 hr
  obtain ⟨pst, P⟩ := P
  simp only at p1 p2 p3 p4 p5 p6 hr
  subst p1
  rw [if_pos rfl] at hr
  have hsync : P.ltcParams.flags.synchronous = true ∨ env.spiComplete = true := by
    rw [p2]; exact hc
  obtain ⟨s1, s2, s3, s4, s5, s6, s7, s8, s9, s10, s11⟩ :=
    sendCommandFrame_done env P (by rw [p3]; exact hdma) hsync
  generalize ltcSendCommandFrame env P = S at s1 s2 s3 s4 s5 s6 s7 s8 s9 s10 s11 hr
  obtain ⟨sst, S⟩ := S
  simp only at s1 s2 s3 s4 s5 s6 s7 s8 s9 s10 s11 hr
  subst s1
  rw [if_pos rfl] at hr
  have hSn : S.ltcParams.numDevs = n := by rw [s2, p2]
  have hSdir : S.ltc831Flags.dir = s.ltc831Flags.dir := by rw [s9, p3]
  have hSdid : S.ltc831Flags.didFirst = s.ltc831Flags.didFirst := by rw [s8, p3]
  have hSdet : S.ltcParams.flags.doBreakDetect = flags.doBreakDetect := by rw [s2, p2]
  have hSb : S.ltcBreakData S.ltc831Flags.dir =
      (if flags.doBreakDetect = true then freshBreak else s.ltcBreakData s.ltc831Flags.dir) := by
    rw [s6, p6, hSdir]
    by_cases hdet : flags.doBreakDetect = true <;> simp [hdet]
  have hSbx : ∀ x, x ≠ s.ltc831Flags.dir → S.ltcBreakData x = s.ltcBreakData x := by
    intro x hx
    rw [s6, p6]
    by_cases hdet : flags.doBreakDetect = true <;> simp [hdet, hx]
  have hview : ackBreakAfter S.ltcFrames.cmdDataRx (S.ltcBreakData S.ltc831Flags.dir)
      S.ltcParams.numDevs = B := by
    rw [hB, hSb, hSn, s7]
  have hfun : (fun x => if x = s.ltc831Flags.dir then B else S.ltcBreakData x) =
      (fun x => if x = s.ltc831Flags.dir then B else s.ltcBreakData x) := by
    funext x
    by_cases hx : x = s.ltc831Flags.dir
    · simp [hx]
    · simp [hx, hSbx x hx]
  obtain ⟨c1, c2, c3, c4, c5, c6, c7⟩ := writeComplete_spec n d LTC_SUCCESS S
    (by rw [s2, p2]; exact hack) (by rw [s2, p2]; exact huse)
  rw [hview, hSdid, hSdet] at c1 c2
  rw [hview, hSdir, hfun] at c6
  rw [hSdir] at c3
  rw [s11] at c4
  rw [s10, p3] at c5
  rw [s4, p4] at c7
  rw [hSdir, hfun, s4, p4, s3, p5] at c2
  rw [s3, p5] at c1
  subst hr
  refine ⟨?_, ?_, c3, c4, c5, c7, c6⟩
  · intro h
    have h2 := c1 h
    refine ⟨h2.1, h2.2.1, ?_⟩
    rw [h2.2.2, if_pos ⟨h.2.2, h.2.1⟩]
  · intro h
    have h2 := c2 h
    refine ⟨h2.1, h2.2.1, ?_⟩
    rw [h2.2.2]
    by_cases hdet : flags.doBreakDetect = true
    · cases hd : s.ltc831Flags.didFirst <;> simp [hdet]
    · simp [hdet]

/-! ## C5: the break resolver -/

/-- What `resolvePack` leaves in a pack-layer record whose break flags were
cleared at the start of the command. -/
theorem resolvePack_verdict (n : Nat) (F : State) (p0 : PACK_API_T)
    (h : F.packApi = resolvePack n F.ltcBreakData (clearedPack p0)) :
    (((F.ltcBreakData false).flags.breakString = true ∨
        (F.ltcBreakData true).flags.breakString = true) →
      (((F.ltcBreakData false).breakIdx + (F.ltcBreakData true).breakIdx) % 256 < n →
        F.packApi.flags.breakDetectDouble = true) ∧
      (((F.ltcBreakData false).breakIdx + (F.ltcBreakData true).breakIdx) % 256 = n →
        F.packApi.flags.breakDetected = true ∧ F.packApi.flags.breakDetectDouble = false ∧
        F.packApi.flags.breakDetectError = false) ∧
      (n < ((F.ltcBreakData false).breakIdx + (F.ltcBreakData true).breakIdx) % 256 →
        F.packApi.flags.breakDetectError = true ∧ F.packApi.flags.breakDetected = false) ∧
      F.packApi.breakIdx = (F.ltcBreakData false).breakIdx) ∧
    (¬ ((F.ltcBreakData false).flags.breakString = true ∨
        (F.ltcBreakData true).flags.breakString = true) →
      F.packApi.flags.breakDetected = false ∧ F.packApi.flags.breakDetectDouble = false ∧
      F.packApi.flags.breakDetectError = false) := by
  constructor
  · intro hs
    rw [h]
    unfold resolvePack clearedPack
    rw [if_pos hs]
    refine ⟨?_, ?_, ?_, rfl⟩
    · intro hlt; simp [hlt]
    · intro heq; simp [heq]
    · intro hgt
      have h1 : ¬ ((F.ltcBreakData false).breakIdx + (F.ltcBreakData true).breakIdx) % 256 < n := by
        omega
      have h2 : ¬ ((F.ltcBreakData false).breakIdx + (F.ltcBreakData true).breakIdx) % 256 = n := by
        omega
      simp [h1, h2]
  · intro hs
    rw [h]
    unfold resolvePack clearedPack
    rw [if_neg hs]
    exact ⟨rfl, rfl, rfl⟩

/-- The second of two directional attempts of a break-detecting acknowledged
write leaves the pack-layer record classified by `resolvePack` from cleared
flags. -/
theorem writeCmd_two_attempts (u : Util) (env1 env2 : Env) (flags : LTC_PARAM_FLAGS_T)
    (n addr : Nat) (d : Option (Nat → Nat)) (s0 : State)
    (hdma : s0.ltc831Flags.waitDMA = false)
    (hdet : flags.doBreakDetect = true) (hack : (regMap addr).ack = true)
    (huse : flags.useAck = true)
    (hc1 : flags.synchronous = true ∨ env1.spiComplete = true)
    (hc2 : flags.synchronous = true ∨ env2.spiComplete = true)
    (hdef : (ltc831WriteCmd u env1 flags n addr d s0).1 = LTC_DEFERRED) :
    (ltc831WriteCmd u env2 flags n addr d
      (ltc831WriteCmd u env1 flags n addr d s0).2).2.packApi =
      resolvePack s0.reqNumDevs
        (ltc831WriteCmd u env2 flags n addr d
          (ltc831WriteCmd u env1 flags n addr d s0).2).2.ltcBreakData
        (clearedPack s0.packApi) := by
  obtain ⟨a1, a2, a3, a4, a5, a6, a7⟩ := writeCmd_attempt u env1 flags n addr d s0 _ hdma hack
    huse hc1 rfl
  by_cases hcond : ((ackBreakAfter env1.rx
      (if flags.doBreakDetect = true then freshBreak else s0.ltcBreakData s0.ltc831Flags.dir)
      n).flags.ackError = true ∧ s0.ltc831Flags.didFirst = false ∧ flags.doBreakDetect = true)
  · obtain ⟨x1, x2, x4⟩ := a1 hcond
    generalize ltc831WriteCmd u env1 flags n addr d s0 = r1 at x1 x2 x4 a3 a4 a5 a6 a7
    obtain ⟨-, b2, -, -, -, -, b7⟩ := writeCmd_attempt u env2 flags n addr d r1.2 _ a4 hack
      huse hc2 rfl
    obtain ⟨-, -, y4⟩ := b2 (by rw [x2]; simp)
    rw [if_pos hdet, x2, x4, a6] at y4
    rw [y4, b7]
    simp only [Bool.true_eq_false, if_false]
  · have := (a2 hcond).1
    exact absurd hdef this

theorem ackBreakAfter_breakIdx_le (rx : Nat → Nat) (b : LTC831_BREAK_DATA_T) (n : Nat) :
    (ackBreakAfter rx b n).breakIdx ≤ max b.breakIdx n := by
  induction n with
  | zero => simp [ackBreakAfter]
  | succ k ih =>
    rw [ackBreakAfter]
    generalize ackBreakAfter rx b k = c at ih
    have hm : (k + 1) % 256 ≤ k + 1 := Nat.mod_le _ _
    have h1 : max b.breakIdx k ≤ max b.breakIdx (k + 1) := by omega
    unfold ackBreakEffect
    split_ifs <;> simp only <;> omega

/-- After the two directional attempts of a break-detecting acknowledged
write each break index is at most the device count. -/
theorem writeCmd_two_attempts_breakIdx_le (u : Util) (env1 env2 : Env)
    (flags : LTC_PARAM_FLAGS_T) (n addr : Nat) (d : Option (Nat → Nat)) (s0 : State)
    (hdma : s0.ltc831Flags.waitDMA = false)
    (hdet : flags.doBreakDetect = true) (hack : (regMap addr).ack = true)
    (huse : flags.useAck = true)
    (hc1 : flags.synchronous = true ∨ env1.spiComplete = true)
    (hc2 : flags.synchronous = true ∨ env2.spiComplete = true)
    (hdef : (ltc831WriteCmd u env1 flags n addr d s0).1 = LTC_DEFERRED) (x : Bool) :
    ((ltc831WriteCmd u env2 flags n addr d
      (ltc831WriteCmd u env1 flags n addr d s0).2).2.ltcBreakData x).breakIdx ≤ n := by
  have hB1 := ackBreakAfter_breakIdx_le env1.rx freshBreak n
  have hB2 := ackBreakAfter_breakIdx_le env2.rx freshBreak n
  have hfresh : freshBreak.breakIdx = 0 := rfl
  rw [hfresh, Nat.zero_max] at hB1 hB2
  obtain ⟨a1, a2, a3, a4, a5, a6, a7⟩ := writeCmd_attempt u env1 flags n addr d s0 _ hdma hack
    huse hc1 rfl
  rw [if_pos hdet] at a1 a2 a7
  by_cases hcond : ((ackBreakAfter env1.rx freshBreak n).flags.ackError = true ∧
      s0.ltc831Flags.didFirst = false ∧ flags.doBreakDetect = true)
  · have hD : ((ltc831WriteCmd u env1 flags n addr d s0).2.ltcBreakData
        s0.ltc831Flags.dir).breakIdx = (ackBreakAfter env1.rx freshBreak n).breakIdx := by
      rw [a7]; simp
    generalize ltc831WriteCmd u env1 flags n addr d s0 = r1 at a1 a2 a3 a4 a5 a6 a7 hD
    obtain ⟨-, -, -, -, -, -, b7⟩ := writeCmd_attempt u env2 flags n addr d r1.2 _ a4 hack
      huse hc2 rfl
    rw [if_pos hdet] at b7
    rw [b7]
    simp only
    by_cases hx : x = r1.2.ltc831Flags.dir
    · rw [if_pos hx]; exact hB2
    · rw [if_neg hx]
      have hx2 : x = s0.ltc831Flags.dir := by
        rw [a3] at hx
        cases x <;> cases hd : s0.ltc831Flags.dir <;> simp_all
      rw [hx2, hD]
      exact hB1
  · have := (a2 hcond).1
    exact absurd hdef this

/-- C14 (what the code does): the table rows for the PWM registers are in the
order PWMA read, PWMA write, PWMB read, PWMB write, while ltc831_regs.h
numbers the opcodes RDPWMA 0x12, RDPWMB 0x13, WRPWMA 0x14, WRPWMB 0x15.  So
the entry at the read opcode RDPWMB is of kind W and the entry at the write
opcode WRPWMA is of kind R: a RDPWMB read of one device is refused with
`LTC_INVALID_COMMAND` and a WRPWMA write with `LTC_BAD_PARAMETER`.  Every
other read opcode below 0x36 has an entry of kind R, the write opcodes WRCFG
and WRPWMB an entry of kind W, and every broadcast opcode an entry of kind
B. -/
theorem regMap_pwm_rows_out_of_order :
    (regMap LTC831_RDPWMB_NO_TAG_CMD).type = LTC831_REG_W ∧
    (regMap LTC831_WRPWMA_CMD).type = LTC831_REG_R ∧
    (ltc831ReadCmd (modelUtil 0x025B) (envOf []) syncFlags 0 1 LTC831_RDPWMB_NO_TAG_CMD none
      zeroState).1 = LTC_INVALID_COMMAND ∧
    (ltc831WriteCmd (modelUtil 0x025B) (envOf []) syncFlags 1 LTC831_WRPWMA_CMD
      (some (fun _ => 0)) zeroState).1 = LTC_BAD_PARAMETER ∧
    (∀ a ∈ readOpcodes, a ≠ LTC831_RDPWMB_NO_TAG_CMD → (regMap a).type = LTC831_REG_R) ∧
    (∀ a ∈ writeOpcodes, a ≠ LTC831_WRPWMA_CMD → (regMap a).type = LTC831_REG_W) ∧
    (∀ a ∈ broadcastOpcodes, (regMap a).type = LTC831_REG_B) := by
  refine ⟨by decide, by decide, by decide, by decide, by decide, by decide, by decide⟩

/-! ## C11, C12, C13: address checks of ltc831ReadCmd and ltc831WriteCmd -/

theorem sendCommandFrame_status (env : Env) (s : State) :
    (ltcSendCommandFrame env s).1 = LTC_SUCCESS ∨ (ltcSendCommandFrame env s).1 = LTC_DEFERRED := by
  generalize hr : ltcSendCommandFrame env s = r
  unfold ltcSendCommandFrame ltc831SendClCmd at hr
  generalize ltc831WakeupIdle env s.ltc831Flags.dir s.ltcParams.numDevs s = w at hr
  subst hr
  cases hdma : s.ltc831Flags.waitDMA <;> cases hsync : s.ltcParams.flags.synchronous <;>
    cases hsc : env.spiComplete <;> simp [hdma, hsync, hsc]

theorem readComplete_status (u : Util) (s : State) :
    (ltc831ReadCmd_complete u s).1 = LTC_SUCCESS ∨
      (ltc831ReadCmd_complete u s).1 = LTC_DEFERRED := by
  unfold ltc831ReadCmd_complete
  simp only
  split
  · exact Or.inr rfl
  · exact Or.inl rfl

/-- A read of a readable address from at least one device returns
`LTC_SUCCESS` or `LTC_DEFERRED`, whatever the transport answers and whether or
not a DMA transfer is pending. -/
theorem readCmd_status_of_readable (u : Util) (env : Env) (flags : LTC_PARAM_FLAGS_T)
    (tag n addr : Nat) (d : Option (Nat → Nat)) (s : State)
    (hR : (regMap addr).type = LTC831_REG_R) (hn : n ≠ 0) :
    (ltc831ReadCmd u env flags tag n addr d s).1 = LTC_SUCCESS ∨
      (ltc831ReadCmd u env flags tag n addr d s).1 = LTC_DEFERRED := by
  have hp := (readPrepare_spec u flags tag n addr d s hR hn).1
  have hP : (if ¬ s.ltc831Flags.waitDMA = true then
      ltc831ReadCmd_prepare u flags tag n addr d s else (LTC_SUCCESS, s)).1 = LTC_SUCCESS := by
    split
    · exact hp
    · rfl
  unfold ltc831ReadCmd
  dsimp only
  generalize (if ¬ s.ltc831Flags.waitDMA = true then ltc831ReadCmd_prepare u flags tag n addr d s
    else (LTC_SUCCESS, s)) = P at hP ⊢
  rw [if_pos hP]
  rcases sendCommandFrame_status env P.2 with h | h
  · rw [if_pos h]
    exact readComplete_status u _
  · have h2 : ¬ (ltcSendCommandFrame env P.2).1 = LTC_SUCCESS := by rw [h]; decide
    rw [if_neg h2]
    exact Or.inr h

set_option maxRecDepth 100000 in
/-- C11 (counterexample): the address test of `ltc831ReadCmd` sits inside
`if(!ltc831Flags.waitDMA)`.  After an asynchronous read that left the DMA
pending, a call for address 0x36 (above the last fuse row) does not return
`LTC_UNSUPPORTED_FEATURE`: it resumes the pending read and returns
`LTC_SUCCESS`. -/
theorem readCmd_pending_skips_address_test :
    (ltc831ReadCmd (modelUtil 0x025B) (pendingEnvOf goodResponse) asyncFlags 0 2 0x30 none
      zeroState).1 = LTC_DEFERRED ∧
    pendingReadState.ltc831Flags.waitDMA = true ∧
    0x36 > LTC831_RDFS_NO_TAG_CMD + LTC831_FS_ROW_END ∧
    (ltc831ReadCmd (modelUtil 0x025B) (envOf goodResponse) syncFlags 0 2 0x36 none
      pendingReadState).1 = LTC_SUCCESS ∧
    (ltc831ReadCmd (modelUtil 0x025B) (envOf goodResponse) syncFlags 0 2 0x36 none
      pendingReadState).1 ≠ LTC_UNSUPPORTED_FEATURE := by
  refine ⟨by decide, by decide, by decide, by decide, by decide⟩

/-- C11 (amended): with no DMA pending, `ltc831ReadCmd` answers every address
above the last fuse row (`addr > 0x30 + LTC831_FS_ROW_END = 0x35`, addresses
beyond the 58 table entries included) with `LTC_UNSUPPORTED_FEATURE`; the
result is written out below without any descriptor: apart from the copy of
`breakIdx` into `breakIdxPrev` that ends every call, the driver variables are
as before.  For every fuse-row address `0x30 .. 0x35` and at least one device
the status is not `LTC_UNSUPPORTED_FEATURE`, whatever the transport answers
and whether or not a DMA is pending. -/
theorem readCmd_fuse_row_range (u : Util) (env : Env) (flags : LTC_PARAM_FLAGS_T)
    (tag n : Nat) (d : Option (Nat → Nat)) (s : State) :
    (∀ addr, addr > LTC831_RDFS_NO_TAG_CMD + LTC831_FS_ROW_END →
      s.ltc831Flags.waitDMA = false →
      ltc831ReadCmd u env flags tag n addr d s =
        (LTC_UNSUPPORTED_FEATURE,
          if (s.ltcBreakData s.ltc831Flags.dir).flags.breakString = true then
            s.modBreak s.ltc831Flags.dir (fun b => { b with breakIdxPrev := b.breakIdx })
          else s)) ∧
    (∀ addr, LTC831_RDFS_NO_TAG_CMD ≤ addr →
      addr ≤ LTC831_RDFS_NO_TAG_CMD + LTC831_FS_ROW_END → 1 ≤ n →
      (ltc831ReadCmd u env flags tag n addr d s).1 ≠ LTC_UNSUPPORTED_FEATURE) := by
  constructor
  · intro addr hgt hdma
    have hprep : ltc831ReadCmd_prepare u flags tag n addr d s = (LTC_UNSUPPORTED_FEATURE, s) := by
      unfold ltc831ReadCmd_prepare
      rw [if_pos hgt]
    unfold ltc831ReadCmd
    simp [hdma, hprep]
  · intro addr h1 h2 hn
    have hR : (regMap addr).type = LTC831_REG_R := by
      simp only [LTC831_RDFS_NO_TAG_CMD, LTC831_FS_ROW_END] at h1 h2
      interval_cases addr <;> decide
    rcases readCmd_status_of_readable u env flags tag n addr d s hR (by omega) with h | h <;>
      rw [h] <;> decide

/-- Witness for C11: address 0x36 and address 0xFF are refused, fuse row 3
(address 0x33) read from two devices is not. -/
theorem readCmd_fuse_row_range_witness :
    (ltc831ReadCmd (modelUtil 0x025B) (envOf goodResponse) syncFlags 0 2 0x36 none
      zeroState).1 = LTC_UNSUPPORTED_FEATURE ∧
    (ltc831ReadCmd (modelUtil 0x025B) (envOf goodResponse) syncFlags 0 2 0xFF none
      zeroState).1 = LTC_UNSUPPORTED_FEATURE ∧
    (ltc831ReadCmd (modelUtil 0x025B) (envOf goodResponse) syncFlags 0 2 0x33 none
      zeroState).1 ≠ LTC_UNSUPPORTED_FEATURE :=
  have h := readCmd_fuse_row_range (modelUtil 0x025B) (envOf goodResponse) syncFlags 0 2 none
    zeroState
  ⟨by rw [h.1 0x36 (by decide) (by decide)], by rw [h.1 0xFF (by decide) (by decide)],
    h.2 0x33 (by decide) (by decide) (by decide)⟩

/-- C12 (what the code does): the fuse rows are of kind R, and a write to
fuse row 0 (address 0x30) is refused with `LTC_UNSUPPORTED_FEATURE`, not with
`LTC_BAD_PARAMETER`: `ltc831WriteCmd` tests `addr >= LTC831_RDFS_NO_TAG_CMD`
before it looks at the descriptor. -/
theorem writeCmd_fuse_row_unsupported :
    (regMap 0x30).type = LTC831_REG_R ∧
    (ltc831WriteCmd (modelUtil 0x025B) (envOf []) syncFlags 1 0x30 (some (fun _ => 0))
      zeroState).1 = LTC_UNSUPPORTED_FEATURE ∧
    (ltc831WriteCmd (modelUtil 0x025B) (envOf []) syncFlags 1 0x30 (some (fun _ => 0))
      zeroState).1 ≠ LTC_BAD_PARAMETER := by
  refine ⟨by decide, by decide, by decide⟩

/-- C12 (amended): with no DMA pending, for every address whose descriptor is
of kind R, `ltc831WriteCmd` returns `LTC_BAD_PARAMETER` when the address is
below the fuse rows (`addr < 0x30`) and `LTC_UNSUPPORTED_FEATURE` for the fuse
rows; in both cases every driver variable is as before the call: no frame is
built or sent and the shadow store is unchanged. -/
theorem writeCmd_readonly_address (u : Util) (env : Env) (flags : LTC_PARAM_FLAGS_T)
    (n addr : Nat) (d : Option (Nat → Nat)) (s : State)
    (hdma : s.ltc831Flags.waitDMA = false) (hR : (regMap addr).type = LTC831_REG_R) :
    (ltc831WriteCmd u env flags n addr d s).1 =
      (if addr < LTC831_RDFS_NO_TAG_CMD then LTC_BAD_PARAMETER else LTC_UNSUPPORTED_FEATURE) ∧
    (ltc831WriteCmd u env flags n addr d s).2 = s := by
  have hprep : ltc831WriteCmd_prepare u flags n addr d s =
      (if addr < LTC831_RDFS_NO_TAG_CMD then LTC_BAD_PARAMETER else LTC_UNSUPPORTED_FEATURE,
        s) := by
    unfold ltc831WriteCmd_prepare
    by_cases h : addr < LTC831_RDFS_NO_TAG_CMD
    · have h2 : ¬ addr ≥ LTC831_RDFS_NO_TAG_CMD := by omega
      simp [h, h2, hR]
    · have h2 : addr ≥ LTC831_RDFS_NO_TAG_CMD := by omega
      simp [h, h2]
  unfold ltc831WriteCmd
  simp only [hdma, hprep]
  by_cases h : addr < LTC831_RDFS_NO_TAG_CMD <;> simp [h]

/-- Witness for C12: a WRITE to RDCVA (address 0x01) and to fuse row 2
(address 0x32) from the initial state. -/
theorem writeCmd_readonly_address_witness :
    (ltc831WriteCmd (modelUtil 0x025B) (envOf []) syncFlags 1 0x01 (some (fun _ => 0))
      zeroState).1 = LTC_BAD_PARAMETER ∧
    (ltc831WriteCmd (modelUtil 0x025B) (envOf []) syncFlags 1 0x32 (some (fun _ => 0))
      zeroState).1 = LTC_UNSUPPORTED_FEATURE ∧
    (ltc831WriteCmd (modelUtil 0x025B) (envOf []) syncFlags 1 0x01 (some (fun _ => 0))
      zeroState).2.framesSent = 0 :=
  have h1 := writeCmd_readonly_address (modelUtil 0x025B) (envOf []) syncFlags 1 0x01
    (some (fun _ => 0)) zeroState (by decide) (by decide)
  have h2 := writeCmd_readonly_address (modelUtil 0x025B) (envOf []) syncFlags 1 0x32
    (some (fun _ => 0)) zeroState (by decide) (by decide)
  ⟨h1.1, h2.1, by rw [h1.2]; decide⟩

/-- C13 (what the code does): the table entry at address 0x36 is of kind W,
and a read of it is refused with `LTC_UNSUPPORTED_FEATURE`, not
`LTC_INVALID_COMMAND`: `ltc831ReadCmd` tests `addr > 0x35` before it looks at
the descriptor. -/
theorem readCmd_write_row_unsupported :
    (regMap 0x36).type = LTC831_REG_W ∧
    (ltc831ReadCmd (modelUtil 0x025B) (envOf []) syncFlags 0 1 0x36 none
      zeroState).1 = LTC_UNSUPPORTED_FEATURE ∧
    (ltc831ReadCmd (modelUtil 0x025B) (envOf []) syncFlags 0 1 0x36 none
      zeroState).1 ≠ LTC_INVALID_COMMAND := by
  refine ⟨by decide, by decide, by decide⟩

/-- C13 (amended): with no DMA pending, for every address up to the last fuse
row (`addr ≤ 0x35`) whose descriptor is of kind W or U, `ltc831ReadCmd`
returns `LTC_INVALID_COMMAND` for every `numDevs`, without building or
sending a frame and with the shadow store unchanged. -/
theorem readCmd_not_readable_invalid (u : Util) (env : Env) (flags : LTC_PARAM_FLAGS_T)
    (tag n addr : Nat) (d : Option (Nat → Nat)) (s : State)
    (hdma : s.ltc831Flags.waitDMA = false)
    (hle : addr ≤ LTC831_RDFS_NO_TAG_CMD + LTC831_FS_ROW_END)
    (hk : (regMap addr).type = LTC831_REG_W ∨ (regMap addr).type = LTC831_REG_U) :
    (ltc831ReadCmd u env flags tag n addr d s).1 = LTC_INVALID_COMMAND ∧
    (ltc831ReadCmd u env flags tag n addr d s).2.ltcFrames = s.ltcFrames ∧
    (ltc831ReadCmd u env flags tag n addr d s).2.trace = s.trace ∧
    (ltc831ReadCmd u env flags tag n addr d s).2.ltcDevData = s.ltcDevData := by
  have hgt : ¬ addr > LTC831_RDFS_NO_TAG_CMD + LTC831_FS_ROW_END := by omega
  have hne : (regMap addr).type ≠ LTC831_REG_R := by
    rcases hk with h | h <;> rw [h] <;> decide
  have hprep : ltc831ReadCmd_prepare u flags tag n addr d s = (LTC_INVALID_COMMAND, s) := by
    unfold ltc831ReadCmd_prepare
    rw [if_neg hgt, if_pos hne]
  unfold ltc831ReadCmd
  simp only [hdma, hprep]
  simp
  split <;> simp

/-- Witness for C13: a read of WRCFG (address 0x11, kind W) and of the unused
address 0x16 from the initial state. -/
theorem readCmd_not_readable_invalid_witness :
    (ltc831ReadCmd (modelUtil 0x025B) (envOf []) syncFlags 0 2 0x11 none
      zeroState).1 = LTC_INVALID_COMMAND ∧
    (ltc831ReadCmd (modelUtil 0x025B) (envOf []) syncFlags 0 0 0x16 none
      zeroState).1 = LTC_INVALID_COMMAND :=
  ⟨(readCmd_not_readable_invalid (modelUtil 0x025B) (envOf []) syncFlags 0 2 0x11 none
      zeroState (by decide) (by decide) (Or.inl (by decide))).1,
   (readCmd_not_readable_invalid (modelUtil 0x025B) (envOf []) syncFlags 0 0 0x16 none
      zeroState (by decide) (by decide) (Or.inr (by decide))).1⟩

/-! ## C18: ltc831ConvertStatus -/

/-- C18 (what the code does): the switch of `ltc831ConvertStatus` has no case
for `LTC_BAD_PARAMETER`, which falls into `default` and becomes
`CL_APP_UNKNOWN_ERROR`, not `CL_APP_BAD_PARAMETER`.  The eight statuses that
have a case map to the like-named response status, and the two remaining
statuses (`LTC_BUSY`, `LTC_UNEXPECTED_COMMAND`) map to
`CL_APP_UNKNOWN_ERROR`. -/
theorem convertStatus_bad_parameter_unknown :
    ltc831ConvertStatus LTC_BAD_PARAMETER = CL_APP_UNKNOWN_ERROR ∧
    ltc831ConvertStatus LTC_BAD_PARAMETER ≠ CL_APP_BAD_PARAMETER ∧
    ltc831ConvertStatus LTC_SUCCESS = CL_APP_SUCCESS ∧
    ltc831ConvertStatus LTC_INVALID_COMMAND = CL_APP_INVALID_COMMAND ∧
    ltc831ConvertStatus LTC_TIMEOUT = CL_APP_TIMEOUT ∧
    ltc831ConvertStatus LTC_UNSUPPORTED_FEATURE = CL_APP_UNSUPPORTED_FEATURE ∧
    ltc831ConvertStatus LTC_ACK_FAILED = CL_APP_TOO_FEW_RESPONSES ∧
    ltc831ConvertStatus LTC_DRIVER_ERROR = CL_APP_DRIVER_ERROR ∧
    ltc831ConvertStatus LTC_DEFERRED = CL_APP_DEFERRED ∧
    ltc831ConvertStatus LTC_PACK_FAILURE = CL_APP_PACK_FAILURE ∧
    ltc831ConvertStatus LTC_BUSY = CL_APP_UNKNOWN_ERROR ∧
    ltc831ConvertStatus LTC_UNEXPECTED_COMMAND = CL_APP_UNKNOWN_ERROR := by
  refine ⟨rfl, by decide, rfl, rfl, rfl, rfl, rfl, rfl, rfl, rfl, rfl, rfl⟩

/-! ## C15, C16: ltc831ClCmdStart -/

/-- C15: for every request whose kind is not `APP_CL_DIAG`,
`ltc831ClCmdStart` called while `ltc831State` is not `LTC831_IDLE_STATE`
returns `CL_APP_BUSY` and leaves every driver variable unchanged (state,
return state, flags and saved request flags among them). -/
theorem clCmdStart_busy (cfg : Config) (chk : TIM_OS_ID_T → Bool) (d : Driver)
    (hreq : d.clTransaction.req.reqId ≠ APP_CL_DIAG)
    (hstate : d.ltc831State ≠ LTC831_IDLE_STATE) :
    ltc831ClCmdStart cfg chk d = (CL_APP_BUSY, d) := by
  unfold ltc831ClCmdStart
  simp [hreq, hstate]

/-- Witness for C15: a register-read request while the driver is in
`LTC831_DEV_POLL_STATE`. -/
theorem clCmdStart_busy_witness :
    (ltc831ClCmdStart sampleConfig (fun _ => true)
      { zeroDriver (readReq false) with ltc831State := LTC831_DEV_POLL_STATE }).1 = CL_APP_BUSY :=
  by rw [clCmdStart_busy sampleConfig (fun _ => true)
    { zeroDriver (readReq false) with ltc831State := LTC831_DEV_POLL_STATE }
    (by decide) (by decide)]

theorem init_frame (cfg : Config) (mode : LTC831_INIT_MODE_T) (chainHead : Bool) (d : Driver) :
    (ltc831Init cfg mode chainHead d).ltc831State = LTC831_IDLE_STATE ∧
    (ltc831Init cfg mode chainHead d).clTransaction = d.clTransaction ∧
    (ltc831Init cfg mode chainHead d).ltc831ReturnState = d.ltc831ReturnState ∧
    (ltc831Init cfg mode chainHead d).eng.trace = d.eng.trace ++
      [Event.gpioMeasure false,
       Event.timOsSetAndStartTimer LTC_OS_TIMER_1 LTC831_NOMINAL_POLLING_RATE_MS,
       Event.timOsSetExpired LTC_OS_TIMER_1, Event.timOsSetExpired LTC_IDLE_TIMER_A,
       Event.timOsSetExpired LTC_IDLE_TIMER_B, Event.timOsSetExpired LTC_SLEEP_TIMER_A,
       Event.timOsSetExpired LTC_SLEEP_TIMER_B, Event.gpioMeasure true] := by
  unfold ltc831Init
  simp [Driver.emit, Driver.modFlags, State.emit]

/-- After `ltc831Init` the last call on every timer is `timOsSetExpired`. -/
theorem init_timers_expired (cfg : Config) (mode : LTC831_INIT_MODE_T) (chainHead : Bool)
    (d : Driver) (id : TIM_OS_ID_T) :
    expiredByLastCall (ltc831Init cfg mode chainHead d).eng.trace id = true := by
  rw [(init_frame cfg mode chainHead d).2.2.2]
  unfold expiredByLastCall
  cases id <;> simp [Event.timerCall, List.find?]

/-- `ltc831ClCmdStart` for a request that starts a command, from
`LTC831_IDLE_STATE`. -/
theorem clCmdStart_starts (cfg : Config) (chk : TIM_OS_ID_T → Bool) (d : Driver)
    (hidle : d.ltc831State = LTC831_IDLE_STATE)
    (hreq : d.clTransaction.req.reqId = APP_CL_REG_READ ∨
      d.clTransaction.req.reqId = APP_CL_REG_WRITE ∨
      d.clTransaction.req.reqId = APP_CL_PACK_CONVERT ∨
      (d.clTransaction.req.reqId = APP_CL_PASSTHROUGH ∧ d.clTransaction.req.paramLength ≠ 0)) :
    (ltc831ClCmdStart cfg chk d).1 = CL_APP_DEFERRED ∧
    (ltc831ClCmdStart cfg chk d).2.eng.ltc831Flags.newEntry = true ∧
    (chk (sleepTimerOf d.clTransaction.req.reqFlags.dir) = true →
      (ltc831ClCmdStart cfg chk d).2.ltc831State = LTC831_WAKEUP_STATE ∧
      (ltc831ClCmdStart cfg chk d).2.ltc831ReturnState =
        startStateOf d.clTransaction.req.reqId) ∧
    (chk (sleepTimerOf d.clTransaction.req.reqFlags.dir) = false →
      (ltc831ClCmdStart cfg chk d).2.ltc831State = startStateOf d.clTransaction.req.reqId ∧
      (ltc831ClCmdStart cfg chk d).2.ltc831ReturnState = d.ltc831ReturnState) := by
  unfold ltc831ClCmdStart ltc831ClCmdStart_switch sleepTimerOf
  cases hc : chk (if d.clTransaction.req.reqFlags.dir = false then LTC_SLEEP_TIMER_A
    else LTC_SLEEP_TIMER_B) <;>
  rcases hreq with h | h | h | ⟨h, hp⟩ <;>
    first
    | (simp [h, hidle, hc, Driver.modFlags, startStateOf]; done)
    | (have hp2 := hp; simp [h, hidle, hc, Driver.modFlags, startStateOf, hp2])

/-- C16: from `LTC831_IDLE_STATE`, `ltc831ClCmdStart` on a `REG_READ`,
`REG_WRITE` or `PACK_CONVERT` request, or on a `PASSTHROUGH` request with
`paramLength` above zero, returns `CL_APP_DEFERRED` and sets `newEntry`.  When
the sleep timer of the requested direction has expired the state becomes
`LTC831_WAKEUP_STATE` and `ltc831ReturnState` the state of the request
(`startStateOf`); otherwise the state becomes that state and
`ltc831ReturnState` keeps its value.  Right after `ltc831Init` the driver is
idle and the last call on both sleep timers is `timOsSetExpired`, so the
request started then goes to `LTC831_WAKEUP_STATE`. -/
theorem clCmdStart_deferred (cfg : Config) (chk : TIM_OS_ID_T → Bool) (d : Driver)
    (hreq : d.clTransaction.req.reqId = APP_CL_REG_READ ∨
      d.clTransaction.req.reqId = APP_CL_REG_WRITE ∨
      d.clTransaction.req.reqId = APP_CL_PACK_CONVERT ∨
      (d.clTransaction.req.reqId = APP_CL_PASSTHROUGH ∧ 0 < d.clTransaction.req.paramLength)) :
    (d.ltc831State = LTC831_IDLE_STATE →
      (ltc831ClCmdStart cfg chk d).1 = CL_APP_DEFERRED ∧
      (ltc831ClCmdStart cfg chk d).2.eng.ltc831Flags.newEntry = true ∧
      (chk (sleepTimerOf d.clTransaction.req.reqFlags.dir) = true →
        (ltc831ClCmdStart cfg chk d).2.ltc831State = LTC831_WAKEUP_STATE ∧
        (ltc831ClCmdStart cfg chk d).2.ltc831ReturnState =
          startStateOf d.clTransaction.req.reqId) ∧
      (chk (sleepTimerOf d.clTransaction.req.reqFlags.dir) = false →
        (ltc831ClCmdStart cfg chk d).2.ltc831State =
          startStateOf d.clTransaction.req.reqId ∧
        (ltc831ClCmdStart cfg chk d).2.ltc831ReturnState = d.ltc831ReturnState)) ∧
    (startStateOf d.clTransaction.req.reqId = LTC831_REG_READ_STATE ∨
      startStateOf d.clTransaction.req.reqId = LTC831_REG_WRITE_STATE ∨
      startStateOf d.clTransaction.req.reqId = LTC831_DEV_POLL_STATE ∨
      startStateOf d.clTransaction.req.reqId = LTC831_CL_PASSTHROUGH_STATE) ∧
    (∀ (mode : LTC831_INIT_MODE_T) (chainHead : Bool),
      (ltc831Init cfg mode chainHead d).ltc831State = LTC831_IDLE_STATE ∧
      expiredByLastCall (ltc831Init cfg mode chainHead d).eng.trace LTC_SLEEP_TIMER_A = true ∧
      expiredByLastCall (ltc831Init cfg mode chainHead d).eng.trace LTC_SLEEP_TIMER_B = true ∧
      (ltc831ClCmdStart cfg (expiredByLastCall (ltc831Init cfg mode chainHead d).eng.trace)
        (ltc831Init cfg mode chainHead d)).1 = CL_APP_DEFERRED ∧
      (ltc831ClCmdStart cfg (expiredByLastCall (ltc831Init cfg mode chainHead d).eng.trace)
        (ltc831Init cfg mode chainHead d)).2.ltc831State = LTC831_WAKEUP_STATE ∧
      (ltc831ClCmdStart cfg (expiredByLastCall (ltc831Init cfg mode chainHead d).eng.trace)
        (ltc831Init cfg mode chainHead d)).2.ltc831ReturnState =
          startStateOf d.clTransaction.req.reqId) := by
  have hreq2 : d.clTransaction.req.reqId = APP_CL_REG_READ ∨
      d.clTransaction.req.reqId = APP_CL_REG_WRITE ∨
      d.clTransaction.req.reqId = APP_CL_PACK_CONVERT ∨
      (d.clTransaction.req.reqId = APP_CL_PASSTHROUGH ∧ d.clTransaction.req.paramLength ≠ 0) := by
    rcases hreq with h | h | h | ⟨h, hp⟩
    · exact Or.inl h
    · exact Or.inr (Or.inl h)
    · exact Or.inr (Or.inr (Or.inl h))
    · exact Or.inr (Or.inr (Or.inr ⟨h, by omega⟩))
  refine ⟨fun hidle => clCmdStart_starts cfg chk d hidle hreq2, ?_, ?_⟩
  · rcases hreq with h | h | h | ⟨h, _⟩ <;> simp [h, startStateOf]
  · intro mode chainHead
    have hI := init_frame cfg mode chainHead d
    have hA := init_timers_expired cfg mode chainHead d
    have hS := clCmdStart_starts cfg
      (expiredByLastCall (ltc831Init cfg mode chainHead d).eng.trace)
      (ltc831Init cfg mode chainHead d) hI.1 (by rw [hI.2.1]; exact hreq2)
    rw [hI.2.1] at hS
    have hW := hS.2.2.1 (hA _)
    exact ⟨hI.1, hA _, hA _, hS.1, hW.1, hW.2⟩

theorem clCmdStart_deferred_witness :
    ((zeroDriver (readReq true)).clTransaction.req.reqId = APP_CL_REG_READ ∨
      (zeroDriver (readReq true)).clTransaction.req.reqId = APP_CL_REG_WRITE ∨
      (zeroDriver (readReq true)).clTransaction.req.reqId = APP_CL_PACK_CONVERT ∨
      ((zeroDriver (readReq true)).clTransaction.req.reqId = APP_CL_PASSTHROUGH ∧
        0 < (zeroDriver (readReq true)).clTransaction.req.paramLength)) ∧
    (ltc831ClCmdStart sampleConfig (fun _ => false) (zeroDriver (readReq true))).2.ltc831State =
      LTC831_REG_READ_STATE ∧
    (ltc831ClCmdStart sampleConfig
      (expiredByLastCall (ltc831Init sampleConfig LTC831_POR_RESET true
        (zeroDriver (readReq true))).eng.trace)
      (ltc831Init sampleConfig LTC831_POR_RESET true
        (zeroDriver (readReq true)))).2.ltc831State = LTC831_WAKEUP_STATE :=
  ⟨Or.inl rfl,
   ((clCmdStart_deferred sampleConfig (fun _ => false) (zeroDriver (readReq true))
      (Or.inl rfl)).1 rfl).2.2.2 rfl |>.1,
   ((clCmdStart_deferred sampleConfig (fun _ => false) (zeroDriver (readReq true))
      (Or.inl rfl)).2.2 LTC831_POR_RESET true).2.2.2.2.1⟩

theorem regMap_accessor_rows :
    (regMap LTC831_RDAUXA_NO_TAG_CMD).regFlagIdx = 13 ∧
    (regMap LTC831_RDAUXA_NO_TAG_CMD).regOffset = 34 ∧
    (regMap LTC831_RDAUXB_NO_TAG_CMD).regFlagIdx = 14 ∧
    (regMap LTC831_RDAUXB_NO_TAG_CMD).regOffset = 37 ∧
    (regMap LTC831_RDSNF_NO_TAG_CMD).regFlagIdx = 12 ∧
    (regMap LTC831_RDSNF_NO_TAG_CMD).regOffset = 32 ∧
    (regMap LTC831_RDSTAT_NO_TAG_CMD).regFlagIdx = 15 ∧
    (regMap LTC831_RDSTAT_NO_TAG_CMD).regOffset = 40 ∧
    (regMap LTC831_RDCFG_NO_TAG_CMD).regFlagIdx = 16 ∧
    (regMap LTC831_RDCFG_NO_TAG_CMD).regOffset = 42 ∧
    (regMap LTC831_FUSE_MODULE_ID_REG).regFlagIdx = 25 ∧
    (regMap LTC831_FUSE_MODULE_ID_REG).regOffset = 57 := by
  decide

/-- C19: the accessors test `devIdx > CL_MAX_NUM_DEVS`, so the index
`CL_MAX_NUM_DEVS`, one past the last element of `ltcDevData` and of
`ltc831ConfigReg`, passes the range check of all eleven: each getter returns
`CL_APP_SUCCESS` with the flags (and value) of the element
`ltcDevData[CL_MAX_NUM_DEVS]`, and `ltc831SetWriteCfg` returns
`CL_APP_SUCCESS` and stores the two words in `ltc831ConfigReg[CL_MAX_NUM_DEVS]`.
`ltc831GetErrorStats`, which tests `i < CL_MAX_NUM_DEVS`, leaves its outputs
alone for that index. -/
theorem accessors_accept_devIdx_max (cfg : Config) (s : State) (d : Driver)
    (rn : PACK_DEV_REG_T Nat) (ri : PACK_DEV_REG_T Int) (rw : PACK_DEV_REG_T (Nat → Nat)) :
    ((ltc831GetDieTemp cfg cfg.CL_MAX_NUM_DEVS ri s).1 = CL_APP_SUCCESS ∧
      (ltc831GetDieTemp cfg cfg.CL_MAX_NUM_DEVS ri s).2.regFlags =
        (s.ltcDevData cfg.CL_MAX_NUM_DEVS).devRegFlags 14) ∧
    ((ltc831GetStack cfg cfg.CL_MAX_NUM_DEVS rn s).1 = CL_APP_SUCCESS ∧
      (ltc831GetStack cfg cfg.CL_MAX_NUM_DEVS rn s).2.regFlags =
        (s.ltcDevData cfg.CL_MAX_NUM_DEVS).devRegFlags 12) ∧
    ((ltc831GetV5 cfg cfg.CL_MAX_NUM_DEVS rn s).1 = CL_APP_SUCCESS ∧
      (ltc831GetV5 cfg cfg.CL_MAX_NUM_DEVS rn s).2.regFlags =
        (s.ltcDevData cfg.CL_MAX_NUM_DEVS).devRegFlags 13) ∧
    ((ltc831GetV3 cfg cfg.CL_MAX_NUM_DEVS rn s).1 = CL_APP_SUCCESS ∧
      (ltc831GetV3 cfg cfg.CL_MAX_NUM_DEVS rn s).2.regFlags =
        (s.ltcDevData cfg.CL_MAX_NUM_DEVS).devRegFlags 14) ∧
    ((ltc831GetRef2 cfg cfg.CL_MAX_NUM_DEVS rn s).1 = CL_APP_SUCCESS ∧
      (ltc831GetRef2 cfg cfg.CL_MAX_NUM_DEVS rn s).2.regFlags =
        (s.ltcDevData cfg.CL_MAX_NUM_DEVS).devRegFlags 14) ∧
    ((ltc831GetReadCfg cfg cfg.CL_MAX_NUM_DEVS rw s).1 = CL_APP_SUCCESS ∧
      (ltc831GetReadCfg cfg cfg.CL_MAX_NUM_DEVS rw s).2.regFlags =
        (s.ltcDevData cfg.CL_MAX_NUM_DEVS).devRegFlags 16) ∧
    ((ltc831GetStatus cfg cfg.CL_MAX_NUM_DEVS rw s).1 = CL_APP_SUCCESS ∧
      (ltc831GetStatus cfg cfg.CL_MAX_NUM_DEVS rw s).2.regFlags =
        (s.ltcDevData cfg.CL_MAX_NUM_DEVS).devRegFlags 15) ∧
    ((ltc831GetFuseModuleID cfg cfg.CL_MAX_NUM_DEVS rn s).1 = CL_APP_SUCCESS ∧
      (ltc831GetFuseModuleID cfg cfg.CL_MAX_NUM_DEVS rn s).2.regFlags =
        (s.ltcDevData cfg.CL_MAX_NUM_DEVS).devRegFlags 25 ∧
      (ltc831GetFuseModuleID cfg cfg.CL_MAX_NUM_DEVS rn s).2.regValue =
        (s.ltcDevData cfg.CL_MAX_NUM_DEVS).devRegs 57) ∧
    (∀ cellIdx, cellIdx < cfg.LTC831_MAX_CELLS_PER_DEV →
      (ltc831GetCell cfg cfg.CL_MAX_NUM_DEVS cellIdx rn s).1 = CL_APP_SUCCESS ∧
      (ltc831GetCell cfg cfg.CL_MAX_NUM_DEVS cellIdx rn s).2.regFlags =
        (s.ltcDevData cfg.CL_MAX_NUM_DEVS).devRegFlags
          (regMap ((cellIdx / 3 + 7) % 256)).regFlagIdx) ∧
    (∀ tempIdx, tempIdx < cfg.LTC831_MAX_TEMPS_PER_DEV →
      (ltc831GetTemp cfg cfg.CL_MAX_NUM_DEVS tempIdx ri s).1 = CL_APP_SUCCESS ∧
      (ltc831GetTemp cfg cfg.CL_MAX_NUM_DEVS tempIdx ri s).2.regFlags =
        (s.ltcDevData cfg.CL_MAX_NUM_DEVS).devRegFlags 13) ∧
    ((ltc831SetWriteCfg cfg cfg.CL_MAX_NUM_DEVS (some rw) d).1 = CL_APP_SUCCESS ∧
      (ltc831SetWriteCfg cfg cfg.CL_MAX_NUM_DEVS (some rw) d).2.ltc831ConfigReg
        (2 * cfg.CL_MAX_NUM_DEVS) = rw.regValue 0 ∧
      (ltc831SetWriteCfg cfg cfg.CL_MAX_NUM_DEVS (some rw) d).2.ltc831ConfigReg
        (2 * cfg.CL_MAX_NUM_DEVS + 1) = rw.regValue 1) ∧
    (∀ h p, ltc831GetErrorStats cfg cfg.CL_MAX_NUM_DEVS h p s = (h, p)) := by
  obtain ⟨a1, a2, b1, b2, c1, c2, d1, d2, e1, e2, f1, f2⟩ := regMap_accessor_rows
  refine ⟨?_, ?_, ?_, ?_, ?_, ?_, ?_, ?_, ?_, ?_, ?_, ?_⟩
  · simp [ltc831GetDieTemp, devRegFlagsOf, b1]
  · simp [ltc831GetStack, devRegFlagsOf, c1]
  · simp [ltc831GetV5, devRegFlagsOf, a1]
  · simp [ltc831GetV3, devRegFlagsOf, b1]
  · simp [ltc831GetRef2, devRegFlagsOf, b1]
  · simp [ltc831GetReadCfg, devRegFlagsOf, e1]
  · simp [ltc831GetStatus, devRegFlagsOf, d1]
  · simp [ltc831GetFuseModuleID, devRegFlagsOf, devRegWord, f1, f2]
  · intro cellIdx hc
    have hc2 : ¬ cfg.LTC831_MAX_CELLS_PER_DEV ≤ cellIdx := by omega
    simp [ltc831GetCell, devRegFlagsOf, hc2, LTC831_ITEMS_IN_REG_A_E, LTC831_RDSNA_NO_TAG_CMD]
  · intro tempIdx ht
    have ht2 : ¬ cfg.LTC831_MAX_TEMPS_PER_DEV ≤ tempIdx := by omega
    simp [ltc831GetTemp, devRegFlagsOf, ht2, a1]
  · refine ⟨by simp [ltc831SetWriteCfg], ?_, ?_⟩
    · simp [ltc831SetWriteCfg]
    · have h1 : (2 * cfg.CL_MAX_NUM_DEVS + 1) / 2 = cfg.CL_MAX_NUM_DEVS := by omega
      have h2 : (2 * cfg.CL_MAX_NUM_DEVS + 1) % 2 = 1 := by omega
      simp [ltc831SetWriteCfg, h1, h2]
  · intro h p
    simp [ltc831GetErrorStats]

/-- The cast to `VAR16` of an `unsigned int` difference is the cast of the
integer difference. -/
theorem toVAR16_unsigned_sub (q : Nat) :
    toVAR16 (((q + 2 ^ 32 - 2732) % 2 ^ 32 : Nat) : Int) = toVAR16 ((q : Int) - 2732) := by
  unfold toVAR16
  norm_num
  omega

/-- C20 (counterexample): with the raw VDIODE word 0xFFFF in the shadow of
device 0, `ltc831GetDieTemp` returns 8931, while
`2178 * 0xFFFF / 1000 - 2732` is 140003: the value is cut to 16 bits by the
cast to `VAR16`. -/
theorem getDieTemp_wraps_at_full_scale :
    (ltc831GetDieTemp sampleConfig 0 ⟨zeroRegFlags, 0⟩ (dieTempStore 0 0xFFFF)).1 =
      CL_APP_SUCCESS ∧
    devRegWord (dieTempStore 0 0xFFFF) 0 LTC831_RDAUXB_NO_TAG_CMD 1 = 0xFFFF ∧
    (ltc831GetDieTemp sampleConfig 0 ⟨zeroRegFlags, 0⟩ (dieTempStore 0 0xFFFF)).2.regValue =
      8931 ∧
    ((2178 * 0xFFFF / 1000 : Nat) : Int) - 2732 = 140003 := by
  decide

/-- C20 (amended): for a valid device index and a 16-bit raw VDIODE word
(second word of AUX group B), `ltc831GetDieTemp` returns `CL_APP_SUCCESS`, the
flags of AUX group B, and `floor(2178 * raw / 1000) - 2732` reduced to a
signed 16-bit value; the value is `floor(2178 * raw / 1000) - 2732` itself
exactly when `raw` is at most 16299. -/
theorem getDieTemp_value (cfg : Config) (s : State) (devIdx : Nat) (devReg : PACK_DEV_REG_T Int)
    (hdev : devIdx < cfg.CL_MAX_NUM_DEVS)
    (hraw : (s.ltcDevData devIdx).devRegs 38 < 65536) :
    (ltc831GetDieTemp cfg devIdx devReg s).1 = CL_APP_SUCCESS ∧
    (ltc831GetDieTemp cfg devIdx devReg s).2.regFlags = (s.ltcDevData devIdx).devRegFlags 14 ∧
    devRegWord s devIdx LTC831_RDAUXB_NO_TAG_CMD 1 = (s.ltcDevData devIdx).devRegs 38 ∧
    (ltc831GetDieTemp cfg devIdx devReg s).2.regValue =
      toVAR16 (((2178 * (s.ltcDevData devIdx).devRegs 38 / 1000 : Nat) : Int) - 2732) ∧
    ((ltc831GetDieTemp cfg devIdx devReg s).2.regValue =
        ((2178 * (s.ltcDevData devIdx).devRegs 38 / 1000 : Nat) : Int) - 2732 ↔
      (s.ltcDevData devIdx).devRegs 38 ≤ 16299) := by
  obtain ⟨_, _, b1, b2, _⟩ := regMap_accessor_rows
  have hd : ¬ cfg.CL_MAX_NUM_DEVS < devIdx := by omega
  have hw : devRegWord s devIdx LTC831_RDAUXB_NO_TAG_CMD 1 = (s.ltcDevData devIdx).devRegs 38 := by
    simp [devRegWord, b2]
  have hv : (ltc831GetDieTemp cfg devIdx devReg s).2.regValue =
      toVAR16 (((2178 * (s.ltcDevData devIdx).devRegs 38 / 1000 : Nat) : Int) - 2732) := by
    simp only [ltc831GetDieTemp, hd, if_false, hw, LTC831_DIE_TEMP_GAIN_10K,
      LTC831_DIE_TEMP_OFFSET_X10]
    generalize (s.ltcDevData devIdx).devRegs 38 = raw at hraw
    have h1 : 2178 * raw % 2 ^ 32 = 2178 * raw := Nat.mod_eq_of_lt (by omega)
    rw [h1]
    exact toVAR16_unsigned_sub _
  refine ⟨by simp [ltc831GetDieTemp, hd], by simp [ltc831GetDieTemp, hd, devRegFlagsOf, b1],
    hw, hv, ?_⟩
  rw [hv]
  unfold toVAR16
  generalize (s.ltcDevData devIdx).devRegs 38 = raw at hraw
  omega

theorem getDieTemp_value_witness :
    1 < sampleConfig.CL_MAX_NUM_DEVS ∧
    ((dieTempStore 1 13000).ltcDevData 1).devRegs 38 < 65536 ∧
    (ltc831GetDieTemp sampleConfig 1 ⟨zeroRegFlags, 0⟩ (dieTempStore 1 13000)).2.regValue =
      toVAR16 (((2178 * ((dieTempStore 1 13000).ltcDevData 1).devRegs 38 / 1000 : Nat) : Int)
        - 2732) :=
  ⟨by decide, by decide,
   (getDieTemp_value sampleConfig (dieTempStore 1 13000) 1 ⟨zeroRegFlags, 0⟩
     (by decide) (by decide)).2.2.2.1⟩

theorem enter_running (d : Driver) :
    (ltc831Task_enter d).eng.ltc831Flags.running = false := by
  unfold ltc831Task_enter
  simp [Driver.modFlags]

theorem poll6_frame (pe : PassEnv) (d : Driver) (status : LTC_STATUS_E) :
    (ltc831Task_poll6 pe d status).1.eng.ltc831Flags.running = d.eng.ltc831Flags.running ∧
    (ltc831Task_poll6 pe d status).1 =
      (ltc831Task_poll6 (pe.setPackUpdate CL_APP_SUCCESS) d status).1 := by
  unfold ltc831Task_poll6
  simp [Driver.modFlags, Driver.emit, State.emit]

/-- The driver after one pass of the loop does not depend on the answer of
`packUpdate()`, and neither does the local `status` when the loop goes on. -/
theorem pass_packUpdate (cfg : Config) (u : Util) (pe : PassEnv) (st : CL_APP_respStatus_e)
    (d : Driver) (status : LTC_STATUS_E) :
    (ltc831Task_pass cfg u (pe.setPackUpdate st) d status).1 =
      (ltc831Task_pass cfg u pe d status).1 ∧
    ((ltc831Task_pass cfg u pe d status).1.eng.ltc831Flags.running = true →
      (ltc831Task_pass cfg u (pe.setPackUpdate st) d status).2 =
        (ltc831Task_pass cfg u pe d status).2) := by
  unfold ltc831Task_pass
  have hrun := enter_running d
  generalize ltc831Task_enter d = e at hrun
  unfold ltc831Task_switch
  cases hs : e.ltc831State <;> simp only [] <;>
    try (first | exact ⟨rfl, fun _ => rfl⟩ | simp)
  unfold ltc831Task_poll
  simp only []
  split <;> try exact ⟨rfl, fun _ => rfl⟩
  rename_i h6
  constructor
  · simp [ltc831Task_poll6, PassEnv.setPackUpdate]
  · intro hr
    exfalso
    revert hr
    simp only [ltc831Task_poll6, Driver.modFlags, Driver.emit, State.emit]
    split <;> simp [hrun, Driver.modFlags]

/-- The loop of `ltc831Task` does not depend on the answers of
`packUpdate()`. -/
theorem loop_packUpdate (cfg : Config) (u : Util) (te : TaskEnv)
    (st : Nat → CL_APP_respStatus_e) (fuel : Nat) :
    ∀ (k : Nat) (d : Driver) (status : LTC_STATUS_E),
      ltc831Task_loop cfg u (te.setPackUpdate st) fuel k d status =
        ltc831Task_loop cfg u te fuel k d status := by
  induction fuel with
  | zero => intro k d status; rfl
  | succ n ih =>
    intro k d status
    have hp := pass_packUpdate cfg u (te.pass k) (st k) d status
    have hpe : (te.setPackUpdate st).pass k = (te.pass k).setPackUpdate (st k) := rfl
    simp only [ltc831Task_loop, hpe, hp.1]
    by_cases hr : (ltc831Task_pass cfg u (te.pass k) d status).1.eng.ltc831Flags.running = true
    · simp only [hr, if_true, hp.2 hr]
      exact ih _ _ _
    · simp [hr]

/-- `ltc831Task` does not depend on the answers of `packUpdate()`. -/
theorem task_packUpdate (cfg : Config) (u : Util) (te : TaskEnv)
    (st : Nat → CL_APP_respStatus_e) (fuel : Nat) (d : Driver) :
    ltc831Task cfg u (te.setPackUpdate st) fuel d = ltc831Task cfg u te fuel d := by
  unfold ltc831Task
  have ho : (te.setPackUpdate st).osTimerExpired = te.osTimerExpired := rfl
  simp only [ho, loop_packUpdate]

theorem enter_frame (d : Driver) :
    (ltc831Task_enter d).ltc831State = d.ltc831State ∧
    (ltc831Task_enter d).ltc831ReturnState = d.ltc831ReturnState ∧
    (ltc831Task_enter d).clTransaction = d.clTransaction ∧
    (ltc831Task_enter d).ltc831SubState = d.ltc831SubState ∧
    (ltc831Task_enter d).ltc831PrevState = d.ltc831State ∧
    (ltc831Task_enter d).eng.ltc831Flags.newState =
      (decide (d.ltc831State ≠ d.ltc831PrevState) || d.eng.ltc831Flags.stateReEnter) := by
  unfold ltc831Task_enter
  by_cases h : d.ltc831State = d.ltc831PrevState <;>
    cases h2 : d.eng.ltc831Flags.stateReEnter <;> simp [Driver.modFlags, h, h2]

theorem idle_frame (cfg : Config) (d : Driver) :
    (ltc831Task_idle cfg d).eng.ltc831Flags.running = d.eng.ltc831Flags.running ∧
    (ltc831Task_idle cfg d).clTransaction.resp = d.clTransaction.resp ∧
    (ltc831Task_idle cfg d).ltc831State = d.ltc831State ∧
    (d.clTransaction.state = CL_COMPLETE →
      (ltc831Task_idle cfg d).clTransaction.state = CL_COMPLETE) := by
  unfold ltc831Task_idle
  by_cases h1 : d.eng.ltc831Flags.newState = true <;>
  by_cases h2 : d.clTransaction.chip = cfg.LTC831_CHIP <;>
  by_cases h3 : d.clTransaction.state = CL_RUNNING <;>
  by_cases h4 : d.clTransaction.state = CL_COMPLETE <;>
    simp [h1, h2, h3, h4, Driver.modFlags, Driver.emit, State.emit]

theorem complete_publish (d : Driver) (status : LTC_STATUS_E)
    (hret : d.ltc831ReturnState = LTC831_NULL_STATE) :
    (ltc831Task_complete d status).eng.ltc831Flags.running = true ∧
    (ltc831Task_complete d status).clTransaction.resp.status = ltc831ConvertStatus status ∧
    (ltc831Task_complete d status).clTransaction.state = CL_COMPLETE ∧
    (ltc831Task_complete d status).ltc831State = LTC831_IDLE_STATE := by
  unfold ltc831Task_complete
  simp [hret, Driver.modFlags, Driver.withEng]

/-- An invocation of `ltc831Task` that starts in
`LTC831_COMMAND_COMPLETE_STATE` without a return state publishes the
conversion of `LTC_SUCCESS`, the initial value of the local `status`, and
ends in `LTC831_IDLE_STATE` after two passes. -/
theorem task_complete_publishes (cfg : Config) (u : Util) (te : TaskEnv) (fuel : Nat)
    (d : Driver)
    (hstate : d.ltc831State = LTC831_COMMAND_COMPLETE_STATE)
    (hret : d.ltc831ReturnState = LTC831_NULL_STATE)
    (hvalid : d.clTransaction.reqValid = true)
    (hgo : te.osTimerExpired = true ∨ d.eng.ltc831Flags.newEntry = true ∨
      d.eng.ltc831Flags.waitDMA = true) :
    ∃ d2, ltc831Task cfg u te (fuel + 2) d = some d2 ∧
      d2.clTransaction.resp.status = CL_APP_SUCCESS ∧
      d2.clTransaction.state = CL_COMPLETE ∧
      d2.ltc831State = LTC831_IDLE_STATE := by
  have hguard : ¬ ((¬ te.osTimerExpired = true ∧ ¬ d.eng.ltc831Flags.newEntry = true ∧
      ¬ d.eng.ltc831Flags.waitDMA = true) ∨ ¬ d.clTransaction.reqValid = true) := by
    rcases hgo with h | h | h <;> simp [h, hvalid]
  unfold ltc831Task
  rw [if_neg hguard]
  dsimp only
  generalize hd0 : (d.modFlags (fun f => { f with newEntry := false })).modFlags
    (fun f => { f with running := true }) = d0
  have h0s : d0.ltc831State = LTC831_COMMAND_COMPLETE_STATE := by
    rw [← hd0]; simpa [Driver.modFlags] using hstate
  have h0r : d0.ltc831ReturnState = LTC831_NULL_STATE := by
    rw [← hd0]; simpa [Driver.modFlags] using hret
  have hE := enter_frame d0
  have hP1 : ltc831Task_pass cfg u (te.pass 0) d0 LTC_SUCCESS =
      (ltc831Task_complete (ltc831Task_enter d0) LTC_SUCCESS, LTC_SUCCESS) := by
    unfold ltc831Task_pass ltc831Task_switch
    rw [hE.1, h0s]
  have hC := complete_publish (ltc831Task_enter d0) LTC_SUCCESS (by rw [hE.2.1, h0r])
  generalize ltc831Task_complete (ltc831Task_enter d0) LTC_SUCCESS = d1 at hP1 hC
  have hE1 := enter_frame d1
  have hR1 := enter_running d1
  have hP2 : ltc831Task_pass cfg u (te.pass 1) d1 LTC_SUCCESS =
      (ltc831Task_idle cfg (ltc831Task_enter d1), LTC_SUCCESS) := by
    unfold ltc831Task_pass ltc831Task_switch
    rw [hE1.1, hC.2.2.2]
  have hI := idle_frame cfg (ltc831Task_enter d1)
  refine ⟨ltc831Task_idle cfg (ltc831Task_enter d1), ?_, ?_, ?_, ?_⟩
  · simp only [ltc831Task_loop, hP1, hC.1, if_true, hP2, hI.1, hR1]
    simp
  · rw [hI.2.1, hE1.2.2.1, hC.2.1]; rfl
  · exact hI.2.2.2 (by rw [hE1.2.2.1]; exact hC.2.2.1)
  · rw [hI.2.2.1, hE1.1]; exact hC.2.2.2

set_option maxRecDepth 100000 in
theorem pollAtPackUpdate_run :
    (ltc831Task sampleConfig (modelUtil 0x025B) (quietEnv CL_APP_PACK_FAILURE) 4
        pollAtPackUpdate).map
      (fun d => (d.ltc831State, d.ltc831SubState, d.eng.ltc831Flags.newEntry)) =
      some (LTC831_DEV_POLL_STATE, 7, true) ∧
    (thenTask sampleConfig (modelUtil 0x025B) (quietEnv CL_APP_PACK_FAILURE) 4
      (ltc831Task sampleConfig (modelUtil 0x025B) (quietEnv CL_APP_PACK_FAILURE) 4
        pollAtPackUpdate)).map
      (fun d => (d.ltc831State, d.clTransaction.state, d.eng.ltc831Flags.newEntry)) =
      some (LTC831_COMMAND_COMPLETE_STATE, CL_RUNNING, true) ∧
    (thenTask sampleConfig (modelUtil 0x025B) (quietEnv CL_APP_PACK_FAILURE) 4
      (thenTask sampleConfig (modelUtil 0x025B) (quietEnv CL_APP_PACK_FAILURE) 4
        (ltc831Task sampleConfig (modelUtil 0x025B) (quietEnv CL_APP_PACK_FAILURE) 4
          pollAtPackUpdate))).map
      (fun d => (d.ltc831State, d.clTransaction.state, d.clTransaction.resp.status)) =
      some (LTC831_IDLE_STATE, CL_COMPLETE, CL_APP_SUCCESS) := by
  decide

/-- C17: a failed `packUpdate()` is not published.  The status
`LTC_PACK_FAILURE` is stored in the local `status` of `ltc831Task` at
sub-state 6, and that pass ends the invocation: no result of `ltc831Task`
depends on what `packUpdate()` returns.  The invocation that finds the driver
in `LTC831_COMMAND_COMPLETE_STATE` without a return state starts with
`status = LTC_SUCCESS` and publishes `CL_APP_SUCCESS`.  In the run from
sub-state 6 of a poll of two devices with `packUpdate()` returning
`CL_APP_PACK_FAILURE`, the cycle reaches `LTC831_COMMAND_COMPLETE_STATE` in the
second invocation and the third publishes `CL_APP_SUCCESS`. -/
theorem poll_pack_failure_not_published :
    (∀ (cfg : Config) (u : Util) (te : TaskEnv) (st : Nat → CL_APP_respStatus_e) (fuel : Nat)
        (d : Driver),
      ltc831Task cfg u (te.setPackUpdate st) fuel d = ltc831Task cfg u te fuel d) ∧
    (∀ (cfg : Config) (u : Util) (te : TaskEnv) (fuel : Nat) (d : Driver),
      d.ltc831State = LTC831_COMMAND_COMPLETE_STATE →
      d.ltc831ReturnState = LTC831_NULL_STATE →
      d.clTransaction.reqValid = true →
      d.eng.ltc831Flags.newEntry = true →
      ∃ d2, ltc831Task cfg u te (fuel + 2) d = some d2 ∧
        d2.clTransaction.resp.status = CL_APP_SUCCESS ∧
        d2.clTransaction.state = CL_COMPLETE) ∧
    (ltc831Task sampleConfig (modelUtil 0x025B) (quietEnv CL_APP_PACK_FAILURE) 4
        pollAtPackUpdate).map
      (fun d => (d.ltc831State, d.ltc831SubState, d.eng.ltc831Flags.newEntry)) =
      some (LTC831_DEV_POLL_STATE, 7, true) ∧
    (thenTask sampleConfig (modelUtil 0x025B) (quietEnv CL_APP_PACK_FAILURE) 4
      (ltc831Task sampleConfig (modelUtil 0x025B) (quietEnv CL_APP_PACK_FAILURE) 4
        pollAtPackUpdate)).map
      (fun d => (d.ltc831State, d.clTransaction.state, d.eng.ltc831Flags.newEntry)) =
      some (LTC831_COMMAND_COMPLETE_STATE, CL_RUNNING, true) ∧
    (thenTask sampleConfig (modelUtil 0x025B) (quietEnv CL_APP_PACK_FAILURE) 4
      (thenTask sampleConfig (modelUtil 0x025B) (quietEnv CL_APP_PACK_FAILURE) 4
        (ltc831Task sampleConfig (modelUtil 0x025B) (quietEnv CL_APP_PACK_FAILURE) 4
          pollAtPackUpdate))).map
      (fun d => (d.ltc831State, d.clTransaction.state, d.clTransaction.resp.status)) =
      some (LTC831_IDLE_STATE, CL_COMPLETE, CL_APP_SUCCESS) := by
  refine ⟨task_packUpdate, ?_, pollAtPackUpdate_run⟩
  intro cfg u te fuel d hs hr hv hn
  obtain ⟨d2, h1, h2, h3, _⟩ :=
    task_complete_publishes cfg u te fuel d hs hr hv (Or.inr (Or.inl hn))
  exact ⟨d2, h1, h2, h3⟩

/-- The scaling of a 16-bit word to 100 µV per bit neither overflows the
32-bit product nor loses bits in the cast to `UVAR16`. -/
theorem scaleCell_exact (cfg : Config) (raw : Nat) (hbrick : cfg.PACK_BRICK_UV_b = 100)
    (hraw : raw < 65536) :
    scaleCell cfg raw = 80 * raw / 100 ∧ 80 * raw < 2 ^ 32 ∧ 80 * raw / 100 < 65536 := by
  unfold scaleCell LTC831_CELL_UV_b
  rw [hbrick]
  have h1 : 80 * raw % 2 ^ 32 = 80 * raw := Nat.mod_eq_of_lt (by omega)
  have h2 : 80 * raw / 100 < 65536 := by omega
  rw [h1, Nat.mod_eq_of_lt h2]
  exact ⟨rfl, by omega, h2⟩

/-- C21: for a valid device index, a valid cell index and 16-bit raw words in
the shadow, with `PACK_BRICK_UV_b = 100`, `ltc831GetCell`, `ltc831GetV5`,
`ltc831GetV3` and `ltc831GetRef2` return `CL_APP_SUCCESS` and
`floor(80 * raw / 100)` of their word: the 32-bit product does not overflow,
the quotient fits 16 bits, and the result is monotone in the raw word.  The
word of cell `cellIdx` (below 18) is word `17 + cellIdx` of the register
image, V5 is word 35, V3 word 37 and Ref2 word 39. -/
theorem scaled_voltage_accessors (cfg : Config) (s : State) (devIdx cellIdx : Nat)
    (devReg : PACK_DEV_REG_T Nat)
    (hdev : devIdx < cfg.CL_MAX_NUM_DEVS)
    (hcell : cellIdx < cfg.LTC831_MAX_CELLS_PER_DEV)
    (hbrick : cfg.PACK_BRICK_UV_b = 100)
    (hraw : ∀ w, (s.ltcDevData devIdx).devRegs w < 65536) :
    (ltc831GetCell cfg devIdx cellIdx devReg s).1 = CL_APP_SUCCESS ∧
    (ltc831GetCell cfg devIdx cellIdx devReg s).2.regValue =
      80 * devRegWord s devIdx ((cellIdx / 3 + 7) % 256) (cellIdx % 3) / 100 ∧
    (cellIdx < 18 → devRegWord s devIdx ((cellIdx / 3 + 7) % 256) (cellIdx % 3) =
      (s.ltcDevData devIdx).devRegs (17 + cellIdx)) ∧
    (ltc831GetV5 cfg devIdx devReg s).1 = CL_APP_SUCCESS ∧
    (ltc831GetV5 cfg devIdx devReg s).2.regValue = 80 * (s.ltcDevData devIdx).devRegs 35 / 100 ∧
    (ltc831GetV3 cfg devIdx devReg s).1 = CL_APP_SUCCESS ∧
    (ltc831GetV3 cfg devIdx devReg s).2.regValue = 80 * (s.ltcDevData devIdx).devRegs 37 / 100 ∧
    (ltc831GetRef2 cfg devIdx devReg s).1 = CL_APP_SUCCESS ∧
    (ltc831GetRef2 cfg devIdx devReg s).2.regValue = 80 * (s.ltcDevData devIdx).devRegs 39 / 100 ∧
    (∀ raw, raw < 65536 → scaleCell cfg raw = 80 * raw / 100 ∧ 80 * raw < 2 ^ 32 ∧
      80 * raw / 100 < 65536) ∧
    (∀ raw1 raw2, raw1 ≤ raw2 → raw2 < 65536 → scaleCell cfg raw1 ≤ scaleCell cfg raw2) := by
  obtain ⟨_, a2, _, b2, _⟩ := regMap_accessor_rows
  have hd : ¬ cfg.CL_MAX_NUM_DEVS < devIdx := by omega
  have hc : ¬ cfg.LTC831_MAX_CELLS_PER_DEV ≤ cellIdx := by omega
  have hsc : ∀ w, scaleCell cfg ((s.ltcDevData devIdx).devRegs w) =
      80 * (s.ltcDevData devIdx).devRegs w / 100 := fun w =>
    (scaleCell_exact cfg _ hbrick (hraw w)).1
  refine ⟨?_, ?_, ?_, ?_, ?_, ?_, ?_, ?_, ?_, fun raw h => scaleCell_exact cfg raw hbrick h, ?_⟩
  · simp [ltc831GetCell, hd, hc]
  · simp [ltc831GetCell, hd, hc, devRegWord, hsc, LTC831_ITEMS_IN_REG_A_E,
      LTC831_RDSNA_NO_TAG_CMD]
  · intro h18
    unfold devRegWord
    have hk : cellIdx = 0 ∨ cellIdx = 1 ∨ cellIdx = 2 ∨ cellIdx = 3 ∨ cellIdx = 4 ∨
        cellIdx = 5 ∨ cellIdx = 6 ∨ cellIdx = 7 ∨ cellIdx = 8 ∨ cellIdx = 9 ∨ cellIdx = 10 ∨
        cellIdx = 11 ∨ cellIdx = 12 ∨ cellIdx = 13 ∨ cellIdx = 14 ∨ cellIdx = 15 ∨
        cellIdx = 16 ∨ cellIdx = 17 := by omega
    rcases hk with h | h | h | h | h | h | h | h | h | h | h | h | h | h | h | h | h | h <;>
      subst h <;> rfl
  · simp [ltc831GetV5, hd]
  · simp [ltc831GetV5, hd, devRegWord, a2, hsc]
  · simp [ltc831GetV3, hd]
  · simp [ltc831GetV3, hd, devRegWord, b2, hsc]
  · simp [ltc831GetRef2, hd]
  · simp [ltc831GetRef2, hd, devRegWord, b2, hsc]
  · intro raw1 raw2 h12 h2
    rw [(scaleCell_exact cfg raw1 hbrick (by omega)).1, (scaleCell_exact cfg raw2 hbrick h2).1]
    omega

theorem scaled_voltage_accessors_witness :
    1 < sampleConfig.CL_MAX_NUM_DEVS ∧ 5 < sampleConfig.LTC831_MAX_CELLS_PER_DEV ∧
    sampleConfig.PACK_BRICK_UV_b = 100 ∧
    (ltc831GetCell sampleConfig 1 5 ⟨zeroRegFlags, 0⟩ (uniformStore 1 50000)).2.regValue =
      80 * devRegWord (uniformStore 1 50000) 1 ((5 / 3 + 7) % 256) (5 % 3) / 100 :=
  ⟨by decide, by decide, rfl,
   (scaled_voltage_accessors sampleConfig (uniformStore 1 50000) 1 5 ⟨zeroRegFlags, 0⟩
     (by decide) (by decide) rfl (fun _ => by simp [uniformStore])).2.1⟩

/-- The BER state entered with the diagnostic running and `didReturn` set, in
a non-fixed mode: the interval is stepped in 16-bit arithmetic, clamped, and
programmed into the timer. -/
theorem ber_update (cfg : Config) (d : Driver)
    (hrun : d.ltc831DiagFlags.running = true)
    (hret : d.eng.ltc831Flags.didReturn = true)
    (hmode : d.ltc831DiagFlags.berMode ≠ cfg.CL_BER_FIXED)
    (t : Nat)
    (ht : t = if d.ltc831DiagFlags.dir = true then (d.ltc831BerTime + d.ltc831BerDelta) % 65536
      else (d.ltc831BerTime + 65536 - d.ltc831BerDelta % 65536) % 65536) :
    (ltc831Task_ber cfg d).ltc831BerTime =
      (if cfg.DIAG_BER_MAX_MS ≤ t then cfg.DIAG_BER_MAX_MS
       else if t ≤ cfg.DIAG_BER_MIN_MS then cfg.DIAG_BER_MIN_MS else t) ∧
    (ltc831Task_ber cfg d).ltc831DiagFlags.dir =
      (if cfg.DIAG_BER_MAX_MS ≤ t ∨ t ≤ cfg.DIAG_BER_MIN_MS then !d.ltc831DiagFlags.dir
       else d.ltc831DiagFlags.dir) ∧
    (ltc831Task_ber cfg d).ltc831DiagFlags.running = true ∧
    (ltc831Task_ber cfg d).ltc831DiagFlags.berMode = d.ltc831DiagFlags.berMode ∧
    (ltc831Task_ber cfg d).ltc831BerDelta = d.ltc831BerDelta ∧
    (ltc831Task_ber cfg d).eng.ltc831Flags.didReturn = false ∧
    (ltc831Task_ber cfg d).ltc831State = d.ltc831State ∧
    (ltc831Task_ber cfg d).eng.trace = d.eng.trace ++
      [Event.timOsSetAndStartTimer LTC_OS_TIMER_1 (ltc831Task_ber cfg d).ltc831BerTime] := by
  subst ht
  unfold ltc831Task_ber
  cases hdir : d.ltc831DiagFlags.dir <;>
    simp only [hrun, hret, hmode, hdir, not_true_eq_false, if_false, ne_eq, not_false_eq_true,
      if_true, Bool.false_eq_true, ge_iff_le] <;>
    split <;> try split
  all_goals simp_all [Driver.modFlags, Driver.emit, State.emit]

/-- The BER state entered with the diagnostic running and `didReturn` clear
hands over to the poll and programs nothing. -/
theorem ber_handover (cfg : Config) (d : Driver)
    (hrun : d.ltc831DiagFlags.running = true)
    (hret : d.eng.ltc831Flags.didReturn = false) :
    (ltc831Task_ber cfg d).ltc831State = LTC831_DEV_POLL_STATE ∧
    (ltc831Task_ber cfg d).ltc831ReturnState = d.ltc831State ∧
    (ltc831Task_ber cfg d).ltc831DiagFlags = d.ltc831DiagFlags ∧
    (ltc831Task_ber cfg d).ltc831BerTime = d.ltc831BerTime ∧
    (ltc831Task_ber cfg d).ltc831BerDelta = d.ltc831BerDelta ∧
    (ltc831Task_ber cfg d).eng.trace = d.eng.trace ∧
    (ltc831Task_ber cfg d).eng.ltc831Flags.running = true := by
  unfold ltc831Task_ber
  simp [hrun, hret, Driver.modFlags]

/-- `LTC831_COMMAND_COMPLETE_STATE` with a return state: back to that state
with `didReturn` set; nothing is published and nothing is programmed. -/
theorem complete_return (d : Driver) (status : LTC_STATUS_E)
    (hret : d.ltc831ReturnState ≠ LTC831_NULL_STATE) :
    (ltc831Task_complete d status).ltc831State = d.ltc831ReturnState ∧
    (ltc831Task_complete d status).ltc831ReturnState = LTC831_NULL_STATE ∧
    (ltc831Task_complete d status).eng.ltc831Flags.didReturn = true ∧
    (ltc831Task_complete d status).ltc831DiagFlags = d.ltc831DiagFlags ∧
    (ltc831Task_complete d status).ltc831BerTime = d.ltc831BerTime ∧
    (ltc831Task_complete d status).ltc831BerDelta = d.ltc831BerDelta ∧
    (ltc831Task_complete d status).eng.trace = d.eng.trace ∧
    (ltc831Task_complete d status).clTransaction = d.clTransaction := by
  unfold ltc831Task_complete
  simp [hret, Driver.modFlags]

/-- One round of the BER diagnostic from the BER state with `didReturn`
clear. -/
theorem berRound_spec (cfg : Config) (d : Driver)
    (hstate : d.ltc831State = LTC831_BER_STATE)
    (hrun : d.ltc831DiagFlags.running = true)
    (hret : d.eng.ltc831Flags.didReturn = false)
    (hmode : d.ltc831DiagFlags.berMode ≠ cfg.CL_BER_FIXED)
    (t : Nat)
    (ht : t = if d.ltc831DiagFlags.dir = true then (d.ltc831BerTime + d.ltc831BerDelta) % 65536
      else (d.ltc831BerTime + 65536 - d.ltc831BerDelta % 65536) % 65536) :
    (berRound cfg d).ltc831BerTime =
      (if cfg.DIAG_BER_MAX_MS ≤ t then cfg.DIAG_BER_MAX_MS
       else if t ≤ cfg.DIAG_BER_MIN_MS then cfg.DIAG_BER_MIN_MS else t) ∧
    (berRound cfg d).ltc831DiagFlags.dir =
      (if cfg.DIAG_BER_MAX_MS ≤ t ∨ t ≤ cfg.DIAG_BER_MIN_MS then !d.ltc831DiagFlags.dir
       else d.ltc831DiagFlags.dir) ∧
    (berRound cfg d).ltc831DiagFlags.running = true ∧
    (berRound cfg d).ltc831DiagFlags.berMode = d.ltc831DiagFlags.berMode ∧
    (berRound cfg d).ltc831BerDelta = d.ltc831BerDelta ∧
    (berRound cfg d).eng.ltc831Flags.didReturn = false ∧
    (berRound cfg d).ltc831State = LTC831_BER_STATE ∧
    (berRound cfg d).eng.trace = d.eng.trace ++
      [Event.timOsSetAndStartTimer LTC_OS_TIMER_1 (berRound cfg d).ltc831BerTime] := by
  have h1 := ber_handover cfg d hrun hret
  have h2 := complete_return (ltc831Task_ber cfg d) LTC_SUCCESS
    (by rw [h1.2.1, hstate]; decide)
  have hrun2 : (ltc831Task_complete (ltc831Task_ber cfg d) LTC_SUCCESS).ltc831DiagFlags.running
      = true := by rw [h2.2.2.2.1, h1.2.2.1]; exact hrun
  have hmode2 : (ltc831Task_complete (ltc831Task_ber cfg d) LTC_SUCCESS).ltc831DiagFlags.berMode
      ≠ cfg.CL_BER_FIXED := by rw [h2.2.2.2.1, h1.2.2.1]; exact hmode
  have h3 := ber_update cfg (ltc831Task_complete (ltc831Task_ber cfg d) LTC_SUCCESS)
    hrun2 h2.2.2.1 hmode2 t
    (by rw [h2.2.2.2.1, h2.2.2.2.2.1, h2.2.2.2.2.2.1, h1.2.2.1, h1.2.2.2.1, h1.2.2.2.2.1]
        exact ht)
  unfold berRound
  refine ⟨h3.1, ?_, h3.2.2.1, ?_, ?_, h3.2.2.2.2.2.1, ?_, ?_⟩
  · rw [h3.2.1, h2.2.2.2.1, h1.2.2.1]
  · rw [h3.2.2.2.1, h2.2.2.2.1, h1.2.2.1]
  · rw [h3.2.2.2.2.1, h2.2.2.2.2.2.1, h1.2.2.2.2.1]
  · rw [h3.2.2.2.2.2.2.1, h2.1, h1.2.1, hstate]
  · rw [h3.2.2.2.2.2.2.2, h2.2.2.2.2.2.2.1, h1.2.2.2.2.2.1]

theorem berSweep_step (n t : Nat)
    (ht : t = if decide (n % 10 < 5) = true then (berSweep n + 3) % 65536
      else (berSweep n + 65536 - 3 % 65536) % 65536) :
    (if 20 ≤ t then 20 else if t ≤ 5 then 5 else t) = berSweep (n + 1) ∧
    (if 20 ≤ t ∨ t ≤ 5 then !decide (n % 10 < 5) else decide (n % 10 < 5)) =
      decide ((n + 1) % 10 < 5) := by
  subst ht
  have h10 : n % 10 = 0 ∨ n % 10 = 1 ∨ n % 10 = 2 ∨ n % 10 = 3 ∨ n % 10 = 4 ∨ n % 10 = 5 ∨
      n % 10 = 6 ∨ n % 10 = 7 ∨ n % 10 = 8 ∨ n % 10 = 9 := by omega
  unfold berSweep
  rcases h10 with h | h | h | h | h | h | h | h | h | h
  · have h2 : (n + 1) % 10 = 1 := by omega
    rw [h, h2]; decide
  · have h2 : (n + 1) % 10 = 2 := by omega
    rw [h, h2]; decide
  · have h2 : (n + 1) % 10 = 3 := by omega
    rw [h, h2]; decide
  · have h2 : (n + 1) % 10 = 4 := by omega
    rw [h, h2]; decide
  · have h2 : (n + 1) % 10 = 5 := by omega
    rw [h, h2]; decide
  · have h2 : (n + 1) % 10 = 6 := by omega
    rw [h, h2]; decide
  · have h2 : (n + 1) % 10 = 7 := by omega
    rw [h, h2]; decide
  · have h2 : (n + 1) % 10 = 8 := by omega
    rw [h, h2]; decide
  · have h2 : (n + 1) % 10 = 9 := by omega
    rw [h, h2]; decide
  · have h2 : (n + 1) % 10 = 0 := by omega
    rw [h, h2]; decide

theorem berSweepEvents_succ (n : Nat) :
    berSweepEvents (n + 1) = berSweepEvents n ++
      [Event.timOsSetAndStartTimer LTC_OS_TIMER_1 (berSweep (n + 1))] := by
  unfold berSweepEvents
  rw [List.range_succ, List.map_append]
  rfl

/-- The rounds of the BER diagnostic with bounds 5 and 20 and step 3, from
interval 5 stepping upward: after `n` rounds the interval is `berSweep n`, the
direction sign is upward in the first half of each period of ten, and the
timer has been programmed with `berSweep 1`, ..., `berSweep n`. -/
theorem berRound_iterate (cfg : Config) (d : Driver)
    (hmin : cfg.DIAG_BER_MIN_MS = 5) (hmax : cfg.DIAG_BER_MAX_MS = 20)
    (hstate : d.ltc831State = LTC831_BER_STATE)
    (hrun : d.ltc831DiagFlags.running = true)
    (hret : d.eng.ltc831Flags.didReturn = false)
    (hmode : d.ltc831DiagFlags.berMode ≠ cfg.CL_BER_FIXED)
    (htime : d.ltc831BerTime = 5) (hdelta : d.ltc831BerDelta = 3)
    (hdir : d.ltc831DiagFlags.dir = true) (n : Nat) :
    ((berRound cfg)^[n] d).ltc831State = LTC831_BER_STATE ∧
    ((berRound cfg)^[n] d).ltc831DiagFlags.running = true ∧
    ((berRound cfg)^[n] d).eng.ltc831Flags.didReturn = false ∧
    ((berRound cfg)^[n] d).ltc831DiagFlags.berMode = d.ltc831DiagFlags.berMode ∧
    ((berRound cfg)^[n] d).ltc831BerDelta = 3 ∧
    ((berRound cfg)^[n] d).ltc831BerTime = berSweep n ∧
    ((berRound cfg)^[n] d).ltc831DiagFlags.dir = decide (n % 10 < 5) ∧
    ((berRound cfg)^[n] d).eng.trace = d.eng.trace ++ berSweepEvents n := by
  induction n with
  | zero =>
    refine ⟨hstate, hrun, hret, rfl, hdelta, ?_, ?_, ?_⟩
    · rw [Function.iterate_zero, id_eq, htime]; rfl
    · rw [Function.iterate_zero, id_eq, hdir]; rfl
    · simp [berSweepEvents]
  | succ n ih =>
    obtain ⟨i1, i2, i3, i4, i5, i6, i7, i8⟩ := ih
    rw [Function.iterate_succ_apply']
    generalize (berRound cfg)^[n] d = e at i1 i2 i3 i4 i5 i6 i7 i8
    have hS := berRound_spec cfg e i1 i2 i3 (by rw [i4]; exact hmode) _ rfl
    rw [i5, i6, i7, hmin, hmax] at hS
    have hW := berSweep_step n _ rfl
    obtain ⟨s1, s2, s3, s4, s5, s6, s7, s8⟩ := hS
    refine ⟨s7, s3, s6, by rw [s4, i4], s5, by rw [s1]; exact hW.1, by rw [s2]; exact hW.2, ?_⟩
    rw [s8, i8, berSweepEvents_succ, List.append_assoc, s1, hW.1]

theorem berSweep_flip (n : Nat) :
    (decide ((n + 1) % 10 < 5) ≠ decide (n % 10 < 5)) ↔
      (berSweep (n + 1) = 5 ∨ berSweep (n + 1) = 20) := by
  have h10 : n % 10 = 0 ∨ n % 10 = 1 ∨ n % 10 = 2 ∨ n % 10 = 3 ∨ n % 10 = 4 ∨ n % 10 = 5 ∨
      n % 10 = 6 ∨ n % 10 = 7 ∨ n % 10 = 8 ∨ n % 10 = 9 := by omega
  unfold berSweep
  rcases h10 with h | h | h | h | h | h | h | h | h | h
  · have h2 : (n + 1) % 10 = 1 := by omega
    rw [h, h2]; decide
  · have h2 : (n + 1) % 10 = 2 := by omega
    rw [h, h2]; decide
  · have h2 : (n + 1) % 10 = 3 := by omega
    rw [h, h2]; decide
  · have h2 : (n + 1) % 10 = 4 := by omega
    rw [h, h2]; decide
  · have h2 : (n + 1) % 10 = 5 := by omega
    rw [h, h2]; decide
  · have h2 : (n + 1) % 10 = 6 := by omega
    rw [h, h2]; decide
  · have h2 : (n + 1) % 10 = 7 := by omega
    rw [h, h2]; decide
  · have h2 : (n + 1) % 10 = 8 := by omega
    rw [h, h2]; decide
  · have h2 : (n + 1) % 10 = 9 := by omega
    rw [h, h2]; decide
  · have h2 : (n + 1) % 10 = 0 := by omega
    rw [h, h2]; decide

/-- C22 (counterexample): with bounds 5 and 20, step 3, interval 5 and the
direction sign upward, the BER state entered before the first poll programs
no interval, and the first interval it programs, on the return from the first
poll, is 8 and not 5. -/
theorem ber_first_programmed_interval :
    (ltc831ClCmdStart sampleConfig (fun _ => false) (zeroDriver berReq)).2.ltc831BerTime = 5 ∧
    (ltc831ClCmdStart sampleConfig (fun _ => false) (zeroDriver berReq)).2.ltc831BerDelta = 3 ∧
    (ltc831ClCmdStart sampleConfig (fun _ => false) (zeroDriver berReq)).2.ltc831DiagFlags =
      (berDriver 5 3 true false).ltc831DiagFlags ∧
    (ltc831ClCmdStart sampleConfig (fun _ => false) (zeroDriver berReq)).2.ltc831ReturnState =
      LTC831_BER_STATE ∧
    (berDriver 5 3 true false).ltc831BerTime = 5 ∧
    (ltc831Task_ber sampleConfig (berDriver 5 3 true false)).eng.trace = [] ∧
    (ltc831Task_ber sampleConfig (berDriver 5 3 true false)).ltc831State =
      LTC831_DEV_POLL_STATE ∧
    (berRound sampleConfig (berDriver 5 3 true false)).eng.trace =
      [Event.timOsSetAndStartTimer LTC_OS_TIMER_1 8] :=
  ⟨by decide, by decide, by decide, by decide, rfl, rfl, rfl, rfl⟩

/-- C22 (amended): in BER mode with a non-fixed period, bounds 5 and 20,
step 3, interval 5 and the direction sign upward, the interval after `n`
rounds is `berSweep n` (5, 8, 11, 14, 17, 20, 17, 14, 11, 8 and again) and the
intervals the BER state has programmed are `berSweep 1`, ..., `berSweep n`:
8, 11, 14, 17, 20, 17, 14, 11, 8, 5, 8, 11 and so on.  The direction sign
flips in a round exactly when the round reaches 5 or 20. -/
theorem ber_sweep_programmed (cfg : Config) (d : Driver)
    (hmin : cfg.DIAG_BER_MIN_MS = 5) (hmax : cfg.DIAG_BER_MAX_MS = 20)
    (hstate : d.ltc831State = LTC831_BER_STATE)
    (hrun : d.ltc831DiagFlags.running = true)
    (hret : d.eng.ltc831Flags.didReturn = false)
    (hmode : d.ltc831DiagFlags.berMode ≠ cfg.CL_BER_FIXED)
    (htime : d.ltc831BerTime = 5) (hdelta : d.ltc831BerDelta = 3)
    (hdir : d.ltc831DiagFlags.dir = true) :
    (∀ n, ((berRound cfg)^[n] d).ltc831BerTime = berSweep n ∧
      ((berRound cfg)^[n] d).eng.trace = d.eng.trace ++ berSweepEvents n ∧
      ((berRound cfg)^[n] d).ltc831State = LTC831_BER_STATE ∧
      ((((berRound cfg)^[n + 1] d).ltc831DiagFlags.dir ≠
          ((berRound cfg)^[n] d).ltc831DiagFlags.dir) ↔
        (((berRound cfg)^[n + 1] d).ltc831BerTime = 5 ∨
          ((berRound cfg)^[n + 1] d).ltc831BerTime = 20))) ∧
    (List.range 12).map (fun k => berSweep (k + 1)) =
      [8, 11, 14, 17, 20, 17, 14, 11, 8, 5, 8, 11] := by
  refine ⟨fun n => ?_, by decide⟩
  have h0 := berRound_iterate cfg d hmin hmax hstate hrun hret hmode htime hdelta hdir n
  have h1 := berRound_iterate cfg d hmin hmax hstate hrun hret hmode htime hdelta hdir (n + 1)
  refine ⟨h0.2.2.2.2.2.1, h0.2.2.2.2.2.2.2, h0.1, ?_⟩
  rw [h1.2.2.2.2.2.2.1, h0.2.2.2.2.2.2.1, h1.2.2.2.2.2.1]
  exact berSweep_flip n

theorem ber_sweep_programmed_witness :
    sampleConfig.DIAG_BER_MIN_MS = 5 ∧ sampleConfig.DIAG_BER_MAX_MS = 20 ∧
    (berDriver 5 3 true false).ltc831DiagFlags.berMode ≠ sampleConfig.CL_BER_FIXED ∧
    ((berRound sampleConfig)^[7] (berDriver 5 3 true false)).ltc831BerTime = berSweep 7 :=
  ⟨rfl, rfl, by decide,
   ((ber_sweep_programmed sampleConfig (berDriver 5 3 true false) rfl rfl rfl rfl rfl
      (by decide) rfl rfl rfl).1 7).1⟩

/-- The BER state on the return from a poll in fixed-period mode: interval and
direction sign are unchanged and the interval is programmed. -/
theorem ber_fixed (cfg : Config) (d : Driver)
    (hrun : d.ltc831DiagFlags.running = true)
    (hret : d.eng.ltc831Flags.didReturn = true)
    (hmode : d.ltc831DiagFlags.berMode = cfg.CL_BER_FIXED) :
    (ltc831Task_ber cfg d).ltc831BerTime = d.ltc831BerTime ∧
    (ltc831Task_ber cfg d).ltc831DiagFlags = d.ltc831DiagFlags ∧
    (ltc831Task_ber cfg d).eng.trace = d.eng.trace ++
      [Event.timOsSetAndStartTimer LTC_OS_TIMER_1 d.ltc831BerTime] := by
  unfold ltc831Task_ber
  simp [hrun, hret, hmode, Driver.modFlags, Driver.emit, State.emit]

/-- C23: a downward BER step by more than the interval wraps below zero in
16-bit arithmetic: with bounds 5 and 20, from interval 6 stepping downward by
7 the update lands on 20 with the direction sign turned upward, where
`max(6 - 7, 5)` is 5.  What holds for every input: the updated interval lies
within the bounds when `DIAG_BER_MIN_MS ≤ DIAG_BER_MAX_MS`; from an interval
inside the bounds a downward step by at most the interval lands on
`max(interval - delta, DIAG_BER_MIN_MS)` and an upward step that stays below
2^16 on `min(interval + delta, DIAG_BER_MAX_MS)`, the direction sign flipping
exactly when a bound is reached; in fixed-period mode interval and direction
sign are unchanged. -/
theorem ber_update_wraps_below_zero :
    ((ltc831Task_ber sampleConfig (berDriver 6 7 false true)).ltc831BerTime = 20 ∧
      (ltc831Task_ber sampleConfig (berDriver 6 7 false true)).ltc831DiagFlags.dir = true ∧
      max ((6 : Int) - 7) (sampleConfig.DIAG_BER_MIN_MS : Int) = 5) ∧
    (∀ (cfg : Config) (d : Driver), d.ltc831DiagFlags.running = true →
      d.eng.ltc831Flags.didReturn = true → d.ltc831DiagFlags.berMode ≠ cfg.CL_BER_FIXED →
      cfg.DIAG_BER_MIN_MS ≤ cfg.DIAG_BER_MAX_MS →
      cfg.DIAG_BER_MIN_MS ≤ (ltc831Task_ber cfg d).ltc831BerTime ∧
      (ltc831Task_ber cfg d).ltc831BerTime ≤ cfg.DIAG_BER_MAX_MS) ∧
    (∀ (cfg : Config) (d : Driver), d.ltc831DiagFlags.running = true →
      d.eng.ltc831Flags.didReturn = true → d.ltc831DiagFlags.berMode ≠ cfg.CL_BER_FIXED →
      cfg.DIAG_BER_MIN_MS ≤ d.ltc831BerTime → d.ltc831BerTime ≤ cfg.DIAG_BER_MAX_MS →
      d.ltc831BerTime < 65536 →
      d.ltc831DiagFlags.dir = false → d.ltc831BerDelta ≤ d.ltc831BerTime →
      (ltc831Task_ber cfg d).ltc831BerTime =
        max (d.ltc831BerTime - d.ltc831BerDelta) cfg.DIAG_BER_MIN_MS ∧
      ((ltc831Task_ber cfg d).ltc831DiagFlags.dir ≠ d.ltc831DiagFlags.dir ↔
        ((ltc831Task_ber cfg d).ltc831BerTime = cfg.DIAG_BER_MIN_MS ∨
          (ltc831Task_ber cfg d).ltc831BerTime = cfg.DIAG_BER_MAX_MS))) ∧
    (∀ (cfg : Config) (d : Driver), d.ltc831DiagFlags.running = true →
      d.eng.ltc831Flags.didReturn = true → d.ltc831DiagFlags.berMode ≠ cfg.CL_BER_FIXED →
      cfg.DIAG_BER_MIN_MS ≤ d.ltc831BerTime → d.ltc831BerTime ≤ cfg.DIAG_BER_MAX_MS →
      d.ltc831DiagFlags.dir = true → d.ltc831BerTime + d.ltc831BerDelta < 65536 →
      (ltc831Task_ber cfg d).ltc831BerTime =
        min (d.ltc831BerTime + d.ltc831BerDelta) cfg.DIAG_BER_MAX_MS ∧
      ((ltc831Task_ber cfg d).ltc831DiagFlags.dir ≠ d.ltc831DiagFlags.dir ↔
        ((ltc831Task_ber cfg d).ltc831BerTime = cfg.DIAG_BER_MIN_MS ∨
          (ltc831Task_ber cfg d).ltc831BerTime = cfg.DIAG_BER_MAX_MS))) ∧
    (∀ (cfg : Config) (d : Driver), d.ltc831DiagFlags.running = true →
      d.eng.ltc831Flags.didReturn = true → d.ltc831DiagFlags.berMode = cfg.CL_BER_FIXED →
      (ltc831Task_ber cfg d).ltc831BerTime = d.ltc831BerTime ∧
      (ltc831Task_ber cfg d).ltc831DiagFlags.dir = d.ltc831DiagFlags.dir) := by
  refine ⟨⟨by decide, by decide, by decide⟩, ?_, ?_, ?_, ?_⟩
  · intro cfg d hrun hret hmode hmm
    obtain ⟨t, ht⟩ : ∃ t, t = if d.ltc831DiagFlags.dir = true then
        (d.ltc831BerTime + d.ltc831BerDelta) % 65536
        else (d.ltc831BerTime + 65536 - d.ltc831BerDelta % 65536) % 65536 := ⟨_, rfl⟩
    have h := (ber_update cfg d hrun hret hmode t ht).1
    rw [h]
    by_cases h1 : cfg.DIAG_BER_MAX_MS ≤ t
    · simp only [h1, if_true]; omega
    · by_cases h2 : t ≤ cfg.DIAG_BER_MIN_MS
      · simp only [h1, h2, if_true, if_false]; omega
      · simp only [h1, h2, if_false]; omega
  · intro cfg d hrun hret hmode hlo hhi h16 hdir hdelta
    have h := ber_update cfg d hrun hret hmode _ rfl
    rw [h.1, h.2.1, hdir]
    have ht : (d.ltc831BerTime + 65536 - d.ltc831BerDelta % 65536) % 65536 =
        d.ltc831BerTime - d.ltc831BerDelta := by omega
    simp only [Bool.false_eq_true, if_false, ht]
    by_cases h1 : cfg.DIAG_BER_MAX_MS ≤ d.ltc831BerTime - d.ltc831BerDelta
    · simp only [h1, if_true, true_or, Bool.not_false]
      refine ⟨by omega, by simp⟩
    · by_cases h2 : d.ltc831BerTime - d.ltc831BerDelta ≤ cfg.DIAG_BER_MIN_MS
      · simp only [h1, h2, if_true, if_false, or_true, Bool.not_false]
        refine ⟨by omega, by simp⟩
      · simp only [h1, h2, if_false, or_self]
        refine ⟨by omega, ?_⟩
        constructor
        · intro hne; exact absurd rfl hne
        · intro hor; omega
  · intro cfg d hrun hret hmode hlo hhi hdir h16
    have h := ber_update cfg d hrun hret hmode _ rfl
    rw [h.1, h.2.1, hdir]
    have ht : (d.ltc831BerTime + d.ltc831BerDelta) % 65536 =
        d.ltc831BerTime + d.ltc831BerDelta := Nat.mod_eq_of_lt h16
    simp only [if_true, ht]
    by_cases h1 : cfg.DIAG_BER_MAX_MS ≤ d.ltc831BerTime + d.ltc831BerDelta
    · simp only [h1, if_true, true_or, Bool.not_true]
      refine ⟨by omega, by simp⟩
    · by_cases h2 : d.ltc831BerTime + d.ltc831BerDelta ≤ cfg.DIAG_BER_MIN_MS
      · simp only [h1, h2, if_true, if_false, or_true, Bool.not_true]
        refine ⟨by omega, by simp⟩
      · simp only [h1, h2, if_false, or_self]
        refine ⟨by omega, ?_⟩
        constructor
        · intro hne; exact absurd rfl hne
        · intro hor; omega
  · intro cfg d hrun hret hmode
    have h := ber_fixed cfg d hrun hret hmode
    exact ⟨h.1, by rw [h.2.1]⟩

/-- The item loop of `ltc831BuildCommand` on the register image: word `j` of
the input goes to word `dp + j` and nothing else changes. -/
theorem buildItems_regs (inData : Nat → Nat) (dp ip : Nat) (regs tx : Nat → Nat) (p W : Nat)
    (w : Nat) :
    (forLoop W (ltc831BuildCommand_item inData dp ip) ⟨regs, tx, p⟩).regs w =
      if dp ≤ w ∧ w < dp + W then inData (ip + (w - dp)) else regs w := by
  induction W with
  | zero =>
    rw [if_neg (by omega)]
    rfl
  | succ W ih =>
    simp only [forLoop_succ]
    generalize forLoop W (ltc831BuildCommand_item inData dp ip) ⟨regs, tx, p⟩ = r at ih
    unfold ltc831BuildCommand_item
    simp only [setAt]
    by_cases hw : w = dp + W
    · subst hw
      simp
    · rw [if_neg hw, ih]
      by_cases h1 : dp ≤ w ∧ w < dp + W
      · rw [if_pos h1, if_pos ⟨h1.1, by omega⟩]
      · rw [if_neg h1, if_neg (by omega)]

/-- One pass of the device loop of the write branch of `ltc831BuildCommand` on
the shadow store: only the destination device changes; its register words are
the input words of that device and its flags of the register get
`cmdCount = 0`, the direction and the tag. -/
theorem buildCommand_dev_shadow (u : Util) (addr regIdx W N i : Nat) (s : State) (p : Nat) :
    (∀ e, e ≠ buildDevIdxDest s.ltc831Flags.dir s.ltc831Flags.chainHead N i →
      (ltc831BuildCommand_dev u addr regIdx W N i (s, p)).1.ltcDevData e = s.ltcDevData e) ∧
    (∀ w, ((ltc831BuildCommand_dev u addr regIdx W N i (s, p)).1.ltcDevData
        (buildDevIdxDest s.ltc831Flags.dir s.ltc831Flags.chainHead N i)).devRegs w =
      if (regMap addr).regOffset ≤ w ∧ w < (regMap addr).regOffset + W then
        paramData s (W * buildDevIdxDest s.ltc831Flags.dir s.ltc831Flags.chainHead N i
          + (w - (regMap addr).regOffset))
      else (s.ltcDevData
        (buildDevIdxDest s.ltc831Flags.dir s.ltc831Flags.chainHead N i)).devRegs w) ∧
    (((ltc831BuildCommand_dev u addr regIdx W N i (s, p)).1.ltcDevData
        (buildDevIdxDest s.ltc831Flags.dir s.ltc831Flags.chainHead N i)).devRegFlags regIdx =
      { (s.ltcDevData
          (buildDevIdxDest s.ltc831Flags.dir s.ltc831Flags.chainHead N i)).devRegFlags regIdx with
        cmdCount := 0, dir := s.ltc831Flags.dir, tag := s.ltcParams.tag }) := by
  refine ⟨?_, ?_, ?_⟩
  · intro e he
    unfold ltc831BuildCommand_dev
    simp [State.modRegFlags, State.modDev, setAt, he]
  · intro w
    unfold ltc831BuildCommand_dev
    simp only [State.modRegFlags, State.modDev, setAt, if_true]
    exact buildItems_regs _ _ _ _ _ _ _ w
  · unfold ltc831BuildCommand_dev
    simp [State.modRegFlags, State.modDev, setAt]

/-- Loop invariant of the write branch of `ltc831BuildCommand` on the shadow
store: after `n` devices, the destination device of every slot `i < n` holds
the input words of that device in the words of the register, and its flags of
the register carry `cmdCount = 0`, the direction and the tag. -/
theorem buildCommand_loop_shadow (u : Util) (addr regIdx W N : Nat) (s : State) (n : Nat) :
    ∀ i, i < n →
      (∀ j, j < W →
        ((forLoop n (ltc831BuildCommand_dev u addr regIdx W N) (s, 2)).1.ltcDevData
            (buildDevIdxDest s.ltc831Flags.dir s.ltc831Flags.chainHead N i)).devRegs
            ((regMap addr).regOffset + j) =
          paramData s
            (W * buildDevIdxDest s.ltc831Flags.dir s.ltc831Flags.chainHead N i + j)) ∧
      (((forLoop n (ltc831BuildCommand_dev u addr regIdx W N) (s, 2)).1.ltcDevData
          (buildDevIdxDest s.ltc831Flags.dir s.ltc831Flags.chainHead N i)).devRegFlags
            regIdx).cmdCount = 0 ∧
      (((forLoop n (ltc831BuildCommand_dev u addr regIdx W N) (s, 2)).1.ltcDevData
          (buildDevIdxDest s.ltc831Flags.dir s.ltc831Flags.chainHead N i)).devRegFlags
            regIdx).dir = s.ltc831Flags.dir ∧
      (((forLoop n (ltc831BuildCommand_dev u addr regIdx W N) (s, 2)).1.ltcDevData
          (buildDevIdxDest s.ltc831Flags.dir s.ltc831Flags.chainHead N i)).devRegFlags
            regIdx).tag = s.ltcParams.tag := by
  induction n with
  | zero => intro i hi; omega
  | succ n ih =>
    intro i hi
    have hL := buildCommand_loop u addr regIdx W N s n
    simp only at hL
    obtain ⟨_, hpar, hfl, _, _, _⟩ := hL
    simp only [forLoop_succ]
    generalize forLoop n (ltc831BuildCommand_dev u addr regIdx W N) (s, 2) = r at ih hpar hfl
    obtain ⟨s1, p1⟩ := r
    simp only at ih hpar hfl
    obtain ⟨e1, e2, e3⟩ := buildCommand_dev_shadow u addr regIdx W N n s1 p1
    have hpd : paramData s1 = paramData s := by unfold paramData; rw [hpar]
    rw [hfl, hpd] at e2
    rw [hfl, hpar] at e3
    rw [hfl] at e1
    by_cases hd : buildDevIdxDest s.ltc831Flags.dir s.ltc831Flags.chainHead N i =
        buildDevIdxDest s.ltc831Flags.dir s.ltc831Flags.chainHead N n
    · rw [hd]
      refine ⟨?_, ?_, ?_, ?_⟩
      · intro j hj
        rw [e2, if_pos ⟨by omega, by omega⟩]
        congr 2
        omega
      · rw [e3]
      · rw [e3]
      · rw [e3]
    · have hlt : i < n := by
        rcases Nat.lt_succ_iff_lt_or_eq.mp hi with h | h
        · exact h
        · exact absurd (by rw [h]) hd
      rw [e1 _ hd]
      exact ih i hlt

/-- The shadow store after `ltc831BuildCommand` for a write is the one the
device loop leaves. -/
theorem buildCommand_write_devData (u : Util) (s : State)
    (hcmd : s.ltcParams.spiCmd = LTC_REG_WRITE_CMD)
    (hW : (regMap s.ltcParams.addr).type = LTC831_REG_W ∨
      (regMap s.ltcParams.addr).type = LTC831_REG_B)
    (hlen : (regMap s.ltcParams.addr).lenB / 2 ≠ 0) :
    (ltc831BuildCommand u s).2.ltcDevData =
      (forLoop (effNumDevs s) (ltc831BuildCommand_dev u s.ltcParams.addr
        (regMap s.ltcParams.addr).regFlagIdx ((regMap s.ltcParams.addr).lenB / 2) (effNumDevs s))
        ({ s with ltcFrames := { zeroFrames with
            cmdDataTx := setAt zeroFrames.cmdDataTx 0 s.ltcParams.addr,
            txCmdLengthB := LTC831_CMD_PKT_SIZE_B,
            regLengthW := (regMap s.ltcParams.addr).lenB / 2 } }, 2)).1.ltcDevData := by
  unfold ltc831BuildCommand ltcResetStateMachine
  rcases hW with hW | hW <;> simp [hcmd, hW, hlen, effNumDevs]

set_option maxRecDepth 100000 in
/-- C25 (counterexample): a write of address 0x13 (kind W, two words) with
`numDevs = 2` in the chain-head direction while the pack layer limits the
chain to one device (`packApi.numDevs = 1`): `ltc831BuildCommand` builds one
payload slot.  Slot 0 carries the input words of device 0 (0x0102, 0x0304),
not those of device `numDevs - 1 - 0 = 1` (0x0506, 0x0708); slot 1 (from byte
`2 + 1 * (4 + 2) = 8` on) stays zero, the frame ends after slot 0, and the
shadow register and the register flags of device 1 are not written. -/
theorem buildCommand_capped_write_slots :
    cappedWriteSample.ltcParams.numDevs = 2 ∧ effNumDevs cappedWriteSample = 1 ∧
    cappedWriteSample.ltc831Flags.dir = cappedWriteSample.ltc831Flags.chainHead ∧
    (regMap cappedWriteSample.ltcParams.addr).type = LTC831_REG_W ∧
    (regMap cappedWriteSample.ltcParams.addr).lenB = 4 ∧
    (ltc831BuildCommand (modelUtil 0x025B) cappedWriteSample).1 = LTC_SUCCESS ∧
    (List.range 4).map
        (fun k => (ltc831BuildCommand (modelUtil 0x025B) cappedWriteSample).2.ltcFrames.cmdDataTx
          (2 + k)) = [0x02, 0x01, 0x04, 0x03] ∧
    (List.range 6).map
        (fun k => (ltc831BuildCommand (modelUtil 0x025B) cappedWriteSample).2.ltcFrames.cmdDataTx
          (8 + k)) = [0, 0, 0, 0, 0, 0] ∧
    (ltc831BuildCommand (modelUtil 0x025B) cappedWriteSample).2.ltcFrames.lengthB = 8 ∧
    (List.range 2).map
        (fun j => ((ltc831BuildCommand (modelUtil 0x025B) cappedWriteSample).2.ltcDevData 1).devRegs
          ((regMap cappedWriteSample.ltcParams.addr).regOffset + j)) = [0, 0] ∧
    ((ltc831BuildCommand (modelUtil 0x025B) cappedWriteSample).2.ltcDevData 1).devRegFlags
        (regMap cappedWriteSample.ltcParams.addr).regFlagIdx =
      (cappedWriteSample.ltcDevData 1).devRegFlags
        (regMap cappedWriteSample.ltcParams.addr).regFlagIdx := by
  refine ⟨rfl, by decide, by decide, by decide, by decide, by decide, by decide, by decide,
    by decide, by decide, by decide⟩

/-- C25 (amended): `ltc831BuildCommand` for a write of a kind-W register to
`N` devices (`N` is the device count of the function, `effNumDevs`:
`packApi.numDevs` when that is non-zero and smaller than the `numDevs` of the
command, else the `numDevs` of the command; below 256; the registers of kind
W have a non-zero length): payload slot `i < N`, which starts at byte
`2 + i * (lenB + 2)` of the transmit buffer, carries the input words of device
`N - 1 - i` when `dir` equals `chainHead` and of device `i` otherwise, low
byte first; the same words are in the shadow register of that device, and the
flags of the register of that device have `cmdCount = 0`, the direction and
the tag of the command. -/
theorem buildCommand_write_placement (u : Util) (s : State)
    (hcmd : s.ltcParams.spiCmd = LTC_REG_WRITE_CMD)
    (hW : (regMap s.ltcParams.addr).type = LTC831_REG_W)
    (hN : effNumDevs s < 256) (i : Nat) (hi : i < effNumDevs s) :
    (ltc831BuildCommand u s).1 = LTC_SUCCESS ∧
    (regMap s.ltcParams.addr).lenB ≠ 0 ∧
    (∀ j, j < (regMap s.ltcParams.addr).lenB / 2 →
      (ltc831BuildCommand u s).2.ltcFrames.cmdDataTx
          (2 + i * ((regMap s.ltcParams.addr).lenB + 2) + 2 * j) =
        paramData s ((regMap s.ltcParams.addr).lenB / 2 *
          (if s.ltc831Flags.dir = s.ltc831Flags.chainHead then effNumDevs s - 1 - i else i)
          + j) % 256 ∧
      (ltc831BuildCommand u s).2.ltcFrames.cmdDataTx
          (2 + i * ((regMap s.ltcParams.addr).lenB + 2) + 2 * j + 1) =
        paramData s ((regMap s.ltcParams.addr).lenB / 2 *
          (if s.ltc831Flags.dir = s.ltc831Flags.chainHead then effNumDevs s - 1 - i else i)
          + j) / 256 % 256 ∧
      ((ltc831BuildCommand u s).2.ltcDevData
          (if s.ltc831Flags.dir = s.ltc831Flags.chainHead then effNumDevs s - 1 - i
            else i)).devRegs ((regMap s.ltcParams.addr).regOffset + j) =
        paramData s ((regMap s.ltcParams.addr).lenB / 2 *
          (if s.ltc831Flags.dir = s.ltc831Flags.chainHead then effNumDevs s - 1 - i else i)
          + j)) ∧
    (((ltc831BuildCommand u s).2.ltcDevData
        (if s.ltc831Flags.dir = s.ltc831Flags.chainHead then effNumDevs s - 1 - i
          else i)).devRegFlags (regMap s.ltcParams.addr).regFlagIdx).cmdCount = 0 ∧
    (((ltc831BuildCommand u s).2.ltcDevData
        (if s.ltc831Flags.dir = s.ltc831Flags.chainHead then effNumDevs s - 1 - i
          else i)).devRegFlags (regMap s.ltcParams.addr).regFlagIdx).dir = s.ltc831Flags.dir ∧
    (((ltc831BuildCommand u s).2.ltcDevData
        (if s.ltc831Flags.dir = s.ltc831Flags.chainHead then effNumDevs s - 1 - i
          else i)).devRegFlags (regMap s.ltcParams.addr).regFlagIdx).tag = s.ltcParams.tag := by
  have hl := regMap_W_lenB _ hW
  have hlen : (regMap s.ltcParams.addr).lenB / 2 ≠ 0 := by rcases hl with h | h <;> rw [h] <;> decide
  have hl2 : 2 * ((regMap s.ltcParams.addr).lenB / 2) = (regMap s.ltcParams.addr).lenB := by
    rcases hl with h | h <;> rw [h]
  have hT := buildCommand_write_tx u s hcmd (Or.inl hW) hlen i hi
  have hD := buildCommand_write_devData u s hcmd (Or.inl hW) hlen
  have hS := buildCommand_loop_shadow u s.ltcParams.addr (regMap s.ltcParams.addr).regFlagIdx
    ((regMap s.ltcParams.addr).lenB / 2) (effNumDevs s)
    { s with ltcFrames := { zeroFrames with
        cmdDataTx := setAt zeroFrames.cmdDataTx 0 s.ltcParams.addr,
        txCmdLengthB := LTC831_CMD_PKT_SIZE_B,
        regLengthW := (regMap s.ltcParams.addr).lenB / 2 } } (effNumDevs s) i hi
  rw [← hD] at hS
  have hdest := buildDevIdxDest_eq s.ltc831Flags.dir s.ltc831Flags.chainHead (effNumDevs s) i hN hi
  simp only [hdest] at hS
  rw [hdest, hl2] at hT
  have hpd : paramData { s with ltcFrames := { zeroFrames with
        cmdDataTx := setAt zeroFrames.cmdDataTx 0 s.ltcParams.addr,
        txCmdLengthB := LTC831_CMD_PKT_SIZE_B,
        regLengthW := (regMap s.ltcParams.addr).lenB / 2 } } = paramData s := rfl
  rw [hpd] at hS
  refine ⟨hT.1, by rcases hl with h | h <;> rw [h] <;> decide, ?_, hS.2.1, hS.2.2.1, hS.2.2.2⟩
  intro j hj
  exact ⟨(hT.2.1 j hj).1, (hT.2.1 j hj).2, hS.1 j hj⟩

set_option maxRecDepth 100000 in
theorem buildCommand_write_placement_witness :
    writeSwapSample.ltcParams.spiCmd = LTC_REG_WRITE_CMD ∧
    (regMap writeSwapSample.ltcParams.addr).type = LTC831_REG_W ∧
    effNumDevs writeSwapSample < 256 ∧ 0 < effNumDevs writeSwapSample ∧
    (((ltc831BuildCommand (modelUtil 0x025B) writeSwapSample).2.ltcDevData
        (if writeSwapSample.ltc831Flags.dir = writeSwapSample.ltc831Flags.chainHead then
          effNumDevs writeSwapSample - 1 - 0 else 0)).devRegFlags
          (regMap writeSwapSample.ltcParams.addr).regFlagIdx).cmdCount = 0 :=
  ⟨rfl, by decide, by decide, by decide,
   (buildCommand_write_placement (modelUtil 0x025B) writeSwapSample rfl (by decide) (by decide) 0
     (by decide)).2.2.2.1⟩

theorem rxDevIdxDest_eq (dir chainHead : Bool) (N i : Nat) (hN : N < 256) (hi : i < N) :
    rxDevIdxDest dir chainHead N i = if dir ≠ chainHead then N - 1 - i else i := by
  unfold rxDevIdxDest toU8
  by_cases h : dir ≠ chainHead
  · rw [if_pos ⟨h, by omega⟩, if_pos h]; omega
  · rw [if_neg (fun hc => h hc.1), if_neg h]

set_option maxRecDepth 100000 in
/-- C26 (counterexample): a read of fuse row 0 from two devices against the
chain head while the pack layer limits the chain to one device
(`packApi.numDevs = 1`): `LTC831_RxParse` parses both blocks and takes block 1
as belonging to device `(UVAR8)(1 - 1 - 1) = 255`, not to device 0 or 1. -/
theorem rxParse_capped_block_wraps :
    cappedReadSample.ltcParams.numDevs = 2 ∧ effNumDevs cappedReadSample = 1 ∧
    rxDevIdxDest cappedReadSample.ltc831Flags.dir cappedReadSample.ltc831Flags.chainHead
      (effNumDevs cappedReadSample) 1 = 255 ∧
    ((LTC831_RxParse (modelUtil 0x025B)
        (injectRx (bufOf goodResponse)
          (ltc831BuildCommand (modelUtil 0x025B) cappedReadSample).2)).2.ltcDevData 255).devRegs 54
      = 0x5678 ∧
    (((LTC831_RxParse (modelUtil 0x025B)
        (injectRx (bufOf goodResponse)
          (ltc831BuildCommand (modelUtil 0x025B) cappedReadSample).2)).2.ltcDevData 255).devRegFlags
        22).newData = true ∧
    (((LTC831_RxParse (modelUtil 0x025B)
        (injectRx (bufOf goodResponse)
          (ltc831BuildCommand (modelUtil 0x025B) cappedReadSample).2)).2.ltcDevData 1).devRegFlags
        22).newData = false := by
  decide

/-- C26 (amended): build a read (tagged or untagged) of a kind-R address for
`numDevs < 256` devices and parse any received buffer.  The blocks lie back to
back behind the header: block `i` starts at byte `H + i * L` with `H = 2 + tag`
and `L = rxDataLengthB = lenB + 2 + tag`.  `LTC831_RxParse` goes over the
`numDevs` blocks and gives block `i` to the device `rxDevIdxDest i`, computed
from the device count `N` of the function (`packApi.numDevs` when that is
non-zero and below `numDevs`, else `numDevs`): for `i < N` this is device
`N - 1 - i` when `dir` differs from `chainHead` and device `i` when they are
equal.  The map from blocks to devices is injective, and when the pack layer
sets no smaller limit (`N = numDevs`) it is a bijection on `0..numDevs-1`. -/
theorem rxParse_block_to_device (u : Util) (s0 : State) (rx : Nat → Nat)
    (hcmd : s0.ltcParams.spiCmd = LTC_REG_READ_CMD ∨
      s0.ltcParams.spiCmd = LTC_REG_READ_TAG_CMD)
    (hR : (regMap s0.ltcParams.addr).type = LTC831_REG_R)
    (hn : s0.ltcParams.numDevs < 256)
    (i : Nat) (hi : i < s0.ltcParams.numDevs) :
    (injectRx rx (ltc831BuildCommand u s0).2).ltcFrames.rxDataLengthB =
      (regMap s0.ltcParams.addr).lenB + 2 + rxTagLen s0 ∧
    rxBlockOff (injectRx rx (ltc831BuildCommand u s0).2) i =
      2 + rxTagLen s0 + i * (injectRx rx (ltc831BuildCommand u s0).2).ltcFrames.rxDataLengthB ∧
    (LTC831_RxParse u (injectRx rx (ltc831BuildCommand u s0).2)).2.ltcDevData
        (rxDevIdxDest s0.ltc831Flags.dir s0.ltc831Flags.chainHead (effNumDevs s0) i) =
      rxDevEffect u (injectRx rx (ltc831BuildCommand u s0).2)
        (regMap s0.ltcParams.addr).regFlagIdx
        (rxBlockOff (injectRx rx (ltc831BuildCommand u s0).2) i)
        (rxItemBefore (injectRx rx (ltc831BuildCommand u s0).2)
          (rxBase (injectRx rx (ltc831BuildCommand u s0).2)) i)
        (s0.ltcDevData
          (rxDevIdxDest s0.ltc831Flags.dir s0.ltc831Flags.chainHead (effNumDevs s0) i)) ∧
    (i < effNumDevs s0 →
      rxDevIdxDest s0.ltc831Flags.dir s0.ltc831Flags.chainHead (effNumDevs s0) i =
        if s0.ltc831Flags.dir ≠ s0.ltc831Flags.chainHead then effNumDevs s0 - 1 - i else i) ∧
    (∀ k, k < s0.ltcParams.numDevs →
      rxDevIdxDest s0.ltc831Flags.dir s0.ltc831Flags.chainHead (effNumDevs s0) k =
        rxDevIdxDest s0.ltc831Flags.dir s0.ltc831Flags.chainHead (effNumDevs s0) i → k = i) ∧
    ((s0.packApi.numDevs = 0 ∨ s0.ltcParams.numDevs ≤ s0.packApi.numDevs) →
      effNumDevs s0 = s0.ltcParams.numDevs ∧
      rxDevIdxDest s0.ltc831Flags.dir s0.ltc831Flags.chainHead (effNumDevs s0) i =
        (if s0.ltc831Flags.dir ≠ s0.ltc831Flags.chainHead then s0.ltcParams.numDevs - 1 - i
          else i) ∧
      rxDevIdxDest s0.ltc831Flags.dir s0.ltc831Flags.chainHead (effNumDevs s0) i <
        s0.ltcParams.numDevs ∧
      ∀ e, e < s0.ltcParams.numDevs → ∃ k, k < s0.ltcParams.numDevs ∧
        rxDevIdxDest s0.ltc831Flags.dir s0.ltc831Flags.chainHead (effNumDevs s0) k = e) := by
  obtain ⟨_, hp, hf, hd, _, hpk, _, _, hlw, hrl, _⟩ := buildCommand_read u s0 hcmd hR
  generalize hs : injectRx rx (ltc831BuildCommand u s0).2 = s
  have hsp : s.ltcParams = s0.ltcParams := by rw [← hs]; exact hp
  have hsf : s.ltc831Flags = s0.ltc831Flags := by rw [← hs]; exact hf
  have hspk : s.packApi = s0.packApi := by rw [← hs]; exact hpk
  have hsd : s.ltcDevData = s0.ltcDevData := by rw [← hs]; exact hd
  have hslw : s.ltcFrames.regLengthW = (regMap s0.ltcParams.addr).lenB / 2 := by
    rw [← hs]; exact hlw
  have hsrl : s.ltcFrames.rxDataLengthB = (regMap s0.ltcParams.addr).lenB + 2 + rxTagLen s0 := by
    rw [← hs]; exact hrl
  have hl := regMap_R_lenB _ hR
  have htl : rxTagLen s = rxTagLen s0 := by unfold rxTagLen; rw [hsp]
  have heff : effNumDevs s = effNumDevs s0 := by unfold effNumDevs; rw [hsp, hspk]
  have hbase : rxBase s = 2 + rxTagLen s0 := by
    unfold rxBase rxTagLen LTC831_CMD_PKT_SIZE_B LTC831_CMD_PKT_TAGGED_SIZE_B
    rw [hsp]
    rcases hcmd with hc | hc <;> simp [hc]
  have hstr : rxStride s = (regMap s0.ltcParams.addr).lenB + 2 + rxTagLen s0 := by
    unfold rxStride LTC831_PEC_SIZE_B
    rw [htl, hslw]
    omega
  have hle := effNumDevs_le s0
  obtain ⟨_, _, _, hdev, _⟩ := rxParse_spec u s (by rw [hsp]; omega)
  have hdi := hdev i (by rw [hsp]; exact hi)
  rw [hsf, heff, hsp, hsd] at hdi
  refine ⟨hsrl, by unfold rxBlockOff; rw [hbase, hstr, hsrl], hdi, ?_, ?_, ?_⟩
  · intro hiN
    exact rxDevIdxDest_eq _ _ _ _ (by omega) hiN
  · intro k hk h
    exact rxDevIdxDest_inj _ _ _ (by omega) (by omega) h
  · intro hcap
    have hN : effNumDevs s0 = s0.ltcParams.numDevs := by
      unfold effNumDevs
      rcases hcap with h | h
      · simp [h]
      · rw [if_neg (by omega)]
    have hdest : ∀ k, k < s0.ltcParams.numDevs →
        rxDevIdxDest s0.ltc831Flags.dir s0.ltc831Flags.chainHead (effNumDevs s0) k =
          if s0.ltc831Flags.dir ≠ s0.ltc831Flags.chainHead then s0.ltcParams.numDevs - 1 - k
          else k := by
      intro k hk
      rw [hN]
      exact rxDevIdxDest_eq _ _ _ _ hn hk
    refine ⟨hN, hdest i hi, ?_, ?_⟩
    · rw [hdest i hi]; split <;> omega
    · intro e he
      by_cases hdc : s0.ltc831Flags.dir ≠ s0.ltc831Flags.chainHead
      · refine ⟨s0.ltcParams.numDevs - 1 - e, by omega, ?_⟩
        rw [hdest _ (by omega), if_pos hdc]
        omega
      · refine ⟨e, he, ?_⟩
        rw [hdest _ he, if_neg hdc]

set_option maxRecDepth 100000 in
theorem rxParse_block_to_device_witness :
    (readSample.ltcParams.spiCmd = LTC_REG_READ_CMD ∨
      readSample.ltcParams.spiCmd = LTC_REG_READ_TAG_CMD) ∧
    (regMap readSample.ltcParams.addr).type = LTC831_REG_R ∧
    readSample.ltcParams.numDevs < 256 ∧ 1 < readSample.ltcParams.numDevs ∧
    rxBlockOff (injectRx (bufOf goodResponse)
        (ltc831BuildCommand (modelUtil 0x025B) readSample).2) 1 =
      2 + rxTagLen readSample + 1 * (injectRx (bufOf goodResponse)
        (ltc831BuildCommand (modelUtil 0x025B) readSample).2).ltcFrames.rxDataLengthB :=
  ⟨Or.inl rfl, by decide, by decide, by decide,
   (rxParse_block_to_device (modelUtil 0x025B) readSample (bufOf goodResponse) (Or.inl rfl)
     (by decide) (by decide) 1 (by decide)).2.1⟩

set_option maxRecDepth 100000 in
theorem cc_bits_of_byte (b : Nat) (hb : b < 256) : (b &&& 0xC0) >>> 6 = b / 64 := by
  have h : ∀ x : Fin 256, (x.val &&& 0xC0) >>> 6 = x.val / 64 := by decide
  exact h ⟨b, hb⟩

theorem pec14_of_bytes (b0 b1 : Nat) (h0 : b0 < 256) (h1 : b1 < 256) :
    (((b0 <<< 8) ||| b1) % 65536) &&& 0x3FFF = (256 * b0 + b1) % 16384 := by
  rw [word_of_bytes b0 b1 h0 h1]
  exact Nat.and_pow_two_sub_one_eq_mod (256 * b0 + b1) 14

/-- C27: in `LTC831_RxParse` on a state with fewer than 256 devices, a block
length of at least two bytes and bytes below 256 in the receive buffer, for
the block of slot `i` ending in the PEC bytes `b0`, `b1`: the command counter
is `b0 >> 6`, the received PEC is `((b0 << 8) | b1) & 0x3FFF`, so that
`cmdCount * 2^14 + receivedPec = b0 * 256 + b1`, `cmdCount < 4` and
`receivedPec < 2^14`; the verdict `crcError` is false exactly when the
received PEC equals the computed one; and a block that is stored leaves this
command counter and this verdict in the register flags of its device. -/
theorem rxParse_pec_fields (u : Util) (s : State) (hn : s.ltcParams.numDevs < 256)
    (hlen : 2 ≤ s.ltcFrames.rxDataLengthB) (hrx : ∀ k, s.ltcFrames.cmdDataRx k < 256)
    (i : Nat) (hi : i < s.ltcParams.numDevs) (b0 b1 : Nat)
    (hb0 : b0 = s.ltcFrames.cmdDataRx (rxBlockOff s i + s.ltcFrames.rxDataLengthB - 2))
    (hb1 : b1 = s.ltcFrames.cmdDataRx (rxBlockOff s i + s.ltcFrames.rxDataLengthB - 2 + 1)) :
    rxCommandCounter s.ltcFrames.cmdDataRx s.ltcFrames.rxDataLengthB (rxBlockOff s i) =
      b0 >>> 6 ∧
    rxReceivedPec s.ltcFrames.cmdDataRx s.ltcFrames.rxDataLengthB (rxBlockOff s i) =
      (((b0 <<< 8) ||| b1) % 65536) &&& 0x3FFF ∧
    rxCommandCounter s.ltcFrames.cmdDataRx s.ltcFrames.rxDataLengthB (rxBlockOff s i) * 2 ^ 14 +
        rxReceivedPec s.ltcFrames.cmdDataRx s.ltcFrames.rxDataLengthB (rxBlockOff s i) =
      b0 * 256 + b1 ∧
    rxCommandCounter s.ltcFrames.cmdDataRx s.ltcFrames.rxDataLengthB (rxBlockOff s i) < 4 ∧
    rxReceivedPec s.ltcFrames.cmdDataRx s.ltcFrames.rxDataLengthB (rxBlockOff s i) < 2 ^ 14 ∧
    (rxCrcErrorAt u s (rxBlockOff s i) = false ↔
      rxReceivedPec s.ltcFrames.cmdDataRx s.ltcFrames.rxDataLengthB (rxBlockOff s i) =
        rxComputedPec u s.ltcFrames.cmdDataRx s.ltcFrames.rxDataLengthB (rxBlockOff s i)) ∧
    ((rxCrcErrorAt u s (rxBlockOff s i) = false ∨ s.ltc831Flags.didFirst = false) →
      (((LTC831_RxParse u s).2.ltcDevData
          (rxDevIdxDest s.ltc831Flags.dir s.ltc831Flags.chainHead (effNumDevs s) i)).devRegFlags
            (regMap s.ltcParams.addr).regFlagIdx).cmdCount = b0 >>> 6 ∧
      (((LTC831_RxParse u s).2.ltcDevData
          (rxDevIdxDest s.ltc831Flags.dir s.ltc831Flags.chainHead (effNumDevs s) i)).devRegFlags
            (regMap s.ltcParams.addr).regFlagIdx).crcError = rxCrcErrorAt u s (rxBlockOff s i)) := by
  have h0 : b0 < 256 := by rw [hb0]; exact hrx _
  have h1 : b1 < 256 := by rw [hb1]; exact hrx _
  have hcc : rxCommandCounter s.ltcFrames.cmdDataRx s.ltcFrames.rxDataLengthB (rxBlockOff s i) =
      b0 / 64 := by
    unfold rxCommandCounter LTC831_PEC_SIZE_B
    rw [if_neg (by omega), ← hb0]
    exact cc_bits_of_byte b0 h0
  have hpec : rxReceivedPec s.ltcFrames.cmdDataRx s.ltcFrames.rxDataLengthB (rxBlockOff s i) =
      (256 * b0 + b1) % 16384 := by
    unfold rxReceivedPec LTC831_PEC_SIZE_B
    rw [if_neg (by omega), ← hb0, ← hb1]
    exact pec14_of_bytes b0 b1 h0 h1
  have hsh : b0 >>> 6 = b0 / 64 := Nat.shiftRight_eq_div_pow b0 6
  refine ⟨by rw [hcc, hsh], by rw [hpec, pec14_of_bytes b0 b1 h0 h1], ?_, ?_, ?_, ?_, ?_⟩
  · rw [hcc, hpec]; omega
  · rw [hcc]; omega
  · rw [hpec]; omega
  · unfold rxCrcErrorAt
    constructor
    · intro h
      by_contra hne
      rw [if_neg (fun he => hne he.symm)] at h
      exact absurd h (by decide)
    · intro h
      rw [if_pos h.symm]
  · intro hc
    have hm := (rxParse_commit_rule u s hn).1 i hi hc
    exact ⟨by rw [hm.1, hcc, hsh], hm.2.2.1⟩

set_option maxRecDepth 100000 in
theorem rxParse_pec_fields_witness :
    parseSampleFirst.ltcParams.numDevs < 256 ∧ 2 ≤ parseSampleFirst.ltcFrames.rxDataLengthB ∧
    rxCommandCounter parseSampleFirst.ltcFrames.cmdDataRx parseSampleFirst.ltcFrames.rxDataLengthB
        (rxBlockOff parseSampleFirst 0) * 2 ^ 14 +
      rxReceivedPec parseSampleFirst.ltcFrames.cmdDataRx parseSampleFirst.ltcFrames.rxDataLengthB
        (rxBlockOff parseSampleFirst 0) = 0x28 * 256 + 0xEF :=
  ⟨by decide, by decide,
   (rxParse_pec_fields (modelUtil 0x025B) parseSampleFirst (by decide) (by decide)
     (bufOf_lt _ (by decide)) 0 (by decide) 0x28 0xEF rfl rfl).2.2.1⟩

/-- No readable register asks for the ACK tail. -/
theorem regMap_R_ack (addr : Nat) (h : (regMap addr).type = LTC831_REG_R) :
    (regMap addr).ack = false := by
  have hle := regMap_R_le addr h
  simp only [LTC831_RDFS_NO_TAG_CMD, LTC831_FS_ROW_END] at hle
  have hlt : addr < 54 := by omega
  clear hle
  interval_cases addr <;> first | (exact absurd h (by decide)) | decide

/-- C28: `ltc831BuildCommand` for a read of a readable register.  Untagged:
the block length expected per device is `lenB + 2`, the header is
`{addr, cmdPec}` and the command length 2.  Tagged: the block length is
`lenB + 3`, the header is `{addr | 0x40, tag, cmdPec}` and the command length
3.  `cmdPec` is the CRC-8 of the header bytes in front of it with seed 0x10,
and the frame length is `commandLength + numDevs * blockLength` modulo 256. -/
theorem buildCommand_read_frame (u : Util) (s : State)
    (hcmd : s.ltcParams.spiCmd = LTC_REG_READ_CMD ∨ s.ltcParams.spiCmd = LTC_REG_READ_TAG_CMD)
    (hR : (regMap s.ltcParams.addr).type = LTC831_REG_R) :
    (ltc831BuildCommand u s).1 = LTC_SUCCESS ∧
    (s.ltcParams.spiCmd = LTC_REG_READ_CMD →
      (ltc831BuildCommand u s).2.ltcFrames.rxDataLengthB = (regMap s.ltcParams.addr).lenB + 2 ∧
      (ltc831BuildCommand u s).2.ltcFrames.txCmdLengthB = 2 ∧
      (ltc831BuildCommand u s).2.ltcFrames.cmdDataTx 0 = s.ltcParams.addr ∧
      (ltc831BuildCommand u s).2.ltcFrames.cmdDataTx 1 =
        u.calcCRC u.UTIL_CRC8_2F_POLY [s.ltcParams.addr] 0x10 % 256) ∧
    (s.ltcParams.spiCmd = LTC_REG_READ_TAG_CMD →
      (ltc831BuildCommand u s).2.ltcFrames.rxDataLengthB = (regMap s.ltcParams.addr).lenB + 3 ∧
      (ltc831BuildCommand u s).2.ltcFrames.txCmdLengthB = 3 ∧
      (ltc831BuildCommand u s).2.ltcFrames.cmdDataTx 0 = s.ltcParams.addr ||| 0x40 ∧
      (ltc831BuildCommand u s).2.ltcFrames.cmdDataTx 1 = s.ltcParams.tag ∧
      (ltc831BuildCommand u s).2.ltcFrames.cmdDataTx 2 =
        u.calcCRC u.UTIL_CRC8_2F_POLY [s.ltcParams.addr ||| 0x40, s.ltcParams.tag] 0x10 % 256) ∧
    (ltc831BuildCommand u s).2.ltcFrames.lengthB =
      ((ltc831BuildCommand u s).2.ltcFrames.txCmdLengthB +
        s.ltcParams.numDevs * (ltc831BuildCommand u s).2.ltcFrames.rxDataLengthB) % 256 := by
  have hl := regMap_R_lenB _ hR
  have ha := regMap_R_ack _ hR
  unfold ltc831BuildCommand ltcResetStateMachine
  rcases hcmd with hc | hc <;> rcases hl with hl | hl | hl <;>
    simp [hc, hR, hl, ha, LTC831_PEC_SIZE_B, LTC831_CMD_PKT_SIZE_B, LTC831_CMD_PKT_TAGGED_SIZE_B,
      LTC831_CMD_PEC_SIZE_B, LTC831_TAGGED_CMD_MASK, bytesAt, setAt, zeroFrames, List.range_succ]

theorem buildCommand_read_frame_witness :
    (readSample.ltcParams.spiCmd = LTC_REG_READ_CMD ∨
      readSample.ltcParams.spiCmd = LTC_REG_READ_TAG_CMD) ∧
    (regMap readSample.ltcParams.addr).type = LTC831_REG_R ∧
    (ltc831BuildCommand (modelUtil 0x025B) readSample).2.ltcFrames.lengthB =
      ((ltc831BuildCommand (modelUtil 0x025B) readSample).2.ltcFrames.txCmdLengthB +
        readSample.ltcParams.numDevs *
          (ltc831BuildCommand (modelUtil 0x025B) readSample).2.ltcFrames.rxDataLengthB) % 256 :=
  ⟨Or.inl rfl, by decide,
   (buildCommand_read_frame (modelUtil 0x025B) readSample (Or.inl rfl) (by decide)).2.2.2⟩

set_option maxRecDepth 100000 in
/-- C29 (counterexample): a SNAP broadcast (descriptor with `ack`) for
`numDevs = 5` while the pack layer limits the chain to one device
(`packApi.numDevs = 1`): `ltc831BuildCommand` adds `1 + (1 - 1) / 4 = 1` tail
byte to the 2-byte header, not `ceil(5 * 2 / 8) = 2`. -/
theorem buildCommand_capped_ack_tail :
    cappedSnapSample.ltcParams.numDevs = 5 ∧ effNumDevs cappedSnapSample = 1 ∧
    (regMap cappedSnapSample.ltcParams.addr).ack = true ∧
    (ltc831BuildCommand (modelUtil 0x025B) cappedSnapSample).1 = LTC_SUCCESS ∧
    (ltc831BuildCommand (modelUtil 0x025B) cappedSnapSample).2.ltcFrames.txCmdLengthB = 2 ∧
    (ltc831BuildCommand (modelUtil 0x025B) cappedSnapSample).2.ltcFrames.lengthB = 2 + 1 ∧
    (5 * 2 + 7) / 8 = 2 ∧ 1 + (5 - 1) / 4 = 2 := by
  refine ⟨rfl, by decide, by decide, by decide, by decide, by decide, by decide, by decide⟩

/-- C29 (amended): the ACK tail of `ltc831BuildCommand`.  For a command whose
descriptor has `ack` (a data-less broadcast) and a device count `N` of the
function (`effNumDevs`: `packApi.numDevs` when that is non-zero and smaller
than the `numDevs` of the command, else the `numDevs` of the command) with
`1 ≤ N < 256`, the frame length is the 2-byte header plus `1 + (N - 1) / 4`
bytes, and that number equals `ceil(N * 2 / 8)`.  For a write whose
descriptor has no `ack`, the frame length is header plus payload
(`txCmdLengthB + 2 * txDataLengthW + numDevs * rxDataLengthB` modulo 256): no
tail byte is added. -/
theorem buildCommand_ack_tail (u : Util) (s : State)
    (hcmd : s.ltcParams.spiCmd = LTC_REG_WRITE_CMD) :
    ((regMap s.ltcParams.addr).ack = true → 1 ≤ effNumDevs s → effNumDevs s < 256 →
      (ltc831BuildCommand u s).1 = LTC_SUCCESS ∧
      (ltc831BuildCommand u s).2.ltcFrames.txCmdLengthB = 2 ∧
      (ltc831BuildCommand u s).2.ltcFrames.txDataLengthW = 0 ∧
      (ltc831BuildCommand u s).2.ltcFrames.rxDataLengthB = 0 ∧
      (ltc831BuildCommand u s).2.ltcFrames.lengthB = 2 + (1 + (effNumDevs s - 1) / 4) ∧
      1 + (effNumDevs s - 1) / 4 = (effNumDevs s * 2 + 7) / 8) ∧
    ((regMap s.ltcParams.addr).ack = false →
      ((regMap s.ltcParams.addr).type = LTC831_REG_W ∨
        (regMap s.ltcParams.addr).type = LTC831_REG_B) →
      (ltc831BuildCommand u s).1 = LTC_SUCCESS ∧
      (ltc831BuildCommand u s).2.ltcFrames.lengthB =
        ((ltc831BuildCommand u s).2.ltcFrames.txCmdLengthB +
          (ltc831BuildCommand u s).2.ltcFrames.txDataLengthW * 2 +
          (s.ltcParams.numDevs * (ltc831BuildCommand u s).2.ltcFrames.rxDataLengthB) % 256)
          % 256) := by
  constructor
  · intro hack h1 h256
    obtain ⟨hB, hlen, _⟩ := regMap_ack _ hack
    have hN : effNumDevs s ≠ 0 := by omega
    have hN2 : ¬ (if s.packApi.numDevs ≠ 0 ∧ s.packApi.numDevs < s.ltcParams.numDevs then
        s.packApi.numDevs else s.ltcParams.numDevs) = 0 := hN
    have hm : (2 + (1 + (effNumDevs s - 1) / 4) % 256) % 256 = 2 + (1 + (effNumDevs s - 1) / 4) := by
      omega
    refine ⟨?_, ?_, ?_, ?_, ?_, by omega⟩
    · unfold ltc831BuildCommand ltcResetStateMachine
      simp [hcmd, hB, hlen]
    · unfold ltc831BuildCommand ltcResetStateMachine
      simp [hcmd, hB, hlen, LTC831_CMD_PKT_SIZE_B]
    · unfold ltc831BuildCommand ltcResetStateMachine
      simp [hcmd, hB, hlen, zeroFrames]
    · unfold ltc831BuildCommand ltcResetStateMachine
      simp [hcmd, hB, hlen, zeroFrames]
    · rw [← hm]
      unfold ltc831BuildCommand ltcResetStateMachine
      simp [hcmd, hB, hlen, hack, zeroFrames, LTC831_CMD_PKT_SIZE_B, effNumDevs, hN2]
  · intro hack hW
    have hL := buildCommand_loop u s.ltcParams.addr (regMap s.ltcParams.addr).regFlagIdx
      ((regMap s.ltcParams.addr).lenB / 2) (effNumDevs s)
      { s with ltcFrames := { zeroFrames with
          cmdDataTx := setAt zeroFrames.cmdDataTx 0 s.ltcParams.addr,
          txCmdLengthB := LTC831_CMD_PKT_SIZE_B,
          regLengthW := (regMap s.ltcParams.addr).lenB / 2 } } (effNumDevs s)
    simp only at hL
    have hpar := hL.2.1
    clear hL
    have hst : (ltc831BuildCommand u s).1 = LTC_SUCCESS := by
      unfold ltc831BuildCommand ltcResetStateMachine
      rcases hW with hW | hW <;> simp [hcmd, hW]
    refine ⟨hst, ?_⟩
    unfold ltc831BuildCommand ltcResetStateMachine
    by_cases hz : (regMap s.ltcParams.addr).lenB / 2 = 0
    · rcases hW with hW | hW <;> simp [hcmd, hW, hack, hz]
    · rcases hW with hW | hW <;> simp [hcmd, hW, hack, hz, effNumDevs] <;>
        simp [effNumDevs] at hpar <;> simp [hpar, hack]

theorem buildCommand_ack_tail_witness :
    (snapSample 5).ltcParams.spiCmd = LTC_REG_WRITE_CMD ∧
    (regMap (snapSample 5).ltcParams.addr).ack = true ∧ effNumDevs (snapSample 5) = 5 ∧
    (ltc831BuildCommand (modelUtil 0x025B) (snapSample 5)).2.ltcFrames.lengthB =
      2 + (1 + (effNumDevs (snapSample 5) - 1) / 4) :=
  ⟨rfl, by decide, by decide,
   ((buildCommand_ack_tail (modelUtil 0x025B) (snapSample 5) rfl).1 (by decide) (by decide)
     (by decide)).2.2.2.2.1⟩

set_option maxRecDepth 100000 in
/-- C30 (counterexample): for a tagged read the PEC `LTC831_RxParse` computes
starts at the tag byte.  A block whose PEC is the one of the payload bytes
and the two command-counter bits alone is flagged with a CRC error; a block
whose PEC covers the tag byte, the payload bytes and the two command-counter
bits is accepted. -/
theorem rxParse_tagged_pec_covers_tag :
    (modelUtil 0x025B).crc14 (2 * 8 + 2) [0x34, 0x12, 0x28] 0x0010 = 0x28EF ∧
    (((LTC831_RxParse (modelUtil 0x025B)
        (injectRx (bufOf tagResponsePayloadPec)
          (ltc831BuildCommand (modelUtil 0x025B) readTagSample).2)).2.ltcDevData 0).devRegFlags
        22).crcError = true ∧
    (modelUtil 0x025B).crc14 (3 * 8 + 2) [0x5A, 0x34, 0x12, 0x0D] 0x0010 = 0x0D08 ∧
    (((LTC831_RxParse (modelUtil 0x025B)
        (injectRx (bufOf tagResponseBlockPec)
          (ltc831BuildCommand (modelUtil 0x025B) readTagSample).2)).2.ltcDevData 0).devRegFlags
        22).crcError = false ∧
    (((LTC831_RxParse (modelUtil 0x025B)
        (injectRx (bufOf tagResponseBlockPec)
          (ltc831BuildCommand (modelUtil 0x025B) readTagSample).2)).2.ltcDevData 0).devRegs 54)
      = 0x1234 := by
  decide

/-- C30 (amended): build a read (tagged or untagged) of a kind-R address for
`numDevs < 256` devices and parse any received buffer.  The PEC
`LTC831_RxParse` computes for block `i` is `crc14` with seed 0x0010 over
`(lenB + tag) * 8 + 2` bits starting at the first byte of the block
(`tag` is 1 for a tagged read, else 0): for an untagged read the `lenB`
payload bytes and the two command-counter bits, for a tagged read the tag
byte, the `lenB` payload bytes and the two command-counter bits.  The verdict
`crcError` of a stored block compares this PEC with the received one. -/
theorem rxParse_computed_pec (u : Util) (s0 : State) (rx : Nat → Nat)
    (hcmd : s0.ltcParams.spiCmd = LTC_REG_READ_CMD ∨
      s0.ltcParams.spiCmd = LTC_REG_READ_TAG_CMD)
    (hR : (regMap s0.ltcParams.addr).type = LTC831_REG_R)
    (hn : s0.ltcParams.numDevs < 256)
    (i : Nat) (hi : i < s0.ltcParams.numDevs) :
    rxBlockOff (injectRx rx (ltc831BuildCommand u s0).2) i =
      2 + rxTagLen s0 + i * ((regMap s0.ltcParams.addr).lenB + 2 + rxTagLen s0) ∧
    rxComputedPec u rx (injectRx rx (ltc831BuildCommand u s0).2).ltcFrames.rxDataLengthB
        (rxBlockOff (injectRx rx (ltc831BuildCommand u s0).2) i) =
      u.crc14 (((regMap s0.ltcParams.addr).lenB + rxTagLen s0) * 8 + 2)
        (bytesAt rx (rxBlockOff (injectRx rx (ltc831BuildCommand u s0).2) i)
          ((regMap s0.ltcParams.addr).lenB + rxTagLen s0 + 1))
        0x0010 % 65536 ∧
    (rxCrcErrorAt u (injectRx rx (ltc831BuildCommand u s0).2)
        (rxBlockOff (injectRx rx (ltc831BuildCommand u s0).2) i) = false ↔
      rxComputedPec u rx (injectRx rx (ltc831BuildCommand u s0).2).ltcFrames.rxDataLengthB
          (rxBlockOff (injectRx rx (ltc831BuildCommand u s0).2) i) =
        rxReceivedPec rx (injectRx rx (ltc831BuildCommand u s0).2).ltcFrames.rxDataLengthB
          (rxBlockOff (injectRx rx (ltc831BuildCommand u s0).2) i)) ∧
    ((rxCrcErrorAt u (injectRx rx (ltc831BuildCommand u s0).2)
          (rxBlockOff (injectRx rx (ltc831BuildCommand u s0).2) i) = false ∨
        s0.ltc831Flags.didFirst = false) →
      (((LTC831_RxParse u (injectRx rx (ltc831BuildCommand u s0).2)).2.ltcDevData
          (rxDevIdxDest s0.ltc831Flags.dir s0.ltc831Flags.chainHead (effNumDevs s0) i)).devRegFlags
            (regMap s0.ltcParams.addr).regFlagIdx).crcError =
        rxCrcErrorAt u (injectRx rx (ltc831BuildCommand u s0).2)
          (rxBlockOff (injectRx rx (ltc831BuildCommand u s0).2) i)) := by
  obtain ⟨_, hp, hf, hd, _, hpk, _, _, hlw, hrl, _⟩ := buildCommand_read u s0 hcmd hR
  generalize hs : injectRx rx (ltc831BuildCommand u s0).2 = s
  have hsp : s.ltcParams = s0.ltcParams := by rw [← hs]; exact hp
  have hsf : s.ltc831Flags = s0.ltc831Flags := by rw [← hs]; exact hf
  have hspk : s.packApi = s0.packApi := by rw [← hs]; exact hpk
  have hsrx : s.ltcFrames.cmdDataRx = rx := by rw [← hs]; rfl
  have hslw : s.ltcFrames.regLengthW = (regMap s0.ltcParams.addr).lenB / 2 := by
    rw [← hs]; exact hlw
  have hsrl : s.ltcFrames.rxDataLengthB = (regMap s0.ltcParams.addr).lenB + 2 + rxTagLen s0 := by
    rw [← hs]; exact hrl
  have hl := regMap_R_lenB _ hR
  have htl : rxTagLen s = rxTagLen s0 := by unfold rxTagLen; rw [hsp]
  have htl1 : rxTagLen s0 ≤ 1 := by unfold rxTagLen; split <;> omega
  have heff : effNumDevs s = effNumDevs s0 := by unfold effNumDevs; rw [hsp, hspk]
  have hbase : rxBase s = 2 + rxTagLen s0 := by
    unfold rxBase rxTagLen LTC831_CMD_PKT_SIZE_B LTC831_CMD_PKT_TAGGED_SIZE_B
    rw [hsp]
    rcases hcmd with hc | hc <;> simp [hc]
  have hstr : rxStride s = (regMap s0.ltcParams.addr).lenB + 2 + rxTagLen s0 := by
    unfold rxStride LTC831_PEC_SIZE_B
    rw [htl, hslw]
    omega
  have hoff : rxBlockOff s i =
      2 + rxTagLen s0 + i * ((regMap s0.ltcParams.addr).lenB + 2 + rxTagLen s0) := by
    unfold rxBlockOff; rw [hbase, hstr]
  refine ⟨hoff, ?_, ?_, ?_⟩
  · unfold rxComputedPec LTC831_PEC_SIZE_B LTC831_NUM_CC_BITS LTC831_PEC_SEED_VALUE
    rw [hsrl, if_neg (by omega)]
    have h1 : ((regMap s0.ltcParams.addr).lenB + 2 + rxTagLen s0 - 2) * 8 + 2 =
        ((regMap s0.ltcParams.addr).lenB + rxTagLen s0) * 8 + 2 := by omega
    have h2 : (((regMap s0.ltcParams.addr).lenB + rxTagLen s0) * 8 + 2) % 65536 =
        ((regMap s0.ltcParams.addr).lenB + rxTagLen s0) * 8 + 2 := by omega
    have h3 : (((regMap s0.ltcParams.addr).lenB + rxTagLen s0) * 8 + 2 + 7) / 8 =
        (regMap s0.ltcParams.addr).lenB + rxTagLen s0 + 1 := by omega
    simp only [h1, h2, h3]
  · rw [← hsrx]
    unfold rxCrcErrorAt
    constructor
    · intro h
      by_contra hne
      rw [if_neg hne] at h
      exact absurd h (by decide)
    · intro h
      rw [if_pos h]
  · intro hc
    have hm := (rxParse_commit_rule u s (by rw [hsp]; exact hn)).1 i (by rw [hsp]; exact hi)
      (by rw [hsf]; exact hc)
    rw [hsf, heff, hsp] at hm
    exact hm.2.2.1

set_option maxRecDepth 100000 in
theorem rxParse_computed_pec_witness :
    (readTagSample.ltcParams.spiCmd = LTC_REG_READ_CMD ∨
      readTagSample.ltcParams.spiCmd = LTC_REG_READ_TAG_CMD) ∧
    (regMap readTagSample.ltcParams.addr).type = LTC831_REG_R ∧
    readTagSample.ltcParams.numDevs < 256 ∧ 0 < readTagSample.ltcParams.numDevs ∧
    rxBlockOff (injectRx (bufOf tagResponseBlockPec)
        (ltc831BuildCommand (modelUtil 0x025B) readTagSample).2) 0 =
      2 + rxTagLen readTagSample +
        0 * ((regMap readTagSample.ltcParams.addr).lenB + 2 + rxTagLen readTagSample) :=
  ⟨Or.inr rfl, by decide, by decide, by decide,
   (rxParse_computed_pec (modelUtil 0x025B) readTagSample (bufOf tagResponseBlockPec) (Or.inr rfl)
     (by decide) (by decide) 0 (by decide)).1⟩

/-! ## The poll cycle: the protocol engine seen from the state machine -/

theorem quiet_refl (s : State) : Quiet s s := ⟨rfl, rfl⟩

theorem quiet_trans {a b c : State} (h1 : Quiet a b) (h2 : Quiet b c) : Quiet a c :=
  ⟨h2.1.trans h1.1, h2.2.trans h1.2⟩

/-- A relation that every pass of a loop body respects holds across the loop. -/
theorem forLoop_rel {σ : Type} (R : σ → σ → Prop) (hrefl : ∀ x, R x x)
    (htrans : ∀ x y z, R x y → R y z → R x z) (body : Nat → σ → σ)
    (hbody : ∀ i x, R x (body i x)) (n : Nat) (x : σ) : R x (forLoop n body x) := by
  induction n with
  | zero => exact hrefl x
  | succ k ih => exact htrans _ _ _ ih (hbody k _)

theorem quiet_modDev (s : State) (d : Nat) (f : LTC831_DEV_DATA_T → LTC831_DEV_DATA_T) :
    Quiet s (s.modDev d f) := ⟨rfl, rfl⟩

theorem quiet_modRegFlags (s : State) (d r : Nat)
    (f : PACK_DEV_REG_FLAGS_T → PACK_DEV_REG_FLAGS_T) : Quiet s (s.modRegFlags d r f) :=
  ⟨rfl, rfl⟩

theorem quiet_modBreak (s : State) (dir : Bool)
    (f : LTC831_BREAK_DATA_T → LTC831_BREAK_DATA_T) : Quiet s (s.modBreak dir f) := ⟨rfl, rfl⟩

theorem quiet_prepPoll (dir : Bool) (s : State) : Quiet s (ltcPrepPoll dir s) := by
  unfold ltcPrepPoll
  exact ⟨rfl, rfl⟩

theorem quiet_reset (a b : Bool) (s : State) : Quiet s (ltcResetStateMachine a b s) := by
  unfold ltcResetStateMachine
  cases a <;> cases b <;> exact ⟨rfl, rfl⟩

theorem quiet_clearDevReg (addr n : Nat) (s : State) : Quiet s (LTC831_clearDevReg addr n s) := by
  obtain ⟨h1, _, _, _, _, _, h7⟩ := clearDevReg_frame addr n s
  exact ⟨h7, by unfold pollFlagsOf; rw [h1]⟩

theorem quiet_buildCommand_dev (u : Util) (addr regIdx W N i : Nat) (p : State × Nat) :
    Quiet p.1 (ltc831BuildCommand_dev u addr regIdx W N i p).1 := by
  unfold ltc831BuildCommand_dev
  exact ⟨rfl, rfl⟩

theorem quiet_buildCommand (u : Util) (s : State) : Quiet s (ltc831BuildCommand u s).2 := by
  have hloop : ∀ (addr regIdx W N n : Nat) (p : State × Nat),
      Quiet p.1 (forLoop n (ltc831BuildCommand_dev u addr regIdx W N) p).1 := by
    intro addr regIdx W N n p
    exact forLoop_rel (fun a b : State × Nat => Quiet a.1 b.1) (fun x => quiet_refl x.1)
      (fun _ _ _ h1 h2 => quiet_trans h1 h2) _
      (fun i x => quiet_buildCommand_dev u addr regIdx W N i x) n p
  have hl := fun (addr regIdx W N n : Nat) (p : State × Nat) => (hloop addr regIdx W N n p).1
  have hf := fun (addr regIdx W N n : Nat) (p : State × Nat) => (hloop addr regIdx W N n p).2
  unfold pollFlagsOf at hf
  simp only [Prod.mk.injEq] at hf
  unfold ltc831BuildCommand ltcResetStateMachine Quiet pollFlagsOf
  cases hc : s.ltcParams.spiCmd <;>
  cases ht : (regMap s.ltcParams.addr).type <;>
  by_cases hz : (regMap s.ltcParams.addr).lenB / 2 = 0 <;>
  simp [hc, ht, hz, hl, hf]
theorem quiet_rxParse (u : Util) (s : State) : Quiet s (LTC831_RxParse u s).2 := by
  have hbody : ∀ (N rfi i : Nat) (p : State × RxLocals),
      Quiet p.1 (LTC831_RxParse_dev u N rfi i p).1 := by
    intro N rfi i p
    obtain ⟨t, l⟩ := p
    rw [rxParse_dev_eq]
    exact ⟨rfl, rfl⟩
  have hloop := forLoop_rel (fun a b : State × RxLocals => Quiet a.1 b.1)
    (fun x => quiet_refl x.1) (fun _ _ _ h1 h2 => quiet_trans h1 h2)
    (LTC831_RxParse_dev u (effNumDevs s) (regMap s.ltcParams.addr).regFlagIdx)
    (fun i x => hbody _ _ i x)
  unfold LTC831_RxParse
  simp only
  refine quiet_trans ?_ (hloop _ _)
  exact ⟨rfl, rfl⟩

theorem quiet_checkAck (s : State) : Quiet s (LTC831_checkAck s).2 := by
  have hbody : ∀ (N i : Nat) (p : State × AckLocals),
      Quiet p.1 (LTC831_checkAck_dev N i p).1 := by
    intro N i p
    unfold LTC831_checkAck_dev Quiet pollFlagsOf
    simp only
    split <;> split <;> split <;>
      simp [State.modBreak, State.modRegFlags, State.modDev]
  have hloop := forLoop_rel (fun a b : State × AckLocals => Quiet a.1 b.1)
    (fun x => quiet_refl x.1) (fun _ _ _ h1 h2 => quiet_trans h1 h2)
    (LTC831_checkAck_dev (effNumDevs s)) (fun i x => hbody _ i x)
  unfold LTC831_checkAck
  simp only
  refine quiet_trans ?_ (hloop _ _)
  exact ⟨rfl, rfl⟩

theorem quiet_updateOutData (s : State) : Quiet s (LTC831_updateOutData s) := by
  have hbody : ∀ (N i : Nat) (t : State), Quiet t (LTC831_updateOutData_dev N i t) := by
    intro N i t
    unfold LTC831_updateOutData_dev Quiet pollFlagsOf
    simp only
    split <;> split <;> simp
  unfold LTC831_updateOutData
  cases hd : s.ltcParams.data_p with
  | none => exact quiet_refl s
  | some v =>
    simp only
    refine quiet_trans ?_ (forLoop_rel Quiet quiet_refl (fun _ _ _ h1 h2 => quiet_trans h1 h2)
      _ (fun i x => hbody _ i x) _ _)
    exact ⟨rfl, rfl⟩

theorem quiet_readResolve (s : State) : Quiet s (ltc831ReadCmd_resolve s) := by
  unfold ltc831ReadCmd_resolve Quiet pollFlagsOf
  split
  · simp only
    split
    · simp
    · split <;> simp
  · simp

theorem quiet_writeResolve (st : LTC_STATUS_E) (s : State) :
    Quiet s (ltc831WriteCmd_resolve st s).2 := by
  unfold ltc831WriteCmd_resolve Quiet pollFlagsOf
  split
  · simp only
    split
    · simp
    · split <;> simp
  · simp
theorem buildCommand_header (u : Util) (s : State) :
    (ltc831BuildCommand u s).2.ltcParams = s.ltcParams ∧
    ((ltc831BuildCommand u s).1 = LTC_SUCCESS →
      (ltc831BuildCommand u s).2.ltcFrames.cmdDataTx 0 =
        if s.ltcParams.spiCmd = LTC_REG_READ_TAG_CMD then
          s.ltcParams.addr ||| LTC831_TAGGED_CMD_MASK
        else s.ltcParams.addr) := by
  have hloop := fun (addr regIdx W N n : Nat) (t : State) =>
    buildCommand_loop u addr regIdx W N t n
  simp only at hloop
  have hp := fun (addr regIdx W N n : Nat) (t : State) => (hloop addr regIdx W N n t).2.1
  have hh := fun (addr regIdx W N n : Nat) (t : State) =>
    (hloop addr regIdx W N n t).2.2.2.2.1 0 (by decide)
  unfold ltc831BuildCommand ltcResetStateMachine
  cases hc : s.ltcParams.spiCmd <;>
  cases ht : (regMap s.ltcParams.addr).type <;>
  by_cases hz : (regMap s.ltcParams.addr).lenB / 2 = 0 <;>
  simp [hc, ht, hz, hp, hh, setAt]
theorem pollLog_append (a b : List Event) : pollLog (a ++ b) = pollLog a ++ pollLog b := by
  unfold pollLog
  exact List.filterMap_append _ _ _

/-- `ltc831WakeupIdle` sends no command frame and leaves the flags of the
state machine alone. -/
theorem wakeupIdle_poll (env : Env) (dir : Bool) (n : Nat) (s : State) :
    pollLog (ltc831WakeupIdle env dir n s).trace = pollLog s.trace ∧
    pollFlagsOf (ltc831WakeupIdle env dir n s) = pollFlagsOf s := by
  have hpulse : ∀ (k : Nat) (t : State),
      pollLog (ltc831WakeupIdle_pulse dir k t).trace = pollLog t.trace ∧
      pollFlagsOf (ltc831WakeupIdle_pulse dir k t) = pollFlagsOf t := by
    intro k t
    unfold ltc831WakeupIdle_pulse pollFlagsOf
    cases ha : t.ltc831Flags.activeBalance <;> cases hd : t.ltc831Flags.dirChange <;>
      simp [State.emit, pollLog, Event.pollItem, ha, hd, List.filterMap_append]
  have hloop := forLoop_rel
    (fun a b : State => pollLog b.trace = pollLog a.trace ∧ pollFlagsOf b = pollFlagsOf a)
    (fun _ => ⟨rfl, rfl⟩) (fun _ _ _ h1 h2 => ⟨h2.1.trans h1.1, h2.2.trans h1.2⟩)
    (ltc831WakeupIdle_pulse dir) hpulse n
  unfold ltc831WakeupIdle
  simp only
  split
  · split
    · obtain ⟨h1, h2⟩ := hloop (({ s with ltc831Flags := { s.ltc831Flags with
        dirChange := true, prevDir := s.ltc831Flags.dir } } : State).emit (Event.timDelaySync 3))
      refine ⟨?_, ?_⟩
      · simp only [State.emit, pollLog_append] at h1 ⊢
        rw [h1]
        simp [pollLog, Event.pollItem]
      · simp only [State.emit, pollFlagsOf] at h2 ⊢
        exact h2
    · exact ⟨rfl, rfl⟩
  · split
    · obtain ⟨h1, h2⟩ := hloop (s.emit (Event.timDelaySync 3))
      refine ⟨?_, ?_⟩
      · simp only [State.emit, pollLog_append] at h1 ⊢
        rw [h1]
        simp [pollLog, Event.pollItem]
      · simp only [State.emit, pollFlagsOf] at h2 ⊢
        exact h2
    · exact ⟨rfl, rfl⟩
/-- `ltcSendCommandFrame` for a synchronous command, entered with no DMA
pending: one command frame goes out, with the header byte of the transmit
buffer, and the flags of the state machine are as before. -/
theorem sendCommandFrame_poll (env : Env) (s : State) (hdma : s.ltc831Flags.waitDMA = false)
    (hsync : s.ltcParams.flags.synchronous = true) :
    (ltcSendCommandFrame env s).1 = LTC_SUCCESS ∧
    (ltcSendCommandFrame env s).2.ltcParams = s.ltcParams ∧
    pollFlagsOf (ltcSendCommandFrame env s).2 = pollFlagsOf s ∧
    pollLog (ltcSendCommandFrame env s).2.trace =
      pollLog s.trace ++ [PollItem.frame (s.ltcFrames.cmdDataTx 0)] := by
  obtain ⟨d1, d2, _⟩ := sendCommandFrame_done env s hdma (Or.inl hsync)
  refine ⟨d1, d2, ?_⟩
  obtain ⟨w1, w2⟩ := wakeupIdle_poll env s.ltc831Flags.dir s.ltcParams.numDevs s
  unfold ltcSendCommandFrame ltc831SendClCmd
  generalize ltc831WakeupIdle env s.ltc831Flags.dir s.ltcParams.numDevs s = w at w1 w2
  unfold pollFlagsOf at w2 ⊢
  simp only [Prod.mk.injEq] at w2
  obtain ⟨f1, f2, f3, f4⟩ := w2
  unfold pollLog at w1 ⊢
  cases hdc : w.ltc831Flags.dirChange <;>
    simp [injectRx, State.emit, hdma, hdc, hsync, f1, f2, f3, f4, w1, Event.pollItem,
      List.filterMap_append]
theorem readPrepare_poll (u : Util) (flags : LTC_PARAM_FLAGS_T) (tag n addr : Nat)
    (d : Option (Nat → Nat)) (s : State) :
    Quiet s (ltc831ReadCmd_prepare u flags tag n addr d s).2 ∧
    ((ltc831ReadCmd_prepare u flags tag n addr d s).1 = LTC_SUCCESS →
      (ltc831ReadCmd_prepare u flags tag n addr d s).2.ltcParams.flags = flags ∧
      (ltc831ReadCmd_prepare u flags tag n addr d s).2.ltcFrames.cmdDataTx 0 =
        readOpcode flags.useTag addr) := by
  by_cases h1 : addr > LTC831_RDFS_NO_TAG_CMD + LTC831_FS_ROW_END
  · unfold ltc831ReadCmd_prepare
    simp [h1, quiet_refl]
  by_cases h2 : (regMap addr).type ≠ LTC831_REG_R
  · unfold ltc831ReadCmd_prepare
    simp [h1, h2, quiet_refl]
  by_cases h3 : n = 0
  · unfold ltc831ReadCmd_prepare
    simp [h1, h2, h3, quiet_refl]
  obtain ⟨X, hX, hq, hp⟩ : ∃ X : State,
      ltc831ReadCmd_prepare u flags tag n addr d s = ltc831BuildCommand u X ∧
      Quiet s X ∧ X.ltcParams = readParams flags tag n addr d := by
    have hc := quiet_clearDevReg addr n s
    unfold Quiet pollFlagsOf at hc
    simp only [Prod.mk.injEq] at hc
    obtain ⟨c1, c2, c3, c4, c5⟩ := hc
    unfold ltc831ReadCmd_prepare
    rw [if_neg h1, if_neg h2, if_neg h3]
    refine ⟨_, rfl, ?_, ?_⟩
    · unfold Quiet pollFlagsOf
      cases hb : flags.doBreakDetect <;> cases hd : s.ltc831Flags.didFirst <;>
        simp [ltcResetStateMachine, ltcPrepPoll, State.modBreak, c1, c2, c3, c4, c5]
    · cases hb : flags.doBreakDetect <;> cases hd : s.ltc831Flags.didFirst <;>
        simp [ltcResetStateMachine, ltcPrepPoll, State.modBreak, readParams]
  obtain ⟨b1, b2⟩ := buildCommand_header u X
  rw [hX]
  refine ⟨quiet_trans hq (quiet_buildCommand u X), ?_⟩
  intro hs
  rw [b1, b2 hs, hp]
  unfold readParams readOpcode
  cases flags.useTag <;> simp

theorem writePrepare_poll (u : Util) (flags : LTC_PARAM_FLAGS_T) (n addr : Nat)
    (d : Option (Nat → Nat)) (s : State) :
    Quiet s (ltc831WriteCmd_prepare u flags n addr d s).2 ∧
    ((ltc831WriteCmd_prepare u flags n addr d s).1 = LTC_SUCCESS →
      (ltc831WriteCmd_prepare u flags n addr d s).2.ltcParams =
        ⟨flags, LTC_REG_WRITE_CMD, addr, 0, n, d⟩ ∧
      (ltc831WriteCmd_prepare u flags n addr d s).2.ltcFrames.cmdDataTx 0 = addr) := by
  by_cases h1 : addr ≥ LTC831_RDFS_NO_TAG_CMD
  · unfold ltc831WriteCmd_prepare
    simp [h1, quiet_refl]
  by_cases h2 : (regMap addr).type ≠ LTC831_REG_W ∧ (regMap addr).type ≠ LTC831_REG_B
  · unfold ltc831WriteCmd_prepare
    simp only [if_neg h1, if_pos h2]
    simp [quiet_refl]
  obtain ⟨X, hX, hq, hp⟩ : ∃ X : State,
      ltc831WriteCmd_prepare u flags n addr d s = ltc831BuildCommand u X ∧
      Quiet s X ∧ X.ltcParams = ⟨flags, LTC_REG_WRITE_CMD, addr, 0, n, d⟩ := by
    unfold ltc831WriteCmd_prepare
    simp only [if_neg h1, if_neg h2, if_true]
    refine ⟨_, rfl, ?_, ?_⟩
    · unfold Quiet pollFlagsOf
      cases hb : flags.doBreakDetect <;> cases hd : s.ltc831Flags.didFirst <;>
        cases ha : (regMap addr).ack <;>
        simp [ltcResetStateMachine, ltcPrepPoll, State.modBreak]
    · cases hb : flags.doBreakDetect <;> cases hd : s.ltc831Flags.didFirst <;>
        cases ha : (regMap addr).ack <;>
        simp [ltcResetStateMachine, ltcPrepPoll, State.modBreak, zeroParams]
  obtain ⟨b1, b2⟩ := buildCommand_header u X
  rw [hX]
  refine ⟨quiet_trans hq (quiet_buildCommand u X), ?_⟩
  intro hs
  rw [b1, b2 hs, hp]
  simp
theorem quiet_of_eq {s t : State} (h1 : t.trace = s.trace)
    (h2 : t.ltc831Flags.running = s.ltc831Flags.running)
    (h3 : t.ltc831Flags.stateReEnter = s.ltc831Flags.stateReEnter)
    (h4 : t.ltc831Flags.activeBalance = s.ltc831Flags.activeBalance)
    (h5 : t.ltc831Flags.waitDMA = s.ltc831Flags.waitDMA) : Quiet s t := by
  unfold Quiet pollFlagsOf
  simp [h1, h2, h3, h4, h5]

theorem readComplete_quiet (u : Util) (s : State) :
    Quiet s (ltc831ReadCmd_complete u s).2 := by
  have hp := quiet_rxParse u s
  unfold ltc831ReadCmd_complete
  generalize LTC831_RxParse u s = p at hp
  obtain ⟨st, p⟩ := p
  simp only at hp ⊢
  split
  · exact quiet_trans hp (quiet_of_eq rfl rfl rfl rfl rfl)
  · refine quiet_trans hp ?_
    have hr := quiet_readResolve p
    generalize ltc831ReadCmd_resolve p = r at hr
    refine quiet_trans hr ?_
    have hf : Quiet r (if r.ltc831Flags.didFirst = true then
        { r with ltc831Flags := { r.ltc831Flags with dir := !r.ltc831Flags.dir } } else r) := by
      split
      · exact quiet_of_eq rfl rfl rfl rfl rfl
      · exact quiet_refl r
    generalize (if r.ltc831Flags.didFirst = true then
        { r with ltc831Flags := { r.ltc831Flags with dir := !r.ltc831Flags.dir } } else r) = r2
      at hf
    refine quiet_trans hf ?_
    refine quiet_trans (quiet_updateOutData r2) ?_
    exact quiet_of_eq rfl rfl rfl rfl rfl

/-- One call of `ltc831ReadCmd` with synchronous transfers that is entered
with no DMA pending and returns `LTC_SUCCESS`: it sends one command frame,
whose header byte is the opcode of the read, and leaves the flags of the state
machine alone. -/
theorem readCmd_poll (u : Util) (env : Env) (flags : LTC_PARAM_FLAGS_T) (tag n addr : Nat)
    (d : Option (Nat → Nat)) (s : State) (hdma : s.ltc831Flags.waitDMA = false)
    (hsync : flags.synchronous = true)
    (hs : (ltc831ReadCmd u env flags tag n addr d s).1 = LTC_SUCCESS) :
    pollFlagsOf (ltc831ReadCmd u env flags tag n addr d s).2 = pollFlagsOf s ∧
    pollLog (ltc831ReadCmd u env flags tag n addr d s).2.trace =
      pollLog s.trace ++ [PollItem.frame (readOpcode flags.useTag addr)] := by
  obtain ⟨p1, p2⟩ := readPrepare_poll u flags tag n addr d s
  generalize hr : ltc831ReadCmd u env flags tag n addr d s = r at hs ⊢
  unfold ltc831ReadCmd at hr
  dsimp only at hr
  have hw : ¬ s.ltc831Flags.waitDMA = true := by simp [hdma]
  rw [if_pos hw] at hr
  generalize ltc831ReadCmd_prepare u flags tag n addr d s = P at p1 p2 hr
  obtain ⟨pst, P⟩ := P
  simp only at p1 p2 hr
  by_cases hpst : pst = LTC_SUCCESS
  · subst hpst
    obtain ⟨p3, p4⟩ := p2 rfl
    have hPd : P.ltc831Flags.waitDMA = false := by
      have := p1.2
      unfold pollFlagsOf at this
      simp only [Prod.mk.injEq] at this
      rw [this.2.2.2, hdma]
    obtain ⟨s1, s2, s3, s4⟩ := sendCommandFrame_poll env P hPd (by rw [p3]; exact hsync)
    rw [if_pos rfl] at hr
    generalize ltcSendCommandFrame env P = S at s1 s2 s3 s4 hr
    obtain ⟨sst, S⟩ := S
    simp only at s1 s2 s3 s4 hr
    subst s1
    rw [if_pos rfl] at hr
    have hc := readComplete_quiet u S
    generalize ltc831ReadCmd_complete u S = C at hc hr
    obtain ⟨cst, C⟩ := C
    simp only at hc hr
    have hfin : Quiet C r.2 := by
      rw [← hr]
      simp only
      split
      · exact quiet_modBreak _ _ _
      · exact quiet_refl _
    have hall := quiet_trans hc hfin
    refine ⟨?_, ?_⟩
    · rw [hall.2, s3, p1.2]
    · rw [hall.1, s4, p1.1, p4]
  · exfalso
    rw [if_neg hpst, if_neg hpst] at hr
    rw [← hr] at hs
    exact hpst hs
theorem checkAck_params (s : State) : (LTC831_checkAck s).2.ltcParams = s.ltcParams := by
  have hbody : ∀ (N i : Nat) (p : State × AckLocals),
      (LTC831_checkAck_dev N i p).1.ltcParams = p.1.ltcParams := by
    intro N i p
    unfold LTC831_checkAck_dev
    simp only
    split <;> split <;> split <;>
      simp [State.modBreak, State.modRegFlags, State.modDev]
  have hloop := forLoop_rel (fun a b : State × AckLocals => b.1.ltcParams = a.1.ltcParams)
    (fun _ => rfl) (fun _ _ _ h1 h2 => h2.trans h1)
    (LTC831_checkAck_dev (effNumDevs s)) (fun i x => hbody _ i x)
  unfold LTC831_checkAck
  simp only
  exact (hloop _ _).trans rfl

theorem writeResolve_params (st : LTC_STATUS_E) (s : State) :
    (ltc831WriteCmd_resolve st s).2.ltcParams = s.ltcParams := by
  unfold ltc831WriteCmd_resolve
  split
  · simp only
    split
    · rfl
    · split <;> rfl
  · rfl

theorem writeComplete_quiet (n : Nat) (d : Option (Nat → Nat)) (st : LTC_STATUS_E) (s : State) :
    Quiet s (ltc831WriteCmd_complete n d st s).2 ∧
    (ltc831WriteCmd_complete n d st s).2.ltcParams = s.ltcParams := by
  unfold ltc831WriteCmd_complete
  simp only
  obtain ⟨X, hX⟩ : ∃ X : State, X =
      { s with ltcFrames := { s.ltcFrames with rxNumDevs := n } } := ⟨_, rfl⟩
  have hXq : Quiet s X := by rw [hX]; exact quiet_of_eq rfl rfl rfl rfl rfl
  have hXp : X.ltcParams = s.ltcParams := by rw [hX]
  rw [← hX]
  have hq := quiet_checkAck X
  have hp := checkAck_params X
  generalize LTC831_checkAck X = A at hq hp
  obtain ⟨ast, A⟩ := A
  simp only at hq hp
  have hrq := fun (t : State) => quiet_writeResolve ast t
  have hrp := fun (t : State) => writeResolve_params ast t
  have key : ∀ r : LTC_STATUS_E × State,
      Quiet s r.2 ∧ r.2.ltcParams = s.ltcParams →
      Quiet s (match d with
        | none => { r.2 with respParamLength := 0 }
        | some _ => r.2) ∧
      (match d with
        | none => { r.2 with respParamLength := 0 }
        | some _ => r.2).ltcParams = s.ltcParams := by
    intro r hr
    cases d with
    | none => exact ⟨quiet_trans hr.1 (quiet_of_eq rfl rfl rfl rfl rfl), hr.2⟩
    | some v => exact hr
  apply key
  rw [← hXp]
  split
  · simp only
    split
    · exact ⟨quiet_trans hXq (quiet_trans hq (quiet_of_eq rfl rfl rfl rfl rfl)), hp⟩
    · have h1 := hrq { A with ltc831Flags := { A.ltc831Flags with didFirst := false } }
      have h2 := hrp { A with ltc831Flags := { A.ltc831Flags with didFirst := false } }
      generalize ltc831WriteCmd_resolve ast
        { A with ltc831Flags := { A.ltc831Flags with didFirst := false } } = R at h1 h2
      refine ⟨?_, ?_⟩
      · refine quiet_trans hXq (quiet_trans hq (quiet_trans (quiet_of_eq rfl rfl rfl rfl rfl)
          (quiet_trans h1 (quiet_of_eq rfl rfl rfl rfl rfl))))
      · simp only
        rw [h2]
        exact hp
  · exact ⟨hXq, rfl⟩

/-- One call of `ltc831WriteCmd` with synchronous transfers that is entered
with no DMA pending and returns `LTC_SUCCESS`: it sends one command frame,
whose header byte is the address, leaves the flags of the state machine alone
and leaves the address and the data pointer of the call in `ltcParams`. -/
theorem writeCmd_poll (u : Util) (env : Env) (flags : LTC_PARAM_FLAGS_T) (n addr : Nat)
    (d : Option (Nat → Nat)) (s : State) (hdma : s.ltc831Flags.waitDMA = false)
    (hsync : flags.synchronous = true)
    (hs : (ltc831WriteCmd u env flags n addr d s).1 = LTC_SUCCESS) :
    pollFlagsOf (ltc831WriteCmd u env flags n addr d s).2 = pollFlagsOf s ∧
    pollLog (ltc831WriteCmd u env flags n addr d s).2.trace =
      pollLog s.trace ++ [PollItem.frame addr] ∧
    (ltc831WriteCmd u env flags n addr d s).2.ltcParams.addr = addr ∧
    (ltc831WriteCmd u env flags n addr d s).2.ltcParams.data_p = d := by
  obtain ⟨p1, p2⟩ := writePrepare_poll u flags n addr d s
  generalize hr : ltc831WriteCmd u env flags n addr d s = r at hs ⊢
  unfold ltc831WriteCmd at hr
  dsimp only at hr
  have hw : ¬ s.ltc831Flags.waitDMA = true := by simp [hdma]
  rw [if_pos hw] at hr
  generalize ltc831WriteCmd_prepare u flags n addr d s = P at p1 p2 hr
  obtain ⟨pst, P⟩ := P
  simp only at p1 p2 hr
  by_cases hpst : pst = LTC_SUCCESS
  · subst hpst
    obtain ⟨p3, p4⟩ := p2 rfl
    have hPd : P.ltc831Flags.waitDMA = false := by
      have := p1.2
      unfold pollFlagsOf at this
      simp only [Prod.mk.injEq] at this
      rw [this.2.2.2, hdma]
    obtain ⟨s1, s2, s3, s4⟩ := sendCommandFrame_poll env P hPd (by rw [p3]; exact hsync)
    rw [if_pos rfl] at hr
    generalize ltcSendCommandFrame env P = S at s1 s2 s3 s4 hr
    obtain ⟨sst, S⟩ := S
    simp only at s1 s2 s3 s4 hr
    subst s1
    rw [if_pos rfl] at hr
    obtain ⟨c1, c2⟩ := writeComplete_quiet n d LTC_SUCCESS S
    rw [hr] at c1 c2
    refine ⟨?_, ?_, ?_, ?_⟩
    · rw [c1.2, s3, p1.2]
    · rw [c1.1, s4, p1.1, p4]
    · rw [c2, s2, p3]
    · rw [c2, s2, p3]
  · exfalso
    rw [if_neg hpst, if_neg hpst] at hr
    rw [← hr] at hs
    exact hpst hs

/-! ## The poll cycle without balancing -/

theorem poll0_first_step (u : Util) (pe : PassEnv) (d0 X : Driver) (k r : Nat)
    (items : List PollItem) (h : PollAt d0 k r items X)
    (hns : X.eng.ltc831Flags.newState = true) :
    PollAt d0 0 0 items (ltc831Task_poll u pe X LTC_SUCCESS).1 ∧
    (ltc831Task_poll u pe X LTC_SUCCESS).1.eng.ltc831Flags.newEntry = true ∧
    (ltc831Task_poll u pe X LTC_SUCCESS).1.eng.ltc831Flags.didFirst = true := by
  obtain ⟨h1, h2, h3, h4, h5, h6, h7, h8, h9, h10, h11, h12⟩ := h
  unfold ltc831Task_poll PollAt
  simp [hns, ltc831Task_poll0, Driver.modFlags, h1, h2, h5, h6, h7, h8, h9, h10, h11, h12]

theorem poll0_second_step (u : Util) (pe : PassEnv) (d0 X : Driver) (r : Nat)
    (items : List PollItem) (h : PollAt d0 0 r items X)
    (hns : X.eng.ltc831Flags.newState = false) (hdf : X.eng.ltc831Flags.didFirst = true) :
    PollAt d0 1 r items (ltc831Task_poll u pe X LTC_SUCCESS).1 ∧
    (ltc831Task_poll u pe X LTC_SUCCESS).1.eng.ltc831Flags.newEntry = true := by
  obtain ⟨h1, h2, h3, h4, h5, h6, h7, h8, h9, h10, h11, h12⟩ := h
  unfold ltc831Task_poll PollAt
  simp [hns, hdf, ltc831Task_poll0, Driver.modFlags, h1, h2, h3, h4, h5, h6, h7, h8, h9, h10,
    h11, h12]

theorem poll1_step (u : Util) (pe : PassEnv) (d0 X : Driver) (r : Nat) (items : List PollItem)
    (h : PollAt d0 1 r items X) (hns : X.eng.ltc831Flags.newState = false) (hr : r < 2)
    (hsync : d0.ltc831ReqParamFlags.synchronous = true)
    (hs : (ltc831Task_poll u pe X LTC_SUCCESS).2 = LTC_SUCCESS) :
    PollAt d0 (if r = 1 then 2 else 1) (if r = 1 then 0 else r + 1)
      (items ++ [PollItem.frame
        (readOpcode d0.ltc831ReqParamFlags.useTag (pollReg ltc831_pollAuxRegs r))])
      (ltc831Task_poll u pe X LTC_SUCCESS).1 ∧
    (ltc831Task_poll u pe X LTC_SUCCESS).1.eng.ltc831Flags.newEntry = true := by
  obtain ⟨h1, h2, h3, h4, h5, h6, h7, h8, h9, h10, h11, h12⟩ := h
  have e : ltc831Task_poll u pe X LTC_SUCCESS = ltc831Task_poll1 u pe X := by
    unfold ltc831Task_poll
    simp [hns, h3]
  rw [e] at hs ⊢
  have hread := readCmd_poll u pe.first (pollReadFlags X) X.clTransaction.req.tag
    (X.ltc831ReqParamFlags.numDevs &&& 0xFF) (pollReg ltc831_pollAuxRegs X.ltc831RegAddr) none
    X.eng h7 (by unfold pollReadFlags; rw [h10]; exact hsync)
  unfold ltc831Task_poll1 at hs ⊢
  generalize ltc831ReadCmd u pe.first (pollReadFlags X) X.clTransaction.req.tag
    (X.ltc831ReqParamFlags.numDevs &&& 0xFF) (pollReg ltc831_pollAuxRegs X.ltc831RegAddr) none
    X.eng = R at hs hread ⊢
  obtain ⟨rs, R⟩ := R
  simp only at hs hread ⊢
  have hrs : rs = LTC_SUCCESS := by
    by_cases hd : rs = LTC_DEFERRED
    · simp [hd] at hs
    · by_cases hk : rs = LTC_SUCCESS
      · exact hk
      · simp [hd, hk] at hs
  subst hrs
  obtain ⟨f, l⟩ := hread rfl
  unfold pollFlagsOf at f
  simp only [Prod.mk.injEq] at f
  obtain ⟨f1, f2, f3, f4⟩ := f
  subst h4
  have hu : (pollReadFlags X).useTag = d0.ltc831ReqParamFlags.useTag := by
    unfold pollReadFlags; rw [h10]
  rw [hu] at l
  unfold PollAt ltc831Task_pollAdvance
  have hr2 : X.ltc831RegAddr = 0 ∨ X.ltc831RegAddr = 1 := by omega
  rcases hr2 with hr2 | hr2 <;>
    simp [hr2, Driver.withEng, Driver.modFlags, pollReg, ltc831_pollAuxRegs, f1, f2, f3, f4,
      h1, h2, h3, h5, h6, h7, h8, h9, h10, h11, h12, l, LTC831_EOR,
      LTC831_RDAUXA_NO_TAG_CMD, LTC831_RDAUXB_NO_TAG_CMD] at l ⊢

theorem poll2_step (u : Util) (pe : PassEnv) (d0 X : Driver) (items : List PollItem)
    (h : PollAt d0 2 0 items X) (hns : X.eng.ltc831Flags.newState = false)
    (hsync : d0.ltc831ReqParamFlags.synchronous = true)
    (hs : (ltc831Task_poll u pe X LTC_SUCCESS).2 = LTC_SUCCESS) :
    PollAt d0 3 0
      (items ++ [PollItem.frame
        (readOpcode d0.ltc831ReqParamFlags.useTag LTC831_RDCFG_NO_TAG_CMD)])
      (ltc831Task_poll u pe X LTC_SUCCESS).1 ∧
    (ltc831Task_poll u pe X LTC_SUCCESS).1.eng.ltc831Flags.newEntry = true := by
  obtain ⟨h1, h2, h3, h4, h5, h6, h7, h8, h9, h10, h11, h12⟩ := h
  have e : ltc831Task_poll u pe X LTC_SUCCESS = ltc831Task_poll2 u pe X := by
    unfold ltc831Task_poll
    simp [hns, h3]
  rw [e] at hs ⊢
  have hread := readCmd_poll u pe.first (pollReadFlags X) X.clTransaction.req.tag
    (X.ltc831ReqParamFlags.numDevs &&& 0xFF) (pollReg ltc831_pollConfigRegs X.ltc831RegAddr) none
    X.eng h7 (by unfold pollReadFlags; rw [h10]; exact hsync)
  unfold ltc831Task_poll2 at hs ⊢
  generalize ltc831ReadCmd u pe.first (pollReadFlags X) X.clTransaction.req.tag
    (X.ltc831ReqParamFlags.numDevs &&& 0xFF) (pollReg ltc831_pollConfigRegs X.ltc831RegAddr) none
    X.eng = R at hs hread ⊢
  obtain ⟨rs, R⟩ := R
  simp only at hs hread ⊢
  have hrs : rs = LTC_SUCCESS := by
    by_cases hd : rs = LTC_DEFERRED
    · simp [hd] at hs
    · by_cases hk : rs = LTC_SUCCESS
      · exact hk
      · simp [hd, hk] at hs
  subst hrs
  obtain ⟨f, l⟩ := hread rfl
  unfold pollFlagsOf at f
  simp only [Prod.mk.injEq] at f
  obtain ⟨f1, f2, f3, f4⟩ := f
  have hu : (pollReadFlags X).useTag = d0.ltc831ReqParamFlags.useTag := by
    unfold pollReadFlags; rw [h10]
  rw [hu] at l
  unfold PollAt
  simp [h4, Driver.withEng, Driver.modFlags, pollReg, ltc831_pollConfigRegs, f1, f2, f3, f4,
      h1, h2, h3, h5, h6, h7, h8, h9, h10, h11, h12, l, LTC831_EOR,
      LTC831_RDCFG_NO_TAG_CMD] at l ⊢

theorem poll3_step (u : Util) (pe : PassEnv) (d0 X : Driver) (r : Nat) (items : List PollItem)
    (h : PollAt d0 3 r items X) (hns : X.eng.ltc831Flags.newState = false)
    (hsync : d0.ltc831ReqParamFlags.synchronous = true)
    (hs : (ltc831Task_poll u pe X LTC_SUCCESS).2 = LTC_SUCCESS) :
    PollAt d0 4 r (items ++ [PollItem.frame LTC831_SNAP_CMD])
      (ltc831Task_poll u pe X LTC_SUCCESS).1 ∧
    (ltc831Task_poll u pe X LTC_SUCCESS).1.eng.ltc831Flags.newEntry = true := by
  obtain ⟨h1, h2, h3, h4, h5, h6, h7, h8, h9, h10, h11, h12⟩ := h
  have e : ltc831Task_poll u pe X LTC_SUCCESS = ltc831Task_poll3 u pe X := by
    unfold ltc831Task_poll
    simp [hns, h3]
  rw [e] at hs ⊢
  have hwrite := writeCmd_poll u pe.first
    ⟨X.ltc831ReqParamFlags.otpPort, X.ltc831ReqParamFlags.synchronous, false,
      X.ltc831ReqParamFlags.needResponse, false⟩
    (X.ltc831ReqParamFlags.numDevs &&& 0xFF) LTC831_SNAP_CMD none X.eng h7
    (by rw [h10]; exact hsync)
  unfold ltc831Task_poll3 at hs ⊢
  generalize ltc831WriteCmd u pe.first
    ⟨X.ltc831ReqParamFlags.otpPort, X.ltc831ReqParamFlags.synchronous, false,
      X.ltc831ReqParamFlags.needResponse, false⟩
    (X.ltc831ReqParamFlags.numDevs &&& 0xFF) LTC831_SNAP_CMD none X.eng = R at hs hwrite ⊢
  obtain ⟨rs, R⟩ := R
  simp only at hs hwrite ⊢
  have hrs : rs = LTC_SUCCESS := by
    by_cases hd : rs = LTC_DEFERRED
    · simp [hd] at hs
    · simpa [hd] using hs
  subst hrs
  obtain ⟨f, l, _, _⟩ := hwrite rfl
  unfold pollFlagsOf at f
  simp only [Prod.mk.injEq] at f
  obtain ⟨f1, f2, f3, f4⟩ := f
  unfold PollAt
  simp [Driver.withEng, Driver.modFlags, f1, f2, f3, f4,
      h1, h2, h3, h4, h5, h6, h7, h8, h9, h10, h11, h12, l]

theorem poll4_step (u : Util) (pe : PassEnv) (d0 X : Driver) (r : Nat) (items : List PollItem)
    (h : PollAt d0 4 r items X) (hns : X.eng.ltc831Flags.newState = false) (hr : r < 7)
    (hsync : d0.ltc831ReqParamFlags.synchronous = true)
    (hs : (ltc831Task_poll u pe X LTC_SUCCESS).2 = LTC_SUCCESS) :
    PollAt d0 (if r = 6 then 5 else 4) (if r = 6 then 0 else r + 1)
      (items ++ [PollItem.frame
        (readOpcode d0.ltc831ReqParamFlags.useTag (pollReg ltc831_pollRegs r))])
      (ltc831Task_poll u pe X LTC_SUCCESS).1 ∧
    (ltc831Task_poll u pe X LTC_SUCCESS).1.eng.ltc831Flags.newEntry = true := by
  obtain ⟨h1, h2, h3, h4, h5, h6, h7, h8, h9, h10, h11, h12⟩ := h
  have e : ltc831Task_poll u pe X LTC_SUCCESS = ltc831Task_poll4 u pe X := by
    unfold ltc831Task_poll
    simp [hns, h3]
  rw [e] at hs ⊢
  have hread := readCmd_poll u pe.first (pollReadFlags X) X.clTransaction.req.tag
    (X.ltc831ReqParamFlags.numDevs &&& 0xFF) (pollReg ltc831_pollRegs X.ltc831RegAddr) none
    X.eng h7 (by unfold pollReadFlags; rw [h10]; exact hsync)
  unfold ltc831Task_poll4 at hs ⊢
  generalize ltc831ReadCmd u pe.first (pollReadFlags X) X.clTransaction.req.tag
    (X.ltc831ReqParamFlags.numDevs &&& 0xFF) (pollReg ltc831_pollRegs X.ltc831RegAddr) none
    X.eng = R at hs hread ⊢
  obtain ⟨rs, R⟩ := R
  simp only at hs hread ⊢
  have hrs : rs = LTC_SUCCESS := by
    by_cases hd : rs = LTC_DEFERRED
    · simp [hd] at hs
    · by_cases hk : rs = LTC_SUCCESS
      · exact hk
      · simp [hd, hk] at hs
  subst hrs
  obtain ⟨f, l⟩ := hread rfl
  unfold pollFlagsOf at f
  simp only [Prod.mk.injEq] at f
  obtain ⟨f1, f2, f3, f4⟩ := f
  subst h4
  have hu : (pollReadFlags X).useTag = d0.ltc831ReqParamFlags.useTag := by
    unfold pollReadFlags; rw [h10]
  rw [hu] at l
  unfold PollAt ltc831Task_pollAdvance
  have hr2 : X.ltc831RegAddr = 0 ∨ X.ltc831RegAddr = 1 ∨ X.ltc831RegAddr = 2 ∨
      X.ltc831RegAddr = 3 ∨ X.ltc831RegAddr = 4 ∨ X.ltc831RegAddr = 5 ∨
      X.ltc831RegAddr = 6 := by omega
  rcases hr2 with hr2 | hr2 | hr2 | hr2 | hr2 | hr2 | hr2 <;>
    simp [hr2, Driver.withEng, Driver.modFlags, pollReg, ltc831_pollRegs, f1, f2, f3, f4,
      h1, h2, h3, h5, h6, h7, h8, h9, h10, h11, h12, l, LTC831_EOR,
      LTC831_RDSTAT_NO_TAG_CMD, LTC831_RDSNA_NO_TAG_CMD, LTC831_RDSNB_NO_TAG_CMD,
      LTC831_RDSNC_NO_TAG_CMD, LTC831_RDSND_NO_TAG_CMD, LTC831_RDSNE_NO_TAG_CMD,
      LTC831_RDSNF_NO_TAG_CMD] at l ⊢

theorem poll5_step (u : Util) (pe : PassEnv) (d0 X : Driver) (r : Nat) (items : List PollItem)
    (h : PollAt d0 5 r items X) (hns : X.eng.ltc831Flags.newState = false)
    (hsync : d0.ltc831ReqParamFlags.synchronous = true)
    (hs : (ltc831Task_poll u pe X LTC_SUCCESS).2 = LTC_SUCCESS) :
    PollAt d0 6 r (items ++ [PollItem.frame LTC831_FUSE_MODULE_ID_REG])
      (ltc831Task_poll u pe X LTC_SUCCESS).1 ∧
    (ltc831Task_poll u pe X LTC_SUCCESS).1.eng.ltc831Flags.newEntry = true := by
  obtain ⟨h1, h2, h3, h4, h5, h6, h7, h8, h9, h10, h11, h12⟩ := h
  have e : ltc831Task_poll u pe X LTC_SUCCESS = ltc831Task_poll5 u pe X := by
    unfold ltc831Task_poll
    simp [hns, h3]
  rw [e] at hs ⊢
  have hread := readCmd_poll u pe.first
    ⟨X.ltc831ReqParamFlags.otpPort, X.ltc831ReqParamFlags.synchronous, false, false,
      X.ltc831ReqParamFlags.needLoopback⟩ X.clTransaction.req.tag
    (X.ltc831ReqParamFlags.numDevs &&& 0xFF) LTC831_FUSE_MODULE_ID_REG none
    X.eng h7 (by rw [h10]; exact hsync)
  unfold ltc831Task_poll5 at hs ⊢
  generalize ltc831ReadCmd u pe.first
    ⟨X.ltc831ReqParamFlags.otpPort, X.ltc831ReqParamFlags.synchronous, false, false,
      X.ltc831ReqParamFlags.needLoopback⟩ X.clTransaction.req.tag
    (X.ltc831ReqParamFlags.numDevs &&& 0xFF) LTC831_FUSE_MODULE_ID_REG none
    X.eng = R at hs hread ⊢
  obtain ⟨rs, R⟩ := R
  simp only at hs hread ⊢
  have hrs : rs = LTC_SUCCESS := by
    by_cases hd : rs = LTC_DEFERRED
    · simp [hd] at hs
    · simpa [hd] using hs
  subst hrs
  obtain ⟨f, l⟩ := hread rfl
  unfold pollFlagsOf at f
  simp only [Prod.mk.injEq] at f
  obtain ⟨f1, f2, f3, f4⟩ := f
  unfold PollAt
  simp [Driver.withEng, Driver.modFlags, f1, f2, f3, f4, readOpcode,
      h1, h2, h3, h4, h5, h6, h7, h8, h9, h10, h11, h12, l] at l ⊢

theorem poll6_step (u : Util) (pe : PassEnv) (d0 X : Driver) (r : Nat) (items : List PollItem)
    (h : PollAt d0 6 r items X) (hns : X.eng.ltc831Flags.newState = false) :
    PollAt d0 7 r (items ++ [PollItem.packUpdate]) (ltc831Task_poll u pe X LTC_SUCCESS).1 ∧
    (ltc831Task_poll u pe X LTC_SUCCESS).1.eng.ltc831Flags.newEntry = true := by
  obtain ⟨h1, h2, h3, h4, h5, h6, h7, h8, h9, h10, h11, h12⟩ := h
  unfold ltc831Task_poll PollAt
  simp [hns, ltc831Task_poll6, Driver.modFlags, Driver.emit, State.emit, pollLog,
    Event.pollItem, List.filterMap_append, h1, h2, h3, h4, h5, h6, h7, h8, h9, h10, h11]
  unfold pollLog at h12
  rw [h12, List.append_assoc]

theorem poll7_step (u : Util) (pe : PassEnv) (d0 X : Driver) (r : Nat) (items : List PollItem)
    (h : PollAt d0 7 r items X) (hns : X.eng.ltc831Flags.newState = false)
    (hsync : d0.ltc831ReqParamFlags.synchronous = true)
    (hs : (ltc831Task_poll u pe X LTC_SUCCESS).2 = LTC_SUCCESS) :
    (ltc831Task_poll u pe X LTC_SUCCESS).1.ltc831State = LTC831_COMMAND_COMPLETE_STATE ∧
    (ltc831Task_poll u pe X LTC_SUCCESS).1.eng.ltc831Flags.running = false ∧
    pollLog (ltc831Task_poll u pe X LTC_SUCCESS).1.eng.trace =
      pollLog d0.eng.trace ++ (items ++ [PollItem.frame LTC831_WRCFG_CMD]) ∧
    (ltc831Task_poll u pe X LTC_SUCCESS).1.eng.ltcParams.addr = LTC831_WRCFG_CMD ∧
    (ltc831Task_poll u pe X LTC_SUCCESS).1.eng.ltcParams.data_p = some d0.ltc831ConfigReg := by
  obtain ⟨h1, h2, h3, h4, h5, h6, h7, h8, h9, h10, h11, h12⟩ := h
  have e : ltc831Task_poll u pe X LTC_SUCCESS = ltc831Task_poll7 u pe X := by
    unfold ltc831Task_poll
    simp [hns, h3]
  rw [e] at hs ⊢
  have hwrite := writeCmd_poll u pe.first
    ⟨X.ltc831ReqParamFlags.otpPort, X.ltc831ReqParamFlags.synchronous,
      X.ltc831ReqParamFlags.useTag, X.ltc831ReqParamFlags.useAck,
      X.ltc831ReqParamFlags.needLoopback⟩
    (X.ltc831ReqParamFlags.numDevs &&& 0xFF) LTC831_WRCFG_CMD (some X.ltc831ConfigReg) X.eng h7
    (by rw [h10]; exact hsync)
  unfold ltc831Task_poll7 at hs ⊢
  generalize ltc831WriteCmd u pe.first
    ⟨X.ltc831ReqParamFlags.otpPort, X.ltc831ReqParamFlags.synchronous,
      X.ltc831ReqParamFlags.useTag, X.ltc831ReqParamFlags.useAck,
      X.ltc831ReqParamFlags.needLoopback⟩
    (X.ltc831ReqParamFlags.numDevs &&& 0xFF) LTC831_WRCFG_CMD (some X.ltc831ConfigReg) X.eng = R
    at hs hwrite ⊢
  obtain ⟨rs, R⟩ := R
  simp only at hs hwrite ⊢
  have hrs : rs = LTC_SUCCESS := by
    by_cases hd : rs = LTC_DEFERRED
    · simp [hd] at hs
    · simpa [hd] using hs
  subst hrs
  obtain ⟨f, l, a1, a2⟩ := hwrite rfl
  unfold pollFlagsOf at f
  simp only [Prod.mk.injEq] at f
  obtain ⟨f1, f2, f3, f4⟩ := f
  simp [Driver.withEng, Driver.modFlags, f1, f2, f3, f4,
      h1, h2, h3, h4, h5, h6, h7, h8, h9, h10, h11, h12, l, a1, a2]

theorem entry_poll (d0 d : Driver) (items : List PollItem)
    (hst : d.ltc831State = LTC831_DEV_POLL_STATE)
    (hdma : d.eng.ltc831Flags.waitDMA = false)
    (hbal : d.eng.ltc831Flags.activeBalance = false)
    (hc : d.clTransaction = d0.clTransaction)
    (hp : d.ltc831ReqParamFlags = d0.ltc831ReqParamFlags)
    (hcf : d.ltc831ConfigReg = d0.ltc831ConfigReg)
    (hl : pollLog d.eng.trace = pollLog d0.eng.trace ++ items) :
    PollAt d0 d.ltc831SubState d.ltc831RegAddr items (ltc831Task_entry d) ∧
    (ltc831Task_entry d).eng.ltc831Flags.newState =
      (decide (d.ltc831PrevState ≠ LTC831_DEV_POLL_STATE) || d.eng.ltc831Flags.stateReEnter) ∧
    (ltc831Task_entry d).eng.ltc831Flags.didFirst = d.eng.ltc831Flags.didFirst := by
  unfold ltc831Task_entry ltc831Task_enter PollAt
  by_cases h : LTC831_DEV_POLL_STATE = d.ltc831PrevState
  · have h3 : d.ltc831PrevState = LTC831_DEV_POLL_STATE := h.symm
    cases h2 : d.eng.ltc831Flags.stateReEnter <;>
      simp [Driver.modFlags, h3, h2, hst, hdma, hbal, hc, hp, hcf, hl]
  · have h3 : ¬ d.ltc831PrevState = LTC831_DEV_POLL_STATE := fun e => h e.symm
    cases h2 : d.eng.ltc831Flags.stateReEnter <;>
      simp [Driver.modFlags, h, h3, h2, hst, hdma, hbal, hc, hp, hcf, hl]

theorem first_poll (cfg : Config) (u : Util) (te : TaskEnv) (d : Driver)
    (hst : d.ltc831State = LTC831_DEV_POLL_STATE) :
    ltc831Task_first cfg u te d =
      ltc831Task_poll u (te.pass 0) (ltc831Task_entry d) LTC_SUCCESS := by
  have h : (ltc831Task_entry d).ltc831State = LTC831_DEV_POLL_STATE := by
    unfold ltc831Task_entry
    rw [(enter_frame _).1]
    exact hst
  unfold ltc831Task_first ltc831Task_switch
  rw [h]

theorem task_first_run (cfg : Config) (u : Util) (te : TaskEnv) (fuel : Nat) (d : Driver)
    (hf : 0 < fuel) (hv : d.clTransaction.reqValid = true)
    (hne : d.eng.ltc831Flags.newEntry = true)
    (hrun : (ltc831Task_first cfg u te d).1.eng.ltc831Flags.running = false) :
    ltc831Task cfg u te fuel d = some (ltc831Task_first cfg u te d).1 := by
  obtain ⟨n, rfl⟩ : ∃ n, fuel = n + 1 := ⟨fuel - 1, by omega⟩
  have e : ltc831Task_pass cfg u (te.pass 0)
      ((d.modFlags (fun f => { f with newEntry := false })).modFlags
        (fun f => { f with running := true })) LTC_SUCCESS = ltc831Task_first cfg u te d := rfl
  unfold ltc831Task
  simp only [hv, hne, not_true_eq_false, false_and, and_false, or_self, if_false, ltc831Task_loop,
    e, hrun, Bool.false_eq_true]

theorem task_poll_invocation (cfg : Config) (u : Util) (te : TaskEnv) (fuel : Nat)
    (d0 d : Driver) (k r : Nat) (items : List PollItem) (hf : 0 < fuel)
    (hv : d0.clTransaction.reqValid = true) (h : PollAt d0 k r items d)
    (hne : d.eng.ltc831Flags.newEntry = true) :
    ∃ X : Driver, PollAt d0 k r items X ∧ X.eng.ltc831Flags.newState = false ∧
      X.eng.ltc831Flags.didFirst = d.eng.ltc831Flags.didFirst ∧
      ltc831Task_first cfg u te d = ltc831Task_poll u (te.pass 0) X LTC_SUCCESS ∧
      ((ltc831Task_poll u (te.pass 0) X LTC_SUCCESS).1.eng.ltc831Flags.running = false →
        ltc831Task cfg u te fuel d = some (ltc831Task_poll u (te.pass 0) X LTC_SUCCESS).1) := by
  obtain ⟨h1, h2, h3, h4, h5, h6, h7, h8, h9, h10, h11, h12⟩ := h
  obtain ⟨a, b, c⟩ := entry_poll d0 d items h1 h7 h8 h9 h10 h11 h12
  have e := first_poll cfg u te d h1
  refine ⟨ltc831Task_entry d, ?_, ?_, c, e, ?_⟩
  · rw [h3, h4] at a
    exact a
  · rw [b, h2, h6]
    simp
  · intro hrun
    rw [← e] at hrun ⊢
    exact task_first_run cfg u te fuel d hf (by rw [h9]; exact hv) hne hrun

theorem taskRun_succ (cfg : Config) (u : Util) (te : Nat → TaskEnv) (fuel i : Nat)
    (d di dj : Driver) (h : taskRun cfg u te fuel i d = some di)
    (hj : ltc831Task cfg u (te i) fuel di = some dj) :
    taskRun cfg u te fuel (i + 1) d = some dj := by
  simp [taskRun, h, hj]

theorem taskRunStatus_of (cfg : Config) (u : Util) (te : Nat → TaskEnv) (fuel i : Nat)
    (d di : Driver) (st : LTC_STATUS_E) (h : taskRun cfg u te fuel i d = some di)
    (hs : taskRunStatus cfg u te fuel i d = some st) :
    (ltc831Task_first cfg u (te i) di).2 = st := by
  unfold taskRunStatus at hs
  rw [h] at hs
  simpa using hs

/-- A read of a readable address from `0 < n ≤ 256` devices without break
detection, synchronous and entered with no DMA pending, returns
`LTC_SUCCESS`. -/
theorem readCmd_plain_status (u : Util) (env : Env) (flags : LTC_PARAM_FLAGS_T)
    (tag n addr : Nat) (d : Option (Nat → Nat)) (s : State)
    (hdma : s.ltc831Flags.waitDMA = false) (hR : (regMap addr).type = LTC831_REG_R)
    (hn : n ≠ 0) (hn2 : n ≤ 256) (hsync : flags.synchronous = true)
    (hb : flags.doBreakDetect = false) :
    (ltc831ReadCmd u env flags tag n addr d s).1 = LTC_SUCCESS :=
  ((readCmd_attempt u env flags tag n addr d s _ hdma hR hn hn2 (Or.inl hsync) rfl).2.1
    (by simp [hb])).1

theorem buildCommand_write_status (u : Util) (s : State)
    (hcmd : s.ltcParams.spiCmd = LTC_REG_WRITE_CMD)
    (hW : (regMap s.ltcParams.addr).type = LTC831_REG_W ∨
      (regMap s.ltcParams.addr).type = LTC831_REG_B) :
    (ltc831BuildCommand u s).1 = LTC_SUCCESS := by
  unfold ltc831BuildCommand ltcResetStateMachine
  rcases hW with hW | hW <;> simp [hcmd, hW]

/-- A write or broadcast without the ACK check, synchronous and entered with
no DMA pending, returns `LTC_SUCCESS`. -/
theorem writeCmd_plain_status (u : Util) (env : Env) (flags : LTC_PARAM_FLAGS_T)
    (n addr : Nat) (d : Option (Nat → Nat)) (s : State)
    (hdma : s.ltc831Flags.waitDMA = false) (hlt : addr < LTC831_RDFS_NO_TAG_CMD)
    (hW : (regMap addr).type = LTC831_REG_W ∨ (regMap addr).type = LTC831_REG_B)
    (hsync : flags.synchronous = true) (hack : flags.useAck = false) :
    (ltc831WriteCmd u env flags n addr d s).1 = LTC_SUCCESS := by
  have h1 : ¬ addr ≥ LTC831_RDFS_NO_TAG_CMD := by omega
  have h2 : ¬ ((regMap addr).type ≠ LTC831_REG_W ∧ (regMap addr).type ≠ LTC831_REG_B) := by
    rcases hW with h | h <;> simp [h]
  obtain ⟨X, hX, hp⟩ : ∃ X : State,
      ltc831WriteCmd_prepare u flags n addr d s = ltc831BuildCommand u X ∧
      X.ltcParams = ⟨flags, LTC_REG_WRITE_CMD, addr, 0, n, d⟩ := by
    unfold ltc831WriteCmd_prepare
    simp only [if_neg h1, if_neg h2, if_true]
    refine ⟨_, rfl, ?_⟩
    cases hb : flags.doBreakDetect <;> cases hd : s.ltc831Flags.didFirst <;>
      cases ha : (regMap addr).ack <;>
      simp [ltcResetStateMachine, ltcPrepPoll, State.modBreak, zeroParams]
  have hst : (ltc831WriteCmd_prepare u flags n addr d s).1 = LTC_SUCCESS := by
    rw [hX]
    exact buildCommand_write_status u X (by rw [hp]) (by rw [hp]; exact hW)
  obtain ⟨p1, p2⟩ := writePrepare_poll u flags n addr d s
  obtain ⟨p3, _⟩ := p2 hst
  unfold ltc831WriteCmd
  dsimp only
  have hw : ¬ s.ltc831Flags.waitDMA = true := by simp [hdma]
  rw [if_pos hw]
  generalize ltc831WriteCmd_prepare u flags n addr d s = P at p1 p3 hst
  obtain ⟨pst, P⟩ := P
  simp only at p1 p3 hst
  subst hst
  have hPd : P.ltc831Flags.waitDMA = false := by
    have := p1.2
    unfold pollFlagsOf at this
    simp only [Prod.mk.injEq] at this
    rw [this.2.2.2, hdma]
  obtain ⟨s1, s2, _, _⟩ := sendCommandFrame_poll env P hPd (by rw [p3]; exact hsync)
  rw [if_pos rfl]
  generalize ltcSendCommandFrame env P = S at s1 s2
  obtain ⟨sst, S⟩ := S
  simp only at s1 s2
  subst s1
  rw [if_pos rfl]
  unfold ltc831WriteCmd_complete
  have hu : S.ltcParams.flags.useAck = false := by rw [s2, p3]; exact hack
  cases d <;> simp [hu]

/-- Without break detection and without the ACK check, every read and write
of a poll cycle for at least one device returns `LTC_SUCCESS`. -/
theorem poll_status_plain (u : Util) (pe : PassEnv) (d0 X : Driver) (k r : Nat)
    (items : List PollItem) (h : PollAt d0 k r items X)
    (hns : X.eng.ltc831Flags.newState = false) (hpc : PollPc k r)
    (hsync : d0.ltc831ReqParamFlags.synchronous = true)
    (hlb : d0.ltc831ReqParamFlags.needLoopback = false)
    (hnr : d0.ltc831ReqParamFlags.needResponse = false)
    (hua : d0.ltc831ReqParamFlags.useAck = false)
    (hnd : d0.ltc831ReqParamFlags.numDevs &&& 0xFF ≠ 0) :
    (ltc831Task_poll u pe X LTC_SUCCESS).2 = LTC_SUCCESS := by
  obtain ⟨h1, h2, h3, h4, h5, h6, h7, h8, h9, h10, h11, h12⟩ := h
  have hle : d0.ltc831ReqParamFlags.numDevs &&& 0xFF ≤ 256 :=
    le_trans Nat.and_le_right (by decide)
  have hrd : ∀ (flags : LTC_PARAM_FLAGS_T) (addr : Nat),
      (regMap addr).type = LTC831_REG_R → flags.synchronous = true →
      flags.doBreakDetect = false →
      (ltc831ReadCmd u pe.first flags X.clTransaction.req.tag
        (X.ltc831ReqParamFlags.numDevs &&& 0xFF) addr none X.eng).1 = LTC_SUCCESS ∧
      (ltc831ReadCmd u pe.first flags X.clTransaction.req.tag
        (X.ltc831ReqParamFlags.numDevs &&& 0xFF) addr none X.eng).2.ltc831Flags.activeBalance
        = false := by
    intro flags addr hR hs hb
    have hst := readCmd_plain_status u pe.first flags X.clTransaction.req.tag
      (X.ltc831ReqParamFlags.numDevs &&& 0xFF) addr none X.eng h7 hR (by rw [h10]; exact hnd)
      (by rw [h10]; exact hle) hs hb
    refine ⟨hst, ?_⟩
    have hp := (readCmd_poll u pe.first flags X.clTransaction.req.tag
      (X.ltc831ReqParamFlags.numDevs &&& 0xFF) addr none X.eng h7 hs hst).1
    unfold pollFlagsOf at hp
    simp only [Prod.mk.injEq] at hp
    rw [hp.2.2.1, h8]
  rcases hpc with ⟨hk, hr⟩ | ⟨hk, hr⟩ | hk | ⟨hk, hr⟩ | hk | hk
  · subst hk
    have e : ltc831Task_poll u pe X LTC_SUCCESS = ltc831Task_poll1 u pe X := by
      unfold ltc831Task_poll
      simp [hns, h3]
    rw [e]
    have hR : (regMap (pollReg ltc831_pollAuxRegs X.ltc831RegAddr)).type = LTC831_REG_R := by
      rw [h4]
      have hr2 : r = 0 ∨ r = 1 := by omega
      rcases hr2 with hr2 | hr2 <;> subst hr2 <;> decide
    obtain ⟨q1, q2⟩ := hrd (pollReadFlags X) _ hR
      (by unfold pollReadFlags; rw [h10]; exact hsync)
      (by unfold pollReadFlags; rw [h10]; exact hlb)
    unfold ltc831Task_poll1
    generalize ltc831ReadCmd u pe.first (pollReadFlags X) X.clTransaction.req.tag
      (X.ltc831ReqParamFlags.numDevs &&& 0xFF) (pollReg ltc831_pollAuxRegs X.ltc831RegAddr) none
      X.eng = R at q1 q2 ⊢
    obtain ⟨rs, R⟩ := R
    simp only at q1 q2 ⊢
    subst q1
    unfold ltc831Task_pollAdvance
    simp [Driver.withEng, Driver.modFlags, q2]
    split_ifs <;> rfl
  · subst hk
    have e : ltc831Task_poll u pe X LTC_SUCCESS = ltc831Task_poll2 u pe X := by
      unfold ltc831Task_poll
      simp [hns, h3]
    rw [e]
    have hR : (regMap (pollReg ltc831_pollConfigRegs X.ltc831RegAddr)).type = LTC831_REG_R := by
      rw [h4, hr]
      decide
    obtain ⟨q1, q2⟩ := hrd (pollReadFlags X) _ hR
      (by unfold pollReadFlags; rw [h10]; exact hsync)
      (by unfold pollReadFlags; rw [h10]; exact hlb)
    unfold ltc831Task_poll2
    generalize ltc831ReadCmd u pe.first (pollReadFlags X) X.clTransaction.req.tag
      (X.ltc831ReqParamFlags.numDevs &&& 0xFF) (pollReg ltc831_pollConfigRegs X.ltc831RegAddr)
      none X.eng = R at q1 q2 ⊢
    obtain ⟨rs, R⟩ := R
    simp only at q1 q2 ⊢
    subst q1
    simp only [Driver.withEng, Driver.modFlags]
    split_ifs <;> simp
  · subst hk
    have e : ltc831Task_poll u pe X LTC_SUCCESS = ltc831Task_poll3 u pe X := by
      unfold ltc831Task_poll
      simp [hns, h3]
    rw [e]
    have q1 := writeCmd_plain_status u pe.first
      ⟨X.ltc831ReqParamFlags.otpPort, X.ltc831ReqParamFlags.synchronous, false,
        X.ltc831ReqParamFlags.needResponse, false⟩
      (X.ltc831ReqParamFlags.numDevs &&& 0xFF) LTC831_SNAP_CMD none X.eng h7 (by decide)
      (by decide) (by rw [h10]; exact hsync) (by rw [h10]; exact hnr)
    unfold ltc831Task_poll3
    generalize ltc831WriteCmd u pe.first
      ⟨X.ltc831ReqParamFlags.otpPort, X.ltc831ReqParamFlags.synchronous, false,
        X.ltc831ReqParamFlags.needResponse, false⟩
      (X.ltc831ReqParamFlags.numDevs &&& 0xFF) LTC831_SNAP_CMD none X.eng = R at q1 ⊢
    obtain ⟨rs, R⟩ := R
    simp only at q1 ⊢
    subst q1
    simp
  · subst hk
    have e : ltc831Task_poll u pe X LTC_SUCCESS = ltc831Task_poll4 u pe X := by
      unfold ltc831Task_poll
      simp [hns, h3]
    rw [e]
    have hR : (regMap (pollReg ltc831_pollRegs X.ltc831RegAddr)).type = LTC831_REG_R := by
      rw [h4]
      have hr2 : r = 0 ∨ r = 1 ∨ r = 2 ∨ r = 3 ∨ r = 4 ∨ r = 5 ∨ r = 6 := by omega
      rcases hr2 with hr2 | hr2 | hr2 | hr2 | hr2 | hr2 | hr2 <;> subst hr2 <;> decide
    obtain ⟨q1, q2⟩ := hrd (pollReadFlags X) _ hR
      (by unfold pollReadFlags; rw [h10]; exact hsync)
      (by unfold pollReadFlags; rw [h10]; exact hlb)
    unfold ltc831Task_poll4
    generalize ltc831ReadCmd u pe.first (pollReadFlags X) X.clTransaction.req.tag
      (X.ltc831ReqParamFlags.numDevs &&& 0xFF) (pollReg ltc831_pollRegs X.ltc831RegAddr) none
      X.eng = R at q1 q2 ⊢
    obtain ⟨rs, R⟩ := R
    simp only at q1 q2 ⊢
    subst q1
    unfold ltc831Task_pollAdvance
    simp [Driver.withEng, Driver.modFlags, q2]
    split_ifs <;> rfl
  · subst hk
    have e : ltc831Task_poll u pe X LTC_SUCCESS = ltc831Task_poll5 u pe X := by
      unfold ltc831Task_poll
      simp [hns, h3]
    rw [e]
    obtain ⟨q1, q2⟩ := hrd
      ⟨X.ltc831ReqParamFlags.otpPort, X.ltc831ReqParamFlags.synchronous, false, false,
        X.ltc831ReqParamFlags.needLoopback⟩ LTC831_FUSE_MODULE_ID_REG (by decide)
      (by rw [h10]; exact hsync) (by rw [h10]; exact hlb)
    unfold ltc831Task_poll5
    generalize ltc831ReadCmd u pe.first
      ⟨X.ltc831ReqParamFlags.otpPort, X.ltc831ReqParamFlags.synchronous, false, false,
        X.ltc831ReqParamFlags.needLoopback⟩ X.clTransaction.req.tag
      (X.ltc831ReqParamFlags.numDevs &&& 0xFF) LTC831_FUSE_MODULE_ID_REG none X.eng = R
      at q1 q2 ⊢
    obtain ⟨rs, R⟩ := R
    simp only at q1 q2 ⊢
    subst q1
    simp
  · subst hk
    have e : ltc831Task_poll u pe X LTC_SUCCESS = ltc831Task_poll7 u pe X := by
      unfold ltc831Task_poll
      simp [hns, h3]
    rw [e]
    have q1 := writeCmd_plain_status u pe.first
      ⟨X.ltc831ReqParamFlags.otpPort, X.ltc831ReqParamFlags.synchronous,
        X.ltc831ReqParamFlags.useTag, X.ltc831ReqParamFlags.useAck,
        X.ltc831ReqParamFlags.needLoopback⟩
      (X.ltc831ReqParamFlags.numDevs &&& 0xFF) LTC831_WRCFG_CMD (some X.ltc831ConfigReg) X.eng h7
      (by decide) (by decide) (by rw [h10]; exact hsync) (by rw [h10]; exact hua)
    unfold ltc831Task_poll7
    generalize ltc831WriteCmd u pe.first
      ⟨X.ltc831ReqParamFlags.otpPort, X.ltc831ReqParamFlags.synchronous,
        X.ltc831ReqParamFlags.useTag, X.ltc831ReqParamFlags.useAck,
        X.ltc831ReqParamFlags.needLoopback⟩
      (X.ltc831ReqParamFlags.numDevs &&& 0xFF) LTC831_WRCFG_CMD (some X.ltc831ConfigReg) X.eng = R
      at q1 ⊢
    obtain ⟨rs, R⟩ := R
    simp only at q1 ⊢
    subst q1
    simp

/-- The sixteen invocations of a poll cycle without balancing, chained: each
invocation that makes a read or a write starts from a driver inside the cycle
(`PollAt`, at a position of `PollPc`), and the run ends in
`LTC831_COMMAND_COMPLETE_STATE` with the fourteen items of the cycle sent.  The
status of the reads and writes enters as the hypothesis `hstat`. -/
theorem poll_cycle_chain (cfg : Config) (u : Util) (te : Nat → TaskEnv) (fuel : Nat)
    (d : Driver) (hfuel : 0 < fuel)
    (hstate : d.ltc831State = LTC831_DEV_POLL_STATE)
    (hnew : d.ltc831PrevState ≠ LTC831_DEV_POLL_STATE ∨ d.eng.ltc831Flags.stateReEnter = true)
    (hvalid : d.clTransaction.reqValid = true)
    (hentry : d.eng.ltc831Flags.newEntry = true)
    (hdma : d.eng.ltc831Flags.waitDMA = false)
    (hbal : d.eng.ltc831Flags.activeBalance = false)
    (hsync : d.ltc831ReqParamFlags.synchronous = true)
    (hstat : ∀ (i : Nat) (di : Driver) (k r : Nat) (items : List PollItem),
      2 ≤ i → i < 16 → i ≠ 14 → taskRun cfg u te fuel i d = some di →
      PollAt d k r items di → di.eng.ltc831Flags.newEntry = true → PollPc k r →
      (ltc831Task_first cfg u (te i) di).2 = LTC_SUCCESS) :
    (∀ i, 2 ≤ i → i < 16 → i ≠ 14 →
      ∃ (di : Driver) (k r : Nat) (items : List PollItem),
        taskRun cfg u te fuel i d = some di ∧ PollAt d k r items di ∧
        di.eng.ltc831Flags.newEntry = true ∧ PollPc k r) ∧
    ∃ (d' : Driver) (items : List PollItem),
      taskRun cfg u te fuel 16 d = some d' ∧
      d'.ltc831State = LTC831_COMMAND_COMPLETE_STATE ∧
      pollLog d'.eng.trace = pollLog d.eng.trace ++ items ∧
      items =
        [PollItem.frame (readOpcode d.ltc831ReqParamFlags.useTag LTC831_RDAUXA_NO_TAG_CMD),
         PollItem.frame (readOpcode d.ltc831ReqParamFlags.useTag LTC831_RDAUXB_NO_TAG_CMD),
         PollItem.frame (readOpcode d.ltc831ReqParamFlags.useTag LTC831_RDCFG_NO_TAG_CMD),
         PollItem.frame LTC831_SNAP_CMD,
         PollItem.frame (readOpcode d.ltc831ReqParamFlags.useTag LTC831_RDSTAT_NO_TAG_CMD),
         PollItem.frame (readOpcode d.ltc831ReqParamFlags.useTag LTC831_RDSNA_NO_TAG_CMD),
         PollItem.frame (readOpcode d.ltc831ReqParamFlags.useTag LTC831_RDSNB_NO_TAG_CMD),
         PollItem.frame (readOpcode d.ltc831ReqParamFlags.useTag LTC831_RDSNC_NO_TAG_CMD),
         PollItem.frame (readOpcode d.ltc831ReqParamFlags.useTag LTC831_RDSND_NO_TAG_CMD),
         PollItem.frame (readOpcode d.ltc831ReqParamFlags.useTag LTC831_RDSNE_NO_TAG_CMD),
         PollItem.frame (readOpcode d.ltc831ReqParamFlags.useTag LTC831_RDSNF_NO_TAG_CMD),
         PollItem.frame (LTC831_RDFS_NO_TAG_CMD + 3),
         PollItem.packUpdate,
         PollItem.frame LTC831_WRCFG_CMD] ∧
      d'.eng.ltcParams.addr = LTC831_WRCFG_CMD ∧
      d'.eng.ltcParams.data_p = some d.ltc831ConfigReg ∧
      PollItem.frame LTC831_MUTE_CMD ∉ items ∧ PollItem.frame LTC831_PRIMEN_CMD ∉ items ∧
      PollItem.frame LTC831_UNMUTE_CMD ∉ items := by
  have r0 : taskRun cfg u te fuel 0 d = some d := rfl
  -- invocation 0: the first pass of sub-state 0
  obtain ⟨a0, b0, c0⟩ := entry_poll d d [] hstate hdma hbal rfl rfl rfl (by simp)
  have hns0 : (ltc831Task_entry d).eng.ltc831Flags.newState = true := by
    rw [b0]
    rcases hnew with h | h
    · simp [h]
    · simp [h]
  obtain ⟨p1, n1, f1⟩ := poll0_first_step u ((te 0).pass 0) d (ltc831Task_entry d) _ _ [] a0 hns0
  have e0 := first_poll cfg u (te 0) d hstate
  have r1 := taskRun_succ cfg u te fuel 0 d d _ r0
    (task_first_run cfg u (te 0) fuel d hfuel hvalid hentry (by rw [e0]; exact p1.2.2.2.2.1))
  rw [e0] at r1
  generalize (ltc831Task_poll u ((te 0).pass 0) (ltc831Task_entry d) LTC_SUCCESS).1 = d1
    at p1 n1 f1 r1
  -- invocation 1: the second pass of sub-state 0
  obtain ⟨X1, xa1, xb1, xc1, xe1, xg1⟩ :=
    task_poll_invocation cfg u (te 1) fuel d d1 _ _ _ hfuel hvalid p1 n1
  obtain ⟨p2, n2⟩ := poll0_second_step u ((te 1).pass 0) d X1 _ _ xa1 xb1 (xc1.trans f1)
  have r2 := taskRun_succ cfg u te fuel 1 d d1 _ r1 (xg1 p2.2.2.2.2.1)
  generalize (ltc831Task_poll u ((te 1).pass 0) X1 LTC_SUCCESS).1 = d2 at p2 n2 r2
  -- invocation 2
  have c2 : PollPc 1 0 := by unfold PollPc; omega
  obtain ⟨X2, xa2, xb2, _, xe2, xg2⟩ :=
    task_poll_invocation cfg u (te 2) fuel d d2 _ _ _ hfuel hvalid p2 n2
  have s2 := hstat 2 d2 _ _ _ (by decide) (by decide) (by decide) r2 p2 n2 c2
  rw [xe2] at s2
  obtain ⟨p3, n3⟩ := poll1_step u ((te 2).pass 0) d X2 _ _ xa2 xb2 (by decide) hsync s2
  have r3 := taskRun_succ cfg u te fuel 2 d d2 _ r2 (xg2 p3.2.2.2.2.1)
  generalize (ltc831Task_poll u ((te 2).pass 0) X2 LTC_SUCCESS).1 = d3
    at p3 n3 r3
  norm_num [pollReg, ltc831_pollAuxRegs, ltc831_pollRegs] at p3
  -- invocation 3
  have c3 : PollPc 1 1 := by unfold PollPc; omega
  obtain ⟨X3, xa3, xb3, _, xe3, xg3⟩ :=
    task_poll_invocation cfg u (te 3) fuel d d3 _ _ _ hfuel hvalid p3 n3
  have s3 := hstat 3 d3 _ _ _ (by decide) (by decide) (by decide) r3 p3 n3 c3
  rw [xe3] at s3
  obtain ⟨p4, n4⟩ := poll1_step u ((te 3).pass 0) d X3 _ _ xa3 xb3 (by decide) hsync s3
  have r4 := taskRun_succ cfg u te fuel 3 d d3 _ r3 (xg3 p4.2.2.2.2.1)
  generalize (ltc831Task_poll u ((te 3).pass 0) X3 LTC_SUCCESS).1 = d4
    at p4 n4 r4
  norm_num [pollReg, ltc831_pollAuxRegs, ltc831_pollRegs] at p4
  -- invocation 4
  have c4 : PollPc 2 0 := by unfold PollPc; omega
  obtain ⟨X4, xa4, xb4, _, xe4, xg4⟩ :=
    task_poll_invocation cfg u (te 4) fuel d d4 _ _ _ hfuel hvalid p4 n4
  have s4 := hstat 4 d4 _ _ _ (by decide) (by decide) (by decide) r4 p4 n4 c4
  rw [xe4] at s4
  obtain ⟨p5, n5⟩ := poll2_step u ((te 4).pass 0) d X4 _ xa4 xb4 hsync s4
  have r5 := taskRun_succ cfg u te fuel 4 d d4 _ r4 (xg4 p5.2.2.2.2.1)
  generalize (ltc831Task_poll u ((te 4).pass 0) X4 LTC_SUCCESS).1 = d5
    at p5 n5 r5
  norm_num [pollReg, ltc831_pollAuxRegs, ltc831_pollRegs] at p5
  -- invocation 5
  have c5 : PollPc 3 0 := by unfold PollPc; omega
  obtain ⟨X5, xa5, xb5, _, xe5, xg5⟩ :=
    task_poll_invocation cfg u (te 5) fuel d d5 _ _ _ hfuel hvalid p5 n5
  have s5 := hstat 5 d5 _ _ _ (by decide) (by decide) (by decide) r5 p5 n5 c5
  rw [xe5] at s5
  obtain ⟨p6, n6⟩ := poll3_step u ((te 5).pass 0) d X5 _ _ xa5 xb5 hsync s5
  have r6 := taskRun_succ cfg u te fuel 5 d d5 _ r5 (xg5 p6.2.2.2.2.1)
  generalize (ltc831Task_poll u ((te 5).pass 0) X5 LTC_SUCCESS).1 = d6
    at p6 n6 r6
  norm_num [pollReg, ltc831_pollAuxRegs, ltc831_pollRegs] at p6
  -- invocation 6
  have c6 : PollPc 4 0 := by unfold PollPc; omega
  obtain ⟨X6, xa6, xb6, _, xe6, xg6⟩ :=
    task_poll_invocation cfg u (te 6) fuel d d6 _ _ _ hfuel hvalid p6 n6
  have s6 := hstat 6 d6 _ _ _ (by decide) (by decide) (by decide) r6 p6 n6 c6
  rw [xe6] at s6
  obtain ⟨p7, n7⟩ := poll4_step u ((te 6).pass 0) d X6 _ _ xa6 xb6 (by decide) hsync s6
  have r7 := taskRun_succ cfg u te fuel 6 d d6 _ r6 (xg6 p7.2.2.2.2.1)
  generalize (ltc831Task_poll u ((te 6).pass 0) X6 LTC_SUCCESS).1 = d7
    at p7 n7 r7
  norm_num [pollReg, ltc831_pollAuxRegs, ltc831_pollRegs] at p7
  -- invocation 7
  have c7 : PollPc 4 1 := by unfold PollPc; omega
  obtain ⟨X7, xa7, xb7, _, xe7, xg7⟩ :=
    task_poll_invocation cfg u (te 7) fuel d d7 _ _ _ hfuel hvalid p7 n7
  have s7 := hstat 7 d7 _ _ _ (by decide) (by decide) (by decide) r7 p7 n7 c7
  rw [xe7] at s7
  obtain ⟨p8, n8⟩ := poll4_step u ((te 7).pass 0) d X7 _ _ xa7 xb7 (by decide) hsync s7
  have r8 := taskRun_succ cfg u te fuel 7 d d7 _ r7 (xg7 p8.2.2.2.2.1)
  generalize (ltc831Task_poll u ((te 7).pass 0) X7 LTC_SUCCESS).1 = d8
    at p8 n8 r8
  norm_num [pollReg, ltc831_pollAuxRegs, ltc831_pollRegs] at p8
  -- invocation 8
  have c8 : PollPc 4 2 := by unfold PollPc; omega
  obtain ⟨X8, xa8, xb8, _, xe8, xg8⟩ :=
    task_poll_invocation cfg u (te 8) fuel d d8 _ _ _ hfuel hvalid p8 n8
  have s8 := hstat 8 d8 _ _ _ (by decide) (by decide) (by decide) r8 p8 n8 c8
  rw [xe8] at s8
  obtain ⟨p9, n9⟩ := poll4_step u ((te 8).pass 0) d X8 _ _ xa8 xb8 (by decide) hsync s8
  have r9 := taskRun_succ cfg u te fuel 8 d d8 _ r8 (xg8 p9.2.2.2.2.1)
  generalize (ltc831Task_poll u ((te 8).pass 0) X8 LTC_SUCCESS).1 = d9
    at p9 n9 r9
  norm_num [pollReg, ltc831_pollAuxRegs, ltc831_pollRegs] at p9
  -- invocation 9
  have c9 : PollPc 4 3 := by unfold PollPc; omega
  obtain ⟨X9, xa9, xb9, _, xe9, xg9⟩ :=
    task_poll_invocation cfg u (te 9) fuel d d9 _ _ _ hfuel hvalid p9 n9
  have s9 := hstat 9 d9 _ _ _ (by decide) (by decide) (by decide) r9 p9 n9 c9
  rw [xe9] at s9
  obtain ⟨p10, n10⟩ := poll4_step u ((te 9).pass 0) d X9 _ _ xa9 xb9 (by decide) hsync s9
  have r10 := taskRun_succ cfg u te fuel 9 d d9 _ r9 (xg9 p10.2.2.2.2.1)
  generalize (ltc831Task_poll u ((te 9).pass 0) X9 LTC_SUCCESS).1 = d10
    at p10 n10 r10
  norm_num [pollReg, ltc831_pollAuxRegs, ltc831_pollRegs] at p10
  -- invocation 10
  have c10 : PollPc 4 4 := by unfold PollPc; omega
  obtain ⟨X10, xa10, xb10, _, xe10, xg10⟩ :=
    task_poll_invocation cfg u (te 10) fuel d d10 _ _ _ hfuel hvalid p10 n10
  have s10 := hstat 10 d10 _ _ _ (by decide) (by decide) (by decide) r10 p10 n10 c10
  rw [xe10] at s10
  obtain ⟨p11, n11⟩ := poll4_step u ((te 10).pass 0) d X10 _ _ xa10 xb10 (by decide) hsync s10
  have r11 := taskRun_succ cfg u te fuel 10 d d10 _ r10 (xg10 p11.2.2.2.2.1)
  generalize (ltc831Task_poll u ((te 10).pass 0) X10 LTC_SUCCESS).1 = d11
    at p11 n11 r11
  norm_num [pollReg, ltc831_pollAuxRegs, ltc831_pollRegs] at p11
  -- invocation 11
  have c11 : PollPc 4 5 := by unfold PollPc; omega
  obtain ⟨X11, xa11, xb11, _, xe11, xg11⟩ :=
    task_poll_invocation cfg u (te 11) fuel d d11 _ _ _ hfuel hvalid p11 n11
  have s11 := hstat 11 d11 _ _ _ (by decide) (by decide) (by decide) r11 p11 n11 c11
  rw [xe11] at s11
  obtain ⟨p12, n12⟩ := poll4_step u ((te 11).pass 0) d X11 _ _ xa11 xb11 (by decide) hsync s11
  have r12 := taskRun_succ cfg u te fuel 11 d d11 _ r11 (xg11 p12.2.2.2.2.1)
  generalize (ltc831Task_poll u ((te 11).pass 0) X11 LTC_SUCCESS).1 = d12
    at p12 n12 r12
  norm_num [pollReg, ltc831_pollAuxRegs, ltc831_pollRegs] at p12
  -- invocation 12
  have c12 : PollPc 4 6 := by unfold PollPc; omega
  obtain ⟨X12, xa12, xb12, _, xe12, xg12⟩ :=
    task_poll_invocation cfg u (te 12) fuel d d12 _ _ _ hfuel hvalid p12 n12
  have s12 := hstat 12 d12 _ _ _ (by decide) (by decide) (by decide) r12 p12 n12 c12
  rw [xe12] at s12
  obtain ⟨p13, n13⟩ := poll4_step u ((te 12).pass 0) d X12 _ _ xa12 xb12 (by decide) hsync s12
  have r13 := taskRun_succ cfg u te fuel 12 d d12 _ r12 (xg12 p13.2.2.2.2.1)
  generalize (ltc831Task_poll u ((te 12).pass 0) X12 LTC_SUCCESS).1 = d13
    at p13 n13 r13
  norm_num [pollReg, ltc831_pollAuxRegs, ltc831_pollRegs] at p13
  -- invocation 13
  have c13 : PollPc 5 0 := by unfold PollPc; omega
  obtain ⟨X13, xa13, xb13, _, xe13, xg13⟩ :=
    task_poll_invocation cfg u (te 13) fuel d d13 _ _ _ hfuel hvalid p13 n13
  have s13 := hstat 13 d13 _ _ _ (by decide) (by decide) (by decide) r13 p13 n13 c13
  rw [xe13] at s13
  obtain ⟨p14, n14⟩ := poll5_step u ((te 13).pass 0) d X13 _ _ xa13 xb13 hsync s13
  have r14 := taskRun_succ cfg u te fuel 13 d d13 _ r13 (xg13 p14.2.2.2.2.1)
  generalize (ltc831Task_poll u ((te 13).pass 0) X13 LTC_SUCCESS).1 = d14
    at p14 n14 r14
  norm_num [pollReg, ltc831_pollAuxRegs, ltc831_pollRegs] at p14
  -- invocation 14: packUpdate()
  obtain ⟨X14, xa14, xb14, _, xe14, xg14⟩ :=
    task_poll_invocation cfg u (te 14) fuel d d14 _ _ _ hfuel hvalid p14 n14
  obtain ⟨p15, n15⟩ := poll6_step u ((te 14).pass 0) d X14 _ _ xa14 xb14
  have r15 := taskRun_succ cfg u te fuel 14 d d14 _ r14 (xg14 p15.2.2.2.2.1)
  generalize (ltc831Task_poll u ((te 14).pass 0) X14 LTC_SUCCESS).1 = d15 at p15 n15 r15
  norm_num at p15
  -- invocation 15: WRCFG
  have c15 : PollPc 7 0 := Or.inr (Or.inr (Or.inr (Or.inr (Or.inr rfl))))
  obtain ⟨X15, xa15, xb15, _, xe15, xg15⟩ :=
    task_poll_invocation cfg u (te 15) fuel d d15 _ _ _ hfuel hvalid p15 n15
  have s15 := hstat 15 d15 _ _ _ (by decide) (by decide) (by decide) r15 p15 n15 c15
  rw [xe15] at s15
  obtain ⟨q1, q2, q3, q4, q5⟩ := poll7_step u ((te 15).pass 0) d X15 _ _ xa15 xb15 hsync s15
  have r16 := taskRun_succ cfg u te fuel 15 d d15 _ r15 (xg15 q2)
  refine ⟨?_, _, _, r16, q1, q3, ?_, q4, q5, ?_⟩
  · intro i h2 h16 h14
    have hi : i = 2 ∨ i = 3 ∨ i = 4 ∨ i = 5 ∨ i = 6 ∨ i = 7 ∨ i = 8 ∨ i = 9 ∨ i = 10 ∨
        i = 11 ∨ i = 12 ∨ i = 13 ∨ i = 15 := by omega
    rcases hi with h | h | h | h | h | h | h | h | h | h | h | h | h <;> subst h
    · exact ⟨_, _, _, _, r2, p2, n2, c2⟩
    · exact ⟨_, _, _, _, r3, p3, n3, c3⟩
    · exact ⟨_, _, _, _, r4, p4, n4, c4⟩
    · exact ⟨_, _, _, _, r5, p5, n5, c5⟩
    · exact ⟨_, _, _, _, r6, p6, n6, c6⟩
    · exact ⟨_, _, _, _, r7, p7, n7, c7⟩
    · exact ⟨_, _, _, _, r8, p8, n8, c8⟩
    · exact ⟨_, _, _, _, r9, p9, n9, c9⟩
    · exact ⟨_, _, _, _, r10, p10, n10, c10⟩
    · exact ⟨_, _, _, _, r11, p11, n11, c11⟩
    · exact ⟨_, _, _, _, r12, p12, n12, c12⟩
    · exact ⟨_, _, _, _, r13, p13, n13, c13⟩
    · exact ⟨_, _, _, _, r15, p15, n15, c15⟩
  · simp [LTC831_FUSE_MODULE_ID_REG]
  · cases d.ltc831ReqParamFlags.useTag <;> decide

/-- In a poll cycle without balancing, without break detection and without
the ACK check, for at least one device, every read and write returns
`LTC_SUCCESS`. -/
theorem poll_cycle_statuses (cfg : Config) (u : Util) (te : Nat → TaskEnv) (fuel : Nat)
    (d : Driver) (hfuel : 0 < fuel)
    (hstate : d.ltc831State = LTC831_DEV_POLL_STATE)
    (hnew : d.ltc831PrevState ≠ LTC831_DEV_POLL_STATE ∨ d.eng.ltc831Flags.stateReEnter = true)
    (hvalid : d.clTransaction.reqValid = true)
    (hentry : d.eng.ltc831Flags.newEntry = true)
    (hdma : d.eng.ltc831Flags.waitDMA = false)
    (hbal : d.eng.ltc831Flags.activeBalance = false)
    (hsync : d.ltc831ReqParamFlags.synchronous = true)
    (hlb : d.ltc831ReqParamFlags.needLoopback = false)
    (hnr : d.ltc831ReqParamFlags.needResponse = false)
    (hua : d.ltc831ReqParamFlags.useAck = false)
    (hnd : d.ltc831ReqParamFlags.numDevs &&& 0xFF ≠ 0) :
    ∀ i, 2 ≤ i → i < 16 → i ≠ 14 → taskRunStatus cfg u te fuel i d = some LTC_SUCCESS := by
  have hstat : ∀ (i : Nat) (di : Driver) (k r : Nat) (items : List PollItem),
      2 ≤ i → i < 16 → i ≠ 14 → taskRun cfg u te fuel i d = some di →
      PollAt d k r items di → di.eng.ltc831Flags.newEntry = true → PollPc k r →
      (ltc831Task_first cfg u (te i) di).2 = LTC_SUCCESS := by
    intro i di k r items _ _ _ _ hp hn hpc
    obtain ⟨X, xa, xb, _, xe, _⟩ :=
      task_poll_invocation cfg u (te i) fuel d di k r items hfuel hvalid hp hn
    rw [xe]
    exact poll_status_plain u ((te i).pass 0) d X k r items xa xb hpc hsync hlb hnr hua hnd
  intro i h2 h16 h14
  obtain ⟨di, k, r, items, hr, hp, hn, hpc⟩ :=
    (poll_cycle_chain cfg u te fuel d hfuel hstate hnew hvalid hentry hdma hbal hsync hstat).1
      i h2 h16 h14
  unfold taskRunStatus
  rw [hr]
  simp only [Option.map_some']
  exact congrArg some (hstat i di k r items h2 h16 h14 hr hp hn hpc)

/-- The wake-up pulse of the transport: with the idle timer expired and the
chain not balancing, `ltc831WakeupIdle` sends the bytes of the UNMUTE command
with `spiTxData` once per device; it hands no command frame to
`spiTxRxData`. -/
theorem wakeupIdle_unmute_pulse :
    (ltc831WakeupIdle ⟨fun _ => 0, true, true⟩ false 1 zeroState).trace =
      [Event.timDelaySync 3, Event.dirSelect false,
        Event.spiTxData LTC831_UNMUTE_CMD 0xf2 1, Event.spiWaitComplete,
        Event.timDelaySync LTC831_T_READY_US, Event.startIdleTimer false LTC831_T_IDLE_MS] ∧
    pollLog (ltc831WakeupIdle ⟨fun _ => 0, true, true⟩ false 1 zeroState).trace = [] :=
  ⟨rfl, rfl⟩

set_option maxRecDepth 1000000 in
/-- C24 (counterexample): the poll cycle of the pack-convert request
`pollReq` (two devices, synchronous, `activeBalance` clear, every read and
write succeeding) with the idle timer expired at every transfer.  Ahead of
each of its 13 command frames `ltc831WakeupIdle` sends one pulse per device
with `spiTxData`, and the first byte of each pulse is `LTC831_UNMUTE_CMD`:
26 UNMUTE pulses are issued in the cycle. -/
theorem poll_cycle_unmute_pulses :
    pollStart.eng.ltc831Flags.activeBalance = false ∧
    pollStart.ltc831ReqParamFlags.synchronous = true ∧
    pulseLog pollStart.eng.trace = [] ∧
    (∀ i, 2 ≤ i → i < 16 → i ≠ 14 →
      taskRunStatus sampleConfig (modelUtil 0x025B) (fun _ => wakingEnv) 1 i pollStart =
        some LTC_SUCCESS) ∧
    ∃ d' : Driver,
      taskRun sampleConfig (modelUtil 0x025B) (fun _ => wakingEnv) 1 16 pollStart = some d' ∧
      d'.ltc831State = LTC831_COMMAND_COMPLETE_STATE ∧
      pulseLog d'.eng.trace = List.replicate 26 (LTC831_UNMUTE_CMD, 0xf2, 1) := by
  refine ⟨rfl, rfl, rfl, ?_, _, rfl, ?_, ?_⟩
  · exact poll_cycle_statuses sampleConfig (modelUtil 0x025B) (fun _ => wakingEnv) 1
      pollStart (by decide) rfl (Or.inl (by decide)) rfl rfl rfl rfl rfl rfl rfl rfl (by decide)
  · decide
  · decide

/-- C24 (amended): a poll cycle without balancing.  The driver is in
`LTC831_DEV_POLL_STATE`, newly entered, with a valid request, `newEntry` set,
no DMA pending, `activeBalance` clear and synchronous transfers, and the local
`status` of `ltc831Task` is `LTC_SUCCESS` after each invocation that makes a
read or a write (invocations 2 to 13 and 15; invocations 0 and 1 are the two
passes of sub-state 0, invocation 14 calls `packUpdate()`).  Then sixteen
invocations of `ltc831Task` return, the command frames and `packUpdate()`
calls they add to the trace are exactly RDAUXA, RDAUXB, RDCFG, SNAP, RDSTAT,
RDSNA to RDSNF, RDFS of fuse row 3 (0x33), `packUpdate()`, WRCFG (the reads
with the tag bit when the request asks for tags), the last command was built
for `LTC831_WRCFG_CMD` with `ltc831ConfigReg` as its data, the state is
`LTC831_COMMAND_COMPLETE_STATE`, and no frame among them is MUTE, PRIMEN or
UNMUTE.  The wake-up pulses that `ltc831WakeupIdle` sends with `spiTxData`
ahead of a frame are not command frames and are not counted. -/
theorem poll_cycle_commands (cfg : Config) (u : Util) (te : Nat → TaskEnv) (fuel : Nat)
    (d : Driver) (hfuel : 0 < fuel)
    (hstate : d.ltc831State = LTC831_DEV_POLL_STATE)
    (hnew : d.ltc831PrevState ≠ LTC831_DEV_POLL_STATE ∨ d.eng.ltc831Flags.stateReEnter = true)
    (hvalid : d.clTransaction.reqValid = true)
    (hentry : d.eng.ltc831Flags.newEntry = true)
    (hdma : d.eng.ltc831Flags.waitDMA = false)
    (hbal : d.eng.ltc831Flags.activeBalance = false)
    (hsync : d.ltc831ReqParamFlags.synchronous = true)
    (hok : ∀ i, 2 ≤ i → i < 16 → i ≠ 14 →
      taskRunStatus cfg u te fuel i d = some LTC_SUCCESS) :
    ∃ (d' : Driver) (items : List PollItem),
      taskRun cfg u te fuel 16 d = some d' ∧
      d'.ltc831State = LTC831_COMMAND_COMPLETE_STATE ∧
      pollLog d'.eng.trace = pollLog d.eng.trace ++ items ∧
      items =
        [PollItem.frame (readOpcode d.ltc831ReqParamFlags.useTag LTC831_RDAUXA_NO_TAG_CMD),
         PollItem.frame (readOpcode d.ltc831ReqParamFlags.useTag LTC831_RDAUXB_NO_TAG_CMD),
         PollItem.frame (readOpcode d.ltc831ReqParamFlags.useTag LTC831_RDCFG_NO_TAG_CMD),
         PollItem.frame LTC831_SNAP_CMD,
         PollItem.frame (readOpcode d.ltc831ReqParamFlags.useTag LTC831_RDSTAT_NO_TAG_CMD),
         PollItem.frame (readOpcode d.ltc831ReqParamFlags.useTag LTC831_RDSNA_NO_TAG_CMD),
         PollItem.frame (readOpcode d.ltc831ReqParamFlags.useTag LTC831_RDSNB_NO_TAG_CMD),
         PollItem.frame (readOpcode d.ltc831ReqParamFlags.useTag LTC831_RDSNC_NO_TAG_CMD),
         PollItem.frame (readOpcode d.ltc831ReqParamFlags.useTag LTC831_RDSND_NO_TAG_CMD),
         PollItem.frame (readOpcode d.ltc831ReqParamFlags.useTag LTC831_RDSNE_NO_TAG_CMD),
         PollItem.frame (readOpcode d.ltc831ReqParamFlags.useTag LTC831_RDSNF_NO_TAG_CMD),
         PollItem.frame (LTC831_RDFS_NO_TAG_CMD + 3),
         PollItem.packUpdate,
         PollItem.frame LTC831_WRCFG_CMD] ∧
      d'.eng.ltcParams.addr = LTC831_WRCFG_CMD ∧
      d'.eng.ltcParams.data_p = some d.ltc831ConfigReg ∧
      PollItem.frame LTC831_MUTE_CMD ∉ items ∧ PollItem.frame LTC831_PRIMEN_CMD ∉ items ∧
      PollItem.frame LTC831_UNMUTE_CMD ∉ items :=
  (poll_cycle_chain cfg u te fuel d hfuel hstate hnew hvalid hentry hdma hbal hsync
    (fun i di _ _ _ h2 h16 h14 hr _ _ _ =>
      taskRunStatus_of cfg u te fuel i d di _ hr (hok i h2 h16 h14))).2

/-- Witness for C24: the pack-convert request `pollReq` (two devices,
synchronous, no tags) started by `ltc831ClCmdStart`, with the idle timer
expired at every transfer. -/
theorem poll_cycle_commands_witness :
    pollStart.ltc831State = LTC831_DEV_POLL_STATE ∧
    pollStart.eng.ltc831Flags.activeBalance = false ∧
    pollStart.ltc831ReqParamFlags.synchronous = true ∧
    (∀ i, 2 ≤ i → i < 16 → i ≠ 14 →
      taskRunStatus sampleConfig (modelUtil 0x025B) (fun _ => wakingEnv) 1 i pollStart =
        some LTC_SUCCESS) ∧
    ∃ d' : Driver,
      taskRun sampleConfig (modelUtil 0x025B) (fun _ => wakingEnv) 1 16 pollStart = some d' ∧
      d'.ltc831State = LTC831_COMMAND_COMPLETE_STATE ∧
      pollLog d'.eng.trace =
        [PollItem.frame 0x0d, PollItem.frame 0x0e, PollItem.frame 0x10, PollItem.frame 0x2b,
         PollItem.frame 0x0f, PollItem.frame 0x07, PollItem.frame 0x08, PollItem.frame 0x09,
         PollItem.frame 0x0a, PollItem.frame 0x0b, PollItem.frame 0x0c, PollItem.frame 0x33,
         PollItem.packUpdate, PollItem.frame 0x11] :=
  have hok := poll_cycle_statuses sampleConfig (modelUtil 0x025B) (fun _ => wakingEnv) 1
    pollStart (by decide) rfl (Or.inl (by decide)) rfl rfl rfl rfl rfl rfl rfl rfl (by decide)
  ⟨rfl, rfl, rfl, hok, by
    obtain ⟨d', items, h1, h2, h3, h4, _⟩ :=
      poll_cycle_commands sampleConfig (modelUtil 0x025B) (fun _ => wakingEnv) 1 pollStart
        (by decide) rfl (Or.inl (by decide)) rfl rfl rfl rfl rfl hok
    refine ⟨d', h1, h2, ?_⟩
    rw [h3, h4]
    rfl⟩

set_option maxRecDepth 100000 in
/-- C39: every entry of `ltc831RegMapConfig` is well formed.  The table has
58 entries; `lenB` is 0, 2, 4 or 6; every entry of kind R has `lenB ≥ 2`;
`regFlagIdx` is below `LTC831_NUM_MAPPED_REGS` (33); two different entries of
kind R or W have different `regFlagIdx` and disjoint word ranges
`[regOffset, regOffset + lenB/2)`; each such range lies inside the register
image of 64 words, and it is the member of `LTC831_REGS_T` of that address. -/
theorem regMap_well_formed :
    ltc831RegMapConfig.length = 58 ∧ LTC831_NUM_MAPPED_REGS = 33 ∧ ltc831RegsWords = 64 ∧
    (∀ e ∈ ltc831RegMapConfig,
      (e.lenB = 0 ∨ e.lenB = 2 ∨ e.lenB = 4 ∨ e.lenB = 6) ∧
      (e.type = LTC831_REG_R → 2 ≤ e.lenB) ∧
      e.regFlagIdx < LTC831_NUM_MAPPED_REGS) ∧
    (∀ i, i < 58 → ∀ j, j < 58 → i ≠ j →
      ((regMap i).type = LTC831_REG_R ∨ (regMap i).type = LTC831_REG_W) →
      ((regMap j).type = LTC831_REG_R ∨ (regMap j).type = LTC831_REG_W) →
      (regMap i).regFlagIdx ≠ (regMap j).regFlagIdx ∧
      ((regMap i).regOffset + (regMap i).lenB / 2 ≤ (regMap j).regOffset ∨
        (regMap j).regOffset + (regMap j).lenB / 2 ≤ (regMap i).regOffset)) ∧
    (∀ i, i < 58 → ((regMap i).type = LTC831_REG_R ∨ (regMap i).type = LTC831_REG_W) →
      (regMap i).regOffset + (regMap i).lenB / 2 ≤ ltc831RegsWords) ∧
    (∀ k, k < ltc831RegsMembers.length →
      (regMap (ltc831RegsMembers.getD k (0, 0)).1).regOffset =
        ((ltc831RegsMembers.take k).map Prod.snd).sum ∧
      (regMap (ltc831RegsMembers.getD k (0, 0)).1).lenB / 2 =
        (ltc831RegsMembers.getD k (0, 0)).2) := by
  have hpair : ∀ i ∈ List.range 58, ∀ j ∈ List.range 58, i ≠ j →
      ((regMap i).type = LTC831_REG_R ∨ (regMap i).type = LTC831_REG_W) →
      ((regMap j).type = LTC831_REG_R ∨ (regMap j).type = LTC831_REG_W) →
      (regMap i).regFlagIdx ≠ (regMap j).regFlagIdx ∧
      ((regMap i).regOffset + (regMap i).lenB / 2 ≤ (regMap j).regOffset ∨
        (regMap j).regOffset + (regMap j).lenB / 2 ≤ (regMap i).regOffset) := by
    decide
  have hin : ∀ i ∈ List.range 58,
      ((regMap i).type = LTC831_REG_R ∨ (regMap i).type = LTC831_REG_W) →
      (regMap i).regOffset + (regMap i).lenB / 2 ≤ ltc831RegsWords := by
    decide
  have hmem : ∀ k ∈ List.range ltc831RegsMembers.length,
      (regMap (ltc831RegsMembers.getD k (0, 0)).1).regOffset =
        ((ltc831RegsMembers.take k).map Prod.snd).sum ∧
      (regMap (ltc831RegsMembers.getD k (0, 0)).1).lenB / 2 =
        (ltc831RegsMembers.getD k (0, 0)).2 := by
    decide
  refine ⟨by decide, by decide, by decide, by decide, ?_, ?_, ?_⟩
  · intro i hi j hj
    exact hpair i (List.mem_range.mpr hi) j (List.mem_range.mpr hj)
  · intro i hi
    exact hin i (List.mem_range.mpr hi)
  · intro k hk
    exact hmem k (List.mem_range.mpr hk)

/-- C40: for a valid device index and every cell index `c` in 0..15 (below
`LTC831_MAX_CELLS_PER_DEV`), `ltc831GetCell` succeeds and returns the scaled
shadow word at word offset `17 + c` with the flags of register
`SNA + c / 3`: the register address computed is
`LTC831_RDSNA_NO_TAG_CMD + c / 3`, one of SNA..SNF, and the word is item
`c mod 3` of that register, inside its `lenB / 2` words.  The word offsets
`17 .. 32` are the words C1..C16 of SNA..SNF; none is the STACK word (word 33,
the second word of SNF), and different cell indexes read different words. -/
theorem getCell_reads_snapshot_word (cfg : Config) (s : State) (devIdx c : Nat)
    (devReg : PACK_DEV_REG_T Nat)
    (hdev : devIdx ≤ cfg.CL_MAX_NUM_DEVS) (hc : c < 16)
    (hmax : c < cfg.LTC831_MAX_CELLS_PER_DEV) :
    (ltc831GetCell cfg devIdx c devReg s).1 = CL_APP_SUCCESS ∧
    (ltc831GetCell cfg devIdx c devReg s).2.regValue =
      scaleCell cfg ((s.ltcDevData devIdx).devRegs (17 + c)) ∧
    (ltc831GetCell cfg devIdx c devReg s).2.regFlags =
      devRegFlagsOf s devIdx (LTC831_RDSNA_NO_TAG_CMD + c / 3) ∧
    (c / LTC831_ITEMS_IN_REG_A_E + LTC831_RDSNA_NO_TAG_CMD) % 256 =
      LTC831_RDSNA_NO_TAG_CMD + c / 3 ∧
    LTC831_RDSNA_NO_TAG_CMD + c / 3 ≤ LTC831_RDSNF_NO_TAG_CMD ∧
    (regMap (LTC831_RDSNA_NO_TAG_CMD + c / 3)).regOffset + c % 3 = 17 + c ∧
    c % 3 < (regMap (LTC831_RDSNA_NO_TAG_CMD + c / 3)).lenB / 2 ∧
    (regMap LTC831_RDSNA_NO_TAG_CMD).regOffset ≤ 17 + c ∧
    17 + c < (regMap LTC831_RDSNF_NO_TAG_CMD).regOffset + 1 ∧
    (∀ c2, c2 < 16 →
      (regMap (LTC831_RDSNA_NO_TAG_CMD + c2 / 3)).regOffset + c2 % 3 =
        (regMap (LTC831_RDSNA_NO_TAG_CMD + c / 3)).regOffset + c % 3 → c2 = c) := by
  have hd : ¬ cfg.CL_MAX_NUM_DEVS < devIdx := by omega
  have hm : ¬ cfg.LTC831_MAX_CELLS_PER_DEV ≤ c := by omega
  have haddr : (c / LTC831_ITEMS_IN_REG_A_E + LTC831_RDSNA_NO_TAG_CMD) % 256 =
      LTC831_RDSNA_NO_TAG_CMD + c / 3 := by
    unfold LTC831_ITEMS_IN_REG_A_E LTC831_RDSNA_NO_TAG_CMD
    omega
  have hoff : ∀ k, k < 16 →
      (regMap (LTC831_RDSNA_NO_TAG_CMD + k / 3)).regOffset + k % 3 = 17 + k ∧
      k % 3 < (regMap (LTC831_RDSNA_NO_TAG_CMD + k / 3)).lenB / 2 := by
    intro k hk
    have hmem : ∀ k ∈ List.range 16,
        (regMap (LTC831_RDSNA_NO_TAG_CMD + k / 3)).regOffset + k % 3 = 17 + k ∧
        k % 3 < (regMap (LTC831_RDSNA_NO_TAG_CMD + k / 3)).lenB / 2 := by decide
    exact hmem k (List.mem_range.mpr hk)
  have hitem : c % LTC831_ITEMS_IN_REG_A_E = c % 3 := rfl
  refine ⟨?_, ?_, ?_, haddr, ?_, (hoff c hc).1, (hoff c hc).2, ?_, ?_, ?_⟩
  · simp [ltc831GetCell, hd, hm]
  · simp only [ltc831GetCell, hd, hm, or_self, if_false, haddr, hitem, devRegWord,
      (hoff c hc).1]
  · simp only [ltc831GetCell, hd, hm, or_self, if_false, haddr]
  · unfold LTC831_RDSNA_NO_TAG_CMD LTC831_RDSNF_NO_TAG_CMD
    omega
  · have : (regMap LTC831_RDSNA_NO_TAG_CMD).regOffset = 17 := by decide
    omega
  · have : (regMap LTC831_RDSNF_NO_TAG_CMD).regOffset = 32 := by decide
    omega
  · intro c2 hc2 h
    rw [(hoff c2 hc2).1, (hoff c hc).1] at h
    omega

/-- Witness for C40: cell 15 of device 1 is word 32, the first word of SNF. -/
theorem getCell_reads_snapshot_word_witness :
    1 ≤ sampleConfig.CL_MAX_NUM_DEVS ∧ 15 < sampleConfig.LTC831_MAX_CELLS_PER_DEV ∧
    (ltc831GetCell sampleConfig 1 15 ⟨zeroRegFlags, 0⟩ (uniformStore 1 50000)).2.regValue =
      scaleCell sampleConfig (((uniformStore 1 50000).ltcDevData 1).devRegs (17 + 15)) ∧
    (regMap (LTC831_RDSNA_NO_TAG_CMD + 15 / 3)).regOffset + 15 % 3 = 17 + 15 :=
  have h := getCell_reads_snapshot_word sampleConfig (uniformStore 1 50000) 1 15
    ⟨zeroRegFlags, 0⟩ (by decide) (by decide) (by decide)
  ⟨by decide, by decide, h.2.1, h.2.2.2.2.2.1⟩

theorem wakeupIdle_pulse_log (dir : Bool) (cnt : Nat) (s : State) :
    pulseLog (ltc831WakeupIdle_pulse dir cnt s).trace =
      pulseLog s.trace ++ [wakePulse s.ltc831Flags.activeBalance] ∧
    (ltc831WakeupIdle_pulse dir cnt s).ltc831Flags.activeBalance =
      s.ltc831Flags.activeBalance := by
  unfold ltc831WakeupIdle_pulse pulseLog wakePulse
  cases ha : s.ltc831Flags.activeBalance <;> cases hd : s.ltc831Flags.dirChange <;>
    simp [State.emit, Event.pulse, ha, hd, List.filterMap_append]

theorem modelUtil_calcCRC (poly14 : Nat) (data : List Nat) :
    (modelUtil poly14).calcCRC (modelUtil poly14).UTIL_CRC8_2F_POLY data 0x10 =
      crcBits 8 0x2F 0x10 (bytesBits data) := rfl

/-- C35: the hard-coded wake frames carry the command PEC.  With the CRC-8 of
`modelUtil` (generator 0x2F, seed 0x10, most significant bit first, no
reflection, no final XOR) the PEC of the single command byte is 0xDD for MUTE
(0x20), 0xF2 for UNMUTE (0x21) and 0xFB for SNAP (0x2B).  These are the second
bytes of the pulses of `ltc831WakeupIdle` and of the frame the WAKEUP state
sends, and they are the command PEC `ltc831BuildCommand` puts at byte 1 of
the untagged header it builds for a broadcast of that address. -/
theorem wake_frames_command_pec (poly14 : Nat) :
    (modelUtil poly14).calcCRC (modelUtil poly14).UTIL_CRC8_2F_POLY [LTC831_MUTE_CMD] 0x10
      = 0xdd ∧
    (modelUtil poly14).calcCRC (modelUtil poly14).UTIL_CRC8_2F_POLY [LTC831_UNMUTE_CMD] 0x10
      = 0xf2 ∧
    (modelUtil poly14).calcCRC (modelUtil poly14).UTIL_CRC8_2F_POLY [LTC831_SNAP_CMD] 0x10
      = 0xfb ∧
    (∀ (dir : Bool) (cnt : Nat) (s : State),
      pulseLog (ltc831WakeupIdle_pulse dir cnt s).trace = pulseLog s.trace ++
        [if s.ltc831Flags.activeBalance = true then (LTC831_MUTE_CMD, 0xdd, 1)
         else (LTC831_UNMUTE_CMD, 0xf2, 1)]) ∧
    (∀ d : Driver, d.eng.ltc831Flags.newState = true →
      (ltc831Task_wakeup d).eng.ltcFrames.cmdDataTx 0 = LTC831_SNAP_CMD ∧
      (ltc831Task_wakeup d).eng.ltcFrames.cmdDataTx 1 = 0xfb) ∧
    (∀ (s : State) (flags : LTC_PARAM_FLAGS_T) (n addr : Nat),
      addr = LTC831_MUTE_CMD ∨ addr = LTC831_UNMUTE_CMD ∨ addr = LTC831_SNAP_CMD →
      (ltc831BuildCommand (modelUtil poly14) (writeParamsOf s flags n addr none)).1
        = LTC_SUCCESS ∧
      (ltc831BuildCommand (modelUtil poly14)
        (writeParamsOf s flags n addr none)).2.ltcFrames.cmdDataTx 0 = addr ∧
      (ltc831BuildCommand (modelUtil poly14)
        (writeParamsOf s flags n addr none)).2.ltcFrames.cmdDataTx 1 =
        (modelUtil poly14).calcCRC (modelUtil poly14).UTIL_CRC8_2F_POLY [addr] 0x10 ∧
      (ltc831BuildCommand (modelUtil poly14)
        (writeParamsOf s flags n addr none)).2.ltcFrames.txCmdLengthB = 2) := by
  have hc := modelUtil_calcCRC poly14
  refine ⟨by rw [hc]; decide, by rw [hc]; decide, by rw [hc]; decide, ?_, ?_, ?_⟩
  · intro dir cnt s
    exact (wakeupIdle_pulse_log dir cnt s).1
  · intro d hns
    unfold ltc831Task_wakeup
    simp [hns, Driver.modFlags, Driver.withEng, Driver.emit, State.emit, setAt]
  · intro s flags n addr ha
    unfold ltc831BuildCommand ltcResetStateMachine writeParamsOf
    rw [hc]
    rcases ha with h | h | h <;> subst h <;>
      simp [regMap, ltc831RegMapConfig, setAt, bytesAt, modelUtil, LTC831_CMD_PKT_SIZE_B,
        LTC831_CMD_PEC_SIZE_B, LTC831_MUTE_CMD, LTC831_UNMUTE_CMD, LTC831_SNAP_CMD, zeroFrames]
      <;> decide

theorem pulseLog_append (a b : List Event) : pulseLog (a ++ b) = pulseLog a ++ pulseLog b := by
  unfold pulseLog
  exact List.filterMap_append _ _ _

theorem wakeupIdle_loop_log (dir : Bool) (n : Nat) (s : State) :
    pulseLog (forLoop n (ltc831WakeupIdle_pulse dir) s).trace =
      pulseLog s.trace ++ List.replicate n (wakePulse s.ltc831Flags.activeBalance) ∧
    (forLoop n (ltc831WakeupIdle_pulse dir) s).ltc831Flags.activeBalance =
      s.ltc831Flags.activeBalance := by
  induction n with
  | zero => simp [forLoop]
  | succ k ih =>
    rw [forLoop_succ]
    obtain ⟨h1, h2⟩ := wakeupIdle_pulse_log dir k (forLoop k (ltc831WakeupIdle_pulse dir) s)
    rw [h1, h2, ih.1, ih.2, List.replicate_succ', List.append_assoc]
    exact ⟨rfl, rfl⟩

/-- What `ltc831WakeupIdle` sends: when the direction differs from the
previous one, `dirChange` is pending or the idle timer has expired, one pulse
per pass of `for ( cnt = 0; cnt < numDevs; cnt++ )`, then the restart of the
idle timer of `dir`; otherwise nothing. -/
theorem wakeupIdle_log (env : Env) (dir : Bool) (n : Nat) (s : State) :
    ((s.ltc831Flags.dir ≠ s.ltc831Flags.prevDir ∨ s.ltc831Flags.dirChange = true ∨
        env.idleExpired = true) →
      pulseLog (ltc831WakeupIdle env dir n s).trace =
        pulseLog s.trace ++ List.replicate n (wakePulse s.ltc831Flags.activeBalance) ∧
      ∃ pre, (ltc831WakeupIdle env dir n s).trace =
        pre ++ [Event.startIdleTimer dir LTC831_T_IDLE_MS]) ∧
    (¬ (s.ltc831Flags.dir ≠ s.ltc831Flags.prevDir ∨ s.ltc831Flags.dirChange = true ∨
        env.idleExpired = true) →
      (ltc831WakeupIdle env dir n s).trace = s.trace) := by
  have key : ∀ t : State, t.trace = s.trace →
      t.ltc831Flags.activeBalance = s.ltc831Flags.activeBalance →
      pulseLog ((forLoop n (ltc831WakeupIdle_pulse dir)
          (t.emit (Event.timDelaySync 3))).emit
            (Event.startIdleTimer dir LTC831_T_IDLE_MS)).trace =
        pulseLog s.trace ++ List.replicate n (wakePulse s.ltc831Flags.activeBalance) := by
    intro t ht ha
    obtain ⟨h1, _⟩ := wakeupIdle_loop_log dir n (t.emit (Event.timDelaySync 3))
    simp only [State.emit, pulseLog_append] at h1 ⊢
    rw [h1, ht, ha]
    simp [pulseLog, Event.pulse]
  constructor
  · intro hc
    unfold ltc831WakeupIdle
    simp only
    by_cases hd : s.ltc831Flags.dir ≠ s.ltc831Flags.prevDir
    · rw [if_pos hd]
      simp only [true_or, if_true]
      exact ⟨key _ rfl rfl, ⟨_, rfl⟩⟩
    · rw [if_neg hd]
      have hc2 : s.ltc831Flags.dirChange = true ∨ env.idleExpired = true := by
        rcases hc with h | h
        · exact absurd h hd
        · exact h
      rw [if_pos hc2]
      exact ⟨key _ rfl rfl, ⟨_, rfl⟩⟩
  · intro hc
    unfold ltc831WakeupIdle
    simp only
    have hd : ¬ s.ltc831Flags.dir ≠ s.ltc831Flags.prevDir := fun h => hc (Or.inl h)
    rw [if_neg hd]
    have hc2 : ¬ (s.ltc831Flags.dirChange = true ∨ env.idleExpired = true) :=
      fun h => hc (Or.inr h)
    rw [if_neg hc2]

/-- C34: `ltc831WakeupIdle` sends `numDevs` pulses, not `numDevs + 1`.  When
the direction changed since the last transfer or the idle timer of the
direction has expired, the loop `for ( cnt = 0; cnt < numDevs; cnt++ )` sends
one pulse per pass, MUTE (0x20, 0xDD) when balancing and UNMUTE (0x21, 0xF2)
when not, and the last call restarts the idle timer of the direction with
`LTC831_T_IDLE_MS = 3`; when neither condition holds nothing is sent and no
timer is touched.  For one device with the idle timer expired there is one
pulse, and for no device none. -/
theorem wakeupIdle_sends_numDevs_pulses :
    (∀ (env : Env) (dir : Bool) (n : Nat) (s : State),
      (s.ltc831Flags.dir ≠ s.ltc831Flags.prevDir ∨ s.ltc831Flags.dirChange = true ∨
        env.idleExpired = true) →
      pulseLog (ltc831WakeupIdle env dir n s).trace = pulseLog s.trace ++
        List.replicate n (if s.ltc831Flags.activeBalance = true then (LTC831_MUTE_CMD, 0xdd, 1)
          else (LTC831_UNMUTE_CMD, 0xf2, 1)) ∧
      ∃ pre, (ltc831WakeupIdle env dir n s).trace =
        pre ++ [Event.startIdleTimer dir LTC831_T_IDLE_MS]) ∧
    (∀ (env : Env) (dir : Bool) (n : Nat) (s : State),
      ¬ (s.ltc831Flags.dir ≠ s.ltc831Flags.prevDir ∨ s.ltc831Flags.dirChange = true ∨
        env.idleExpired = true) →
      (ltc831WakeupIdle env dir n s).trace = s.trace) ∧
    LTC831_T_IDLE_MS = 3 ∧
    (pulseLog (ltc831WakeupIdle ⟨fun _ => 0, true, true⟩ false 1 zeroState).trace).length = 1 ∧
    (pulseLog (ltc831WakeupIdle ⟨fun _ => 0, true, true⟩ false 1 zeroState).trace).length
      ≠ 1 + 1 ∧
    (pulseLog (ltc831WakeupIdle ⟨fun _ => 0, true, true⟩ false 0 zeroState).trace).length = 0 := by
  refine ⟨?_, ?_, rfl, by decide, by decide, by decide⟩
  · intro env dir n s hc
    exact (wakeupIdle_log env dir n s).1 hc
  · intro env dir n s hc
    exact (wakeupIdle_log env dir n s).2 hc

/-- `ltc831BuildCommand` leaves `ltc831Flags` alone. -/
theorem buildCommand_flags (u : Util) (s : State) :
    (ltc831BuildCommand u s).2.ltc831Flags = s.ltc831Flags := by
  have hloop := fun (addr regIdx W N n : Nat) (t : State) =>
    (buildCommand_loop u addr regIdx W N t n).2.2.1
  simp only at hloop
  unfold ltc831BuildCommand ltcResetStateMachine
  cases hc : s.ltcParams.spiCmd <;>
  cases ht : (regMap s.ltcParams.addr).type <;>
  by_cases hz : (regMap s.ltcParams.addr).lenB / 2 = 0 <;>
  simp [hc, ht, hz, hloop]

/-- `ltcSendCommandFrame` leaves the direction flag alone, whatever the
transfer does. -/
theorem sendCommandFrame_dir (env : Env) (s : State) :
    (ltcSendCommandFrame env s).2.ltc831Flags.dir = s.ltc831Flags.dir ∧
    (ltcSendCommandFrame env s).2.ltcParams = s.ltcParams := by
  have hw := wakeupIdle_same env s.ltc831Flags.dir s.ltcParams.numDevs s
  generalize hr : ltcSendCommandFrame env s = r
  unfold ltcSendCommandFrame ltc831SendClCmd at hr
  generalize ltc831WakeupIdle env s.ltc831Flags.dir s.ltcParams.numDevs s = w at hr hw
  obtain ⟨a1, a2, a3, a4, a5, a6, a7, a8, a9, a10, a11⟩ := hw
  subst hr
  cases hsync : s.ltcParams.flags.synchronous <;> cases hsc : env.spiComplete <;>
    cases hdc : w.ltc831Flags.dirChange <;> cases hdma : s.ltc831Flags.waitDMA <;>
    simp [injectRx, State.emit, hdma, hsc, hdc, hsync, a1, a8]

/-- The preparation block of `ltc831WriteCmd` leaves the direction flag
alone; when it succeeds the command parameters hold the flags and the
address of the call. -/
theorem writePrepare_dir (u : Util) (flags : LTC_PARAM_FLAGS_T) (n addr : Nat)
    (d : Option (Nat → Nat)) (s : State) :
    (ltc831WriteCmd_prepare u flags n addr d s).2.ltc831Flags.dir = s.ltc831Flags.dir ∧
    ((ltc831WriteCmd_prepare u flags n addr d s).1 = LTC_SUCCESS →
      (ltc831WriteCmd_prepare u flags n addr d s).2.ltcParams.addr = addr ∧
      (ltc831WriteCmd_prepare u flags n addr d s).2.ltcParams.flags = flags) := by
  have hb := fun X : State => buildCommand_flags u X
  have hp := fun X : State => (buildCommand_header u X).1
  unfold ltc831WriteCmd_prepare
  by_cases h1 : addr ≥ LTC831_RDFS_NO_TAG_CMD
  · simp [h1]
  · by_cases h2 : (regMap addr).type ≠ LTC831_REG_W ∧ (regMap addr).type ≠ LTC831_REG_B
    · simp [h1, h2]
    · simp only [if_neg h1, if_neg h2, if_true]
      rw [hb, hp]
      cases hbd : flags.doBreakDetect <;> cases hd : s.ltc831Flags.didFirst <;>
        cases ha : (regMap addr).ack <;>
        simp [ltcResetStateMachine, ltcPrepPoll, State.modBreak, zeroParams]

/-- A call of `ltc831WriteCmd` entered with no DMA pending, for a command
that is not acknowledged or without the ACK check, leaves the direction flag
alone. -/
theorem writeCmd_plain_dir (u : Util) (env : Env) (flags : LTC_PARAM_FLAGS_T) (n addr : Nat)
    (d : Option (Nat → Nat)) (s : State) (hdma : s.ltc831Flags.waitDMA = false)
    (hno : ¬ ((regMap addr).ack = true ∧ flags.useAck = true)) :
    (ltc831WriteCmd u env flags n addr d s).2.ltc831Flags.dir = s.ltc831Flags.dir := by
  obtain ⟨p1, p2⟩ := writePrepare_dir u flags n addr d s
  unfold ltc831WriteCmd
  dsimp only
  have hw : ¬ s.ltc831Flags.waitDMA = true := by simp [hdma]
  rw [if_pos hw]
  generalize ltc831WriteCmd_prepare u flags n addr d s = P at p1 p2
  obtain ⟨pst, P⟩ := P
  simp only at p1 p2
  by_cases hst : pst = LTC_SUCCESS
  · subst hst
    obtain ⟨q1, q2⟩ := p2 rfl
    rw [if_pos rfl]
    obtain ⟨s1, s2⟩ := sendCommandFrame_dir env P
    generalize ltcSendCommandFrame env P = S at s1 s2
    obtain ⟨sst, S⟩ := S
    simp only at s1 s2
    by_cases hs : sst = LTC_SUCCESS
    · subst hs
      rw [if_pos rfl]
      have hno2 : ¬ ((regMap S.ltcParams.addr).ack = true ∧ S.ltcParams.flags.useAck = true) := by
        rw [s2, q1, q2]; exact hno
      unfold ltc831WriteCmd_complete
      simp only [if_neg hno2]
      cases d <;> simp [s1, p1]
    · rw [if_neg hs]
      simp [s1, p1]
  · rw [if_neg hst, if_neg hst]
    exact p1

set_option maxRecDepth 100000 in
/-- C36: an ACK-checked write that ends without a retry flips the direction
flag.  The terminal branch of `ltc831WriteCmd` clears `didFirst` and then
executes `ltc831Flags.dir = !ltc831Flags.dir` ("Swap back") whether or not
the direction had been flipped for a retry, where `ltc831ReadCmd` swaps back
under `if ( ltc831Flags.didFirst )`.  So for every acknowledged command with
the ACK check requested, entered with `didFirst` clear and completing on its
first attempt, the call returns a status other than `LTC_DEFERRED` with the
direction flag inverted; a synchronous SNAP broadcast to two devices that
both acknowledge returns `LTC_SUCCESS` and leaves direction B where it was
entered with direction A.  A write without the ACK check, or of a command
that is not acknowledged, leaves the direction flag alone. -/
theorem writeCmd_ack_flips_dir :
    (∀ (u : Util) (env : Env) (flags : LTC_PARAM_FLAGS_T) (n addr : Nat)
        (d : Option (Nat → Nat)) (s : State),
      s.ltc831Flags.waitDMA = false → (regMap addr).ack = true → flags.useAck = true →
      (flags.synchronous = true ∨ env.spiComplete = true) →
      s.ltc831Flags.didFirst = false →
      ¬ ((ackBreakAfter env.rx
            (if flags.doBreakDetect = true then freshBreak
             else s.ltcBreakData s.ltc831Flags.dir) n).flags.ackError = true ∧
          flags.doBreakDetect = true) →
      (ltc831WriteCmd u env flags n addr d s).1 ≠ LTC_DEFERRED ∧
      (ltc831WriteCmd u env flags n addr d s).2.ltc831Flags.didFirst = false ∧
      (ltc831WriteCmd u env flags n addr d s).2.ltc831Flags.dir = (!s.ltc831Flags.dir) ∧
      (ltc831WriteCmd u env flags n addr d s).2.ltc831Flags.dir ≠ s.ltc831Flags.dir) ∧
    ((requestState 2).ltc831Flags.dir = false ∧
      (requestState 2).ltc831Flags.didFirst = false ∧
      (∀ i, i < 2 → ackFailAt allAck.rx i = false) ∧
      (ltc831WriteCmd (modelUtil 0x025B) allAck ⟨false, true, false, true, false⟩ 2
        LTC831_SNAP_CMD none (requestState 2)).1 = LTC_SUCCESS ∧
      (ltc831WriteCmd (modelUtil 0x025B) allAck ⟨false, true, false, true, false⟩ 2
        LTC831_SNAP_CMD none (requestState 2)).2.ltc831Flags.dir = true ∧
      (ltc831WriteCmd (modelUtil 0x025B) allAck ackDetectFlags 2
        LTC831_SNAP_CMD none (requestState 2)).1 = LTC_SUCCESS ∧
      (ltc831WriteCmd (modelUtil 0x025B) allAck ackDetectFlags 2
        LTC831_SNAP_CMD none (requestState 2)).2.ltc831Flags.dir = true) ∧
    (∀ (u : Util) (env : Env) (flags : LTC_PARAM_FLAGS_T) (n addr : Nat)
        (d : Option (Nat → Nat)) (s : State),
      s.ltc831Flags.waitDMA = false →
      ¬ ((regMap addr).ack = true ∧ flags.useAck = true) →
      (ltc831WriteCmd u env flags n addr d s).2.ltc831Flags.dir = s.ltc831Flags.dir) := by
  refine ⟨?_, ⟨rfl, rfl, by decide, rfl, rfl, rfl, rfl⟩, ?_⟩
  · intro u env flags n addr d s hdma hack huse hc hdid hno
    obtain ⟨_, a2, a3, _⟩ := writeCmd_attempt u env flags n addr d s _ hdma hack huse hc rfl
    have hno2 : ¬ ((ackBreakAfter env.rx
            (if flags.doBreakDetect = true then freshBreak
             else s.ltcBreakData s.ltc831Flags.dir) n).flags.ackError = true ∧
          s.ltc831Flags.didFirst = false ∧ flags.doBreakDetect = true) :=
      fun h => hno ⟨h.1, h.2.2⟩
    obtain ⟨b1, b2, _⟩ := a2 hno2
    refine ⟨b1, b2, a3, ?_⟩
    rw [a3]
    cases s.ltc831Flags.dir <;> decide
  · intro u env flags n addr d s hdma hno
    exact writeCmd_plain_dir u env flags n addr d s hdma hno

/-- The register words one pass of the device loop of `LTC831_updateOutData`
appends come from the shadow of device `numDevs - devIdx - 1` (8 bit) when
the direction is not A and the device count is non-zero, and from device
`devIdx` otherwise. -/
theorem updateOutData_dev_source (numDevs devIdx : Nat) (s : State) :
    (LTC831_updateOutData_dev numDevs devIdx s).outData.map Prod.snd =
      s.outData.map Prod.snd ++
        [(List.range s.ltcFrames.regLengthW).map (fun regAddr =>
          (s.ltcDevData
            (if s.ltc831Flags.dir = true ∧ numDevs ≠ 0 then toU8 ((numDevs : Int) - devIdx - 1)
             else devIdx)).devRegs ((regMap s.ltcParams.addr).regOffset + regAddr))] := by
  unfold LTC831_updateOutData_dev
  cases hd : s.ltc831Flags.dir <;> by_cases hn : numDevs = 0 <;> simp [hd, hn] <;>
    split <;> simp

set_option maxRecDepth 100000 in
/-- C37: the destination device index of `LTC831_RxParse`, `LTC831_checkAck`
and `LTC831_updateOutData` leaves the range of the request when the pack
layer sets a smaller device count.  The three loops run over
`ltcParams.numDevs` slots and reverse with `numDevs - devIdx - 1` in 8 bit,
`numDevs` being `packApi.numDevs` when that is non-zero and smaller.  For a
request of two devices with `packApi.numDevs = 1`, slot 1 of a reversed
transfer goes to device `(UVAR8)(1 - 1 - 1) = 255`: `LTC831_RxParse` stores
the block into the shadow of device 255, `LTC831_checkAck` sets `ackFail`
there, and `LTC831_updateOutData` reports the words of device 255.  In
general the first slot beyond a smaller count `N` of a reversed transfer goes
to device 255, which is not below a request count of at most 255.  When the
pack layer sets no smaller count every index is below the request count. -/
theorem devIdxDest_leaves_request_range :
    (∀ (dir chainHead : Bool) (n i : Nat), n < 256 → i < n →
      rxDevIdxDest dir chainHead n i < n ∧ toU8 ((n : Int) - i - 1) < n) ∧
    (∀ s : State, s.packApi.numDevs = 0 ∨ s.ltcParams.numDevs ≤ s.packApi.numDevs →
      effNumDevs s = s.ltcParams.numDevs) ∧
    (∀ (dir chainHead : Bool) (N n : Nat), 0 < N → N < n → n < 256 → dir ≠ chainHead →
      rxDevIdxDest dir chainHead N N = 255 ∧ ¬ rxDevIdxDest dir chainHead N N < n) ∧
    (∀ (numDevs devIdx : Nat) (s : State),
      (LTC831_updateOutData_dev numDevs devIdx s).outData.map Prod.snd =
        s.outData.map Prod.snd ++
          [(List.range s.ltcFrames.regLengthW).map (fun regAddr =>
            (s.ltcDevData
              (if s.ltc831Flags.dir = true ∧ numDevs ≠ 0 then
                toU8 ((numDevs : Int) - devIdx - 1)
               else devIdx)).devRegs ((regMap s.ltcParams.addr).regOffset + regAddr))]) ∧
    (cappedReadSample.ltcParams.numDevs = 2 ∧ cappedReadSample.packApi.numDevs = 1 ∧
      (((LTC831_RxParse (modelUtil 0x025B)
        (injectRx (bufOf goodResponse)
          (ltc831BuildCommand (modelUtil 0x025B) cappedReadSample).2)).2.ltcDevData 255).devRegFlags
        (regMap 0x30).regFlagIdx).newData = true ∧
      ((LTC831_RxParse (modelUtil 0x025B)
        (injectRx (bufOf goodResponse)
          (ltc831BuildCommand (modelUtil 0x025B) cappedReadSample).2)).2.ltcDevData 255).devRegs
        (regMap 0x30).regOffset = 0x5678 ∧
      ((LTC831_RxParse (modelUtil 0x025B)
        (injectRx (bufOf goodResponse)
          (ltc831BuildCommand (modelUtil 0x025B) cappedReadSample).2)).2.ltcDevData 1).devRegs
        (regMap 0x30).regOffset = 0) ∧
    (cappedAckSample.ltcParams.numDevs = 2 ∧ effNumDevs cappedAckSample = 1 ∧
      rxDevIdxDest cappedAckSample.ltc831Flags.dir cappedAckSample.ltc831Flags.chainHead
        (effNumDevs cappedAckSample) 1 = 255 ∧
      (((LTC831_checkAck cappedAckSample).2.ltcDevData 255).devRegFlags
        (regMap LTC831_SNAP_CMD).regFlagIdx).ackFail = true ∧
      (((LTC831_checkAck cappedAckSample).2.ltcDevData 1).devRegFlags
        (regMap LTC831_SNAP_CMD).regFlagIdx).ackFail = false) ∧
    (cappedOutSample.ltcParams.numDevs = 2 ∧ effNumDevs cappedOutSample = 1 ∧
      (LTC831_updateOutData cappedOutSample).outData.map Prod.snd = [[0], [0xBEEF]]) := by
  refine ⟨?_, ?_, ?_, ?_, ?_, ?_, ?_⟩
  · intro dir chainHead n i hn hi
    rw [rxDevIdxDest_eq dir chainHead n i hn hi]
    constructor
    · split <;> omega
    · unfold toU8; omega
  · intro s h
    unfold effNumDevs
    rw [if_neg]
    omega
  · intro dir chainHead N n h0 hN hn hd
    have h : rxDevIdxDest dir chainHead N N = 255 := by
      unfold rxDevIdxDest toU8
      rw [if_pos ⟨hd, by omega⟩]
      omega
    rw [h]
    exact ⟨rfl, by omega⟩
  · intro numDevs devIdx s
    exact updateOutData_dev_source numDevs devIdx s
  · decide
  · decide
  · decide

/-- A read for no device, entered with no DMA pending, fails in the parameter
checks of `ltc831ReadCmd` and leaves the flags alone. -/
theorem readCmd_no_devices (u : Util) (env : Env) (flags : LTC_PARAM_FLAGS_T) (tag addr : Nat)
    (dp : Option (Nat → Nat)) (s : State) (hdma : s.ltc831Flags.waitDMA = false) :
    ((ltc831ReadCmd u env flags tag 0 addr dp s).1 = LTC_UNSUPPORTED_FEATURE ∨
      (ltc831ReadCmd u env flags tag 0 addr dp s).1 = LTC_INVALID_COMMAND ∨
      (ltc831ReadCmd u env flags tag 0 addr dp s).1 = LTC_BAD_PARAMETER) ∧
    ((ltc831ReadCmd u env flags tag 0 addr dp s).1 = LTC_UNSUPPORTED_FEATURE ↔
      addr > LTC831_RDFS_NO_TAG_CMD + LTC831_FS_ROW_END) ∧
    (ltc831ReadCmd u env flags tag 0 addr dp s).2.ltc831Flags = s.ltc831Flags := by
  have hp : ∃ st, ltc831ReadCmd_prepare u flags tag 0 addr dp s = (st, s) ∧
      (st = LTC_UNSUPPORTED_FEATURE ∨ st = LTC_INVALID_COMMAND ∨ st = LTC_BAD_PARAMETER) ∧
      (st = LTC_UNSUPPORTED_FEATURE ↔ addr > LTC831_RDFS_NO_TAG_CMD + LTC831_FS_ROW_END) := by
    unfold ltc831ReadCmd_prepare
    by_cases h1 : addr > LTC831_RDFS_NO_TAG_CMD + LTC831_FS_ROW_END
    · exact ⟨_, by rw [if_pos h1], Or.inl rfl, by simp [h1]⟩
    · by_cases h2 : (regMap addr).type ≠ LTC831_REG_R
      · exact ⟨_, by rw [if_neg h1, if_pos h2], Or.inr (Or.inl rfl), by simp [h1]⟩
      · exact ⟨_, by rw [if_neg h1, if_neg h2, if_pos rfl], Or.inr (Or.inr rfl), by simp [h1]⟩
  obtain ⟨st, hp, hst, hiff⟩ := hp
  have hne : st ≠ LTC_SUCCESS := by
    rcases hst with h | h | h <;> rw [h] <;> decide
  have hw : ¬ s.ltc831Flags.waitDMA = true := by simp [hdma]
  unfold ltc831ReadCmd
  simp only [if_pos hw, hp, if_neg hne]
  refine ⟨hst, hiff, ?_⟩
  split <;> rfl

/-- The three list-reading sub-states of the poll for a request of no device,
entered with no DMA pending: the read fails, `ltc831RegAddr` is incremented
and the sub-state stays. -/
theorem poll_read_no_devices (u : Util) (pe : PassEnv) (d : Driver)
    (hdma : d.eng.ltc831Flags.waitDMA = false)
    (hn : d.ltc831ReqParamFlags.numDevs &&& 0xFF = 0) :
    ((ltc831Task_poll1 u pe d).1.ltc831RegAddr = (d.ltc831RegAddr + 1) % 256 ∧
      (ltc831Task_poll1 u pe d).1.ltc831SubState = d.ltc831SubState ∧
      (ltc831Task_poll1 u pe d).1.ltc831State = d.ltc831State ∧
      (ltc831Task_poll1 u pe d).1.eng.ltc831Flags.waitDMA = false ∧
      (ltc831Task_poll1 u pe d).2 ≠ LTC_SUCCESS ∧ (ltc831Task_poll1 u pe d).2 ≠ LTC_DEFERRED) ∧
    ((ltc831Task_poll2 u pe d).1.ltc831RegAddr = (d.ltc831RegAddr + 1) % 256 ∧
      (ltc831Task_poll2 u pe d).1.ltc831SubState = d.ltc831SubState ∧
      (ltc831Task_poll2 u pe d).1.ltc831State = d.ltc831State ∧
      (ltc831Task_poll2 u pe d).1.eng.ltc831Flags.waitDMA = false ∧
      (ltc831Task_poll2 u pe d).2 ≠ LTC_SUCCESS ∧ (ltc831Task_poll2 u pe d).2 ≠ LTC_DEFERRED) ∧
    ((ltc831Task_poll4 u pe d).1.ltc831RegAddr = (d.ltc831RegAddr + 1) % 256 ∧
      (ltc831Task_poll4 u pe d).1.ltc831SubState = d.ltc831SubState ∧
      (ltc831Task_poll4 u pe d).1.ltc831State = d.ltc831State ∧
      (ltc831Task_poll4 u pe d).1.eng.ltc831Flags.waitDMA = false ∧
      (ltc831Task_poll4 u pe d).2 ≠ LTC_SUCCESS ∧ (ltc831Task_poll4 u pe d).2 ≠ LTC_DEFERRED) := by
  have key : ∀ addr : Nat,
      (ltc831ReadCmd u pe.first (pollReadFlags d) d.clTransaction.req.tag
        (d.ltc831ReqParamFlags.numDevs &&& 0xFF) addr none d.eng).1 ≠ LTC_SUCCESS ∧
      (ltc831ReadCmd u pe.first (pollReadFlags d) d.clTransaction.req.tag
        (d.ltc831ReqParamFlags.numDevs &&& 0xFF) addr none d.eng).1 ≠ LTC_DEFERRED ∧
      (ltc831ReadCmd u pe.first (pollReadFlags d) d.clTransaction.req.tag
        (d.ltc831ReqParamFlags.numDevs &&& 0xFF) addr none d.eng).2.ltc831Flags.waitDMA
        = false := by
    intro addr
    rw [hn]
    obtain ⟨h1, _, h3⟩ := readCmd_no_devices u pe.first (pollReadFlags d)
      d.clTransaction.req.tag addr none d.eng hdma
    rw [h3]
    refine ⟨?_, ?_, hdma⟩
    · rcases h1 with h | h | h <;> rw [h] <;> decide
    · rcases h1 with h | h | h <;> rw [h] <;> decide
  refine ⟨?_, ?_, ?_⟩
  · obtain ⟨k1, k2, k3⟩ := key (pollReg ltc831_pollAuxRegs d.ltc831RegAddr)
    unfold ltc831Task_poll1
    simp only
    generalize ltc831ReadCmd u pe.first (pollReadFlags d) d.clTransaction.req.tag
      (d.ltc831ReqParamFlags.numDevs &&& 0xFF) (pollReg ltc831_pollAuxRegs d.ltc831RegAddr)
      none d.eng = r at k1 k2 k3
    simp [k1, k2, k3, Driver.withEng, Driver.modFlags]
  · obtain ⟨k1, k2, k3⟩ := key (pollReg ltc831_pollConfigRegs d.ltc831RegAddr)
    unfold ltc831Task_poll2
    simp only
    generalize ltc831ReadCmd u pe.first (pollReadFlags d) d.clTransaction.req.tag
      (d.ltc831ReqParamFlags.numDevs &&& 0xFF) (pollReg ltc831_pollConfigRegs d.ltc831RegAddr)
      none d.eng = r at k1 k2 k3
    simp [k1, k2, k3, Driver.withEng, Driver.modFlags]
  · obtain ⟨k1, k2, k3⟩ := key (pollReg ltc831_pollRegs d.ltc831RegAddr)
    unfold ltc831Task_poll4
    simp only
    generalize ltc831ReadCmd u pe.first (pollReadFlags d) d.clTransaction.req.tag
      (d.ltc831ReqParamFlags.numDevs &&& 0xFF) (pollReg ltc831_pollRegs d.ltc831RegAddr)
      none d.eng = r at k1 k2 k3
    simp [k1, k2, k3, Driver.withEng, Driver.modFlags]

set_option maxRecDepth 100000 in
/-- C38: the poll register index `ltc831RegAddr` runs past the end of the
list it indexes for a request of no device.  The list-reading sub-states 1, 2
and 4 of the poll increment `ltc831RegAddr` after every read that does not
return `LTC_DEFERRED` and test for the end-of-list marker only when the read
returned `LTC_SUCCESS`; a read for `numDevs = 0` returns an error status, so
the index is incremented and the sub-state stays.  For a pack-convert request
with `numDevs = 0` the driver enters sub-state 1 after two invocations of
`ltc831Task`; after four it stands at index 2 of `ltc831_pollAuxRegs`, whose
entry is the marker `LTC831_EOR = 0xFF`, and invocation five hands 0xFF to
`ltc831ReadCmd` as register address (the read returns
`LTC_UNSUPPORTED_FEATURE`); after five the index is 3, the length of the
list, and the sixth invocation reads `ltc831_pollAuxRegs[3]`. -/
theorem poll_index_leaves_list :
    (∀ (u : Util) (pe : PassEnv) (d : Driver), d.eng.ltc831Flags.waitDMA = false →
      d.ltc831ReqParamFlags.numDevs &&& 0xFF = 0 →
      ((ltc831Task_poll1 u pe d).1.ltc831RegAddr = (d.ltc831RegAddr + 1) % 256 ∧
        (ltc831Task_poll1 u pe d).1.ltc831SubState = d.ltc831SubState ∧
        (ltc831Task_poll1 u pe d).1.eng.ltc831Flags.waitDMA = false) ∧
      ((ltc831Task_poll2 u pe d).1.ltc831RegAddr = (d.ltc831RegAddr + 1) % 256 ∧
        (ltc831Task_poll2 u pe d).1.ltc831SubState = d.ltc831SubState ∧
        (ltc831Task_poll2 u pe d).1.eng.ltc831Flags.waitDMA = false) ∧
      ((ltc831Task_poll4 u pe d).1.ltc831RegAddr = (d.ltc831RegAddr + 1) % 256 ∧
        (ltc831Task_poll4 u pe d).1.ltc831SubState = d.ltc831SubState ∧
        (ltc831Task_poll4 u pe d).1.eng.ltc831Flags.waitDMA = false)) ∧
    (ltc831ClCmdStart sampleConfig (fun _ => false) (zeroDriver pollReqNoDevs)).1
      = CL_APP_DEFERRED ∧
    pollStartNoDevs.ltc831ReqParamFlags.numDevs = 0 ∧
    pollPosition pollStartNoDevs = (LTC831_DEV_POLL_STATE, 0, 0) ∧
    (taskRun sampleConfig (modelUtil 0x025B) (fun _ => quietEnv CL_APP_SUCCESS) 4 2
      pollStartNoDevs).map pollPosition = some (LTC831_DEV_POLL_STATE, 1, 0) ∧
    (taskRun sampleConfig (modelUtil 0x025B) (fun _ => quietEnv CL_APP_SUCCESS) 4 3
      pollStartNoDevs).map pollPosition = some (LTC831_DEV_POLL_STATE, 1, 1) ∧
    (taskRun sampleConfig (modelUtil 0x025B) (fun _ => quietEnv CL_APP_SUCCESS) 4 4
      pollStartNoDevs).map pollPosition = some (LTC831_DEV_POLL_STATE, 1, 2) ∧
    pollReg ltc831_pollAuxRegs 2 = LTC831_EOR ∧ LTC831_EOR = 0xFF ∧
    taskRunStatus sampleConfig (modelUtil 0x025B) (fun _ => quietEnv CL_APP_SUCCESS) 4 4
      pollStartNoDevs = some LTC_UNSUPPORTED_FEATURE ∧
    (taskRun sampleConfig (modelUtil 0x025B) (fun _ => quietEnv CL_APP_SUCCESS) 4 5
      pollStartNoDevs).map pollPosition = some (LTC831_DEV_POLL_STATE, 1, 3) ∧
    ltc831_pollAuxRegs.length = 3 ∧
    (taskRun sampleConfig (modelUtil 0x025B) (fun _ => quietEnv CL_APP_SUCCESS) 4 6
      pollStartNoDevs).map pollPosition = some (LTC831_DEV_POLL_STATE, 1, 4) := by
  refine ⟨?_, rfl, rfl, rfl, rfl, rfl, rfl, rfl, rfl, rfl, rfl, rfl, rfl⟩
  intro u pe d hdma hn
  obtain ⟨⟨a1, a2, _, a4, _⟩, ⟨b1, b2, _, b4, _⟩, ⟨c1, c2, _, c4, _⟩⟩ :=
    poll_read_no_devices u pe d hdma hn
  exact ⟨⟨a1, a2, a4⟩, ⟨b1, b2, b4⟩, ⟨c1, c2, c4⟩⟩

/-- `LTC831_checkAck` returns `LTC_ACK_FAILED` exactly when the acknowledge
bits of some slot are non-zero. -/
theorem checkAck_status (s : State) (hn : s.ltcParams.numDevs ≤ 256) :
    (LTC831_checkAck s).1 = LTC_ACK_FAILED ↔
      ∃ i, i < s.ltcParams.numDevs ∧ ackFailAt s.ltcFrames.cmdDataRx i = true := by
  have h := (checkAck_loop_result
    (effNumDevs { s with ltcFrames := { s.ltcFrames with rxNumDevs := 0 } })
    { s with ltcFrames := { s.ltcFrames with rxNumDevs := 0 } } s.ltcParams.numDevs hn).1
  unfold LTC831_checkAck
  simp only [LTC831_CMD_PKT_SIZE_B, ackFailAt, decide_eq_true_eq] at h ⊢
  exact h

/-- The status the classification block of `ltc831WriteCmd` returns: it is
`LTC_SUCCESS` when a break is recorded and the sum of the break indexes is
the requested device count, and the status it was entered with otherwise. -/
theorem writeResolve_status (st : LTC_STATUS_E) (s : State) :
    ((s.ltcParams.flags.doBreakDetect = true ∧
        ((s.ltcBreakData false).flags.breakString = true ∨
          (s.ltcBreakData true).flags.breakString = true) ∧
        ((s.ltcBreakData false).breakIdx + (s.ltcBreakData true).breakIdx) % 256 =
          s.reqNumDevs) →
      (ltc831WriteCmd_resolve st s).1 = LTC_SUCCESS) ∧
    (¬ (s.ltcParams.flags.doBreakDetect = true ∧
        ((s.ltcBreakData false).flags.breakString = true ∨
          (s.ltcBreakData true).flags.breakString = true) ∧
        ((s.ltcBreakData false).breakIdx + (s.ltcBreakData true).breakIdx) % 256 =
          s.reqNumDevs) →
      (ltc831WriteCmd_resolve st s).1 = st) := by
  unfold ltc831WriteCmd_resolve
  by_cases hc : s.ltcParams.flags.doBreakDetect = true ∧
      ((s.ltcBreakData false).flags.breakString = true ∨
        (s.ltcBreakData true).flags.breakString = true)
  · rw [if_pos hc]
    simp only
    constructor
    · intro he
      have hl : ¬ ((s.ltcBreakData false).breakIdx + (s.ltcBreakData true).breakIdx) % 256
          < s.reqNumDevs := by omega
      rw [if_neg hl, if_pos he.2.2]
    · intro hne
      have hne2 : ¬ ((s.ltcBreakData false).breakIdx + (s.ltcBreakData true).breakIdx) % 256
          = s.reqNumDevs := fun h => hne ⟨hc.1, hc.2, h⟩
      rw [if_neg hne2]
      split <;> rfl
  · rw [if_neg hc]
    constructor
    · intro he
      exact absurd ⟨he.1, he.2.1⟩ hc
    · intro _
      rfl

/-- The status of the block of `ltc831WriteCmd` behind a completed transfer,
for an acknowledged command with the ACK check requested, when the block does
not switch to the other direction: `LTC_SUCCESS` when a break is recorded and
the break indexes of the two directions add up to the requested device count,
else the verdict of `LTC831_checkAck`. -/
theorem writeComplete_status (n : Nat) (d : Option (Nat → Nat)) (st : LTC_STATUS_E) (s : State)
    (hack : (regMap s.ltcParams.addr).ack = true) (huse : s.ltcParams.flags.useAck = true)
    (hnd : s.ltcParams.numDevs ≤ 256)
    (hno : ¬ ((ackBreakAfter s.ltcFrames.cmdDataRx (s.ltcBreakData s.ltc831Flags.dir)
          s.ltcParams.numDevs).flags.ackError = true ∧
        s.ltc831Flags.didFirst = false ∧ s.ltcParams.flags.doBreakDetect = true)) :
    ((s.ltcParams.flags.doBreakDetect = true ∧
        (((ltc831WriteCmd_complete n d st s).2.ltcBreakData false).flags.breakString = true ∨
          ((ltc831WriteCmd_complete n d st s).2.ltcBreakData true).flags.breakString = true) ∧
        (((ltc831WriteCmd_complete n d st s).2.ltcBreakData false).breakIdx +
          ((ltc831WriteCmd_complete n d st s).2.ltcBreakData true).breakIdx) % 256 =
          s.reqNumDevs) →
      (ltc831WriteCmd_complete n d st s).1 = LTC_SUCCESS) ∧
    (¬ (s.ltcParams.flags.doBreakDetect = true ∧
        (((ltc831WriteCmd_complete n d st s).2.ltcBreakData false).flags.breakString = true ∨
          ((ltc831WriteCmd_complete n d st s).2.ltcBreakData true).flags.breakString = true) ∧
        (((ltc831WriteCmd_complete n d st s).2.ltcBreakData false).breakIdx +
          ((ltc831WriteCmd_complete n d st s).2.ltcBreakData true).breakIdx) % 256 =
          s.reqNumDevs) →
      ((ltc831WriteCmd_complete n d st s).1 = LTC_ACK_FAILED ↔
        ∃ i, i < s.ltcParams.numDevs ∧ ackFailAt s.ltcFrames.cmdDataRx i = true)) := by
  obtain ⟨k1, k2, k3, k4, k5, k6⟩ :=
    checkAck_spec { s with ltcFrames := { s.ltcFrames with rxNumDevs := n } }
  have kst := checkAck_status { s with ltcFrames := { s.ltcFrames with rxNumDevs := n } } hnd
  simp only at k2 k3 k4 k5 k6 kst
  generalize ackBreakAfter s.ltcFrames.cmdDataRx (s.ltcBreakData s.ltc831Flags.dir)
    s.ltcParams.numDevs = B at k2 hno
  generalize hr : ltc831WriteCmd_complete n d st s = r
  unfold ltc831WriteCmd_complete at hr
  simp only [hack, huse, and_self, if_true] at hr
  generalize LTC831_checkAck { s with ltcFrames := { s.ltcFrames with rxNumDevs := n } } = p
    at k1 k2 k3 k4 k5 k6 kst hr
  obtain ⟨ast, t⟩ := p
  simp only at k1 k2 k3 k4 k5 k6 kst hr
  have hcond : ¬ ((t.ltcBreakData t.ltc831Flags.dir).flags.ackError = true ∧
      ¬ t.ltc831Flags.didFirst = true ∧ t.ltcParams.flags.doBreakDetect = true) := by
    rw [k2, k5, k6]
    intro h
    apply hno
    simpa using h
  rw [if_neg hcond] at hr
  obtain ⟨q1, q2, q3, q4, _⟩ := writeResolve_spec ast
    { t with ltc831Flags := { t.ltc831Flags with didFirst := false } }
  obtain ⟨w1, w2⟩ := writeResolve_status ast
    { t with ltc831Flags := { t.ltc831Flags with didFirst := false } }
  simp only at q1 q2 q3 q4 w1 w2
  generalize ltc831WriteCmd_resolve ast
    { t with ltc831Flags := { t.ltc831Flags with didFirst := false } } = w
    at hr q1 q2 q3 q4 w1 w2
  have hbd : r.2.ltcBreakData = t.ltcBreakData := by
    subst hr
    cases d <;> simp [q3]
  have hst : r.1 = w.1 := by
    subst hr
    cases d <;> rfl
  rw [hbd, hst, ← k6, ← k4]
  constructor
  · intro h
    exact w1 h
  · intro h
    rw [w2 h, k6]
    exact kst

/-- The status of a call of `ltc831WriteCmd` for an acknowledged command with
the ACK check requested that does not switch to the other direction:
`LTC_SUCCESS` when a break is recorded and the break indexes of the two
directions add up to the requested device count, else `LTC_ACK_FAILED`
exactly when some slot of the response is not acknowledged. -/
theorem writeCmd_attempt_status (u : Util) (env : Env) (flags : LTC_PARAM_FLAGS_T)
    (n addr : Nat) (d : Option (Nat → Nat)) (s : State)
    (hdma : s.ltc831Flags.waitDMA = false) (hack : (regMap addr).ack = true)
    (huse : flags.useAck = true) (hn : n ≤ 256)
    (hc : flags.synchronous = true ∨ env.spiComplete = true)
    (hno : ¬ ((ackBreakAfter env.rx
        (if flags.doBreakDetect = true then freshBreak else s.ltcBreakData s.ltc831Flags.dir)
        n).flags.ackError = true ∧
      s.ltc831Flags.didFirst = false ∧ flags.doBreakDetect = true)) :
    ((flags.doBreakDetect = true ∧
        (((ltc831WriteCmd u env flags n addr d s).2.ltcBreakData false).flags.breakString = true ∨
          ((ltc831WriteCmd u env flags n addr d s).2.ltcBreakData true).flags.breakString
            = true) ∧
        (((ltc831WriteCmd u env flags n addr d s).2.ltcBreakData false).breakIdx +
          ((ltc831WriteCmd u env flags n addr d s).2.ltcBreakData true).breakIdx) % 256 =
          s.reqNumDevs) →
      (ltc831WriteCmd u env flags n addr d s).1 = LTC_SUCCESS) ∧
    (¬ (flags.doBreakDetect = true ∧
        (((ltc831WriteCmd u env flags n addr d s).2.ltcBreakData false).flags.breakString = true ∨
          ((ltc831WriteCmd u env flags n addr d s).2.ltcBreakData true).flags.breakString
            = true) ∧
        (((ltc831WriteCmd u env flags n addr d s).2.ltcBreakData false).breakIdx +
          ((ltc831WriteCmd u env flags n addr d s).2.ltcBreakData true).breakIdx) % 256 =
          s.reqNumDevs) →
      ((ltc831WriteCmd u env flags n addr d s).1 = LTC_ACK_FAILED ↔
        ∃ i, i < n ∧ ackFailAt env.rx i = true)) := by
  obtain ⟨p1, p2, p3, p4, p5, p6⟩ := writePrepare_spec u flags n addr d s hack
  generalize hr : ltc831WriteCmd u env flags n addr d s = r
  unfold ltc831WriteCmd at hr
  dsimp only at hr
  have hw : ¬ s.ltc831Flags.waitDMA = true := by simp [hdma]
  rw [if_pos hw] at hr
  generalize ltc831WriteCmd_prepare u flags n addr d s = P at p1 p2 p3 p4 p5 p6 hr
  obtain ⟨pst, P⟩ := P
  simp only at p1 p2 p3 p4 p5 p6 hr
  subst p1
  rw [if_pos rfl] at hr
  have hsync : P.ltcParams.flags.synchronous = true ∨ env.spiComplete = true := by
    rw [p2]; exact hc
  obtain ⟨s1, s2, s3, s4, s5, s6, s7, s8, s9, s10, s11⟩ :=
    sendCommandFrame_done env P (by rw [p3]; exact hdma) hsync
  generalize ltcSendCommandFrame env P = S at s1 s2 s3 s4 s5 s6 s7 s8 s9 s10 s11 hr
  obtain ⟨sst, S⟩ := S
  simp only at s1 s2 s3 s4 s5 s6 s7 s8 s9 s10 s11 hr
  subst s1
  rw [if_pos rfl] at hr
  have hSn : S.ltcParams.numDevs = n := by rw [s2, p2]
  have hSdir : S.ltc831Flags.dir = s.ltc831Flags.dir := by rw [s9, p3]
  have hSdid : S.ltc831Flags.didFirst = s.ltc831Flags.didFirst := by rw [s8, p3]
  have hSdet : S.ltcParams.flags.doBreakDetect = flags.doBreakDetect := by rw [s2, p2]
  have hSrx : S.ltcFrames.cmdDataRx = env.rx := by rw [s7]
  have hSb : S.ltcBreakData S.ltc831Flags.dir =
      (if flags.doBreakDetect = true then freshBreak else s.ltcBreakData s.ltc831Flags.dir) := by
    rw [s6, p6, hSdir]
    by_cases hdet : flags.doBreakDetect = true <;> simp [hdet]
  have hview : ackBreakAfter S.ltcFrames.cmdDataRx (S.ltcBreakData S.ltc831Flags.dir)
      S.ltcParams.numDevs = ackBreakAfter env.rx
        (if flags.doBreakDetect = true then freshBreak else s.ltcBreakData s.ltc831Flags.dir)
        n := by
    rw [hSb, hSn, hSrx]
  obtain ⟨c1, c2⟩ := writeComplete_status n d LTC_SUCCESS S
    (by rw [s2, p2]; exact hack) (by rw [s2, p2]; exact huse) (by rw [hSn]; exact hn)
    (by rw [hview, hSdid, hSdet]; exact hno)
  rw [hSdet, s4, p4] at c1 c2
  rw [hSn, hSrx] at c2
  subst hr
  exact ⟨c1, c2⟩

/-- The status of an ACK-checked, break-detecting write after its two
directional attempts, in the flow in which both transfers complete within
their calls.  Take an acknowledged command written with the ACK check and
break detection for `n < 256` devices, `n` being the requested
device count `ltc831ReqParamFlags.numDevs` (every call of the driver passes
that count), whose first call returns `LTC_DEFERRED` to try the other
direction.  When the second call leaves `breakString` set in some direction
and `breakIdx[A] + breakIdx[B] = n`, it returns `LTC_SUCCESS`, not
`LTC_ACK_FAILED`, with `packApi.flags.breakDetected` set; when the sum differs
from `n` and some slot of the second response is not acknowledged, it returns
`LTC_ACK_FAILED`. -/
theorem writeCmd_break_sum_status (u : Util) (env1 env2 : Env) (flags : LTC_PARAM_FLAGS_T)
    (n addr : Nat) (d : Option (Nat → Nat)) (s0 : State)
    (hdma : s0.ltc831Flags.waitDMA = false)
    (hdet : flags.doBreakDetect = true) (hack : (regMap addr).ack = true)
    (huse : flags.useAck = true) (hn : n < 256) (hreq : s0.reqNumDevs = n)
    (hc1 : flags.synchronous = true ∨ env1.spiComplete = true)
    (hc2 : flags.synchronous = true ∨ env2.spiComplete = true)
    (hdef : (ltc831WriteCmd u env1 flags n addr d s0).1 = LTC_DEFERRED) :
    (((((ltc831WriteCmd u env2 flags n addr d
            (ltc831WriteCmd u env1 flags n addr d s0).2).2.ltcBreakData false).flags.breakString
          = true ∨
        ((ltc831WriteCmd u env2 flags n addr d
            (ltc831WriteCmd u env1 flags n addr d s0).2).2.ltcBreakData true).flags.breakString
          = true) ∧
        ((ltc831WriteCmd u env2 flags n addr d
            (ltc831WriteCmd u env1 flags n addr d s0).2).2.ltcBreakData false).breakIdx +
          ((ltc831WriteCmd u env2 flags n addr d
            (ltc831WriteCmd u env1 flags n addr d s0).2).2.ltcBreakData true).breakIdx = n) →
      (ltc831WriteCmd u env2 flags n addr d
        (ltc831WriteCmd u env1 flags n addr d s0).2).1 = LTC_SUCCESS ∧
      (ltc831WriteCmd u env2 flags n addr d
        (ltc831WriteCmd u env1 flags n addr d s0).2).1 ≠ LTC_ACK_FAILED ∧
      (ltc831WriteCmd u env2 flags n addr d
        (ltc831WriteCmd u env1 flags n addr d s0).2).2.packApi.flags.breakDetected = true) ∧
    ((((ltc831WriteCmd u env2 flags n addr d
            (ltc831WriteCmd u env1 flags n addr d s0).2).2.ltcBreakData false).breakIdx +
          ((ltc831WriteCmd u env2 flags n addr d
            (ltc831WriteCmd u env1 flags n addr d s0).2).2.ltcBreakData true).breakIdx ≠ n ∧
        ∃ i, i < n ∧ ackFailAt env2.rx i = true) →
      (ltc831WriteCmd u env2 flags n addr d
        (ltc831WriteCmd u env1 flags n addr d s0).2).1 = LTC_ACK_FAILED) := by
  have hpack := writeCmd_two_attempts u env1 env2 flags n addr d s0 hdma hdet hack huse hc1 hc2
    hdef
  have hleA := writeCmd_two_attempts_breakIdx_le u env1 env2 flags n addr d s0 hdma hdet hack
    huse hc1 hc2 hdef false
  have hleB := writeCmd_two_attempts_breakIdx_le u env1 env2 flags n addr d s0 hdma hdet hack
    huse hc1 hc2 hdef true
  obtain ⟨a1, a2, a3, a4, a5, a6, a7⟩ := writeCmd_attempt u env1 flags n addr d s0 _ hdma hack
    huse hc1 rfl
  have hdid : (ltc831WriteCmd u env1 flags n addr d s0).2.ltc831Flags.didFirst = true := by
    by_cases hcond : ((ackBreakAfter env1.rx
        (if flags.doBreakDetect = true then freshBreak else s0.ltcBreakData s0.ltc831Flags.dir)
        n).flags.ackError = true ∧ s0.ltc831Flags.didFirst = false ∧ flags.doBreakDetect = true)
    · exact (a1 hcond).2.1
    · exact absurd hdef (a2 hcond).1
  generalize ltc831WriteCmd u env1 flags n addr d s0 = r1 at hpack hleA hleB a4 a6 hdid
  obtain ⟨b1, b2⟩ := writeCmd_attempt_status u env2 flags n addr d r1.2 a4 hack huse (by omega)
    hc2 (by rw [hdid]; simp)
  rw [a6, hreq] at b1 b2
  rw [hreq] at hpack
  obtain ⟨v1, _⟩ := resolvePack_verdict n (ltc831WriteCmd u env2 flags n addr d r1.2).2
    s0.packApi hpack
  generalize ltc831WriteCmd u env2 flags n addr d r1.2 = F at b1 b2 v1 hleA hleB
  constructor
  · rintro ⟨hbs, hsum⟩
    have hmod : ((F.2.ltcBreakData false).breakIdx + (F.2.ltcBreakData true).breakIdx) % 256
        = n := by
      rw [hsum]; exact Nat.mod_eq_of_lt hn
    have hS := b1 ⟨hdet, hbs, hmod⟩
    refine ⟨hS, ?_, ((v1 hbs).2.1 hmod).1⟩
    rw [hS]
    decide
  · rintro ⟨hsum, hfail⟩
    have hmod : ¬ ((F.2.ltcBreakData false).breakIdx + (F.2.ltcBreakData true).breakIdx) % 256
        = n := by
      omega
    exact (b2 (fun h => hmod h.2.2)).mpr hfail

set_option maxRecDepth 100000 in
/-- Sample of the flow in which both transfers complete within their calls:
a synchronous SNAP broadcast to two devices with the ACK check and break
detection.  With slot 1 not acknowledged in either direction the break
indexes are 1 and 1 and the second call returns `LTC_SUCCESS` with
`breakDetected`; with slot 0 failing in direction A and slot 1 in direction B
they are 2 and 1 and the second call returns `LTC_ACK_FAILED`. -/
theorem writeCmd_break_sum_status_witness :
    ((ltc831WriteCmd (modelUtil 0x025B) (envOf [0, 0, 0x30]) ackDetectFlags 2 LTC831_SNAP_CMD none
        (ltc831WriteCmd (modelUtil 0x025B) (envOf [0, 0, 0x30]) ackDetectFlags 2 LTC831_SNAP_CMD
          none (requestState 2)).2).1 = LTC_SUCCESS ∧
      (ltc831WriteCmd (modelUtil 0x025B) (envOf [0, 0, 0x30]) ackDetectFlags 2 LTC831_SNAP_CMD none
        (ltc831WriteCmd (modelUtil 0x025B) (envOf [0, 0, 0x30]) ackDetectFlags 2 LTC831_SNAP_CMD
          none (requestState 2)).2).2.packApi.flags.breakDetected = true ∧
      ackFailAt (envOf [0, 0, 0x30]).rx 1 = true) ∧
    (ltc831WriteCmd (modelUtil 0x025B) (envOf [0, 0, 0x30]) ackDetectFlags 2 LTC831_SNAP_CMD none
        (ltc831WriteCmd (modelUtil 0x025B) (envOf [0, 0, 0xC0]) ackDetectFlags 2 LTC831_SNAP_CMD
          none (requestState 2)).2).1 = LTC_ACK_FAILED :=
  ⟨⟨((writeCmd_break_sum_status (modelUtil 0x025B) (envOf [0, 0, 0x30]) (envOf [0, 0, 0x30])
        ackDetectFlags 2 LTC831_SNAP_CMD none (requestState 2) rfl rfl (by decide) rfl
        (by decide) rfl (Or.inl rfl) (Or.inl rfl) rfl).1 ⟨Or.inl rfl, rfl⟩).1,
     ((writeCmd_break_sum_status (modelUtil 0x025B) (envOf [0, 0, 0x30]) (envOf [0, 0, 0x30])
        ackDetectFlags 2 LTC831_SNAP_CMD none (requestState 2) rfl rfl (by decide) rfl
        (by decide) rfl (Or.inl rfl) (Or.inl rfl) rfl).1 ⟨Or.inl rfl, rfl⟩).2.2,
     by decide⟩,
   (writeCmd_break_sum_status (modelUtil 0x025B) (envOf [0, 0, 0xC0]) (envOf [0, 0, 0x30])
      ackDetectFlags 2 LTC831_SNAP_CMD none (requestState 2) rfl rfl (by decide) rfl
      (by decide) rfl (Or.inl rfl) (Or.inl rfl) rfl).2
      ⟨by decide, ⟨1, by decide, by decide⟩⟩⟩

/-- The shape of one step of sub-states 0, 2, 3, 5, 6 and 7 of the poll. -/
theorem poll_single_command_step (u : Util) (pe : PassEnv) (d : Driver) :
    (((ltc831Task_poll0 u pe d LTC_SUCCESS).1.ltc831SubState = d.ltc831SubState ∨
        (ltc831Task_poll0 u pe d LTC_SUCCESS).1.ltc831SubState = (d.ltc831SubState + 1) % 256) ∧
      (ltc831Task_poll0 u pe d LTC_SUCCESS).1.ltc831RegAddr = d.ltc831RegAddr ∧
      (ltc831Task_poll0 u pe d LTC_SUCCESS).1.ltc831State = d.ltc831State ∧
      ((ltc831Task_poll0 u pe d LTC_SUCCESS).2 = LTC_DEFERRED →
        (ltc831Task_poll0 u pe d LTC_SUCCESS).1.ltc831SubState = d.ltc831SubState)) ∧
    (((ltc831Task_poll2 u pe d).1.ltc831SubState = d.ltc831SubState ∨
        (ltc831Task_poll2 u pe d).1.ltc831SubState = (d.ltc831SubState + 1) % 256) ∧
      (ltc831Task_poll2 u pe d).1.ltc831State = d.ltc831State ∧
      ((ltc831Task_poll2 u pe d).2 = LTC_DEFERRED →
        (ltc831Task_poll2 u pe d).1.ltc831SubState = d.ltc831SubState ∧
        (ltc831Task_poll2 u pe d).1.ltc831RegAddr = d.ltc831RegAddr)) ∧
    (((ltc831Task_poll3 u pe d).1.ltc831SubState = d.ltc831SubState ∨
        (ltc831Task_poll3 u pe d).1.ltc831SubState = (d.ltc831SubState + 1) % 256) ∧
      (ltc831Task_poll3 u pe d).1.ltc831RegAddr = d.ltc831RegAddr ∧
      (ltc831Task_poll3 u pe d).1.ltc831State = d.ltc831State ∧
      ((ltc831Task_poll3 u pe d).2 = LTC_DEFERRED →
        (ltc831Task_poll3 u pe d).1.ltc831SubState = d.ltc831SubState)) ∧
    (((ltc831Task_poll5 u pe d).1.ltc831SubState = d.ltc831SubState ∨
        (ltc831Task_poll5 u pe d).1.ltc831SubState = (d.ltc831SubState + 1) % 256) ∧
      (ltc831Task_poll5 u pe d).1.ltc831RegAddr = d.ltc831RegAddr ∧
      (ltc831Task_poll5 u pe d).1.ltc831State = d.ltc831State ∧
      ((ltc831Task_poll5 u pe d).2 = LTC_DEFERRED →
        (ltc831Task_poll5 u pe d).1.ltc831SubState = d.ltc831SubState)) ∧
    ((ltc831Task_poll6 pe d LTC_SUCCESS).1.ltc831SubState = (d.ltc831SubState + 1) % 256 ∧
      (ltc831Task_poll6 pe d LTC_SUCCESS).1.ltc831RegAddr = d.ltc831RegAddr ∧
      (ltc831Task_poll6 pe d LTC_SUCCESS).1.ltc831State = d.ltc831State ∧
      (ltc831Task_poll6 pe d LTC_SUCCESS).2 ≠ LTC_DEFERRED) ∧
    ((ltc831Task_poll7 u pe d).1.ltc831SubState = d.ltc831SubState ∧
      (ltc831Task_poll7 u pe d).1.ltc831RegAddr = d.ltc831RegAddr ∧
      ((ltc831Task_poll7 u pe d).2 = LTC_DEFERRED →
        (ltc831Task_poll7 u pe d).1.ltc831State = d.ltc831State)) := by
  refine ⟨?_, ?_, ?_, ?_, ?_, ?_⟩
  · unfold ltc831Task_poll0
    simp only
    generalize ltc831WriteCmd u pe.first _ _ LTC831_MUTE_CMD none _ = r
    cases hd : d.eng.ltc831Flags.didFirst <;> cases ha : d.eng.ltc831Flags.activeBalance <;>
      by_cases hr : r.1 = LTC_DEFERRED <;>
      simp [Driver.withEng, Driver.modFlags, hd, ha, hr] <;>
      split <;> simp
  · unfold ltc831Task_poll2
    simp only
    generalize ltc831ReadCmd u pe.first _ _ _ _ none _ = r
    by_cases hr : r.1 = LTC_DEFERRED
    · simp [Driver.withEng, Driver.modFlags, hr]
    · simp only [Driver.withEng, Driver.modFlags, hr, ne_eq, not_false_eq_true, if_true]
      split <;> simp [hr]
  · unfold ltc831Task_poll3
    simp only
    generalize ltc831WriteCmd u pe.first _ _ LTC831_SNAP_CMD none _ = r
    by_cases hr : r.1 = LTC_DEFERRED <;> simp [Driver.withEng, Driver.modFlags, hr]
  · unfold ltc831Task_poll5
    simp only
    generalize ltc831ReadCmd u pe.first _ _ _ _ none _ = r
    by_cases hr : r.1 = LTC_DEFERRED <;> simp [Driver.withEng, Driver.modFlags, hr]
  · unfold ltc831Task_poll6
    simp only [Driver.modFlags, Driver.emit, true_and]
    split <;> decide
  · unfold ltc831Task_poll7
    simp only
    generalize ltc831WriteCmd u pe.first _ _ LTC831_WRCFG_CMD _ _ = r
    by_cases hr : r.1 = LTC_DEFERRED <;> simp [Driver.withEng, Driver.modFlags, hr]

/-- The shape of one step of sub-states 1 and 4 of the poll, which read a
register of their list and send a broadcast after the last one. -/
theorem poll_two_command_step (u : Util) (pe : PassEnv) (d : Driver) :
    (((ltc831Task_poll1 u pe d).1.ltc831SubState = d.ltc831SubState ∨
        (ltc831Task_poll1 u pe d).1.ltc831SubState = (d.ltc831SubState + 1) % 256) ∧
      (ltc831Task_poll1 u pe d).1.ltc831State = d.ltc831State ∧
      ((ltc831Task_poll1 u pe d).2 = LTC_DEFERRED →
        (ltc831Task_poll1 u pe d).1.ltc831SubState = d.ltc831SubState) ∧
      ((ltc831ReadCmd u pe.first (pollReadFlags d) d.clTransaction.req.tag
          (d.ltc831ReqParamFlags.numDevs &&& 0xFF)
          (pollReg ltc831_pollAuxRegs d.ltc831RegAddr) none d.eng).1 = LTC_DEFERRED →
        (ltc831Task_poll1 u pe d).2 = LTC_DEFERRED ∧
        (ltc831Task_poll1 u pe d).1.ltc831RegAddr = d.ltc831RegAddr)) ∧
    (((ltc831Task_poll4 u pe d).1.ltc831SubState = d.ltc831SubState ∨
        (ltc831Task_poll4 u pe d).1.ltc831SubState = (d.ltc831SubState + 1) % 256) ∧
      (ltc831Task_poll4 u pe d).1.ltc831State = d.ltc831State ∧
      ((ltc831Task_poll4 u pe d).2 = LTC_DEFERRED →
        (ltc831Task_poll4 u pe d).1.ltc831SubState = d.ltc831SubState) ∧
      ((ltc831ReadCmd u pe.first (pollReadFlags d) d.clTransaction.req.tag
          (d.ltc831ReqParamFlags.numDevs &&& 0xFF)
          (pollReg ltc831_pollRegs d.ltc831RegAddr) none d.eng).1 = LTC_DEFERRED →
        (ltc831Task_poll4 u pe d).2 = LTC_DEFERRED ∧
        (ltc831Task_poll4 u pe d).1.ltc831RegAddr = d.ltc831RegAddr)) := by
  constructor
  · unfold ltc831Task_poll1 ltc831Task_pollAdvance
    simp only
    generalize ltc831ReadCmd u pe.first (pollReadFlags d) d.clTransaction.req.tag
      (d.ltc831ReqParamFlags.numDevs &&& 0xFF) (pollReg ltc831_pollAuxRegs d.ltc831RegAddr)
      none d.eng = r
    generalize ltc831WriteCmd u pe.second _ _ LTC831_PRIMEN_CMD none _ = w
    by_cases hr : r.1 = LTC_DEFERRED
    · simp [Driver.withEng, Driver.modFlags, hr]
    · simp only [Driver.withEng, Driver.modFlags, hr, ne_eq, not_false_eq_true, if_true,
        false_implies, and_true]
      by_cases hw : w.1 = LTC_DEFERRED <;> split_ifs <;> simp_all
  · unfold ltc831Task_poll4 ltc831Task_pollAdvance
    simp only
    generalize ltc831ReadCmd u pe.first (pollReadFlags d) d.clTransaction.req.tag
      (d.ltc831ReqParamFlags.numDevs &&& 0xFF) (pollReg ltc831_pollRegs d.ltc831RegAddr)
      none d.eng = r
    generalize ltc831WriteCmd u pe.second _ _ LTC831_UNMUTE_CMD none _ = w
    by_cases hr : r.1 = LTC_DEFERRED
    · simp [Driver.withEng, Driver.modFlags, hr]
    · simp only [Driver.withEng, Driver.modFlags, hr, ne_eq, not_false_eq_true, if_true,
        false_implies, and_true]
      by_cases hw : w.1 = LTC_DEFERRED <;> split_ifs <;> simp_all

/-- One step of the poll that does not start a cycle: the sub-state stays or
goes up by one; when the step returns `LTC_DEFERRED` the sub-state and the
outer state stay, and outside sub-states 1 and 4 so does `ltc831RegAddr`. -/
theorem poll_step_shape (u : Util) (pe : PassEnv) (d : Driver)
    (hns : d.eng.ltc831Flags.newState = false) :
    ((ltc831Task_poll u pe d LTC_SUCCESS).1.ltc831SubState = d.ltc831SubState ∨
      (ltc831Task_poll u pe d LTC_SUCCESS).1.ltc831SubState = d.ltc831SubState + 1) ∧
    ((ltc831Task_poll u pe d LTC_SUCCESS).2 = LTC_DEFERRED →
      (ltc831Task_poll u pe d LTC_SUCCESS).1.ltc831SubState = d.ltc831SubState ∧
      (ltc831Task_poll u pe d LTC_SUCCESS).1.ltc831State = d.ltc831State ∧
      (d.ltc831SubState ≠ 1 → d.ltc831SubState ≠ 4 →
        (ltc831Task_poll u pe d LTC_SUCCESS).1.ltc831RegAddr = d.ltc831RegAddr)) := by
  obtain ⟨⟨a1, a2, a3, a4⟩, ⟨b1, b3, b4⟩, ⟨c1, c2, c3, c4⟩, ⟨e1, e2, e3, e4⟩,
    ⟨f1, f2, f3, f4⟩, ⟨g1, g2, g4⟩⟩ := poll_single_command_step u pe d
  obtain ⟨⟨p1, p3, p4, _⟩, ⟨q1, q3, q4, _⟩⟩ := poll_two_command_step u pe d
  have hk : d.ltc831SubState = 0 ∨ d.ltc831SubState = 1 ∨ d.ltc831SubState = 2 ∨
      d.ltc831SubState = 3 ∨ d.ltc831SubState = 4 ∨ d.ltc831SubState = 5 ∨
      d.ltc831SubState = 6 ∨ d.ltc831SubState = 7 ∨ 8 ≤ d.ltc831SubState := by omega
  rcases hk with h | h | h | h | h | h | h | h | h
  · have e : ltc831Task_poll u pe d LTC_SUCCESS = ltc831Task_poll0 u pe d LTC_SUCCESS := by
      unfold ltc831Task_poll; simp [hns, h]
    rw [e]
    rw [h] at a1 a4 ⊢
    exact ⟨a1, fun hd => ⟨a4 hd, a3, fun _ _ => a2⟩⟩
  · have e : ltc831Task_poll u pe d LTC_SUCCESS = ltc831Task_poll1 u pe d := by
      unfold ltc831Task_poll; simp [hns, h]
    rw [e]
    rw [h] at p1 p4 ⊢
    exact ⟨p1, fun hd => ⟨p4 hd, p3, fun h1 _ => absurd rfl h1⟩⟩
  · have e : ltc831Task_poll u pe d LTC_SUCCESS = ltc831Task_poll2 u pe d := by
      unfold ltc831Task_poll; simp [hns, h]
    rw [e]
    rw [h] at b1 b4 ⊢
    exact ⟨b1, fun hd => ⟨(b4 hd).1, b3, fun _ _ => (b4 hd).2⟩⟩
  · have e : ltc831Task_poll u pe d LTC_SUCCESS = ltc831Task_poll3 u pe d := by
      unfold ltc831Task_poll; simp [hns, h]
    rw [e]
    rw [h] at c1 c4 ⊢
    exact ⟨c1, fun hd => ⟨c4 hd, c3, fun _ _ => c2⟩⟩
  · have e : ltc831Task_poll u pe d LTC_SUCCESS = ltc831Task_poll4 u pe d := by
      unfold ltc831Task_poll; simp [hns, h]
    rw [e]
    rw [h] at q1 q4 ⊢
    exact ⟨q1, fun hd => ⟨q4 hd, q3, fun _ h4 => absurd rfl h4⟩⟩
  · have e : ltc831Task_poll u pe d LTC_SUCCESS = ltc831Task_poll5 u pe d := by
      unfold ltc831Task_poll; simp [hns, h]
    rw [e]
    rw [h] at e1 e4 ⊢
    exact ⟨e1, fun hd => ⟨e4 hd, e3, fun _ _ => e2⟩⟩
  · have e : ltc831Task_poll u pe d LTC_SUCCESS = ltc831Task_poll6 pe d LTC_SUCCESS := by
      unfold ltc831Task_poll; simp [hns, h]
    rw [e]
    rw [h] at f1 ⊢
    exact ⟨Or.inr f1, fun hd => absurd hd f4⟩
  · have e : ltc831Task_poll u pe d LTC_SUCCESS = ltc831Task_poll7 u pe d := by
      unfold ltc831Task_poll; simp [hns, h]
    rw [e]
    exact ⟨Or.inl g1, fun hd => ⟨g1, g4 hd, fun _ _ => g2⟩⟩
  · have e : ltc831Task_poll u pe d LTC_SUCCESS = (d, LTC_SUCCESS) := by
      unfold ltc831Task_poll
      simp only [hns, Bool.false_eq_true, if_false]
      split <;> first | omega | rfl
    rw [e]
    refine ⟨Or.inl rfl, fun hd => ?_⟩
    simp at hd

set_option maxRecDepth 100000 in
/-- C32: a poll step whose PRIMEN or UNMUTE broadcast returns `LTC_DEFERRED`
changes `ltc831RegAddr`.  Sub-states 1 and 4 increment `ltc831RegAddr` after
the read and send the broadcast in the same step; sub-state 1 then executes
`ltc831RegAddr = 0U` whether or not the broadcast was deferred, and sub-state
4 keeps the incremented index.  With balancing on and an asynchronous
request for two devices, the step at sub-state 1, index 1 whose PRIMEN is
deferred ends at index 0, and the step at sub-state 4, index 6 whose UNMUTE
is deferred ends at index 7, the position of the end-of-list marker.  What
holds: in a step that does not start a cycle the sub-state stays or goes up
by one; when the step returns `LTC_DEFERRED` the sub-state and the outer
state stay, and `ltc831RegAddr` stays in sub-states other than 1 and 4 and in
sub-states 1 and 4 when it is the read that is deferred. -/
theorem poll_deferred_broadcast_moves_index :
    (∀ (u : Util) (pe : PassEnv) (d : Driver), d.eng.ltc831Flags.newState = false →
      ((ltc831Task_poll u pe d LTC_SUCCESS).1.ltc831SubState = d.ltc831SubState ∨
        (ltc831Task_poll u pe d LTC_SUCCESS).1.ltc831SubState = d.ltc831SubState + 1) ∧
      ((ltc831Task_poll u pe d LTC_SUCCESS).2 = LTC_DEFERRED →
        (ltc831Task_poll u pe d LTC_SUCCESS).1.ltc831SubState = d.ltc831SubState ∧
        (ltc831Task_poll u pe d LTC_SUCCESS).1.ltc831State = d.ltc831State ∧
        (d.ltc831SubState ≠ 1 → d.ltc831SubState ≠ 4 →
          (ltc831Task_poll u pe d LTC_SUCCESS).1.ltc831RegAddr = d.ltc831RegAddr))) ∧
    (∀ (u : Util) (pe : PassEnv) (d : Driver),
      (ltc831ReadCmd u pe.first (pollReadFlags d) d.clTransaction.req.tag
          (d.ltc831ReqParamFlags.numDevs &&& 0xFF)
          (pollReg ltc831_pollAuxRegs d.ltc831RegAddr) none d.eng).1 = LTC_DEFERRED →
        (ltc831Task_poll1 u pe d).2 = LTC_DEFERRED ∧
        (ltc831Task_poll1 u pe d).1.ltc831RegAddr = d.ltc831RegAddr) ∧
    (∀ (u : Util) (pe : PassEnv) (d : Driver),
      (ltc831ReadCmd u pe.first (pollReadFlags d) d.clTransaction.req.tag
          (d.ltc831ReqParamFlags.numDevs &&& 0xFF)
          (pollReg ltc831_pollRegs d.ltc831RegAddr) none d.eng).1 = LTC_DEFERRED →
        (ltc831Task_poll4 u pe d).2 = LTC_DEFERRED ∧
        (ltc831Task_poll4 u pe d).1.ltc831RegAddr = d.ltc831RegAddr) ∧
    ((ltc831ClCmdStart sampleConfig (fun _ => false)
        (ltc831SetActiveBalance true (zeroDriver asyncPollReq))).1 = CL_APP_DEFERRED ∧
      balancingStart.eng.ltc831Flags.activeBalance = true ∧
      balancingStart.ltc831ReqParamFlags.synchronous = false ∧
      balancingStart.ltc831ReqParamFlags.numDevs = 2) ∧
    ((taskRun sampleConfig (modelUtil 0x025B) (broadcastDeferredAt 3) 4 3
        balancingStart).map pollPosition = some (LTC831_DEV_POLL_STATE, 1, 1) ∧
      taskRunStatus sampleConfig (modelUtil 0x025B) (broadcastDeferredAt 3) 4 3
        balancingStart = some LTC_DEFERRED ∧
      (taskRun sampleConfig (modelUtil 0x025B) (broadcastDeferredAt 3) 4 4
        balancingStart).map pollPosition = some (LTC831_DEV_POLL_STATE, 1, 0)) ∧
    ((taskRun sampleConfig (modelUtil 0x025B) (broadcastDeferredAt 12) 4 12
        balancingStart).map pollPosition = some (LTC831_DEV_POLL_STATE, 4, 6) ∧
      taskRunStatus sampleConfig (modelUtil 0x025B) (broadcastDeferredAt 12) 4 12
        balancingStart = some LTC_DEFERRED ∧
      (taskRun sampleConfig (modelUtil 0x025B) (broadcastDeferredAt 12) 4 13
        balancingStart).map pollPosition = some (LTC831_DEV_POLL_STATE, 4, 7) ∧
      pollReg ltc831_pollRegs 7 = LTC831_EOR) := by
  refine ⟨?_, ?_, ?_, ⟨rfl, rfl, rfl, rfl⟩, ⟨rfl, rfl, rfl⟩, ⟨rfl, rfl, rfl, rfl⟩⟩
  · intro u pe d hns
    exact poll_step_shape u pe d hns
  · intro u pe d h
    exact (poll_two_command_step u pe d).1.2.2.2 h
  · intro u pe d h
    exact (poll_two_command_step u pe d).2.2.2.2 h

theorem wakeLog_append (a b : List Event) : wakeLog (a ++ b) = wakeLog a ++ wakeLog b := by
  unfold wakeLog
  exact List.filterMap_append _ _ _

/-- An invocation of `ltc831Task` released by the expiry of `LTC_OS_TIMER_1`
whose first pass leaves `running` clear returns after that pass. -/
theorem task_first_run_timer (cfg : Config) (u : Util) (te : TaskEnv) (fuel : Nat) (d : Driver)
    (hv : d.clTransaction.reqValid = true) (hte : te.osTimerExpired = true)
    (hrun : (ltc831Task_first cfg u te d).1.eng.ltc831Flags.running = false) :
    ltc831Task cfg u te (fuel + 1) d = some (ltc831Task_first cfg u te d).1 := by
  have e : ltc831Task_pass cfg u (te.pass 0)
      ((d.modFlags (fun f => { f with newEntry := false })).modFlags
        (fun f => { f with running := true })) LTC_SUCCESS = ltc831Task_first cfg u te d := rfl
  unfold ltc831Task
  simp only [hv, hte, not_true_eq_false, false_and, and_false, or_self, if_false, ltc831Task_loop,
    e, hrun, Bool.false_eq_true]

/-- An invocation of `ltc831Task` released by the expiry of `LTC_OS_TIMER_1`
whose first pass leaves `running` set and whose second pass clears it returns
after the second pass. -/
theorem task_second_run_timer (cfg : Config) (u : Util) (te : TaskEnv) (fuel : Nat) (d : Driver)
    (hv : d.clTransaction.reqValid = true) (hte : te.osTimerExpired = true)
    (hrun : (ltc831Task_first cfg u te d).1.eng.ltc831Flags.running = true)
    (hrun2 : (ltc831Task_pass cfg u (te.pass 1) (ltc831Task_first cfg u te d).1
      (ltc831Task_first cfg u te d).2).1.eng.ltc831Flags.running = false) :
    ltc831Task cfg u te (fuel + 2) d =
      some (ltc831Task_pass cfg u (te.pass 1) (ltc831Task_first cfg u te d).1
        (ltc831Task_first cfg u te d).2).1 := by
  have e : ltc831Task_pass cfg u (te.pass 0)
      ((d.modFlags (fun f => { f with newEntry := false })).modFlags
        (fun f => { f with running := true })) LTC_SUCCESS = ltc831Task_first cfg u te d := rfl
  unfold ltc831Task
  simp only [hv, hte, not_true_eq_false, false_and, and_false, or_self, if_false, ltc831Task_loop,
    e, hrun, hrun2, Bool.false_eq_true, if_true, zero_add]

/-- The first pass of an invocation in the WAKEUP state is the case
`LTC831_WAKEUP_STATE` behind the head of the loop. -/
theorem first_wakeup (cfg : Config) (u : Util) (te : TaskEnv) (d : Driver)
    (hst : d.ltc831State = LTC831_WAKEUP_STATE) :
    ltc831Task_first cfg u te d = (ltc831Task_wakeup (ltc831Task_entry d), LTC_SUCCESS) := by
  have h : (ltc831Task_entry d).ltc831State = LTC831_WAKEUP_STATE := by
    unfold ltc831Task_entry
    rw [(enter_frame _).1]
    exact hst
  unfold ltc831Task_first ltc831Task_switch
  rw [h]

/-- A pass of the loop in the WAKEUP state is the case `LTC831_WAKEUP_STATE`
behind the head of the loop. -/
theorem pass_wakeup (cfg : Config) (u : Util) (pe : PassEnv) (d : Driver) (st : LTC_STATUS_E)
    (hst : d.ltc831State = LTC831_WAKEUP_STATE) :
    ltc831Task_pass cfg u pe d st = (ltc831Task_wakeup (ltc831Task_enter d), st) := by
  have h : (ltc831Task_enter d).ltc831State = LTC831_WAKEUP_STATE := by
    rw [(enter_frame _).1]
    exact hst
  unfold ltc831Task_pass ltc831Task_switch
  rw [h]

/-- One pulse of the WAKEUP state: below the pulse count `numDevs + 1` the
pass sends the SNAP frame, selects the port of the direction, counts the
pulse and leaves `running` clear. -/
theorem wakeup_pulse (d0 X : Driver) (dir didFirst : Bool) (k : Nat) (items : List WakeItem)
    (h : WakeAt d0 dir didFirst k items X)
    (hns : X.eng.ltc831Flags.newState = false)
    (hrun : X.eng.ltc831Flags.running = false)
    (hk : k < d0.ltc831ReqParamFlags.numDevs + 1) :
    WakeAt d0 dir didFirst ((k + 1) % 256) (items ++ wakePass dir) (ltc831Task_wakeup X) ∧
    (ltc831Task_wakeup X).eng.ltc831Flags.running = false := by
  obtain ⟨h1, h2, h3, h4, h5, h6, h7, h8, h9, h10⟩ := h
  have hk2 : X.ltc831SubState < X.ltc831ReqParamFlags.numDevs + 1 := by rw [h3, h7]; exact hk
  unfold ltc831Task_wakeup WakeAt
  simp only [hns, Bool.false_eq_true, if_false, hk2, if_true]
  unfold wakeLog at h10
  simp [Driver.withEng, Driver.emit, State.emit, h1, h2, h3, h4, h5, h6, h7, h8, h9, h10, hrun,
    wakeLog, Event.wakeItem, wakePass, setAt, LTC831_SNAP_CMD]

/-- The head of the loop keeps a driver inside the WAKEUP state where it is,
with `newState` and `running` clear. -/
theorem enter_wake (d0 d : Driver) (dir didFirst : Bool) (k : Nat) (items : List WakeItem)
    (h : WakeAt d0 dir didFirst k items d) :
    WakeAt d0 dir didFirst k items (ltc831Task_enter d) ∧
    (ltc831Task_enter d).eng.ltc831Flags.newState = false ∧
    (ltc831Task_enter d).eng.ltc831Flags.running = false := by
  obtain ⟨h1, h2, h3, h4, h5, h6, h7, h8, h9, h10⟩ := h
  unfold ltc831Task_enter WakeAt
  simp [Driver.modFlags, h1, h2, h3, h4, h5, h6, h7, h8, h9, h10]

/-- The entry code of `ltc831Task` and the head of the loop keep a driver
inside the WAKEUP state where it is, with `newState` and `running` clear. -/
theorem entry_wake (d0 d : Driver) (dir didFirst : Bool) (k : Nat) (items : List WakeItem)
    (h : WakeAt d0 dir didFirst k items d) :
    WakeAt d0 dir didFirst k items (ltc831Task_entry d) ∧
    (ltc831Task_entry d).eng.ltc831Flags.newState = false ∧
    (ltc831Task_entry d).eng.ltc831Flags.running = false := by
  unfold ltc831Task_entry
  apply enter_wake
  obtain ⟨h1, h2, h3, h4, h5, h6, h7, h8, h9, h10⟩ := h
  unfold WakeAt
  simp [Driver.modFlags, h1, h2, h3, h4, h5, h6, h7, h8, h9, h10]

/-- The first pass of the WAKEUP state after its entry: `didFirst` and the
pulse count are cleared and the first pulse is sent. -/
theorem wakeup_first_pulse (d0 : Driver) (hst : d0.ltc831State = LTC831_WAKEUP_STATE)
    (hprev : d0.ltc831PrevState ≠ LTC831_WAKEUP_STATE)
    (hv : d0.clTransaction.reqValid = true) :
    WakeAt d0 d0.eng.ltc831Flags.dir false 1 (wakePass d0.eng.ltc831Flags.dir)
      (ltc831Task_wakeup (ltc831Task_entry d0)) ∧
    (ltc831Task_wakeup (ltc831Task_entry d0)).eng.ltc831Flags.running = false := by
  have hne : ¬ LTC831_WAKEUP_STATE = d0.ltc831PrevState := fun h => hprev h.symm
  unfold ltc831Task_entry ltc831Task_enter ltc831Task_wakeup WakeAt
  simp [Driver.modFlags, Driver.withEng, Driver.emit, State.emit, hne, hst, hv, wakeLog,
    Event.wakeItem, wakePass, setAt, LTC831_SNAP_CMD]

/-- The pass of the WAKEUP state at the pulse count `numDevs + 1` of the
first round when loopback was requested: the direction is flipped and the
count starts again. -/
theorem wakeup_turn (d0 X : Driver) (dir : Bool) (k : Nat) (items : List WakeItem)
    (h : WakeAt d0 dir false k items X)
    (hns : X.eng.ltc831Flags.newState = false)
    (hk : ¬ k < d0.ltc831ReqParamFlags.numDevs + 1)
    (hlb : d0.ltc831ReqParamFlags.needLoopback = true) :
    WakeAt d0 (!dir) true 0 items (ltc831Task_wakeup X) ∧
    (ltc831Task_wakeup X).eng.ltc831Flags.running = true := by
  obtain ⟨h1, h2, h3, h4, h5, h6, h7, h8, h9, h10⟩ := h
  have hk2 : ¬ X.ltc831SubState < X.ltc831ReqParamFlags.numDevs + 1 := by rw [h3, h7]; exact hk
  have hlb2 : X.ltc831ReqParamFlags.needLoopback = true := by rw [h7]; exact hlb
  unfold ltc831Task_wakeup WakeAt
  simp only [hns, Bool.false_eq_true, if_false, hk2]
  simp [Driver.modFlags, h1, h2, h4, h5, h6, h7, h8, h9, h10, hlb]

/-- The pass of the WAKEUP state at the pulse count `numDevs + 1` when no
round is left: the state becomes the saved return state, the return state is
unset, `didFirst` is clear and nothing is sent. -/
theorem wakeup_exit (d0 X : Driver) (dir didFirst : Bool) (k : Nat) (items : List WakeItem)
    (h : WakeAt d0 dir didFirst k items X)
    (hns : X.eng.ltc831Flags.newState = false)
    (hk : ¬ k < d0.ltc831ReqParamFlags.numDevs + 1)
    (hlast : d0.ltc831ReqParamFlags.needLoopback = false ∨ didFirst = true) :
    (ltc831Task_wakeup X).ltc831State = d0.ltc831ReturnState ∧
    (ltc831Task_wakeup X).ltc831ReturnState = LTC831_NULL_STATE ∧
    (ltc831Task_wakeup X).eng.ltc831Flags.didFirst = false ∧
    (ltc831Task_wakeup X).eng.ltc831Flags.dir = dir ∧
    (ltc831Task_wakeup X).eng.ltc831Flags.running = true ∧
    wakeLog (ltc831Task_wakeup X).eng.trace = wakeLog d0.eng.trace ++ items := by
  obtain ⟨h1, h2, h3, h4, h5, h6, h7, h8, h9, h10⟩ := h
  have hk2 : ¬ X.ltc831SubState < X.ltc831ReqParamFlags.numDevs + 1 := by rw [h3, h7]; exact hk
  have hc : ¬ (X.ltc831ReqParamFlags.needLoopback = true ∧ ¬ X.eng.ltc831Flags.didFirst = true) := by
    rw [h7, h5]
    rcases hlast with hl | hl <;> simp [hl]
  unfold ltc831Task_wakeup
  simp only [hns, Bool.false_eq_true, if_false, hk2]
  simp only [Driver.modFlags]
  rw [if_neg hc]
  simp [h4, h8, h10]

/-- An invocation of `ltc831Task` inside the WAKEUP state below the pulse
count `numDevs + 1`, released by the timer: one pulse, then the invocation
returns. -/
theorem wake_invocation_pulse (cfg : Config) (u : Util) (te : TaskEnv) (fuel : Nat)
    (d0 d : Driver) (dir didFirst : Bool) (k : Nat) (items : List WakeItem)
    (h : WakeAt d0 dir didFirst k items d) (hte : te.osTimerExpired = true)
    (hk : k < d0.ltc831ReqParamFlags.numDevs + 1) :
    ∃ D, ltc831Task cfg u te (fuel + 1) d = some D ∧
      WakeAt d0 dir didFirst ((k + 1) % 256) (items ++ wakePass dir) D := by
  obtain ⟨e1, e2, e3⟩ := entry_wake d0 d dir didFirst k items h
  obtain ⟨w1, w2⟩ := wakeup_pulse d0 (ltc831Task_entry d) dir didFirst k items e1 e2 e3 hk
  have hf := first_wakeup cfg u te d h.1
  refine ⟨ltc831Task_wakeup (ltc831Task_entry d), ?_, w1⟩
  have hr := task_first_run_timer cfg u te fuel d h.2.2.2.2.2.2.2.2.1 hte (by rw [hf]; exact w2)
  rw [hr, hf]

/-- The first invocation of `ltc831Task` in a newly entered WAKEUP state,
released by the timer: the first pulse. -/
theorem wake_invocation_first (cfg : Config) (u : Util) (te : TaskEnv) (fuel : Nat)
    (d0 : Driver) (hst : d0.ltc831State = LTC831_WAKEUP_STATE)
    (hprev : d0.ltc831PrevState ≠ LTC831_WAKEUP_STATE)
    (hv : d0.clTransaction.reqValid = true) (hte : te.osTimerExpired = true) :
    ∃ D, ltc831Task cfg u te (fuel + 1) d0 = some D ∧
      WakeAt d0 d0.eng.ltc831Flags.dir false 1 (wakePass d0.eng.ltc831Flags.dir) D := by
  obtain ⟨w1, w2⟩ := wakeup_first_pulse d0 hst hprev hv
  have hf := first_wakeup cfg u te d0 hst
  refine ⟨ltc831Task_wakeup (ltc831Task_entry d0), ?_, w1⟩
  have hr := task_first_run_timer cfg u te fuel d0 hv hte (by rw [hf]; exact w2)
  rw [hr, hf]

/-- The invocation of `ltc831Task` at the end of the first round when
loopback was requested: the first pass flips the direction, the second sends
the first pulse of the second round. -/
theorem wake_invocation_turn (cfg : Config) (u : Util) (te : TaskEnv) (fuel : Nat)
    (d0 d : Driver) (dir : Bool) (k : Nat) (items : List WakeItem)
    (h : WakeAt d0 dir false k items d) (hte : te.osTimerExpired = true)
    (hk : ¬ k < d0.ltc831ReqParamFlags.numDevs + 1)
    (hlb : d0.ltc831ReqParamFlags.needLoopback = true) :
    ∃ D, ltc831Task cfg u te (fuel + 2) d = some D ∧
      WakeAt d0 (!dir) true 1 (items ++ wakePass (!dir)) D := by
  obtain ⟨e1, e2, _⟩ := entry_wake d0 d dir false k items h
  obtain ⟨t1, t2⟩ := wakeup_turn d0 (ltc831Task_entry d) dir k items e1 e2 hk hlb
  have hf := first_wakeup cfg u te d h.1
  obtain ⟨n1, n2, n3⟩ := enter_wake d0 _ (!dir) true 0 items t1
  obtain ⟨w1, w2⟩ := wakeup_pulse d0 _ (!dir) true 0 items n1 n2 n3 (by omega)
  have hp := pass_wakeup cfg u (te.pass 1) (ltc831Task_wakeup (ltc831Task_entry d)) LTC_SUCCESS t1.1
  refine ⟨ltc831Task_wakeup (ltc831Task_enter (ltc831Task_wakeup (ltc831Task_entry d))), ?_, w1⟩
  have hr := task_second_run_timer cfg u te fuel d h.2.2.2.2.2.2.2.2.1 hte
    (by rw [hf]; exact t2) (by rw [hf, hp]; exact w2)
  rw [hr, hf, hp]

theorem wakeRound_one (dir : Bool) : wakeRound dir 1 = wakePass dir := by
  simp [wakeRound]

/-- The first round of the WAKEUP state: `j + 1` invocations released by the
timer send `j + 1` pulses in the direction of the entry, for `j ≤ numDevs`. -/
theorem wake_run_first_round (cfg : Config) (u : Util) (te : Nat → TaskEnv) (fuel : Nat)
    (d0 : Driver) (hst : d0.ltc831State = LTC831_WAKEUP_STATE)
    (hprev : d0.ltc831PrevState ≠ LTC831_WAKEUP_STATE)
    (hv : d0.clTransaction.reqValid = true) (hte : ∀ k, (te k).osTimerExpired = true)
    (hf : 2 ≤ fuel) (hn : d0.ltc831ReqParamFlags.numDevs < 255) (j : Nat)
    (hj : j ≤ d0.ltc831ReqParamFlags.numDevs) :
    ∃ D, taskRun cfg u te fuel (j + 1) d0 = some D ∧
      WakeAt d0 d0.eng.ltc831Flags.dir false (j + 1)
        (wakeRound d0.eng.ltc831Flags.dir (j + 1)) D := by
  obtain ⟨m, rfl⟩ : ∃ m, fuel = m + 1 := ⟨fuel - 1, by omega⟩
  induction j with
  | zero =>
    obtain ⟨D, h1, h2⟩ := wake_invocation_first cfg u (te 0) m d0 hst hprev hv (hte 0)
    refine ⟨D, ?_, ?_⟩
    · simp [taskRun, h1]
    · rw [wakeRound_one]; exact h2
  | succ j ih =>
    obtain ⟨D, h1, h2⟩ := ih (by omega)
    obtain ⟨E, g1, g2⟩ := wake_invocation_pulse cfg u (te (j + 1)) m d0 D _ false (j + 1) _ h2
      (hte (j + 1)) (by omega)
    refine ⟨E, ?_, ?_⟩
    · rw [taskRun, h1]; exact g1
    · have e : (j + 1 + 1) % 256 = j + 1 + 1 := Nat.mod_eq_of_lt (by omega)
      rw [e] at g2
      exact g2

/-- The second round of the WAKEUP state when loopback was requested: after
the `numDevs + 1` invocations of the first round, `j + 1` more send `j + 1`
pulses in the other direction, for `j ≤ numDevs`. -/
theorem wake_run_second_round (cfg : Config) (u : Util) (te : Nat → TaskEnv) (fuel : Nat)
    (d0 : Driver) (hst : d0.ltc831State = LTC831_WAKEUP_STATE)
    (hprev : d0.ltc831PrevState ≠ LTC831_WAKEUP_STATE)
    (hv : d0.clTransaction.reqValid = true) (hte : ∀ k, (te k).osTimerExpired = true)
    (hf : 2 ≤ fuel) (hn : d0.ltc831ReqParamFlags.numDevs < 255)
    (hlb : d0.ltc831ReqParamFlags.needLoopback = true) (j : Nat)
    (hj : j ≤ d0.ltc831ReqParamFlags.numDevs) :
    ∃ D, taskRun cfg u te fuel (d0.ltc831ReqParamFlags.numDevs + 1 + (j + 1)) d0 = some D ∧
      WakeAt d0 (!d0.eng.ltc831Flags.dir) true (j + 1)
        (wakeRound d0.eng.ltc831Flags.dir (d0.ltc831ReqParamFlags.numDevs + 1) ++
          wakeRound (!d0.eng.ltc831Flags.dir) (j + 1)) D := by
  obtain ⟨D1, r1, r2⟩ := wake_run_first_round cfg u te fuel d0 hst hprev hv hte hf hn
    d0.ltc831ReqParamFlags.numDevs (le_refl _)
  obtain ⟨m, rfl⟩ : ∃ m, fuel = m + 2 := ⟨fuel - 2, by omega⟩
  induction j with
  | zero =>
    obtain ⟨D, h1, h2⟩ := wake_invocation_turn cfg u (te (d0.ltc831ReqParamFlags.numDevs + 1)) m
      d0 D1 _ _ _ r2 (hte _) (by omega) hlb
    refine ⟨D, ?_, ?_⟩
    · have e : d0.ltc831ReqParamFlags.numDevs + 1 + (0 + 1) =
          (d0.ltc831ReqParamFlags.numDevs + 1) + 1 := by omega
      rw [e, taskRun, r1]; exact h1
    · rw [wakeRound_one]; exact h2
  | succ j ih =>
    obtain ⟨D, h1, h2⟩ := ih (by omega)
    obtain ⟨E, g1, g2⟩ := wake_invocation_pulse cfg u
      (te (d0.ltc831ReqParamFlags.numDevs + 1 + (j + 1))) (m + 1) d0 D _ true (j + 1) _ h2
      (hte _) (by omega)
    refine ⟨E, ?_, ?_⟩
    · have e : d0.ltc831ReqParamFlags.numDevs + 1 + (j + 1 + 1) =
          (d0.ltc831ReqParamFlags.numDevs + 1 + (j + 1)) + 1 := by omega
      rw [e, taskRun, h1]; exact g1
    · have e : (j + 1 + 1) % 256 = j + 1 + 1 := Nat.mod_eq_of_lt (by omega)
      rw [e, List.append_assoc] at g2
      exact g2

/-- The items of `k` pulses hold `k` SNAP frames. -/
theorem wakeRound_frames (dir : Bool) (k : Nat) :
    (wakeRound dir k).count (WakeItem.frame LTC831_SNAP_CMD 0xfb 3) = k := by
  induction k with
  | zero => rfl
  | succ k ih =>
    rw [wakeRound, List.count_append, ih]
    simp [wakePass]

/-- With 255 or more devices requested the pulse count, an 8-bit variable,
stays below `numDevs + 1`: every invocation released by the timer sends one
more pulse and the driver stays in the WAKEUP state. -/
theorem wake_run_never_leaves (cfg : Config) (u : Util) (te : Nat → TaskEnv) (fuel : Nat)
    (d0 : Driver) (hst : d0.ltc831State = LTC831_WAKEUP_STATE)
    (hprev : d0.ltc831PrevState ≠ LTC831_WAKEUP_STATE)
    (hv : d0.clTransaction.reqValid = true) (hte : ∀ k, (te k).osTimerExpired = true)
    (hf : 1 ≤ fuel) (hn : 255 ≤ d0.ltc831ReqParamFlags.numDevs) (j : Nat) :
    ∃ D, taskRun cfg u te fuel (j + 1) d0 = some D ∧
      WakeAt d0 d0.eng.ltc831Flags.dir false ((j + 1) % 256)
        (wakeRound d0.eng.ltc831Flags.dir (j + 1)) D := by
  obtain ⟨m, rfl⟩ : ∃ m, fuel = m + 1 := ⟨fuel - 1, by omega⟩
  induction j with
  | zero =>
    obtain ⟨D, h1, h2⟩ := wake_invocation_first cfg u (te 0) m d0 hst hprev hv (hte 0)
    refine ⟨D, ?_, ?_⟩
    · simp [taskRun, h1]
    · rw [wakeRound_one]; exact h2
  | succ j ih =>
    obtain ⟨D, h1, h2⟩ := ih
    obtain ⟨E, g1, g2⟩ := wake_invocation_pulse cfg u (te (j + 1)) m d0 D _ false
      ((j + 1) % 256) _ h2 (hte (j + 1)) (by omega)
    refine ⟨E, ?_, ?_⟩
    · rw [taskRun, h1]; exact g1
    · have e : ((j + 1) % 256 + 1) % 256 = (j + 1 + 1) % 256 := by omega
      rw [e] at g2
      exact g2

/-- C33 (counterexample): for a request of 255 devices the WAKEUP state never
ends.  The pulse count `ltc831SubState` is an 8-bit variable, so
`ltc831SubState < numDevs + 1 = 256` holds in every pass: after any number
`j + 1` of invocations the driver has sent `j + 1` SNAP frames, more than
`numDevs + 1` from the 257th on, and is still in `LTC831_WAKEUP_STATE` with
the return state saved. -/
theorem wakeup_full_chain_never_ends :
    wakeStartFullChain.ltc831ReqParamFlags.numDevs = 255 ∧
    wakeStartFullChain.ltc831State = LTC831_WAKEUP_STATE ∧
    wakeStartFullChain.ltc831ReturnState = LTC831_DEV_POLL_STATE ∧
    (∀ j : Nat, ∃ D,
      taskRun sampleConfig (modelUtil 0x025B) (fun _ => timerEnv) 2 (j + 1) wakeStartFullChain
        = some D ∧
      D.ltc831State = LTC831_WAKEUP_STATE ∧
      D.ltc831ReturnState = LTC831_DEV_POLL_STATE ∧
      (wakeLog D.eng.trace).count (WakeItem.frame LTC831_SNAP_CMD 0xfb 3) = j + 1) := by
  refine ⟨rfl, rfl, rfl, ?_⟩
  intro j
  obtain ⟨D, h1, h2⟩ := wake_run_never_leaves sampleConfig (modelUtil 0x025B)
    (fun _ => timerEnv) 2 wakeStartFullChain rfl (by decide) rfl (fun _ => rfl) (by decide)
    (by decide) j
  obtain ⟨a1, _, _, _, _, _, _, a8, _, a10⟩ := h2
  refine ⟨D, h1, a1, ?_, ?_⟩
  · rw [a8]; rfl
  · rw [a10]
    have e : wakeLog wakeStartFullChain.eng.trace = [] := rfl
    rw [e, List.nil_append]
    exact wakeRound_frames _ _

/-- C33 (amended): the rounds of the WAKEUP state for `numDevs < 255`.  Take a
driver newly in `LTC831_WAKEUP_STATE` with a valid transaction, and
invocations of `ltc831Task` released by the expiry of `LTC_OS_TIMER_1`.  The
first `numDevs + 1` invocations send one pulse each: the three-byte frame
that starts with SNAP (0x2B, 0xFB), handed to `spiTxData`, followed by the
port selection of `ltc831Flags.dir`, the direction the state was entered with
(`ltc831ClCmdStart` sets it to the request direction on its deferred path).
Without loopback the first pass of the next invocation sends nothing, makes
the saved return state the state, unsets the return state and leaves
`didFirst` clear.  With loopback that pass flips the direction, `numDevs + 1`
further pulses go out with the port selection of the flipped direction, and
the first pass of invocation `2 * (numDevs + 1)` makes the saved return state
the state, unsets the return state and leaves `didFirst` clear, with the
direction still flipped.  A round of `k` pulses holds exactly `k` frames. -/
theorem wakeup_rounds (cfg : Config) (u : Util) (te : Nat → TaskEnv) (fuel : Nat)
    (d0 : Driver) (hst : d0.ltc831State = LTC831_WAKEUP_STATE)
    (hprev : d0.ltc831PrevState ≠ LTC831_WAKEUP_STATE)
    (hv : d0.clTransaction.reqValid = true) (hte : ∀ k, (te k).osTimerExpired = true)
    (hf : 2 ≤ fuel) (hn : d0.ltc831ReqParamFlags.numDevs < 255) :
    (∃ D, taskRun cfg u te fuel (d0.ltc831ReqParamFlags.numDevs + 1) d0 = some D ∧
      D.ltc831State = LTC831_WAKEUP_STATE ∧
      wakeLog D.eng.trace = wakeLog d0.eng.trace ++
        wakeRound d0.eng.ltc831Flags.dir (d0.ltc831ReqParamFlags.numDevs + 1) ∧
      (d0.ltc831ReqParamFlags.needLoopback = false →
        (ltc831Task_first cfg u (te (d0.ltc831ReqParamFlags.numDevs + 1)) D).1.ltc831State =
          d0.ltc831ReturnState ∧
        (ltc831Task_first cfg u (te (d0.ltc831ReqParamFlags.numDevs + 1)) D).1.ltc831ReturnState
          = LTC831_NULL_STATE ∧
        (ltc831Task_first cfg u (te (d0.ltc831ReqParamFlags.numDevs + 1))
          D).1.eng.ltc831Flags.didFirst = false ∧
        wakeLog (ltc831Task_first cfg u (te (d0.ltc831ReqParamFlags.numDevs + 1))
          D).1.eng.trace = wakeLog D.eng.trace)) ∧
    (d0.ltc831ReqParamFlags.needLoopback = true →
      ∃ D, taskRun cfg u te fuel
          (d0.ltc831ReqParamFlags.numDevs + 1 + (d0.ltc831ReqParamFlags.numDevs + 1)) d0
          = some D ∧
        D.ltc831State = LTC831_WAKEUP_STATE ∧
        wakeLog D.eng.trace = wakeLog d0.eng.trace ++
          (wakeRound d0.eng.ltc831Flags.dir (d0.ltc831ReqParamFlags.numDevs + 1) ++
            wakeRound (!d0.eng.ltc831Flags.dir) (d0.ltc831ReqParamFlags.numDevs + 1)) ∧
        (ltc831Task_first cfg u
          (te (d0.ltc831ReqParamFlags.numDevs + 1 + (d0.ltc831ReqParamFlags.numDevs + 1)))
          D).1.ltc831State = d0.ltc831ReturnState ∧
        (ltc831Task_first cfg u
          (te (d0.ltc831ReqParamFlags.numDevs + 1 + (d0.ltc831ReqParamFlags.numDevs + 1)))
          D).1.ltc831ReturnState = LTC831_NULL_STATE ∧
        (ltc831Task_first cfg u
          (te (d0.ltc831ReqParamFlags.numDevs + 1 + (d0.ltc831ReqParamFlags.numDevs + 1)))
          D).1.eng.ltc831Flags.didFirst = false ∧
        (ltc831Task_first cfg u
          (te (d0.ltc831ReqParamFlags.numDevs + 1 + (d0.ltc831ReqParamFlags.numDevs + 1)))
          D).1.eng.ltc831Flags.dir = (!d0.eng.ltc831Flags.dir) ∧
        wakeLog (ltc831Task_first cfg u
          (te (d0.ltc831ReqParamFlags.numDevs + 1 + (d0.ltc831ReqParamFlags.numDevs + 1)))
          D).1.eng.trace = wakeLog D.eng.trace) ∧
    (∀ (dir : Bool) (k : Nat),
      (wakeRound dir k).count (WakeItem.frame LTC831_SNAP_CMD 0xfb 3) = k) := by
  refine ⟨?_, ?_, wakeRound_frames⟩
  · obtain ⟨D, r1, r2⟩ := wake_run_first_round cfg u te fuel d0 hst hprev hv hte hf hn
      d0.ltc831ReqParamFlags.numDevs (le_refl _)
    refine ⟨D, r1, r2.1, r2.2.2.2.2.2.2.2.2.2, ?_⟩
    intro hlb
    obtain ⟨e1, e2, _⟩ := entry_wake d0 D _ _ _ _ r2
    obtain ⟨x1, x2, x3, _, _, x6⟩ := wakeup_exit d0 (ltc831Task_entry D) _ _ _ _ e1 e2
      (by omega) (Or.inl hlb)
    rw [first_wakeup cfg u _ D r2.1]
    refine ⟨x1, x2, x3, ?_⟩
    rw [x6, r2.2.2.2.2.2.2.2.2.2]
  · intro hlb
    obtain ⟨D, r1, r2⟩ := wake_run_second_round cfg u te fuel d0 hst hprev hv hte hf hn hlb
      d0.ltc831ReqParamFlags.numDevs (le_refl _)
    refine ⟨D, r1, r2.1, r2.2.2.2.2.2.2.2.2.2, ?_⟩
    obtain ⟨e1, e2, _⟩ := entry_wake d0 D _ _ _ _ r2
    obtain ⟨x1, x2, x3, x4, _, x6⟩ := wakeup_exit d0 (ltc831Task_entry D) _ _ _ _ e1 e2
      (by omega) (Or.inr rfl)
    rw [first_wakeup cfg u _ D r2.1]
    refine ⟨x1, x2, x3, x4, ?_⟩
    rw [x6, r2.2.2.2.2.2.2.2.2.2]

set_option maxRecDepth 100000 in
/-- Witness for C33 (amended): the pack-convert request `loopbackPollReq`
(two devices, direction B, loopback) started by `ltc831ClCmdStart` with the
sleep timer expired: three pulses with the port selection of B, three with
that of A, then `LTC831_DEV_POLL_STATE` becomes the state. -/
theorem wakeup_rounds_witness :
    wakeStart.ltc831ReqParamFlags.numDevs = 2 ∧
    (taskRun sampleConfig (modelUtil 0x025B) (fun _ => timerEnv) 2 6 wakeStart).map
      (fun d => (wakeLog d.eng.trace, d.ltc831State, d.ltc831SubState)) =
      some (wakeRound true 3 ++ wakeRound false 3, LTC831_WAKEUP_STATE, 3) ∧
    wakeStart.ltc831ReqParamFlags.dir = true ∧ wakeStart.eng.ltc831Flags.dir = true ∧
    wakeStart.ltc831ReturnState = LTC831_DEV_POLL_STATE ∧
    wakeRound true 3 =
      [WakeItem.frame 0x2b 0xfb 3, WakeItem.select true,
       WakeItem.frame 0x2b 0xfb 3, WakeItem.select true,
       WakeItem.frame 0x2b 0xfb 3, WakeItem.select true] ∧
    (∃ D, taskRun sampleConfig (modelUtil 0x025B) (fun _ => timerEnv) 2
          (wakeStart.ltc831ReqParamFlags.numDevs + 1 +
            (wakeStart.ltc831ReqParamFlags.numDevs + 1)) wakeStart = some D ∧
        D.ltc831State = LTC831_WAKEUP_STATE ∧
        wakeLog D.eng.trace = wakeLog wakeStart.eng.trace ++
          (wakeRound wakeStart.eng.ltc831Flags.dir (wakeStart.ltc831ReqParamFlags.numDevs + 1) ++
            wakeRound (!wakeStart.eng.ltc831Flags.dir)
              (wakeStart.ltc831ReqParamFlags.numDevs + 1)) ∧
        (ltc831Task_first sampleConfig (modelUtil 0x025B)
          ((fun _ => timerEnv) (wakeStart.ltc831ReqParamFlags.numDevs + 1 +
            (wakeStart.ltc831ReqParamFlags.numDevs + 1)))
          D).1.ltc831State = wakeStart.ltc831ReturnState ∧
        (ltc831Task_first sampleConfig (modelUtil 0x025B)
          ((fun _ => timerEnv) (wakeStart.ltc831ReqParamFlags.numDevs + 1 +
            (wakeStart.ltc831ReqParamFlags.numDevs + 1)))
          D).1.ltc831ReturnState = LTC831_NULL_STATE ∧
        (ltc831Task_first sampleConfig (modelUtil 0x025B)
          ((fun _ => timerEnv) (wakeStart.ltc831ReqParamFlags.numDevs + 1 +
            (wakeStart.ltc831ReqParamFlags.numDevs + 1)))
          D).1.eng.ltc831Flags.didFirst = false ∧
        (ltc831Task_first sampleConfig (modelUtil 0x025B)
          ((fun _ => timerEnv) (wakeStart.ltc831ReqParamFlags.numDevs + 1 +
            (wakeStart.ltc831ReqParamFlags.numDevs + 1)))
          D).1.eng.ltc831Flags.dir = (!wakeStart.eng.ltc831Flags.dir) ∧
        wakeLog (ltc831Task_first sampleConfig (modelUtil 0x025B)
          ((fun _ => timerEnv) (wakeStart.ltc831ReqParamFlags.numDevs + 1 +
            (wakeStart.ltc831ReqParamFlags.numDevs + 1)))
          D).1.eng.trace = wakeLog D.eng.trace) :=
  ⟨rfl, rfl, rfl, rfl, rfl, rfl,
   (wakeup_rounds sampleConfig (modelUtil 0x025B) (fun _ => timerEnv) 2 wakeStart rfl
      (by decide) rfl (fun _ => rfl) (by decide) (by decide)).2.1 rfl⟩

/-! ## Transfers that are not complete when the call returns -/

/-- `ltcSendCommandFrame` entered with no DMA pending for an asynchronous
command whose transfer is not complete at the final check: the transfer is
started, the receive buffer is handed to it, `waitDMA` is set and the status
is `LTC_DEFERRED`; parameters, shadow store, break data, pack data and the
direction flags are unchanged. -/
theorem sendCommandFrame_pending (env : Env) (s : State) (hdma : s.ltc831Flags.waitDMA = false)
    (hsync : s.ltcParams.flags.synchronous = false) (hc : env.spiComplete = false) :
    (ltcSendCommandFrame env s).1 = LTC_DEFERRED ∧
    (ltcSendCommandFrame env s).2.ltcParams = s.ltcParams ∧
    (ltcSendCommandFrame env s).2.packApi = s.packApi ∧
    (ltcSendCommandFrame env s).2.reqNumDevs = s.reqNumDevs ∧
    (ltcSendCommandFrame env s).2.ltcDevData = s.ltcDevData ∧
    (ltcSendCommandFrame env s).2.ltcBreakData = s.ltcBreakData ∧
    (ltcSendCommandFrame env s).2.ltcFrames = { s.ltcFrames with cmdDataRx := env.rx } ∧
    (ltcSendCommandFrame env s).2.ltc831Flags.didFirst = s.ltc831Flags.didFirst ∧
    (ltcSendCommandFrame env s).2.ltc831Flags.dir = s.ltc831Flags.dir ∧
    (ltcSendCommandFrame env s).2.ltc831Flags.chainHead = s.ltc831Flags.chainHead ∧
    (ltcSendCommandFrame env s).2.ltc831Flags.waitDMA = true := by
  have hw := wakeupIdle_same env s.ltc831Flags.dir s.ltcParams.numDevs s
  generalize hr : ltcSendCommandFrame env s = r
  unfold ltcSendCommandFrame ltc831SendClCmd at hr
  generalize ltc831WakeupIdle env s.ltc831Flags.dir s.ltcParams.numDevs s = w at hr hw
  obtain ⟨a1, a2, a3, a4, a5, a6, a7, a8, a9, a10, a11⟩ := hw
  subst hr
  cases hdc : w.ltc831Flags.dirChange <;>
    simp [injectRx, State.emit, hdma, hc, hdc, hsync, a1, a2, a3, a4, a5, a6, a7, a8, a9]

/-- `ltcSendCommandFrame` entered with the DMA pending: no transfer is
started and the status is `LTC_SUCCESS` whether or not the pending transfer
is complete; `waitDMA` is cleared exactly when it is complete, and
parameters, frame buffers, shadow store, break data, pack data and the
direction flags are unchanged. -/
theorem sendCommandFrame_resume (env : Env) (s : State) (hdma : s.ltc831Flags.waitDMA = true) :
    (ltcSendCommandFrame env s).1 = LTC_SUCCESS ∧
    (ltcSendCommandFrame env s).2.ltcParams = s.ltcParams ∧
    (ltcSendCommandFrame env s).2.packApi = s.packApi ∧
    (ltcSendCommandFrame env s).2.reqNumDevs = s.reqNumDevs ∧
    (ltcSendCommandFrame env s).2.ltcDevData = s.ltcDevData ∧
    (ltcSendCommandFrame env s).2.ltcBreakData = s.ltcBreakData ∧
    (ltcSendCommandFrame env s).2.ltcFrames =
      { s.ltcFrames with state := LTC_FRAME_COMPLETE_STATE } ∧
    (ltcSendCommandFrame env s).2.ltc831Flags.didFirst = s.ltc831Flags.didFirst ∧
    (ltcSendCommandFrame env s).2.ltc831Flags.dir = s.ltc831Flags.dir ∧
    (ltcSendCommandFrame env s).2.ltc831Flags.chainHead = s.ltc831Flags.chainHead ∧
    (ltcSendCommandFrame env s).2.ltc831Flags.waitDMA = (!env.spiComplete) := by
  unfold ltcSendCommandFrame ltc831SendClCmd
  cases hc : env.spiComplete <;> simp [State.emit, hdma, hc]

/-- The part of `ltc831ReadCmd` behind the transfer, from the state `s` in
front of the parse.  `B` is the break data the parse leaves for the direction
of `s`. -/
theorem readTail_spec (u : Util) (s : State) (hn : s.ltcParams.numDevs ≤ 256) :
    (((rxBreakAfter u s (rxBase s) (s.ltcBreakData s.ltc831Flags.dir)
          s.ltcParams.numDevs).flags.crcError = true ∧
        s.ltc831Flags.didFirst = false ∧ s.ltcParams.flags.doBreakDetect = true) →
      (ltc831ReadCmd_tail u s).1 = LTC_DEFERRED ∧
      (ltc831ReadCmd_tail u s).2.ltc831Flags.didFirst = true ∧
      (ltc831ReadCmd_tail u s).2.ltc831Flags.dir = (!s.ltc831Flags.dir)) ∧
    (¬ ((rxBreakAfter u s (rxBase s) (s.ltcBreakData s.ltc831Flags.dir)
          s.ltcParams.numDevs).flags.crcError = true ∧
        s.ltc831Flags.didFirst = false ∧ s.ltcParams.flags.doBreakDetect = true) →
      (ltc831ReadCmd_tail u s).1 = LTC_SUCCESS ∧
      (ltc831ReadCmd_tail u s).2.ltc831Flags.didFirst = false ∧
      (ltc831ReadCmd_tail u s).2.ltc831Flags.dir =
        (if s.ltc831Flags.didFirst = true then !s.ltc831Flags.dir else s.ltc831Flags.dir)) ∧
    (ltc831ReadCmd_tail u s).2.ltc831Flags.waitDMA = s.ltc831Flags.waitDMA ∧
    (ltc831ReadCmd_tail u s).2.reqNumDevs = s.reqNumDevs ∧
    (ltc831ReadCmd_tail u s).2.ltcParams = s.ltcParams ∧
    (∀ x, ((ltc831ReadCmd_tail u s).2.ltcBreakData x).breakIdx =
        (if x = s.ltc831Flags.dir then
          rxBreakAfter u s (rxBase s) (s.ltcBreakData s.ltc831Flags.dir) s.ltcParams.numDevs
          else s.ltcBreakData x).breakIdx ∧
      ((ltc831ReadCmd_tail u s).2.ltcBreakData x).flags =
        (if x = s.ltc831Flags.dir then
          rxBreakAfter u s (rxBase s) (s.ltcBreakData s.ltc831Flags.dir) s.ltcParams.numDevs
          else s.ltcBreakData x).flags) := by
  obtain ⟨c1, c2, c3, c4, c5, c6, c7⟩ := readComplete_spec u s hn
  generalize rxBreakAfter u s (rxBase s) (s.ltcBreakData s.ltc831Flags.dir)
    s.ltcParams.numDevs = B at c1 c2 c5 ⊢
  unfold ltc831ReadCmd_tail
  generalize ltc831ReadCmd_complete u s = C at c1 c2 c3 c4 c5 c6 c7
  obtain ⟨cst, C⟩ := C
  simp only at c1 c2 c3 c4 c5 c6 c7 ⊢
  have hfin : ∀ (cnd : Prop) [Decidable cnd] (dd : Bool),
      ((if cnd then C.modBreak dd (fun b => { b with breakIdxPrev := b.breakIdx }) else C).ltc831Flags
        = C.ltc831Flags) ∧
      ((if cnd then C.modBreak dd (fun b => { b with breakIdxPrev := b.breakIdx }) else C).ltcParams
        = C.ltcParams) ∧
      ((if cnd then C.modBreak dd (fun b => { b with breakIdxPrev := b.breakIdx }) else C).reqNumDevs
        = C.reqNumDevs) ∧
      (∀ x, ((if cnd then C.modBreak dd (fun b => { b with breakIdxPrev := b.breakIdx })
          else C).ltcBreakData x).breakIdx = (C.ltcBreakData x).breakIdx ∧
        ((if cnd then C.modBreak dd (fun b => { b with breakIdxPrev := b.breakIdx })
          else C).ltcBreakData x).flags = (C.ltcBreakData x).flags) := by
    intro cnd _ dd
    by_cases hcnd : cnd
    · simp only [if_pos hcnd, State.modBreak, true_and]
      intro x
      by_cases hx : x = dd <;> simp [hx]
    · simp [if_neg hcnd]
  obtain ⟨f1, f2, f3, f4⟩ := hfin ((C.ltcBreakData C.ltc831Flags.dir).flags.breakString = true)
    C.ltc831Flags.dir
  simp only [f1, f2, f3, f4]
  refine ⟨?_, ?_, c3, c6, c7, ?_⟩
  · intro h
    have h2 := c1 h
    exact ⟨h2.1, h2.2.1, h2.2.2.1⟩
  · intro h
    have h2 := c2 h
    exact ⟨h2.1, h2.2.1, h2.2.2.1⟩
  · intro x
    rw [c5]
    exact ⟨rfl, rfl⟩

/-- A call of `ltc831ReadCmd` entered with the DMA pending does not look at
its arguments: it is the part behind the transfer, run on the state the
pending command left. -/
theorem readCmd_resume_eq (u : Util) (env : Env) (flags : LTC_PARAM_FLAGS_T)
    (tag n addr : Nat) (d : Option (Nat → Nat)) (s : State)
    (hdma : s.ltc831Flags.waitDMA = true) :
    ltc831ReadCmd u env flags tag n addr d s =
      ltc831ReadCmd_tail u (ltcSendCommandFrame env s).2 := by
  have h1 := (sendCommandFrame_resume env s hdma).1
  unfold ltc831ReadCmd ltc831ReadCmd_tail
  simp only [hdma, not_true_eq_false, if_false, if_true, h1]

/-- A call of `ltc831ReadCmd` entered with no DMA pending whose checks pass
and whose transfer completes within the call is the part behind the transfer,
run on the state the transfer leaves. -/
theorem readCmd_in_call_eq (u : Util) (env : Env) (flags : LTC_PARAM_FLAGS_T)
    (tag n addr : Nat) (d : Option (Nat → Nat)) (s : State)
    (hdma : s.ltc831Flags.waitDMA = false)
    (hp : (ltc831ReadCmd_prepare u flags tag n addr d s).1 = LTC_SUCCESS)
    (hs : (ltcSendCommandFrame env (ltc831ReadCmd_prepare u flags tag n addr d s).2).1
      = LTC_SUCCESS) :
    ltc831ReadCmd u env flags tag n addr d s =
      ltc831ReadCmd_tail u
        (ltcSendCommandFrame env (ltc831ReadCmd_prepare u flags tag n addr d s).2).2 := by
  unfold ltc831ReadCmd ltc831ReadCmd_tail
  simp only [hdma, Bool.false_eq_true, not_false_eq_true, if_true, hp, hs]

/-- A call of `ltc831ReadCmd` for a break-detecting asynchronous read,
entered with no DMA pending, whose transfer is not complete at the final
check: it returns `LTC_DEFERRED` with the state the started transfer leaves;
nothing is parsed. -/
theorem readCmd_pending_eq (u : Util) (env : Env) (flags : LTC_PARAM_FLAGS_T)
    (tag n addr : Nat) (d : Option (Nat → Nat)) (s : State)
    (hdma : s.ltc831Flags.waitDMA = false) (hR : (regMap addr).type = LTC831_REG_R)
    (hn : n ≠ 0) (hdet : flags.doBreakDetect = true)
    (hsync : flags.synchronous = false) (hc : env.spiComplete = false) :
    ltc831ReadCmd u env flags tag n addr d s =
      (LTC_DEFERRED,
        (ltcSendCommandFrame env (ltc831ReadCmd_prepare u flags tag n addr d s).2).2) := by
  obtain ⟨p1, p2, p3, p4, p5, p6, p7, p8⟩ := readPrepare_spec u flags tag n addr d s hR hn
  obtain ⟨s1, s2, s3, s4, s5, s6, s7, s8, s9, s10, s11⟩ :=
    sendCommandFrame_pending env (ltc831ReadCmd_prepare u flags tag n addr d s).2
      (by rw [p3]; exact hdma) (by rw [p2]; exact hsync) hc
  have hb : ((ltcSendCommandFrame env (ltc831ReadCmd_prepare u flags tag n addr d s).2).2.ltcBreakData
      (ltcSendCommandFrame env
        (ltc831ReadCmd_prepare u flags tag n addr d s).2).2.ltc831Flags.dir).flags.breakString
      = false := by
    rw [s6, s9, p6, p3, if_pos hdet]
    simp [freshBreak]
  unfold ltc831ReadCmd
  simp only [hdma, Bool.false_eq_true, not_false_eq_true, if_true, p1, s1, reduceCtorEq,
    if_false, hb]

/-- A directional attempt of a break-detecting read of a readable address for
`0 < n ≤ 256` devices, started with no DMA pending, is the part of
`ltc831ReadCmd` behind the transfer run on a state `S` that holds the command
parameters of the arguments, the response `env.rx` of the transfer the first
call started, fresh break data for the direction of the attempt, and
`didFirst` and `dir` as at the start: whether the transfer completes within
the first call or the parse is run by the re-entry. -/
theorem readAttempt_front (u : Util) (env env2 : Env) (flags : LTC_PARAM_FLAGS_T)
    (tag n addr : Nat) (d : Option (Nat → Nat)) (s : State)
    (hdma : s.ltc831Flags.waitDMA = false) (hR : (regMap addr).type = LTC831_REG_R)
    (hn : n ≠ 0) (hn2 : n ≤ 256) (hdet : flags.doBreakDetect = true) :
    ∃ S : State,
      readAttempt u env env2 flags tag n addr d s = ltc831ReadCmd_tail u S ∧
      S.ltcParams = readParams flags tag n addr d ∧
      S.reqNumDevs = s.reqNumDevs ∧
      S.ltcBreakData =
        (fun x => if x = s.ltc831Flags.dir then freshBreak else s.ltcBreakData x) ∧
      S.ltcFrames.cmdDataRx = env.rx ∧
      S.ltcFrames.regLengthW = (regMap addr).lenB / 2 ∧
      S.ltcFrames.rxDataLengthB =
        (regMap addr).lenB + LTC831_PEC_SIZE_B + (if flags.useTag = true then 1 else 0) ∧
      S.ltc831Flags.didFirst = s.ltc831Flags.didFirst ∧
      S.ltc831Flags.dir = s.ltc831Flags.dir ∧
      S.ltc831Flags.waitDMA =
        (!(flags.synchronous || env.spiComplete) && !env2.spiComplete) := by
  obtain ⟨p1, p2, p3, p4, p5, p6, p7, p8⟩ := readPrepare_spec u flags tag n addr d s hR hn
  rw [if_pos hdet] at p6
  by_cases hc : flags.synchronous = true ∨ env.spiComplete = true
  · obtain ⟨s1, s2, s3, s4, s5, s6, s7, s8, s9, s10, s11⟩ :=
      sendCommandFrame_done env (ltc831ReadCmd_prepare u flags tag n addr d s).2
        (by rw [p3]; exact hdma) (by rw [p2]; exact hc)
    have heq := readCmd_in_call_eq u env flags tag n addr d s hdma p1 s1
    have hSn : (ltcSendCommandFrame env
        (ltc831ReadCmd_prepare u flags tag n addr d s).2).2.ltcParams.numDevs ≤ 256 := by
      rw [s2, p2]; exact hn2
    have hw := (readTail_spec u _ hSn).2.2.1
    rw [s11] at hw
    refine ⟨_, ?_, s2.trans p2, s4.trans p4, s6.trans p6, ?_, ?_, ?_, ?_, ?_, ?_⟩
    · unfold readAttempt
      simp only [hdma, Bool.false_eq_true, if_false, heq, hw]
    · rw [s7]
    · rw [s7]; exact p7
    · rw [s7]; exact p8
    · rw [s8, p3]
    · rw [s9, p3]
    · rw [s11]
      rcases hc with h | h <;> simp [h]
  · have hsync : flags.synchronous = false := by
      cases h : flags.synchronous
      · rfl
      · exact absurd (Or.inl h) hc
    have hcomp : env.spiComplete = false := by
      cases h : env.spiComplete
      · rfl
      · exact absurd (Or.inr h) hc
    obtain ⟨s1, s2, s3, s4, s5, s6, s7, s8, s9, s10, s11⟩ :=
      sendCommandFrame_pending env (ltc831ReadCmd_prepare u flags tag n addr d s).2
        (by rw [p3]; exact hdma) (by rw [p2]; exact hsync) hcomp
    have heq := readCmd_pending_eq u env flags tag n addr d s hdma hR hn hdet hsync hcomp
    generalize (ltcSendCommandFrame env (ltc831ReadCmd_prepare u flags tag n addr d s).2).2 = S1
      at s2 s3 s4 s5 s6 s7 s8 s9 s10 s11 heq
    obtain ⟨r1, r2, r3, r4, r5, r6, r7, r8, r9, r10, r11⟩ := sendCommandFrame_resume env2 S1 s11
    have heq2 := readCmd_resume_eq u env2 flags tag n addr d S1 s11
    refine ⟨_, ?_, r2.trans (s2.trans p2), r4.trans (s4.trans p4), r6.trans (s6.trans p6),
      ?_, ?_, ?_, ?_, ?_, ?_⟩
    · unfold readAttempt
      simp only [hdma, Bool.false_eq_true, if_false, heq, s11, if_true, heq2]
    · rw [r7, s7]
    · rw [r7, s7]; exact p7
    · rw [r7, s7]; exact p8
    · rw [r8, s8, p3]
    · rw [r9, s9, p3]
    · rw [r11, hsync, hcomp]; simp

/-- A directional attempt of a read entered with the DMA pending is the part
of `ltc831ReadCmd` behind the transfer, run on the state the pending command
left. -/
theorem readAttempt_resume_eq (u : Util) (env env2 : Env) (flags : LTC_PARAM_FLAGS_T)
    (tag n addr : Nat) (d : Option (Nat → Nat)) (s : State)
    (hdma : s.ltc831Flags.waitDMA = true) :
    readAttempt u env env2 flags tag n addr d s =
      ltc831ReadCmd_tail u (ltcSendCommandFrame env s).2 := by
  unfold readAttempt
  rw [if_pos hdma]
  exact readCmd_resume_eq u env flags tag n addr d s hdma

/-- The second directional attempt of a break-detecting read: entered with
`didFirst` set, it returns `LTC_SUCCESS`, clears `didFirst` and flips the
direction back, whatever the response holds and whether its start finds a DMA
pending or not. -/
theorem readAttempt_second (u : Util) (env env2 : Env) (flags : LTC_PARAM_FLAGS_T)
    (tag n addr : Nat) (d : Option (Nat → Nat)) (s : State)
    (hR : (regMap addr).type = LTC831_REG_R) (hn : n ≠ 0) (hn2 : n ≤ 256)
    (hdet : flags.doBreakDetect = true) (hdid : s.ltc831Flags.didFirst = true)
    (hp : s.ltc831Flags.waitDMA = true → s.ltcParams.numDevs ≤ 256) :
    (readAttempt u env env2 flags tag n addr d s).1 = LTC_SUCCESS ∧
    (readAttempt u env env2 flags tag n addr d s).2.ltc831Flags.didFirst = false ∧
    (readAttempt u env env2 flags tag n addr d s).2.ltc831Flags.dir = (!s.ltc831Flags.dir) := by
  cases hdma : s.ltc831Flags.waitDMA
  · obtain ⟨S, h0, h1, h2, h3, h4, h5, h6, h7, h8, h9⟩ :=
      readAttempt_front u env env2 flags tag n addr d s hdma hR hn hn2 hdet
    obtain ⟨-, c2, -⟩ := readTail_spec u S (by rw [h1]; exact hn2)
    obtain ⟨y1, y2, y3⟩ := c2 (by rw [h7, hdid]; simp)
    rw [h0]
    refine ⟨y1, y2, ?_⟩
    rw [y3, h7, hdid, h8]; simp
  · obtain ⟨r1, r2, r3, r4, r5, r6, r7, r8, r9, r10, r11⟩ := sendCommandFrame_resume env s hdma
    obtain ⟨-, c2, -⟩ := readTail_spec u (ltcSendCommandFrame env s).2
      (by rw [r2]; exact hp hdma)
    obtain ⟨y1, y2, y3⟩ := c2 (by rw [r8, hdid]; simp)
    rw [readAttempt_resume_eq u env env2 flags tag n addr d s hdma]
    refine ⟨y1, y2, ?_⟩
    rw [y3, r8, hdid, r9]; simp

/-- The break data the parse leaves, from a state in front of the parse that
holds the command parameters of a read of `addr`, its frame lengths and the
response `rx`. -/
theorem readFront_view (u : Util) (flags : LTC_PARAM_FLAGS_T) (tag n addr : Nat)
    (d : Option (Nat → Nat)) (rx : Nat → Nat) (S : State) (b : LTC831_BREAK_DATA_T)
    (h1 : S.ltcParams = readParams flags tag n addr d)
    (h4 : S.ltcFrames.cmdDataRx = rx)
    (h5 : S.ltcFrames.regLengthW = (regMap addr).lenB / 2)
    (h6 : S.ltcFrames.rxDataLengthB =
      (regMap addr).lenB + LTC831_PEC_SIZE_B + (if flags.useTag = true then 1 else 0)) :
    rxBreakAfter u S (rxBase S) b S.ltcParams.numDevs = readBreakAfter u flags addr rx b n := by
  have hcmd : S.ltcParams.spiCmd = (readView flags addr rx).ltcParams.spiCmd := by
    rw [h1]; rfl
  have hSn : S.ltcParams.numDevs = n := by rw [h1]; rfl
  rw [hSn, rxBase_congr _ _ hcmd]
  unfold readBreakAfter
  refine rxBreakAfter_congr u _ _ _ _ hcmd ?_ ?_ ?_ ?_ n
  · rw [h1]; rfl
  · rw [h4]; rfl
  · rw [h6]; rfl
  · rw [h5]; rfl

/-- The verdicts of the parse and the block offsets do not depend on the
state of the frame state machine. -/
theorem rxBreakAfter_resume (u : Util) (env : Env) (s : State)
    (hdma : s.ltc831Flags.waitDMA = true) (b : LTC831_BREAK_DATA_T) (n : Nat) :
    rxBreakAfter u (ltcSendCommandFrame env s).2 (rxBase (ltcSendCommandFrame env s).2) b n =
      rxBreakAfter u s (rxBase s) b n := by
  obtain ⟨r1, r2, r3, r4, r5, r6, r7, r8, r9, r10, r11⟩ := sendCommandFrame_resume env s hdma
  rw [rxBase_congr s _ (by rw [r2])]
  exact rxBreakAfter_congr u s _ _ _ (by rw [r2]) (by rw [r2]) (by rw [r7]) (by rw [r7])
    (by rw [r7]) n

/-! ## C7: every flow of calls -/

/-- C7: a CRC error on the first directional attempt of a break-detecting
read forces a single re-entry for the other direction, in every flow of
calls.  The read is of a readable address for `0 < n < 256` devices.  A
directional attempt (`readAttempt`) is the call of `ltc831ReadCmd` that runs
the parse together with the call in front of it that returned `LTC_DEFERRED`
with the DMA pending, if there is one: synchronous transfers, asynchronous
transfers complete at the check of the first call, and asynchronous transfers
resumed by a re-entry are all covered, whether or not the resumed transfer is
complete by then.

* A read issued with no DMA pending on the first directional attempt
  (`didFirst` clear) in direction `D` whose response has a CRC error in some
  slot `i < n`: the attempt returns `LTC_DEFERRED` with
  `ltcBreakData[D].flags.crcError` set, `didFirst` set and the direction
  flipped; the second attempt, whatever bytes it receives, returns
  `LTC_SUCCESS` (so not `LTC_DEFERRED` again), leaves `didFirst` clear and the
  direction back at `D`.
* A call entered with the DMA pending does not look at its arguments.  When
  the parse of the response in the receive buffer, under the command
  parameters in force, finds a CRC error in some slot on the first
  directional attempt of a break-detecting read, the call returns
  `LTC_DEFERRED` with `crcError` set for its direction `D`, `didFirst` set and
  the direction flipped; the second attempt returns `LTC_SUCCESS`, leaves
  `didFirst` clear and the direction back at `D`.
* The call in front of a resumed parse, entered with no DMA pending for an
  asynchronous transfer that is not complete at its check, returns
  `LTC_DEFERRED` for the DMA, not for a CRC error: `waitDMA` is set, nothing
  is parsed, `crcError` of its direction is clear, and `didFirst` and the
  direction are unchanged. -/
theorem readCmd_crc_error_reentry_flows (u : Util) (flags : LTC_PARAM_FLAGS_T)
    (tag n addr : Nat) (d : Option (Nat → Nat))
    (hdet : flags.doBreakDetect = true) (hR : (regMap addr).type = LTC831_REG_R)
    (hn : 0 < n) (hn2 : n < 256) :
    (∀ (env1 env1b env2 env2b : Env) (s0 : State) (i : Nat),
      s0.ltc831Flags.waitDMA = false → s0.ltc831Flags.didFirst = false → i < n →
      readCrcErrorAt u flags addr env1.rx i = true →
      (readAttempt u env1 env1b flags tag n addr d s0).1 = LTC_DEFERRED ∧
      ((readAttempt u env1 env1b flags tag n addr d s0).2.ltcBreakData
        s0.ltc831Flags.dir).flags.crcError = true ∧
      (readAttempt u env1 env1b flags tag n addr d s0).2.ltc831Flags.didFirst = true ∧
      (readAttempt u env1 env1b flags tag n addr d s0).2.ltc831Flags.dir
        = (!s0.ltc831Flags.dir) ∧
      (readAttempt u env2 env2b flags tag n addr d
        (readAttempt u env1 env1b flags tag n addr d s0).2).1 = LTC_SUCCESS ∧
      (readAttempt u env2 env2b flags tag n addr d
        (readAttempt u env1 env1b flags tag n addr d s0).2).1 ≠ LTC_DEFERRED ∧
      (readAttempt u env2 env2b flags tag n addr d
        (readAttempt u env1 env1b flags tag n addr d s0).2).2.ltc831Flags.didFirst = false ∧
      (readAttempt u env2 env2b flags tag n addr d
        (readAttempt u env1 env1b flags tag n addr d s0).2).2.ltc831Flags.dir
        = s0.ltc831Flags.dir) ∧
    (∀ (env env2 env2b : Env) (s : State) (i : Nat),
      s.ltc831Flags.waitDMA = true → s.ltc831Flags.didFirst = false →
      s.ltcParams.flags.doBreakDetect = true → s.ltcParams.numDevs ≤ 256 →
      i < s.ltcParams.numDevs → rxCrcErrorAt u s (rxBlockOff s i) = true →
      (ltc831ReadCmd u env flags tag n addr d s).1 = LTC_DEFERRED ∧
      ((ltc831ReadCmd u env flags tag n addr d s).2.ltcBreakData
        s.ltc831Flags.dir).flags.crcError = true ∧
      (ltc831ReadCmd u env flags tag n addr d s).2.ltc831Flags.didFirst = true ∧
      (ltc831ReadCmd u env flags tag n addr d s).2.ltc831Flags.dir = (!s.ltc831Flags.dir) ∧
      (readAttempt u env2 env2b flags tag n addr d
        (ltc831ReadCmd u env flags tag n addr d s).2).1 = LTC_SUCCESS ∧
      (readAttempt u env2 env2b flags tag n addr d
        (ltc831ReadCmd u env flags tag n addr d s).2).1 ≠ LTC_DEFERRED ∧
      (readAttempt u env2 env2b flags tag n addr d
        (ltc831ReadCmd u env flags tag n addr d s).2).2.ltc831Flags.didFirst = false ∧
      (readAttempt u env2 env2b flags tag n addr d
        (ltc831ReadCmd u env flags tag n addr d s).2).2.ltc831Flags.dir = s.ltc831Flags.dir) ∧
    (∀ (env : Env) (s : State),
      s.ltc831Flags.waitDMA = false → flags.synchronous = false → env.spiComplete = false →
      (ltc831ReadCmd u env flags tag n addr d s).1 = LTC_DEFERRED ∧
      (ltc831ReadCmd u env flags tag n addr d s).2.ltc831Flags.waitDMA = true ∧
      ((ltc831ReadCmd u env flags tag n addr d s).2.ltcBreakData
        s.ltc831Flags.dir).flags.crcError = false ∧
      (ltc831ReadCmd u env flags tag n addr d s).2.ltc831Flags.didFirst
        = s.ltc831Flags.didFirst ∧
      (ltc831ReadCmd u env flags tag n addr d s).2.ltc831Flags.dir = s.ltc831Flags.dir) := by
  refine ⟨?_, ?_, ?_⟩
  · intro env1 env1b env2 env2b s0 i hdma hfirst hi herr
    obtain ⟨S, h0, h1, h2, h3, h4, h5, h6, h7, h8, h9⟩ :=
      readAttempt_front u env1 env1b flags tag n addr d s0 hdma hR (by omega) (by omega) hdet
    have hSn : S.ltcParams.numDevs = n := by rw [h1]; rfl
    have hview := readFront_view u flags tag n addr d env1.rx S
      (S.ltcBreakData S.ltc831Flags.dir) h1 h4 h5 h6
    have hB1 := readBreakAfter_crcError u flags addr env1.rx
      (S.ltcBreakData S.ltc831Flags.dir) n i hi herr
    rw [← hview] at hB1
    obtain ⟨c1, -, c3, c4, c5, c6⟩ := readTail_spec u S (by omega)
    obtain ⟨x1, x2, x3⟩ := c1 ⟨hB1, by rw [h7]; exact hfirst, by rw [h1]; exact hdet⟩
    have hbd := (c6 s0.ltc831Flags.dir).2
    rw [h8, if_pos rfl] at hbd
    rw [← h0] at x1 x2 x3 c3 c5 hbd
    obtain ⟨y1, y2, y3⟩ := readAttempt_second u env2 env2b flags tag n addr d
      (readAttempt u env1 env1b flags tag n addr d s0).2 hR (by omega) (by omega) hdet x2
      (fun _ => by rw [c5]; omega)
    refine ⟨x1, ?_, x2, ?_, y1, ?_, y2, ?_⟩
    · rw [hbd, ← h8]; exact hB1
    · rw [x3, h8]
    · rw [y1]; decide
    · rw [y3, x3, h8]; simp
  · intro env env2 env2b s i hdma hfirst hdb hnd hi herr
    obtain ⟨r1, r2, r3, r4, r5, r6, r7, r8, r9, r10, r11⟩ := sendCommandFrame_resume env s hdma
    have heq := readCmd_resume_eq u env flags tag n addr d s hdma
    have hB : (rxBreakAfter u s (rxBase s) (s.ltcBreakData s.ltc831Flags.dir)
        s.ltcParams.numDevs).flags.crcError = true := by
      rw [rxBreakAfter_crcError]
      exact Or.inr ⟨i, hi, herr⟩
    obtain ⟨c1, -, c3, c4, c5, c6⟩ := readTail_spec u (ltcSendCommandFrame env s).2
      (by rw [r2]; exact hnd)
    rw [r6, r9, r2, rxBreakAfter_resume u env s hdma] at c1 c6
    rw [r8] at c1
    obtain ⟨x1, x2, x3⟩ := c1 ⟨hB, hfirst, hdb⟩
    have hbd := (c6 s.ltc831Flags.dir).2
    rw [if_pos rfl] at hbd
    rw [← heq] at x1 x2 x3 c5 hbd
    obtain ⟨y1, y2, y3⟩ := readAttempt_second u env2 env2b flags tag n addr d
      (ltc831ReadCmd u env flags tag n addr d s).2 hR (by omega) (by omega) hdet x2
      (fun _ => by rw [c5, r2]; exact hnd)
    refine ⟨x1, ?_, x2, x3, y1, ?_, y2, ?_⟩
    · rw [hbd]; exact hB
    · rw [y1]; decide
    · rw [y3, x3]; simp
  · intro env s hdma hsync hc
    obtain ⟨p1, p2, p3, p4, p5, p6, p7, p8⟩ :=
      readPrepare_spec u flags tag n addr d s hR (by omega)
    obtain ⟨s1, s2, s3, s4, s5, s6, s7, s8, s9, s10, s11⟩ :=
      sendCommandFrame_pending env (ltc831ReadCmd_prepare u flags tag n addr d s).2
        (by rw [p3]; exact hdma) (by rw [p2]; exact hsync) hc
    rw [readCmd_pending_eq u env flags tag n addr d s hdma hR (by omega) hdet hsync hc]
    refine ⟨rfl, s11, ?_, by rw [s8, p3], by rw [s9, p3]⟩
    simp only
    rw [s6, p6, if_pos hdet]
    simp [freshBreak]

set_option maxRecDepth 100000 in
/-- Witness for C7: an asynchronous break-detecting read of fuse row 0
(address 0x30) from two devices in direction A from the initial state, with
no transfer complete at the check of the call that starts it.  The first call
returns `LTC_DEFERRED` for the DMA; its re-entry parses the response (slot 1
all ones), so the first attempt ends with `LTC_DEFERRED` and the direction at
B; the second attempt (a call that starts the transfer in direction B and its
re-entry) ends with `LTC_SUCCESS` and the direction back at A. -/
theorem readCmd_crc_error_reentry_flows_witness :
    asyncDetectFlags.doBreakDetect = true ∧ (regMap 0x30).type = LTC831_REG_R ∧
    readCrcErrorAt (modelUtil 0x025B) asyncDetectFlags 0x30 (pendingEnvOf brokenResponse).rx 1
      = true ∧
    (ltc831ReadCmd (modelUtil 0x025B) (pendingEnvOf brokenResponse) asyncDetectFlags 0 2 0x30
      none zeroState).1 = LTC_DEFERRED ∧
    (ltc831ReadCmd (modelUtil 0x025B) (pendingEnvOf brokenResponse) asyncDetectFlags 0 2 0x30
      none zeroState).2.ltc831Flags.waitDMA = true ∧
    (readAttempt (modelUtil 0x025B) (pendingEnvOf brokenResponse) (envOf []) asyncDetectFlags
      0 2 0x30 none zeroState).1 = LTC_DEFERRED ∧
    (readAttempt (modelUtil 0x025B) (pendingEnvOf brokenResponse) (envOf []) asyncDetectFlags
      0 2 0x30 none zeroState).2.ltc831Flags.dir = true ∧
    (readAttempt (modelUtil 0x025B) (pendingEnvOf goodResponse) (envOf []) asyncDetectFlags
      0 2 0x30 none
      (readAttempt (modelUtil 0x025B) (pendingEnvOf brokenResponse) (envOf []) asyncDetectFlags
        0 2 0x30 none zeroState).2).1 = LTC_SUCCESS ∧
    (readAttempt (modelUtil 0x025B) (pendingEnvOf goodResponse) (envOf []) asyncDetectFlags
      0 2 0x30 none
      (readAttempt (modelUtil 0x025B) (pendingEnvOf brokenResponse) (envOf []) asyncDetectFlags
        0 2 0x30 none zeroState).2).2.ltc831Flags.dir = false :=
  have h := readCmd_crc_error_reentry_flows (modelUtil 0x025B) asyncDetectFlags 0 2 0x30 none
    (by decide) (by decide) (by decide) (by decide)
  have h1 := h.1 (pendingEnvOf brokenResponse) (envOf []) (pendingEnvOf goodResponse) (envOf [])
    zeroState 1 (by decide) (by decide) (by decide) (by decide)
  have h3 := h.2.2 (pendingEnvOf brokenResponse) zeroState (by decide) (by decide) (by decide)
  ⟨by decide, by decide, by decide, h3.1, h3.2.1, h1.1, h1.2.2.2.1, h1.2.2.2.2.1,
    h1.2.2.2.2.2.2.2⟩

/-! ## C31: every flow of calls -/

/-- The block of `ltc831WriteCmd` behind a completed transfer leaves the
command parameters alone. -/
theorem writeComplete_params (n : Nat) (d : Option (Nat → Nat)) (st : LTC_STATUS_E) (s : State) :
    (ltc831WriteCmd_complete n d st s).2.ltcParams = s.ltcParams := by
  have k6 := (checkAck_spec { s with ltcFrames := { s.ltcFrames with rxNumDevs := n } }).2.2.2.2.2
  simp only at k6
  have hres : ∀ (a : LTC_STATUS_E) (t : State), (ltc831WriteCmd_resolve a t).2.ltcParams
      = t.ltcParams := by
    intro a t
    unfold ltc831WriteCmd_resolve
    split
    · simp only
      split_ifs <;> rfl
    · rfl
  generalize hr : ltc831WriteCmd_complete n d st s = r
  unfold ltc831WriteCmd_complete at hr
  by_cases hau : (regMap s.ltcParams.addr).ack = true ∧ s.ltcParams.flags.useAck = true
  · simp only [hau, and_self, if_true] at hr
    generalize LTC831_checkAck { s with ltcFrames := { s.ltcFrames with rxNumDevs := n } } = p
      at k6 hr
    subst hr
    cases d <;> simp only <;> split_ifs <;> simp [hres, k6]
  · simp only [if_neg hau] at hr
    subst hr
    cases d <;> rfl

/-- A call of `ltc831WriteCmd` entered with the DMA pending does not look at
the address or the flags it is given: it is the block behind the transfer,
run on the state the pending command left. -/
theorem writeCmd_resume_eq (u : Util) (env : Env) (flags : LTC_PARAM_FLAGS_T)
    (n addr : Nat) (d : Option (Nat → Nat)) (s : State)
    (hdma : s.ltc831Flags.waitDMA = true) :
    ltc831WriteCmd u env flags n addr d s =
      ltc831WriteCmd_complete n d LTC_SUCCESS (ltcSendCommandFrame env s).2 := by
  have h1 := (sendCommandFrame_resume env s hdma).1
  unfold ltc831WriteCmd
  simp only [hdma, not_true_eq_false, if_false, if_true, h1]

/-- A call of `ltc831WriteCmd` entered with no DMA pending whose checks pass
and whose transfer completes within the call is the block behind the
transfer, run on the state the transfer leaves. -/
theorem writeCmd_in_call_eq (u : Util) (env : Env) (flags : LTC_PARAM_FLAGS_T)
    (n addr : Nat) (d : Option (Nat → Nat)) (s : State)
    (hdma : s.ltc831Flags.waitDMA = false)
    (hp : (ltc831WriteCmd_prepare u flags n addr d s).1 = LTC_SUCCESS)
    (hs : (ltcSendCommandFrame env (ltc831WriteCmd_prepare u flags n addr d s).2).1
      = LTC_SUCCESS) :
    ltc831WriteCmd u env flags n addr d s =
      ltc831WriteCmd_complete n d LTC_SUCCESS
        (ltcSendCommandFrame env (ltc831WriteCmd_prepare u flags n addr d s).2).2 := by
  unfold ltc831WriteCmd
  simp only [hdma, Bool.false_eq_true, not_false_eq_true, if_true, hp, hs]

/-- A call of `ltc831WriteCmd` for an acknowledged asynchronous command,
entered with no DMA pending, whose transfer is not complete at the final
check: it returns `LTC_DEFERRED` with the state the started transfer leaves;
no acknowledge bit is looked at. -/
theorem writeCmd_pending_eq (u : Util) (env : Env) (flags : LTC_PARAM_FLAGS_T)
    (n addr : Nat) (d : Option (Nat → Nat)) (s : State)
    (hdma : s.ltc831Flags.waitDMA = false) (hack : (regMap addr).ack = true)
    (hsync : flags.synchronous = false) (hc : env.spiComplete = false) :
    ltc831WriteCmd u env flags n addr d s =
      (LTC_DEFERRED,
        (ltcSendCommandFrame env (ltc831WriteCmd_prepare u flags n addr d s).2).2) := by
  obtain ⟨p1, p2, p3, p4, p5, p6⟩ := writePrepare_spec u flags n addr d s hack
  obtain ⟨s1, s2, s3, s4, s5, s6, s7, s8, s9, s10, s11⟩ :=
    sendCommandFrame_pending env (ltc831WriteCmd_prepare u flags n addr d s).2
      (by rw [p3]; exact hdma) (by rw [p2]; exact hsync) hc
  unfold ltc831WriteCmd
  simp only [hdma, Bool.false_eq_true, not_false_eq_true, if_true, p1, s1, reduceCtorEq,
    if_false]
  exact Prod.ext s1 rfl

/-- A directional attempt of an acknowledged write with the ACK check
requested, started with no DMA pending, is the block of `ltc831WriteCmd`
behind the transfer run on a state `S` that holds the command parameters of
the arguments, the response `env.rx` of the transfer the first call started,
the break data and the pack-layer record as the call in front of the transfer
prepares them, and `didFirst` and `dir` as at the start: whether the transfer
completes within the first call or the ACK check is run by the re-entry. -/
theorem writeAttempt_front (u : Util) (env env2 : Env) (flags : LTC_PARAM_FLAGS_T)
    (n addr : Nat) (d : Option (Nat → Nat)) (s : State)
    (hdma : s.ltc831Flags.waitDMA = false) (hack : (regMap addr).ack = true)
    (huse : flags.useAck = true) :
    ∃ S : State,
      writeAttempt u env env2 flags n addr d s = ltc831WriteCmd_complete n d LTC_SUCCESS S ∧
      S.ltcParams = ⟨flags, LTC_REG_WRITE_CMD, addr, 0, n, d⟩ ∧
      S.packApi =
        (if flags.doBreakDetect = true ∧ s.ltc831Flags.didFirst = false then
          clearedPack s.packApi else s.packApi) ∧
      S.reqNumDevs = s.reqNumDevs ∧
      S.ltcBreakData =
        (if flags.doBreakDetect = true then
          fun x => if x = s.ltc831Flags.dir then freshBreak else s.ltcBreakData x
         else s.ltcBreakData) ∧
      S.ltcFrames.cmdDataRx = env.rx ∧
      S.ltc831Flags.didFirst = s.ltc831Flags.didFirst ∧
      S.ltc831Flags.dir = s.ltc831Flags.dir ∧
      S.ltc831Flags.waitDMA =
        (!(flags.synchronous || env.spiComplete) && !env2.spiComplete) := by
  obtain ⟨p1, p2, p3, p4, p5, p6⟩ := writePrepare_spec u flags n addr d s hack
  by_cases hc : flags.synchronous = true ∨ env.spiComplete = true
  · obtain ⟨s1, s2, s3, s4, s5, s6, s7, s8, s9, s10, s11⟩ :=
      sendCommandFrame_done env (ltc831WriteCmd_prepare u flags n addr d s).2
        (by rw [p3]; exact hdma) (by rw [p2]; exact hc)
    have heq := writeCmd_in_call_eq u env flags n addr d s hdma p1 s1
    have hw := (writeComplete_spec n d LTC_SUCCESS
      (ltcSendCommandFrame env (ltc831WriteCmd_prepare u flags n addr d s).2).2
      (by rw [s2, p2]; exact hack) (by rw [s2, p2]; exact huse)).2.2.2.1
    rw [s11] at hw
    refine ⟨_, ?_, s2.trans p2, s3.trans p5, s4.trans p4, s6.trans p6, ?_, ?_, ?_, ?_⟩
    · unfold writeAttempt
      simp only [hdma, Bool.false_eq_true, if_false, heq, hw]
    · rw [s7]
    · rw [s8, p3]
    · rw [s9, p3]
    · rw [s11]
      rcases hc with h | h <;> simp [h]
  · have hsync : flags.synchronous = false := by
      cases h : flags.synchronous
      · rfl
      · exact absurd (Or.inl h) hc
    have hcomp : env.spiComplete = false := by
      cases h : env.spiComplete
      · rfl
      · exact absurd (Or.inr h) hc
    obtain ⟨s1, s2, s3, s4, s5, s6, s7, s8, s9, s10, s11⟩ :=
      sendCommandFrame_pending env (ltc831WriteCmd_prepare u flags n addr d s).2
        (by rw [p3]; exact hdma) (by rw [p2]; exact hsync) hcomp
    have heq := writeCmd_pending_eq u env flags n addr d s hdma hack hsync hcomp
    generalize (ltcSendCommandFrame env (ltc831WriteCmd_prepare u flags n addr d s).2).2 = S1
      at s2 s3 s4 s5 s6 s7 s8 s9 s10 s11 heq
    obtain ⟨r1, r2, r3, r4, r5, r6, r7, r8, r9, r10, r11⟩ := sendCommandFrame_resume env2 S1 s11
    have heq2 := writeCmd_resume_eq u env2 flags n addr d S1 s11
    refine ⟨_, ?_, r2.trans (s2.trans p2), r3.trans (s3.trans p5), r4.trans (s4.trans p4),
      r6.trans (s6.trans p6), ?_, ?_, ?_, ?_⟩
    · unfold writeAttempt
      simp only [hdma, Bool.false_eq_true, if_false, heq, s11, if_true, heq2]
    · rw [r7, s7]
    · rw [r8, s8, p3]
    · rw [r9, s9, p3]
    · rw [r11, hsync, hcomp]; simp

/-- A directional attempt of a write entered with the DMA pending is the
block of `ltc831WriteCmd` behind the transfer, run on the state the pending
command left. -/
theorem writeAttempt_resume_eq (u : Util) (env env2 : Env) (flags : LTC_PARAM_FLAGS_T)
    (n addr : Nat) (d : Option (Nat → Nat)) (s : State)
    (hdma : s.ltc831Flags.waitDMA = true) :
    writeAttempt u env env2 flags n addr d s =
      ltc831WriteCmd_complete n d LTC_SUCCESS (ltcSendCommandFrame env s).2 := by
  unfold writeAttempt
  rw [if_pos hdma]
  exact writeCmd_resume_eq u env flags n addr d s hdma

/-- The break flag the classification of the two directional attempts sets
when a break is recorded and the 8-bit sum of the break indexes is the
requested device count. -/
theorem resolvePack_breakDetected (req : Nat) (bd : Bool → LTC831_BREAK_DATA_T) (p : PACK_API_T)
    (hbs : (bd false).flags.breakString = true ∨ (bd true).flags.breakString = true)
    (hsum : ((bd false).breakIdx + (bd true).breakIdx) % 256 = req) :
    (resolvePack req bd p).flags.breakDetected = true := by
  unfold resolvePack
  rw [if_pos hbs]
  simp only
  have hl : ¬ ((bd false).breakIdx + (bd true).breakIdx) % 256 < req := by omega
  rw [if_neg hl, if_pos hsum]

/-- The block of `ltc831WriteCmd` behind a completed transfer on the second
directional attempt (`didFirst` set) of a break-detecting acknowledged write
with the ACK check requested: the status is `LTC_SUCCESS` with
`breakDetected` set when a break is recorded and the 8-bit sum of the break
indexes is the requested device count; otherwise it is `LTC_ACK_FAILED` when
some slot of the response is not acknowledged.  The break data of the
direction of the attempt is tracked over the response, the other direction is
left alone. -/
theorem writeLast_rule (n : Nat) (d : Option (Nat → Nat)) (S : State)
    (hack : (regMap S.ltcParams.addr).ack = true) (huse : S.ltcParams.flags.useAck = true)
    (hm : S.ltcParams.numDevs ≤ 256) (hdid : S.ltc831Flags.didFirst = true)
    (hdb : S.ltcParams.flags.doBreakDetect = true) :
    (((((ltc831WriteCmd_complete n d LTC_SUCCESS S).2.ltcBreakData false).flags.breakString
          = true ∨
        ((ltc831WriteCmd_complete n d LTC_SUCCESS S).2.ltcBreakData true).flags.breakString
          = true) ∧
        (((ltc831WriteCmd_complete n d LTC_SUCCESS S).2.ltcBreakData false).breakIdx +
          ((ltc831WriteCmd_complete n d LTC_SUCCESS S).2.ltcBreakData true).breakIdx) % 256
          = S.reqNumDevs) →
      (ltc831WriteCmd_complete n d LTC_SUCCESS S).1 = LTC_SUCCESS ∧
      (ltc831WriteCmd_complete n d LTC_SUCCESS S).1 ≠ LTC_ACK_FAILED ∧
      (ltc831WriteCmd_complete n d LTC_SUCCESS S).2.packApi.flags.breakDetected = true) ∧
    (((((ltc831WriteCmd_complete n d LTC_SUCCESS S).2.ltcBreakData false).breakIdx +
          ((ltc831WriteCmd_complete n d LTC_SUCCESS S).2.ltcBreakData true).breakIdx) % 256
          ≠ S.reqNumDevs ∧
        ∃ i, i < S.ltcParams.numDevs ∧ ackFailAt S.ltcFrames.cmdDataRx i = true) →
      (ltc831WriteCmd_complete n d LTC_SUCCESS S).1 = LTC_ACK_FAILED) ∧
    (ltc831WriteCmd_complete n d LTC_SUCCESS S).2.ltcBreakData =
      (fun x => if x = S.ltc831Flags.dir then
        ackBreakAfter S.ltcFrames.cmdDataRx (S.ltcBreakData S.ltc831Flags.dir) S.ltcParams.numDevs
        else S.ltcBreakData x) := by
  have hno : ¬ ((ackBreakAfter S.ltcFrames.cmdDataRx (S.ltcBreakData S.ltc831Flags.dir)
      S.ltcParams.numDevs).flags.ackError = true ∧
      S.ltc831Flags.didFirst = false ∧ S.ltcParams.flags.doBreakDetect = true) := by
    rw [hdid]; simp
  obtain ⟨b1, b2⟩ := writeComplete_status n d LTC_SUCCESS S hack huse hm hno
  obtain ⟨-, c2, -, -, -, c6, -⟩ := writeComplete_spec n d LTC_SUCCESS S hack huse
  have hpk := (c2 hno).2.2
  rw [if_pos hdb, ← c6] at hpk
  refine ⟨?_, ?_, c6⟩
  · rintro ⟨hbs, hsum⟩
    have hS := b1 ⟨hdb, hbs, hsum⟩
    refine ⟨hS, by rw [hS]; decide, ?_⟩
    rw [hpk]
    exact resolvePack_breakDetected _ _ _ hbs hsum
  · rintro ⟨hsum, hfail⟩
    exact (b2 (fun h => hsum h.2.2)).mpr hfail

/-- The first directional attempt of a break-detecting acknowledged write
with the ACK check requested, started with no DMA pending, that ends with
`LTC_DEFERRED`: `didFirst` is set, the direction is flipped, the command
parameters are those of the arguments, the break index of the direction of
the attempt is at most the device count and the break data of the other
direction is as before. -/
theorem writeAttempt_first (u : Util) (env env2 : Env) (flags : LTC_PARAM_FLAGS_T)
    (n addr : Nat) (d : Option (Nat → Nat)) (s : State)
    (hdma : s.ltc831Flags.waitDMA = false) (hdet : flags.doBreakDetect = true)
    (hack : (regMap addr).ack = true) (huse : flags.useAck = true)
    (hdef : (writeAttempt u env env2 flags n addr d s).1 = LTC_DEFERRED) :
    (writeAttempt u env env2 flags n addr d s).2.ltc831Flags.didFirst = true ∧
    (writeAttempt u env env2 flags n addr d s).2.ltc831Flags.dir = (!s.ltc831Flags.dir) ∧
    (writeAttempt u env env2 flags n addr d s).2.reqNumDevs = s.reqNumDevs ∧
    (writeAttempt u env env2 flags n addr d s).2.ltcParams =
      ⟨flags, LTC_REG_WRITE_CMD, addr, 0, n, d⟩ ∧
    ((writeAttempt u env env2 flags n addr d s).2.ltcBreakData s.ltc831Flags.dir).breakIdx ≤ n ∧
    (writeAttempt u env env2 flags n addr d s).2.ltcBreakData (!s.ltc831Flags.dir) =
      s.ltcBreakData (!s.ltc831Flags.dir) := by
  obtain ⟨S1, h0, h1, h2, h3, h4, h5, h6, h7, h8⟩ :=
    writeAttempt_front u env env2 flags n addr d s hdma hack huse
  rw [if_pos hdet] at h4
  obtain ⟨c1, c2, c3, c4, c5, c6, c7⟩ := writeComplete_spec n d LTC_SUCCESS S1
    (by rw [h1]; exact hack) (by rw [h1]; exact huse)
  have hpar := writeComplete_params n d LTC_SUCCESS S1
  rw [← h0] at c1 c2 c3 c6 c7 hpar
  have hdid : (writeAttempt u env env2 flags n addr d s).2.ltc831Flags.didFirst = true := by
    by_cases hcond : ((ackBreakAfter S1.ltcFrames.cmdDataRx (S1.ltcBreakData S1.ltc831Flags.dir)
        S1.ltcParams.numDevs).flags.ackError = true ∧
        S1.ltc831Flags.didFirst = false ∧ S1.ltcParams.flags.doBreakDetect = true)
    · exact (c1 hcond).2.1
    · exact absurd hdef (c2 hcond).1
  refine ⟨hdid, by rw [c3, h7], by rw [c7, h3], by rw [hpar, h1], ?_, ?_⟩
  · have := ackBreakAfter_breakIdx_le S1.ltcFrames.cmdDataRx freshBreak n
    have hz : freshBreak.breakIdx = 0 := rfl
    rw [c6, h7, h4, h1]
    simp only [if_true]
    omega
  · rw [c6, h7, h4]
    cases s.ltc831Flags.dir <;> simp

/-- The second directional attempt of a break-detecting acknowledged write
with the ACK check requested for `n < 256` devices, `n` being the requested
device count, entered with `didFirst` set: whether it starts a transfer or
finds the DMA pending, the status is `LTC_SUCCESS` with `breakDetected` when
a break is recorded and the break indexes add up to `n`, and
`LTC_ACK_FAILED` when they do not and some slot of the response it checks is
not acknowledged. -/
theorem writeAttempt_last (u : Util) (env env2 : Env) (flags : LTC_PARAM_FLAGS_T)
    (n addr : Nat) (d : Option (Nat → Nat)) (s : State)
    (hdet : flags.doBreakDetect = true) (hack : (regMap addr).ack = true)
    (huse : flags.useAck = true) (hn : n < 256)
    (hdid : s.ltc831Flags.didFirst = true) (hreq : s.reqNumDevs = n)
    (hpar : s.ltc831Flags.waitDMA = true →
      s.ltcParams = ⟨flags, LTC_REG_WRITE_CMD, addr, 0, n, d⟩)
    (hb1 : (s.ltcBreakData (!s.ltc831Flags.dir)).breakIdx ≤ n)
    (hb2 : (s.ltcBreakData s.ltc831Flags.dir).breakIdx < 256) :
    (((((writeAttempt u env env2 flags n addr d s).2.ltcBreakData false).flags.breakString
          = true ∨
        ((writeAttempt u env env2 flags n addr d s).2.ltcBreakData true).flags.breakString
          = true) ∧
        ((writeAttempt u env env2 flags n addr d s).2.ltcBreakData false).breakIdx +
          ((writeAttempt u env env2 flags n addr d s).2.ltcBreakData true).breakIdx = n) →
      (writeAttempt u env env2 flags n addr d s).1 = LTC_SUCCESS ∧
      (writeAttempt u env env2 flags n addr d s).1 ≠ LTC_ACK_FAILED ∧
      (writeAttempt u env env2 flags n addr d s).2.packApi.flags.breakDetected = true) ∧
    ((((writeAttempt u env env2 flags n addr d s).2.ltcBreakData false).breakIdx +
          ((writeAttempt u env env2 flags n addr d s).2.ltcBreakData true).breakIdx ≠ n ∧
        ∃ i, i < n ∧
          ackFailAt (if s.ltc831Flags.waitDMA = true then s.ltcFrames.cmdDataRx else env.rx) i
            = true) →
      (writeAttempt u env env2 flags n addr d s).1 = LTC_ACK_FAILED) := by
  obtain ⟨S, h0, hp, hq, hbd, hrx, hd, hdir⟩ : ∃ S : State,
      writeAttempt u env env2 flags n addr d s = ltc831WriteCmd_complete n d LTC_SUCCESS S ∧
      S.ltcParams = ⟨flags, LTC_REG_WRITE_CMD, addr, 0, n, d⟩ ∧
      S.reqNumDevs = n ∧
      ((S.ltcBreakData (!s.ltc831Flags.dir)).breakIdx ≤ n ∧
        (S.ltcBreakData s.ltc831Flags.dir).breakIdx < 256) ∧
      S.ltcFrames.cmdDataRx =
        (if s.ltc831Flags.waitDMA = true then s.ltcFrames.cmdDataRx else env.rx) ∧
      S.ltc831Flags.didFirst = true ∧ S.ltc831Flags.dir = s.ltc831Flags.dir := by
    cases hdma : s.ltc831Flags.waitDMA
    · obtain ⟨S, h0, h1, h2, h3, h4, h5, h6, h7, h8⟩ :=
        writeAttempt_front u env env2 flags n addr d s hdma hack huse
      rw [if_pos hdet] at h4
      refine ⟨S, h0, h1, h3.trans hreq, ⟨?_, ?_⟩, ?_, h6.trans hdid, h7⟩
      · rw [h4]
        cases hdd : s.ltc831Flags.dir <;> rw [hdd] at hb1 <;> simpa using hb1
      · rw [h4]
        simp [freshBreak]
      · rw [h5]; simp
    · obtain ⟨r1, r2, r3, r4, r5, r6, r7, r8, r9, r10, r11⟩ :=
        sendCommandFrame_resume env s hdma
      refine ⟨_, writeAttempt_resume_eq u env env2 flags n addr d s hdma,
        r2.trans (hpar hdma), r4.trans hreq, ⟨by rw [r6]; exact hb1, by rw [r6]; exact hb2⟩,
        ?_, r8.trans hdid, r9⟩
      rw [r7]; simp
  obtain ⟨w1, w2, w3⟩ := writeLast_rule n d S (by rw [hp]; exact hack) (by rw [hp]; exact huse)
    (by rw [hp]; simp only; omega) hd (by rw [hp]; exact hdet)
  have hle : ((ltc831WriteCmd_complete n d LTC_SUCCESS S).2.ltcBreakData false).breakIdx +
      ((ltc831WriteCmd_complete n d LTC_SUCCESS S).2.ltcBreakData true).breakIdx < n + 256 := by
    have hown := ackBreakAfter_breakIdx_le S.ltcFrames.cmdDataRx
      (S.ltcBreakData S.ltc831Flags.dir) S.ltcParams.numDevs
    have hSn : S.ltcParams.numDevs = n := by rw [hp]
    rw [w3]
    simp only [hSn, hdir] at hown ⊢
    cases hdd : s.ltc831Flags.dir <;> simp only [hdd] at hown hbd ⊢ <;> simp at hbd ⊢ <;> omega
  have hSn : S.ltcParams.numDevs = n := by rw [hp]
  rw [hq, ← h0] at w1
  rw [hq, hSn, hrx, ← h0] at w2
  rw [← h0] at hle
  constructor
  · rintro ⟨hbs, hsum⟩
    exact w1 ⟨hbs, by rw [hsum]; exact Nat.mod_eq_of_lt hn⟩
  · rintro ⟨hsum, hfail⟩
    exact w2 ⟨by omega, hfail⟩

/-- C31: the status of an ACK-checked, break-detecting write after its two
directional attempts, in every flow of calls.  The command is an acknowledged
one, written with the ACK check and break detection for `n < 256` devices.  A
directional attempt (`writeAttempt`) is the call of `ltc831WriteCmd` that
runs the ACK check together with the call in front of it that returned
`LTC_DEFERRED` with the DMA pending, if there is one: synchronous transfers,
asynchronous transfers complete at the check of the first call, and
asynchronous transfers resumed by a re-entry are all covered, whether or not
the resumed transfer is complete by then.

* A write issued with no DMA pending, `n` being the requested device count
  `ltc831ReqParamFlags.numDevs` (every call of the driver passes that count)
  and the break indexes being 8-bit values, whose first attempt ends with
  `LTC_DEFERRED` to try the other direction.  When the second attempt leaves
  `breakString` set in some direction and `breakIdx[A] + breakIdx[B] = n`, it
  returns `LTC_SUCCESS`, not `LTC_ACK_FAILED`, with
  `packApi.flags.breakDetected` set; when the sum differs from `n` and some
  slot of the response the second attempt checks is not acknowledged (the
  response of its own transfer, or the one in the receive buffer when it is
  entered with the DMA pending), it returns `LTC_ACK_FAILED`.
* A call entered with the DMA pending does not look at the address and the
  flags it is given.  On the second directional attempt (`didFirst` set) of
  a break-detecting acknowledged command with the ACK check in force, it
  returns `LTC_SUCCESS` with `breakDetected` set when `breakString` is set in
  some direction and the sum of the break indexes, which the driver forms in
  the 8-bit `rxNumDevs`, is the requested device count; when that sum
  differs and some slot of the response in the receive buffer is not
  acknowledged, it returns `LTC_ACK_FAILED`.
* The call in front of a resumed ACK check, entered with no DMA pending for
  an asynchronous transfer that is not complete at its check, returns
  `LTC_DEFERRED` for the DMA: `waitDMA` is set, no acknowledge bit is looked
  at, `ackError` of its direction is clear, and `didFirst` and the direction
  are unchanged. -/
theorem writeCmd_break_sum_status_flows (u : Util) (flags : LTC_PARAM_FLAGS_T)
    (n addr : Nat) (d : Option (Nat → Nat))
    (hdet : flags.doBreakDetect = true) (hack : (regMap addr).ack = true)
    (huse : flags.useAck = true) (hn : n < 256) :
    (∀ (env1 env1b env2 env2b : Env) (s0 : State),
      s0.ltc831Flags.waitDMA = false → s0.reqNumDevs = n →
      (∀ x, (s0.ltcBreakData x).breakIdx < 256) →
      (writeAttempt u env1 env1b flags n addr d s0).1 = LTC_DEFERRED →
      (((((writeAttempt u env2 env2b flags n addr d
              (writeAttempt u env1 env1b flags n addr d s0).2).2.ltcBreakData
              false).flags.breakString = true ∨
          ((writeAttempt u env2 env2b flags n addr d
              (writeAttempt u env1 env1b flags n addr d s0).2).2.ltcBreakData
              true).flags.breakString = true) ∧
          ((writeAttempt u env2 env2b flags n addr d
              (writeAttempt u env1 env1b flags n addr d s0).2).2.ltcBreakData false).breakIdx +
            ((writeAttempt u env2 env2b flags n addr d
              (writeAttempt u env1 env1b flags n addr d s0).2).2.ltcBreakData true).breakIdx
            = n) →
        (writeAttempt u env2 env2b flags n addr d
          (writeAttempt u env1 env1b flags n addr d s0).2).1 = LTC_SUCCESS ∧
        (writeAttempt u env2 env2b flags n addr d
          (writeAttempt u env1 env1b flags n addr d s0).2).1 ≠ LTC_ACK_FAILED ∧
        (writeAttempt u env2 env2b flags n addr d
          (writeAttempt u env1 env1b flags n addr d s0).2).2.packApi.flags.breakDetected
          = true) ∧
      ((((writeAttempt u env2 env2b flags n addr d
              (writeAttempt u env1 env1b flags n addr d s0).2).2.ltcBreakData false).breakIdx +
            ((writeAttempt u env2 env2b flags n addr d
              (writeAttempt u env1 env1b flags n addr d s0).2).2.ltcBreakData true).breakIdx
            ≠ n ∧
          ∃ i, i < n ∧
            ackFailAt
              (if (writeAttempt u env1 env1b flags n addr d s0).2.ltc831Flags.waitDMA = true
                then (writeAttempt u env1 env1b flags n addr d s0).2.ltcFrames.cmdDataRx
                else env2.rx) i = true) →
        (writeAttempt u env2 env2b flags n addr d
          (writeAttempt u env1 env1b flags n addr d s0).2).1 = LTC_ACK_FAILED)) ∧
    (∀ (env : Env) (s : State),
      s.ltc831Flags.waitDMA = true → (regMap s.ltcParams.addr).ack = true →
      s.ltcParams.flags.useAck = true → s.ltcParams.flags.doBreakDetect = true →
      s.ltcParams.numDevs ≤ 256 → s.ltc831Flags.didFirst = true →
      (((((ltc831WriteCmd u env flags n addr d s).2.ltcBreakData false).flags.breakString
            = true ∨
          ((ltc831WriteCmd u env flags n addr d s).2.ltcBreakData true).flags.breakString
            = true) ∧
          (((ltc831WriteCmd u env flags n addr d s).2.ltcBreakData false).breakIdx +
            ((ltc831WriteCmd u env flags n addr d s).2.ltcBreakData true).breakIdx) % 256
            = s.reqNumDevs) →
        (ltc831WriteCmd u env flags n addr d s).1 = LTC_SUCCESS ∧
        (ltc831WriteCmd u env flags n addr d s).1 ≠ LTC_ACK_FAILED ∧
        (ltc831WriteCmd u env flags n addr d s).2.packApi.flags.breakDetected = true) ∧
      (((((ltc831WriteCmd u env flags n addr d s).2.ltcBreakData false).breakIdx +
            ((ltc831WriteCmd u env flags n addr d s).2.ltcBreakData true).breakIdx) % 256
            ≠ s.reqNumDevs ∧
          ∃ i, i < s.ltcParams.numDevs ∧ ackFailAt s.ltcFrames.cmdDataRx i = true) →
        (ltc831WriteCmd u env flags n addr d s).1 = LTC_ACK_FAILED)) ∧
    (∀ (env : Env) (s : State),
      s.ltc831Flags.waitDMA = false → flags.synchronous = false → env.spiComplete = false →
      (ltc831WriteCmd u env flags n addr d s).1 = LTC_DEFERRED ∧
      (ltc831WriteCmd u env flags n addr d s).2.ltc831Flags.waitDMA = true ∧
      ((ltc831WriteCmd u env flags n addr d s).2.ltcBreakData
        s.ltc831Flags.dir).flags.ackError = false ∧
      (ltc831WriteCmd u env flags n addr d s).2.ltc831Flags.didFirst
        = s.ltc831Flags.didFirst ∧
      (ltc831WriteCmd u env flags n addr d s).2.ltc831Flags.dir = s.ltc831Flags.dir) := by
  refine ⟨?_, ?_, ?_⟩
  · intro env1 env1b env2 env2b s0 hdma hreq hidx hdef
    obtain ⟨f1, f2, f3, f4, f5, f6⟩ :=
      writeAttempt_first u env1 env1b flags n addr d s0 hdma hdet hack huse hdef
    exact writeAttempt_last u env2 env2b flags n addr d
      (writeAttempt u env1 env1b flags n addr d s0).2 hdet hack huse hn f1 (f3.trans hreq)
      (fun _ => f4) (by rw [f2, Bool.not_not]; exact f5) (by rw [f2, f6]; exact hidx _)
  · intro env s hdma hack2 huse2 hdb hnd hdid
    obtain ⟨r1, r2, r3, r4, r5, r6, r7, r8, r9, r10, r11⟩ := sendCommandFrame_resume env s hdma
    obtain ⟨w1, w2, -⟩ := writeLast_rule n d (ltcSendCommandFrame env s).2
      (by rw [r2]; exact hack2) (by rw [r2]; exact huse2) (by rw [r2]; exact hnd)
      (r8.trans hdid) (by rw [r2]; exact hdb)
    rw [← writeCmd_resume_eq u env flags n addr d s hdma, r4] at w1 w2
    rw [r2, r7] at w2
    exact ⟨w1, w2⟩
  · intro env s hdma hsync hc
    obtain ⟨p1, p2, p3, p4, p5, p6⟩ := writePrepare_spec u flags n addr d s hack
    obtain ⟨s1, s2, s3, s4, s5, s6, s7, s8, s9, s10, s11⟩ :=
      sendCommandFrame_pending env (ltc831WriteCmd_prepare u flags n addr d s).2
        (by rw [p3]; exact hdma) (by rw [p2]; exact hsync) hc
    rw [writeCmd_pending_eq u env flags n addr d s hdma hack hsync hc]
    refine ⟨rfl, s11, ?_, by rw [s8, p3], by rw [s9, p3]⟩
    simp only
    rw [s6, p6, if_pos hdet]
    simp [freshBreak]

set_option maxRecDepth 100000 in
/-- Witness for C31: an asynchronous SNAP broadcast to two devices with the
ACK check and break detection, with no transfer complete at the check of the
call that starts it, so that each directional attempt is a call and its
re-entry.  With slot 1 not acknowledged in either direction the break indexes
are 1 and 1 and the second attempt returns `LTC_SUCCESS` with
`breakDetected`; with slot 0 failing in direction A and slot 1 in direction B
they are 2 and 1 and the second attempt returns `LTC_ACK_FAILED`. -/
theorem writeCmd_break_sum_status_flows_witness :
    asyncAckDetectFlags.doBreakDetect = true ∧ (regMap LTC831_SNAP_CMD).ack = true ∧
    asyncAckDetectFlags.useAck = true ∧
    (ltc831WriteCmd (modelUtil 0x025B) (pendingEnvOf [0, 0, 0x30]) asyncAckDetectFlags 2
      LTC831_SNAP_CMD none (requestState 2)).1 = LTC_DEFERRED ∧
    (ltc831WriteCmd (modelUtil 0x025B) (pendingEnvOf [0, 0, 0x30]) asyncAckDetectFlags 2
      LTC831_SNAP_CMD none (requestState 2)).2.ltc831Flags.waitDMA = true ∧
    (writeAttempt (modelUtil 0x025B) (pendingEnvOf [0, 0, 0x30]) (envOf []) asyncAckDetectFlags 2
      LTC831_SNAP_CMD none (requestState 2)).1 = LTC_DEFERRED ∧
    ((writeAttempt (modelUtil 0x025B) (pendingEnvOf [0, 0, 0x30]) (envOf []) asyncAckDetectFlags
        2 LTC831_SNAP_CMD none
        (writeAttempt (modelUtil 0x025B) (pendingEnvOf [0, 0, 0x30]) (envOf [])
          asyncAckDetectFlags 2 LTC831_SNAP_CMD none (requestState 2)).2).1 = LTC_SUCCESS ∧
      (writeAttempt (modelUtil 0x025B) (pendingEnvOf [0, 0, 0x30]) (envOf []) asyncAckDetectFlags
        2 LTC831_SNAP_CMD none
        (writeAttempt (modelUtil 0x025B) (pendingEnvOf [0, 0, 0x30]) (envOf [])
          asyncAckDetectFlags 2 LTC831_SNAP_CMD none
          (requestState 2)).2).2.packApi.flags.breakDetected = true) ∧
    (writeAttempt (modelUtil 0x025B) (pendingEnvOf [0, 0, 0x30]) (envOf []) asyncAckDetectFlags
      2 LTC831_SNAP_CMD none
      (writeAttempt (modelUtil 0x025B) (pendingEnvOf [0, 0, 0xC0]) (envOf [])
        asyncAckDetectFlags 2 LTC831_SNAP_CMD none (requestState 2)).2).1 = LTC_ACK_FAILED :=
  have h := writeCmd_break_sum_status_flows (modelUtil 0x025B) asyncAckDetectFlags 2
    LTC831_SNAP_CMD none (by decide) (by decide) (by decide) (by decide)
  have h1 := h.1 (pendingEnvOf [0, 0, 0x30]) (envOf []) (pendingEnvOf [0, 0, 0x30]) (envOf [])
    (requestState 2) (by decide) (by decide) (fun x => by cases x <;> decide) (by decide)
  have h2 := h.1 (pendingEnvOf [0, 0, 0xC0]) (envOf []) (pendingEnvOf [0, 0, 0x30]) (envOf [])
    (requestState 2) (by decide) (by decide) (fun x => by cases x <;> decide) (by decide)
  have h3 := h.2.2 (pendingEnvOf [0, 0, 0x30]) (requestState 2) (by decide) (by decide)
    (by decide)
  ⟨by decide, by decide, by decide, h3.1, h3.2.1, by decide,
    ⟨(h1.1 ⟨Or.inl (by decide), by decide⟩).1, (h1.1 ⟨Or.inl (by decide), by decide⟩).2.2⟩,
    h2.2 ⟨by decide, ⟨1, by decide, by decide⟩⟩⟩

end LTC831
